import Mathlib

/-!
# Unijoysticle2: HID report decoders and SDP query sequencing

A shallow embedding of `firmware/main/uni_hid_parser_android.c`,
`uni_hid_parser_ps4.c`, `uni_hid_parser_icade.c` and of the SDP part of
`uni_bluetooth.c`, followed by the properties proved about them.

Conventions.
* Unsigned C integers are `Nat`, signed ones are `Int`.
* `x |= m` is `x ||| m`; `x &= ~m` is `and_not x m` (the bits of `m` are
  cleared in `x`).
* A C `switch` is a chain of `if … else if …` over its case labels, in the
  order of the source; the `default:` label is the final `else`.
* Calls of the logging functions (`logi`, `loge`, `printf_hexdump`) have no
  effect on the modelled state and are left out.
-/

namespace Unijoysticle

/-! ## Data model -/

/-- The C expression `x & ~m` on an unsigned `x`: the bits of `m` are cleared in
`x`, the other bits of `x` are kept. -/
def and_not (x m : Nat) : Nat := x ^^^ (x &&& m)

/-- The canonical gamepad state, `uni_gamepad_t`. The bit masks are `Nat`,
the axes, pedals and the battery level are `Int`. -/
structure uni_gamepad_t where
  dpad : Nat := 0
  axis_x : Int := 0
  axis_y : Int := 0
  axis_rx : Int := 0
  axis_ry : Int := 0
  brake : Int := 0
  accelerator : Int := 0
  battery : Int := 0
  buttons : Nat := 0
  misc_buttons : Nat := 0
  updated_states : Nat := 0
deriving DecidableEq, Repr, Inhabited

/-- The lifecycle state of a device. `uni_bluetooth.c` names
`REMOTE_NAME_REQUEST` and `REMOTE_NAME_INQUIRED`; the other states are those
of the spec (the declaring header is not among the sources). -/
inductive device_state where
  | DISCOVERED
  | REMOTE_NAME_REQUEST
  | REMOTE_NAME_INQUIRED
  | CONNECTING
  | CONNECTED
  | ORPHAN
deriving DecidableEq, Repr, Inhabited

/-- One slot of the device table, `uni_hid_device_t`, with the fields that
`uni_bluetooth.c` and the decoders use, directly or through the accessors of
`uni_hid_device.c`. A slot that holds no device has `in_use = false`. -/
structure uni_hid_device_t where
  in_use : Bool := false
  address : Nat := 0
  cod : Nat := 0
  name : Option (List Nat) := none
  state : device_state := .DISCOVERED
  incoming : Bool := false
  connected : Bool := false
  connection_handle : Nat := 0
  hid_control_cid : Nat := 0
  hid_interrupt_cid : Nat := 0
  page_scan_repetition_mode : Nat := 0
  clock_offset : Nat := 0
  hid_descriptor : List Nat := []
  hid_descriptor_len : Nat := 0
  vendor_id : Nat := 0
  product_id : Nat := 0
  controller_type : Option Nat := none
  joystick_port : Nat := 0
  gamepad : uni_gamepad_t := {}
deriving DecidableEq, Repr, Inhabited

/-- The constants of `hid_usage.h` and `uni_gamepad.h` that the decoders name.
Neither header is among the sources, so the decoders take the constants as a
parameter. Every mask is taken to fit the field it is applied to, so `|=` and
`&= ~` need no truncation. -/
structure Consts where
  HID_USAGE_PAGE_GENERIC_DESKTOP : Nat
  HID_USAGE_PAGE_SIMULATION_CONTROLS : Nat
  HID_USAGE_PAGE_GENERIC_DEVICE_CONTROLS : Nat
  HID_USAGE_PAGE_KEYBOARD_KEYPAD : Nat
  HID_USAGE_PAGE_BUTTON : Nat
  HID_USAGE_PAGE_CONSUMER : Nat
  HID_USAGE_AXIS_X : Nat
  HID_USAGE_AXIS_Y : Nat
  HID_USAGE_AXIS_Z : Nat
  HID_USAGE_AXIS_RX : Nat
  HID_USAGE_AXIS_RY : Nat
  HID_USAGE_AXIS_RZ : Nat
  HID_USAGE_HAT : Nat
  HID_USAGE_SYSTEM_MAIN_MENU : Nat
  HID_USAGE_DPAD_UP : Nat
  HID_USAGE_DPAD_DOWN : Nat
  HID_USAGE_DPAD_RIGHT : Nat
  HID_USAGE_DPAD_LEFT : Nat
  HID_USAGE_ACCELERATOR : Nat
  HID_USAGE_BRAKE : Nat
  HID_USAGE_BATTERY_STRENGHT : Nat
  HID_USAGE_FAST_FORWARD : Nat
  HID_USAGE_REWIND : Nat
  HID_USAGE_PLAY_PAUSE : Nat
  HID_USAGE_AC_SEARCH : Nat
  HID_USAGE_AC_HOME : Nat
  HID_USAGE_AC_BACK : Nat
  DPAD_UP : Nat
  DPAD_DOWN : Nat
  DPAD_RIGHT : Nat
  DPAD_LEFT : Nat
  BUTTON_A : Nat
  BUTTON_B : Nat
  BUTTON_X : Nat
  BUTTON_Y : Nat
  BUTTON_SHOULDER_L : Nat
  BUTTON_SHOULDER_R : Nat
  BUTTON_TRIGGER_L : Nat
  BUTTON_TRIGGER_R : Nat
  BUTTON_THUMB_L : Nat
  BUTTON_THUMB_R : Nat
  MISC_BUTTON_SYSTEM : Nat
  MISC_BUTTON_BACK : Nat
  MISC_BUTTON_HOME : Nat
  GAMEPAD_STATE_DPAD : Nat
  GAMEPAD_STATE_AXIS_X : Nat
  GAMEPAD_STATE_AXIS_Y : Nat
  GAMEPAD_STATE_AXIS_RX : Nat
  GAMEPAD_STATE_AXIS_RY : Nat
  GAMEPAD_STATE_BRAKE : Nat
  GAMEPAD_STATE_ACCELERATOR : Nat
  GAMEPAD_STATE_BUTTON_A : Nat
  GAMEPAD_STATE_BUTTON_B : Nat
  GAMEPAD_STATE_BUTTON_X : Nat
  GAMEPAD_STATE_BUTTON_Y : Nat
  GAMEPAD_STATE_BUTTON_SHOULDER_L : Nat
  GAMEPAD_STATE_BUTTON_SHOULDER_R : Nat
  GAMEPAD_STATE_BUTTON_TRIGGER_L : Nat
  GAMEPAD_STATE_BUTTON_TRIGGER_R : Nat
  GAMEPAD_STATE_BUTTON_THUMB_L : Nat
  GAMEPAD_STATE_BUTTON_THUMB_R : Nat
  GAMEPAD_STATE_MISC_BUTTON_BACK : Nat
  GAMEPAD_STATE_MISC_BUTTON_HOME : Nat
  GAMEPAD_STATE_MISC_BUTTON_SYSTEM : Nat
deriving DecidableEq, Repr

/-- The helpers of `uni_hid_parser.c` that the decoders call. That file is not
among the sources, so the decoders take the helpers as a parameter; `G` stands
for `hid_globals_t`.
* `process_axis`, `process_pedal`, `process_hat`: the value read from the
  report, rescaled with the globals;
* `hat_to_dpad`: the dpad mask of a hat position;
* `process_dpad usage value dpad`: the dpad mask that
  `uni_hid_parser_process_dpad(usage, value, &dpad)` leaves in `dpad`;
* `battery_of_value`: the conversion of the `int32_t` value to the type of
  the `battery` field in the assignment `gp->battery = value`. -/
structure Helpers (G : Type) where
  process_axis : G → Int → Int
  process_pedal : G → Int → Int
  process_hat : G → Int → Nat
  hat_to_dpad : Nat → Nat
  process_dpad : Nat → Int → Nat → Nat
  battery_of_value : Int → Int

/-! ## Android decoder (`uni_hid_parser_android.c`) -/

/-- Function `uni_hid_parser_android_init_report`: each report carries a full state, so
the dirty mask is reset. -/
def uni_hid_parser_android_init_report (d : uni_hid_device_t) : uni_hid_device_t :=
  { d with gamepad := { d.gamepad with updated_states := 0 } }

/-- Function `uni_hid_parser_android_parse_usage`, on the gamepad `gp = &d->gamepad`. -/
def android_parse_usage_gp {G : Type} (K : Consts) (H : Helpers G) (gp : uni_gamepad_t)
    (globals : G) (usage_page usage : Nat) (value : Int) : uni_gamepad_t :=
  if usage_page = K.HID_USAGE_PAGE_GENERIC_DESKTOP then
    if usage = K.HID_USAGE_AXIS_X then
      { gp with axis_x := H.process_axis globals value,
                updated_states := gp.updated_states ||| K.GAMEPAD_STATE_AXIS_X }
    else if usage = K.HID_USAGE_AXIS_Y then
      { gp with axis_y := H.process_axis globals value,
                updated_states := gp.updated_states ||| K.GAMEPAD_STATE_AXIS_Y }
    else if usage = K.HID_USAGE_AXIS_Z then
      { gp with axis_rx := H.process_axis globals value,
                updated_states := gp.updated_states ||| K.GAMEPAD_STATE_AXIS_RX }
    else if usage = K.HID_USAGE_AXIS_RZ then
      { gp with axis_ry := H.process_axis globals value,
                updated_states := gp.updated_states ||| K.GAMEPAD_STATE_AXIS_RY }
    else if usage = K.HID_USAGE_HAT then
      { gp with dpad := H.hat_to_dpad (H.process_hat globals value),
                updated_states := gp.updated_states ||| K.GAMEPAD_STATE_DPAD }
    else if usage = K.HID_USAGE_DPAD_UP ∨ usage = K.HID_USAGE_DPAD_DOWN
        ∨ usage = K.HID_USAGE_DPAD_RIGHT ∨ usage = K.HID_USAGE_DPAD_LEFT then
      { gp with dpad := H.process_dpad usage value gp.dpad,
                updated_states := gp.updated_states ||| K.GAMEPAD_STATE_DPAD }
    else gp
  else if usage_page = K.HID_USAGE_PAGE_SIMULATION_CONTROLS then
    if usage = K.HID_USAGE_ACCELERATOR then
      { gp with accelerator := H.process_pedal globals value,
                updated_states := gp.updated_states ||| K.GAMEPAD_STATE_ACCELERATOR }
    else if usage = K.HID_USAGE_BRAKE then
      { gp with brake := H.process_pedal globals value,
                updated_states := gp.updated_states ||| K.GAMEPAD_STATE_BRAKE }
    else gp
  else if usage_page = K.HID_USAGE_PAGE_GENERIC_DEVICE_CONTROLS then
    if usage = K.HID_USAGE_BATTERY_STRENGHT then
      { gp with battery := H.battery_of_value value }
    else gp
  else if usage_page = K.HID_USAGE_PAGE_BUTTON then
    if usage = 0x01 then
      { gp with buttons := if value ≠ 0 then gp.buttons ||| K.BUTTON_A
                           else and_not gp.buttons K.BUTTON_A,
                updated_states := gp.updated_states ||| K.GAMEPAD_STATE_BUTTON_A }
    else if usage = 0x02 then
      { gp with buttons := if value ≠ 0 then gp.buttons ||| K.BUTTON_B
                           else and_not gp.buttons K.BUTTON_B,
                updated_states := gp.updated_states ||| K.GAMEPAD_STATE_BUTTON_B }
    else if usage = 0x03 then gp
    else if usage = 0x04 then
      { gp with buttons := if value ≠ 0 then gp.buttons ||| K.BUTTON_X
                           else and_not gp.buttons K.BUTTON_X,
                updated_states := gp.updated_states ||| K.GAMEPAD_STATE_BUTTON_X }
    else if usage = 0x05 then
      { gp with buttons := if value ≠ 0 then gp.buttons ||| K.BUTTON_Y
                           else and_not gp.buttons K.BUTTON_Y,
                updated_states := gp.updated_states ||| K.GAMEPAD_STATE_BUTTON_Y }
    else if usage = 0x06 then gp
    else if usage = 0x07 then
      { gp with buttons := if value ≠ 0 then gp.buttons ||| K.BUTTON_SHOULDER_L
                           else and_not gp.buttons K.BUTTON_SHOULDER_L,
                updated_states := gp.updated_states ||| K.GAMEPAD_STATE_BUTTON_SHOULDER_L }
    else if usage = 0x08 then
      { gp with buttons := if value ≠ 0 then gp.buttons ||| K.BUTTON_SHOULDER_R
                           else and_not gp.buttons K.BUTTON_SHOULDER_R,
                updated_states := gp.updated_states ||| K.GAMEPAD_STATE_BUTTON_SHOULDER_R }
    else if usage = 0x09 ∨ usage = 0x0a ∨ usage = 0x0b ∨ usage = 0x0c then gp
    else if usage = 0x0d then
      { gp with misc_buttons := if value ≠ 0 then gp.misc_buttons ||| K.MISC_BUTTON_SYSTEM
                                else and_not gp.misc_buttons K.MISC_BUTTON_SYSTEM,
                updated_states := gp.updated_states ||| K.GAMEPAD_STATE_MISC_BUTTON_SYSTEM }
    else if usage = 0x0e then
      { gp with buttons := if value ≠ 0 then gp.buttons ||| K.BUTTON_THUMB_L
                           else and_not gp.buttons K.BUTTON_THUMB_L,
                updated_states := gp.updated_states ||| K.GAMEPAD_STATE_BUTTON_THUMB_L }
    else if usage = 0x0f then
      { gp with buttons := if value ≠ 0 then gp.buttons ||| K.BUTTON_THUMB_R
                           else and_not gp.buttons K.BUTTON_THUMB_R,
                updated_states := gp.updated_states ||| K.GAMEPAD_STATE_BUTTON_THUMB_R }
    else gp
  else if usage_page = K.HID_USAGE_PAGE_CONSUMER then
    if usage = K.HID_USAGE_FAST_FORWARD then gp
    else if usage = K.HID_USAGE_REWIND then gp
    else if usage = K.HID_USAGE_PLAY_PAUSE then gp
    else if usage = K.HID_USAGE_AC_SEARCH then gp
    else if usage = K.HID_USAGE_AC_HOME then
      { gp with misc_buttons := if value ≠ 0 then gp.misc_buttons ||| K.MISC_BUTTON_HOME
                                else and_not gp.misc_buttons K.MISC_BUTTON_HOME,
                updated_states := gp.updated_states ||| K.GAMEPAD_STATE_MISC_BUTTON_HOME }
    else if usage = K.HID_USAGE_AC_BACK then
      { gp with misc_buttons := if value ≠ 0 then gp.misc_buttons ||| K.MISC_BUTTON_BACK
                                else and_not gp.misc_buttons K.MISC_BUTTON_BACK,
                updated_states := gp.updated_states ||| K.GAMEPAD_STATE_MISC_BUTTON_BACK }
    else gp
  else gp

/-- Function `uni_hid_parser_android_parse_usage`: only `d->gamepad` is touched. -/
def uni_hid_parser_android_parse_usage {G : Type} (K : Consts) (H : Helpers G)
    (d : uni_hid_device_t) (globals : G) (usage_page usage : Nat) (value : Int) :
    uni_hid_device_t :=
  { d with gamepad := android_parse_usage_gp K H d.gamepad globals usage_page usage value }

/-! ## PS4 decoder (`uni_hid_parser_ps4.c`) -/

/-- Function `uni_hid_parser_ps4_init_report`: each report carries a full state, so the
dirty mask is reset. -/
def uni_hid_parser_ps4_init_report (d : uni_hid_device_t) : uni_hid_device_t :=
  { d with gamepad := { d.gamepad with updated_states := 0 } }

/-- Function `uni_hid_parser_ps4_parse_usage`, on the gamepad `gp = &d->gamepad`. -/
def ps4_parse_usage_gp {G : Type} (K : Consts) (H : Helpers G) (gp : uni_gamepad_t)
    (globals : G) (usage_page usage : Nat) (value : Int) : uni_gamepad_t :=
  if usage_page = K.HID_USAGE_PAGE_GENERIC_DESKTOP then
    if usage = K.HID_USAGE_AXIS_X then
      { gp with axis_x := H.process_axis globals value,
                updated_states := gp.updated_states ||| K.GAMEPAD_STATE_AXIS_X }
    else if usage = K.HID_USAGE_AXIS_Y then
      { gp with axis_y := H.process_axis globals value,
                updated_states := gp.updated_states ||| K.GAMEPAD_STATE_AXIS_Y }
    else if usage = K.HID_USAGE_AXIS_Z then
      { gp with axis_rx := H.process_axis globals value,
                updated_states := gp.updated_states ||| K.GAMEPAD_STATE_AXIS_RX }
    else if usage = K.HID_USAGE_AXIS_RX then
      { gp with brake := H.process_pedal globals value,
                updated_states := gp.updated_states ||| K.GAMEPAD_STATE_BRAKE }
    else if usage = K.HID_USAGE_AXIS_RY then
      { gp with accelerator := H.process_pedal globals value,
                updated_states := gp.updated_states ||| K.GAMEPAD_STATE_ACCELERATOR }
    else if usage = K.HID_USAGE_AXIS_RZ then
      { gp with axis_ry := H.process_axis globals value,
                updated_states := gp.updated_states ||| K.GAMEPAD_STATE_AXIS_RY }
    else if usage = K.HID_USAGE_HAT then
      { gp with dpad := H.hat_to_dpad (H.process_hat globals value),
                updated_states := gp.updated_states ||| K.GAMEPAD_STATE_DPAD }
    else if usage = K.HID_USAGE_SYSTEM_MAIN_MENU then
      { gp with misc_buttons := if value ≠ 0 then gp.misc_buttons ||| K.MISC_BUTTON_SYSTEM
                                else and_not gp.misc_buttons K.MISC_BUTTON_SYSTEM,
                updated_states := gp.updated_states ||| K.GAMEPAD_STATE_MISC_BUTTON_SYSTEM }
    else if usage = K.HID_USAGE_DPAD_UP ∨ usage = K.HID_USAGE_DPAD_DOWN
        ∨ usage = K.HID_USAGE_DPAD_RIGHT ∨ usage = K.HID_USAGE_DPAD_LEFT then
      { gp with dpad := H.process_dpad usage value gp.dpad,
                updated_states := gp.updated_states ||| K.GAMEPAD_STATE_DPAD }
    else gp
  else if usage_page = K.HID_USAGE_PAGE_GENERIC_DEVICE_CONTROLS then
    if usage = K.HID_USAGE_BATTERY_STRENGHT then
      { gp with battery := H.battery_of_value value }
    else gp
  else if usage_page = K.HID_USAGE_PAGE_BUTTON then
    if usage = 0x01 then
      { gp with buttons := if value ≠ 0 then gp.buttons ||| K.BUTTON_X
                           else and_not gp.buttons K.BUTTON_X,
                updated_states := gp.updated_states ||| K.GAMEPAD_STATE_BUTTON_X }
    else if usage = 0x02 then
      { gp with buttons := if value ≠ 0 then gp.buttons ||| K.BUTTON_A
                           else and_not gp.buttons K.BUTTON_A,
                updated_states := gp.updated_states ||| K.GAMEPAD_STATE_BUTTON_A }
    else if usage = 0x03 then
      { gp with buttons := if value ≠ 0 then gp.buttons ||| K.BUTTON_B
                           else and_not gp.buttons K.BUTTON_B,
                updated_states := gp.updated_states ||| K.GAMEPAD_STATE_BUTTON_B }
    else if usage = 0x04 then
      { gp with buttons := if value ≠ 0 then gp.buttons ||| K.BUTTON_Y
                           else and_not gp.buttons K.BUTTON_Y,
                updated_states := gp.updated_states ||| K.GAMEPAD_STATE_BUTTON_Y }
    else if usage = 0x05 then
      { gp with buttons := if value ≠ 0 then gp.buttons ||| K.BUTTON_SHOULDER_L
                           else and_not gp.buttons K.BUTTON_SHOULDER_L,
                updated_states := gp.updated_states ||| K.GAMEPAD_STATE_BUTTON_SHOULDER_L }
    else if usage = 0x06 then
      { gp with buttons := if value ≠ 0 then gp.buttons ||| K.BUTTON_SHOULDER_R
                           else and_not gp.buttons K.BUTTON_SHOULDER_R,
                updated_states := gp.updated_states ||| K.GAMEPAD_STATE_BUTTON_SHOULDER_R }
    else if usage = 0x07 then
      { gp with buttons := if value ≠ 0 then gp.buttons ||| K.BUTTON_TRIGGER_L
                           else and_not gp.buttons K.BUTTON_TRIGGER_L,
                updated_states := gp.updated_states ||| K.GAMEPAD_STATE_BUTTON_TRIGGER_L }
    else if usage = 0x08 then
      { gp with buttons := if value ≠ 0 then gp.buttons ||| K.BUTTON_TRIGGER_R
                           else and_not gp.buttons K.BUTTON_TRIGGER_R,
                updated_states := gp.updated_states ||| K.GAMEPAD_STATE_BUTTON_TRIGGER_R }
    else if usage = 0x09 then
      { gp with misc_buttons := if value ≠ 0 then gp.misc_buttons ||| K.MISC_BUTTON_BACK
                                else and_not gp.misc_buttons K.MISC_BUTTON_BACK,
                updated_states := gp.updated_states ||| K.GAMEPAD_STATE_MISC_BUTTON_BACK }
    else if usage = 0x0a then
      { gp with misc_buttons := if value ≠ 0 then gp.misc_buttons ||| K.MISC_BUTTON_HOME
                                else and_not gp.misc_buttons K.MISC_BUTTON_HOME,
                updated_states := gp.updated_states ||| K.GAMEPAD_STATE_MISC_BUTTON_HOME }
    else if usage = 0x0b then
      { gp with buttons := if value ≠ 0 then gp.buttons ||| K.BUTTON_THUMB_L
                           else and_not gp.buttons K.BUTTON_THUMB_L,
                updated_states := gp.updated_states ||| K.GAMEPAD_STATE_BUTTON_THUMB_L }
    else if usage = 0x0c then
      { gp with buttons := if value ≠ 0 then gp.buttons ||| K.BUTTON_THUMB_R
                           else and_not gp.buttons K.BUTTON_THUMB_R,
                updated_states := gp.updated_states ||| K.GAMEPAD_STATE_BUTTON_THUMB_R }
    else if usage = 0x0d then
      { gp with misc_buttons := if value ≠ 0 then gp.misc_buttons ||| K.MISC_BUTTON_SYSTEM
                                else and_not gp.misc_buttons K.MISC_BUTTON_SYSTEM,
                updated_states := gp.updated_states ||| K.GAMEPAD_STATE_MISC_BUTTON_SYSTEM }
    else if usage = 0x0e then gp
    else gp
  else gp

/-- Function `uni_hid_parser_ps4_parse_usage`: only `d->gamepad` is touched. -/
def uni_hid_parser_ps4_parse_usage {G : Type} (K : Consts) (H : Helpers G)
    (d : uni_hid_device_t) (globals : G) (usage_page usage : Nat) (value : Int) :
    uni_hid_device_t :=
  { d with gamepad := ps4_parse_usage_gp K H d.gamepad globals usage_page usage value }

/-! ## iCade decoder (`uni_hid_parser_icade.c`) -/

/-- Function `uni_hid_parser_icade_init`: nothing is done; each report is a delta, so
the dirty mask is kept. -/
def uni_hid_parser_icade_init (gp : uni_gamepad_t) : uni_gamepad_t := gp

/-- Function `uni_hid_parser_icade_parse_usage`. The globals and the value are unused;
the outer `switch` has a single case and no `default:`. -/
def uni_hid_parser_icade_parse_usage {G : Type} (K : Consts) (gp : uni_gamepad_t)
    (_globals : G) (usage_page usage : Nat) (_value : Int) : uni_gamepad_t :=
  if usage_page = K.HID_USAGE_PAGE_KEYBOARD_KEYPAD then
    if usage = 0x00 ∨ usage = 0xe0 ∨ usage = 0xe1 ∨ usage = 0xe2 ∨ usage = 0xe3
        ∨ usage = 0xe4 ∨ usage = 0xe5 ∨ usage = 0xe6 ∨ usage = 0xe7 then gp
    else if usage = 0x1a then
      { gp with dpad := gp.dpad ||| K.DPAD_UP,
                updated_states := gp.updated_states ||| K.GAMEPAD_STATE_DPAD }
    else if usage = 0x08 then
      { gp with dpad := and_not gp.dpad K.DPAD_UP,
                updated_states := gp.updated_states ||| K.GAMEPAD_STATE_DPAD }
    else if usage = 0x07 then
      { gp with dpad := gp.dpad ||| K.DPAD_RIGHT,
                updated_states := gp.updated_states ||| K.GAMEPAD_STATE_DPAD }
    else if usage = 0x06 then
      { gp with dpad := and_not gp.dpad K.DPAD_RIGHT,
                updated_states := gp.updated_states ||| K.GAMEPAD_STATE_DPAD }
    else if usage = 0x1b then
      { gp with dpad := gp.dpad ||| K.DPAD_DOWN,
                updated_states := gp.updated_states ||| K.GAMEPAD_STATE_DPAD }
    else if usage = 0x1d then
      { gp with dpad := and_not gp.dpad K.DPAD_DOWN,
                updated_states := gp.updated_states ||| K.GAMEPAD_STATE_DPAD }
    else if usage = 0x04 then
      { gp with dpad := gp.dpad ||| K.DPAD_LEFT,
                updated_states := gp.updated_states ||| K.GAMEPAD_STATE_DPAD }
    else if usage = 0x14 then
      { gp with dpad := and_not gp.dpad K.DPAD_LEFT,
                updated_states := gp.updated_states ||| K.GAMEPAD_STATE_DPAD }
    else if usage = 0x1c then
      { gp with buttons := gp.buttons ||| K.BUTTON_A,
                updated_states := gp.updated_states ||| K.GAMEPAD_STATE_BUTTON_A }
    else if usage = 0x17 then
      { gp with buttons := and_not gp.buttons K.BUTTON_A,
                updated_states := gp.updated_states ||| K.GAMEPAD_STATE_BUTTON_A }
    else if usage = 0x0b then
      { gp with buttons := gp.buttons ||| K.BUTTON_B,
                updated_states := gp.updated_states ||| K.GAMEPAD_STATE_BUTTON_B }
    else if usage = 0x15 then
      { gp with buttons := and_not gp.buttons K.BUTTON_B,
                updated_states := gp.updated_states ||| K.GAMEPAD_STATE_BUTTON_B }
    else if usage = 0x18 then
      { gp with buttons := gp.buttons ||| K.BUTTON_X,
                updated_states := gp.updated_states ||| K.GAMEPAD_STATE_BUTTON_X }
    else if usage = 0x09 then
      { gp with buttons := and_not gp.buttons K.BUTTON_X,
                updated_states := gp.updated_states ||| K.GAMEPAD_STATE_BUTTON_X }
    else if usage = 0x0d then
      { gp with buttons := gp.buttons ||| K.BUTTON_Y,
                updated_states := gp.updated_states ||| K.GAMEPAD_STATE_BUTTON_Y }
    else if usage = 0x11 then
      { gp with buttons := and_not gp.buttons K.BUTTON_Y,
                updated_states := gp.updated_states ||| K.GAMEPAD_STATE_BUTTON_Y }
    else if usage = 0x12 then
      { gp with misc_buttons := gp.misc_buttons ||| K.MISC_BUTTON_SYSTEM,
                updated_states := gp.updated_states ||| K.GAMEPAD_STATE_MISC_BUTTON_SYSTEM }
    else if usage = 0x0a then
      { gp with misc_buttons := and_not gp.misc_buttons K.MISC_BUTTON_SYSTEM,
                updated_states := gp.updated_states ||| K.GAMEPAD_STATE_MISC_BUTTON_SYSTEM }
    else if usage = 0x0c ∨ usage = 0x10 ∨ usage = 0x0e ∨ usage = 0x13 ∨ usage = 0x0f
        ∨ usage = 0x19 then gp
    else gp
  else gp

/-! ## Reports as sequences of calls -/

/-- One `parse_usage` call of a report: the globals in force, the usage page,
the usage and the value. -/
structure UsageCall (G : Type) where
  globals : G
  usage_page : Nat
  usage : Nat
  value : Int

/-- The Android decoder run over the calls of a report, in order. -/
def android_parse_all {G : Type} (K : Consts) (H : Helpers G) (d : uni_hid_device_t)
    (calls : List (UsageCall G)) : uni_hid_device_t :=
  calls.foldl
    (fun d c => uni_hid_parser_android_parse_usage K H d c.globals c.usage_page c.usage c.value) d

/-- The PS4 decoder run over the calls of a report, in order. -/
def ps4_parse_all {G : Type} (K : Consts) (H : Helpers G) (d : uni_hid_device_t)
    (calls : List (UsageCall G)) : uni_hid_device_t :=
  calls.foldl
    (fun d c => uni_hid_parser_ps4_parse_usage K H d c.globals c.usage_page c.usage c.value) d

/-- A step of the iCade decoder: a call of `uni_hid_parser_icade_init`, or a
call of `uni_hid_parser_icade_parse_usage`. -/
inductive IcadeStep (G : Type) where
  | init : IcadeStep G
  | parse : UsageCall G → IcadeStep G

/-- The effect of one iCade step on the gamepad. -/
def icade_step {G : Type} (K : Consts) (gp : uni_gamepad_t) : IcadeStep G → uni_gamepad_t
  | .init => uni_hid_parser_icade_init gp
  | .parse c => uni_hid_parser_icade_parse_usage K gp c.globals c.usage_page c.usage c.value

/-- The iCade decoder run over a sequence of steps, in order. -/
def icade_run {G : Type} (K : Consts) (gp : uni_gamepad_t) (steps : List (IcadeStep G)) :
    uni_gamepad_t :=
  steps.foldl (icade_step K) gp

/-- The dirty bits that one iCade step sets: those found in `updated_states`
after the step is run on a gamepad whose dirty mask is empty. -/
def icade_step_dirty {G : Type} (K : Consts) (st : IcadeStep G) : Nat :=
  (icade_step K ({} : uni_gamepad_t) st).updated_states

/-! ## Inputs used to evaluate the decoders -/

/-- Modelled from the spec: a concrete `hid_usage.h` and `uni_gamepad.h` (the
two headers are not among the sources), used where the decoders are evaluated
on a concrete input. Usage pages and usages are those of the USB HID usage
tables; `dpad` is a 4-bit mask and every button, misc button and dirty flag is
one bit of its mask (spec, data model). -/
def sample_consts : Consts where
  HID_USAGE_PAGE_GENERIC_DESKTOP := 0x01
  HID_USAGE_PAGE_SIMULATION_CONTROLS := 0x02
  HID_USAGE_PAGE_GENERIC_DEVICE_CONTROLS := 0x06
  HID_USAGE_PAGE_KEYBOARD_KEYPAD := 0x07
  HID_USAGE_PAGE_BUTTON := 0x09
  HID_USAGE_PAGE_CONSUMER := 0x0c
  HID_USAGE_AXIS_X := 0x30
  HID_USAGE_AXIS_Y := 0x31
  HID_USAGE_AXIS_Z := 0x32
  HID_USAGE_AXIS_RX := 0x33
  HID_USAGE_AXIS_RY := 0x34
  HID_USAGE_AXIS_RZ := 0x35
  HID_USAGE_HAT := 0x39
  HID_USAGE_SYSTEM_MAIN_MENU := 0x85
  HID_USAGE_DPAD_UP := 0x90
  HID_USAGE_DPAD_DOWN := 0x91
  HID_USAGE_DPAD_RIGHT := 0x92
  HID_USAGE_DPAD_LEFT := 0x93
  HID_USAGE_ACCELERATOR := 0xc4
  HID_USAGE_BRAKE := 0xc5
  HID_USAGE_BATTERY_STRENGHT := 0x20
  HID_USAGE_FAST_FORWARD := 0xb3
  HID_USAGE_REWIND := 0xb4
  HID_USAGE_PLAY_PAUSE := 0xcd
  HID_USAGE_AC_SEARCH := 0x221
  HID_USAGE_AC_HOME := 0x223
  HID_USAGE_AC_BACK := 0x224
  DPAD_UP := 1
  DPAD_DOWN := 2
  DPAD_RIGHT := 4
  DPAD_LEFT := 8
  BUTTON_A := 2 ^ 0
  BUTTON_B := 2 ^ 1
  BUTTON_X := 2 ^ 2
  BUTTON_Y := 2 ^ 3
  BUTTON_SHOULDER_L := 2 ^ 4
  BUTTON_SHOULDER_R := 2 ^ 5
  BUTTON_TRIGGER_L := 2 ^ 6
  BUTTON_TRIGGER_R := 2 ^ 7
  BUTTON_THUMB_L := 2 ^ 8
  BUTTON_THUMB_R := 2 ^ 9
  MISC_BUTTON_SYSTEM := 2 ^ 0
  MISC_BUTTON_BACK := 2 ^ 1
  MISC_BUTTON_HOME := 2 ^ 2
  GAMEPAD_STATE_DPAD := 2 ^ 0
  GAMEPAD_STATE_AXIS_X := 2 ^ 1
  GAMEPAD_STATE_AXIS_Y := 2 ^ 2
  GAMEPAD_STATE_AXIS_RX := 2 ^ 3
  GAMEPAD_STATE_AXIS_RY := 2 ^ 4
  GAMEPAD_STATE_BRAKE := 2 ^ 5
  GAMEPAD_STATE_ACCELERATOR := 2 ^ 6
  GAMEPAD_STATE_BUTTON_A := 2 ^ 10
  GAMEPAD_STATE_BUTTON_B := 2 ^ 11
  GAMEPAD_STATE_BUTTON_X := 2 ^ 12
  GAMEPAD_STATE_BUTTON_Y := 2 ^ 13
  GAMEPAD_STATE_BUTTON_SHOULDER_L := 2 ^ 14
  GAMEPAD_STATE_BUTTON_SHOULDER_R := 2 ^ 15
  GAMEPAD_STATE_BUTTON_TRIGGER_L := 2 ^ 16
  GAMEPAD_STATE_BUTTON_TRIGGER_R := 2 ^ 17
  GAMEPAD_STATE_BUTTON_THUMB_L := 2 ^ 18
  GAMEPAD_STATE_BUTTON_THUMB_R := 2 ^ 19
  GAMEPAD_STATE_MISC_BUTTON_BACK := 2 ^ 24
  GAMEPAD_STATE_MISC_BUTTON_HOME := 2 ^ 25
  GAMEPAD_STATE_MISC_BUTTON_SYSTEM := 2 ^ 27

/-- Helper functions used where the decoders are evaluated on a concrete
input: values are passed through unscaled and the dpad mask is left as it is.
The properties below hold for every choice of helpers; none depends on these. -/
def sample_helpers : Helpers Unit where
  process_axis := fun _ v => v
  process_pedal := fun _ v => v
  process_hat := fun _ v => v.toNat
  hat_to_dpad := fun h => h
  process_dpad := fun _ _ dpad => dpad
  battery_of_value := fun v => v

/-! ## Tables read off the decoders -/

/-- The case labels of every `switch` of the Android and PS4 decoders are
pairwise distinct, as C requires of a `switch`: the usage pages, the Generic
Desktop usages, the Simulation Controls usages and the Consumer usages. -/
def Consts.labels_distinct (K : Consts) : Prop :=
  [K.HID_USAGE_PAGE_GENERIC_DESKTOP, K.HID_USAGE_PAGE_SIMULATION_CONTROLS,
    K.HID_USAGE_PAGE_GENERIC_DEVICE_CONTROLS, K.HID_USAGE_PAGE_BUTTON,
    K.HID_USAGE_PAGE_CONSUMER].Nodup
  ∧ [K.HID_USAGE_AXIS_X, K.HID_USAGE_AXIS_Y, K.HID_USAGE_AXIS_Z, K.HID_USAGE_AXIS_RX,
      K.HID_USAGE_AXIS_RY, K.HID_USAGE_AXIS_RZ, K.HID_USAGE_HAT, K.HID_USAGE_SYSTEM_MAIN_MENU,
      K.HID_USAGE_DPAD_UP, K.HID_USAGE_DPAD_DOWN, K.HID_USAGE_DPAD_RIGHT,
      K.HID_USAGE_DPAD_LEFT].Nodup
  ∧ [K.HID_USAGE_ACCELERATOR, K.HID_USAGE_BRAKE].Nodup
  ∧ [K.HID_USAGE_FAST_FORWARD, K.HID_USAGE_REWIND, K.HID_USAGE_PLAY_PAUSE,
      K.HID_USAGE_AC_SEARCH, K.HID_USAGE_AC_HOME, K.HID_USAGE_AC_BACK].Nodup

instance (K : Consts) : Decidable K.labels_distinct := by
  unfold Consts.labels_distinct
  infer_instance

/-- A digital button of a decoder: the `(usage_page, usage)` of its case, the
mask it sets or clears (in `misc_buttons` when `misc`, in `buttons`
otherwise) and the dirty flag it ORs into `updated_states`. -/
structure ButtonMap where
  usage_page : Nat
  usage : Nat
  misc : Bool
  mask : Nat
  dirty : Nat
deriving DecidableEq, Repr

/-- The mask field a digital button lives in. -/
def ButtonMap.field (b : ButtonMap) (gp : uni_gamepad_t) : Nat :=
  if b.misc then gp.misc_buttons else gp.buttons

/-- What a digital button case does to the gamepad:
`if (value) field |= mask; else field &= ~mask; updated_states |= dirty;`. -/
def ButtonMap.apply (b : ButtonMap) (value : Int) (gp : uni_gamepad_t) : uni_gamepad_t :=
  if b.misc then
    { gp with misc_buttons := if value ≠ 0 then gp.misc_buttons ||| b.mask
                              else and_not gp.misc_buttons b.mask,
              updated_states := gp.updated_states ||| b.dirty }
  else
    { gp with buttons := if value ≠ 0 then gp.buttons ||| b.mask
                         else and_not gp.buttons b.mask,
              updated_states := gp.updated_states ||| b.dirty }

/-- The digital button cases of `uni_hid_parser_android_parse_usage`: the
Button page usages with a mapping, and AC Home / AC Back of the Consumer page. -/
def android_buttons (K : Consts) : List ButtonMap :=
  [
    ⟨K.HID_USAGE_PAGE_BUTTON, 0x01, false, K.BUTTON_A, K.GAMEPAD_STATE_BUTTON_A⟩,
    ⟨K.HID_USAGE_PAGE_BUTTON, 0x02, false, K.BUTTON_B, K.GAMEPAD_STATE_BUTTON_B⟩,
    ⟨K.HID_USAGE_PAGE_BUTTON, 0x04, false, K.BUTTON_X, K.GAMEPAD_STATE_BUTTON_X⟩,
    ⟨K.HID_USAGE_PAGE_BUTTON, 0x05, false, K.BUTTON_Y, K.GAMEPAD_STATE_BUTTON_Y⟩,
    ⟨K.HID_USAGE_PAGE_BUTTON, 0x07, false, K.BUTTON_SHOULDER_L, K.GAMEPAD_STATE_BUTTON_SHOULDER_L⟩,
    ⟨K.HID_USAGE_PAGE_BUTTON, 0x08, false, K.BUTTON_SHOULDER_R, K.GAMEPAD_STATE_BUTTON_SHOULDER_R⟩,
    ⟨K.HID_USAGE_PAGE_BUTTON, 0x0d, true, K.MISC_BUTTON_SYSTEM, K.GAMEPAD_STATE_MISC_BUTTON_SYSTEM⟩,
    ⟨K.HID_USAGE_PAGE_BUTTON, 0x0e, false, K.BUTTON_THUMB_L, K.GAMEPAD_STATE_BUTTON_THUMB_L⟩,
    ⟨K.HID_USAGE_PAGE_BUTTON, 0x0f, false, K.BUTTON_THUMB_R, K.GAMEPAD_STATE_BUTTON_THUMB_R⟩,
    ⟨K.HID_USAGE_PAGE_CONSUMER, K.HID_USAGE_AC_HOME, true, K.MISC_BUTTON_HOME, K.GAMEPAD_STATE_MISC_BUTTON_HOME⟩,
    ⟨K.HID_USAGE_PAGE_CONSUMER, K.HID_USAGE_AC_BACK, true, K.MISC_BUTTON_BACK, K.GAMEPAD_STATE_MISC_BUTTON_BACK⟩ ]

/-- The digital button cases of `uni_hid_parser_ps4_parse_usage`: System Main
Menu of the Generic Desktop page and the Button page usages with a mapping. -/
def ps4_buttons (K : Consts) : List ButtonMap :=
  [
    ⟨K.HID_USAGE_PAGE_GENERIC_DESKTOP, K.HID_USAGE_SYSTEM_MAIN_MENU, true, K.MISC_BUTTON_SYSTEM, K.GAMEPAD_STATE_MISC_BUTTON_SYSTEM⟩,
    ⟨K.HID_USAGE_PAGE_BUTTON, 0x01, false, K.BUTTON_X, K.GAMEPAD_STATE_BUTTON_X⟩,
    ⟨K.HID_USAGE_PAGE_BUTTON, 0x02, false, K.BUTTON_A, K.GAMEPAD_STATE_BUTTON_A⟩,
    ⟨K.HID_USAGE_PAGE_BUTTON, 0x03, false, K.BUTTON_B, K.GAMEPAD_STATE_BUTTON_B⟩,
    ⟨K.HID_USAGE_PAGE_BUTTON, 0x04, false, K.BUTTON_Y, K.GAMEPAD_STATE_BUTTON_Y⟩,
    ⟨K.HID_USAGE_PAGE_BUTTON, 0x05, false, K.BUTTON_SHOULDER_L, K.GAMEPAD_STATE_BUTTON_SHOULDER_L⟩,
    ⟨K.HID_USAGE_PAGE_BUTTON, 0x06, false, K.BUTTON_SHOULDER_R, K.GAMEPAD_STATE_BUTTON_SHOULDER_R⟩,
    ⟨K.HID_USAGE_PAGE_BUTTON, 0x07, false, K.BUTTON_TRIGGER_L, K.GAMEPAD_STATE_BUTTON_TRIGGER_L⟩,
    ⟨K.HID_USAGE_PAGE_BUTTON, 0x08, false, K.BUTTON_TRIGGER_R, K.GAMEPAD_STATE_BUTTON_TRIGGER_R⟩,
    ⟨K.HID_USAGE_PAGE_BUTTON, 0x09, true, K.MISC_BUTTON_BACK, K.GAMEPAD_STATE_MISC_BUTTON_BACK⟩,
    ⟨K.HID_USAGE_PAGE_BUTTON, 0x0a, true, K.MISC_BUTTON_HOME, K.GAMEPAD_STATE_MISC_BUTTON_HOME⟩,
    ⟨K.HID_USAGE_PAGE_BUTTON, 0x0b, false, K.BUTTON_THUMB_L, K.GAMEPAD_STATE_BUTTON_THUMB_L⟩,
    ⟨K.HID_USAGE_PAGE_BUTTON, 0x0c, false, K.BUTTON_THUMB_R, K.GAMEPAD_STATE_BUTTON_THUMB_R⟩,
    ⟨K.HID_USAGE_PAGE_BUTTON, 0x0d, true, K.MISC_BUTTON_SYSTEM, K.GAMEPAD_STATE_MISC_BUTTON_SYSTEM⟩ ]

/-- The `(usage_page, usage)` case labels of `uni_hid_parser_android_parse_usage`. -/
def android_usage_table (K : Consts) : List (Nat × Nat) :=
  [K.HID_USAGE_AXIS_X, K.HID_USAGE_AXIS_Y, K.HID_USAGE_AXIS_Z, K.HID_USAGE_AXIS_RZ,
    K.HID_USAGE_HAT, K.HID_USAGE_DPAD_UP, K.HID_USAGE_DPAD_DOWN, K.HID_USAGE_DPAD_RIGHT,
    K.HID_USAGE_DPAD_LEFT].map (fun u => (K.HID_USAGE_PAGE_GENERIC_DESKTOP, u))
  ++ [K.HID_USAGE_ACCELERATOR, K.HID_USAGE_BRAKE].map
      (fun u => (K.HID_USAGE_PAGE_SIMULATION_CONTROLS, u))
  ++ [(K.HID_USAGE_PAGE_GENERIC_DEVICE_CONTROLS, K.HID_USAGE_BATTERY_STRENGHT)]
  ++ [0x01, 0x02, 0x03, 0x04, 0x05, 0x06, 0x07, 0x08, 0x09, 0x0a, 0x0b, 0x0c, 0x0d, 0x0e,
      0x0f].map (fun u => (K.HID_USAGE_PAGE_BUTTON, u))
  ++ [K.HID_USAGE_FAST_FORWARD, K.HID_USAGE_REWIND, K.HID_USAGE_PLAY_PAUSE,
      K.HID_USAGE_AC_SEARCH, K.HID_USAGE_AC_HOME, K.HID_USAGE_AC_BACK].map
      (fun u => (K.HID_USAGE_PAGE_CONSUMER, u))

/-- The `(usage_page, usage)` case labels of `uni_hid_parser_ps4_parse_usage`. -/
def ps4_usage_table (K : Consts) : List (Nat × Nat) :=
  [K.HID_USAGE_AXIS_X, K.HID_USAGE_AXIS_Y, K.HID_USAGE_AXIS_Z, K.HID_USAGE_AXIS_RX,
    K.HID_USAGE_AXIS_RY, K.HID_USAGE_AXIS_RZ, K.HID_USAGE_HAT, K.HID_USAGE_SYSTEM_MAIN_MENU,
    K.HID_USAGE_DPAD_UP, K.HID_USAGE_DPAD_DOWN, K.HID_USAGE_DPAD_RIGHT,
    K.HID_USAGE_DPAD_LEFT].map (fun u => (K.HID_USAGE_PAGE_GENERIC_DESKTOP, u))
  ++ [(K.HID_USAGE_PAGE_GENERIC_DEVICE_CONTROLS, K.HID_USAGE_BATTERY_STRENGHT)]
  ++ [0x01, 0x02, 0x03, 0x04, 0x05, 0x06, 0x07, 0x08, 0x09, 0x0a, 0x0b, 0x0c, 0x0d,
      0x0e].map (fun u => (K.HID_USAGE_PAGE_BUTTON, u))

/-- The `(usage_page, usage)` case labels of `uni_hid_parser_icade_parse_usage`. -/
def icade_usage_table (K : Consts) : List (Nat × Nat) :=
  [0x00, 0xe0, 0xe1, 0xe2, 0xe3, 0xe4, 0xe5, 0xe6, 0xe7, 0x1a, 0x08, 0x07, 0x06, 0x1b, 0x1d,
    0x04, 0x14, 0x1c, 0x17, 0x0b, 0x15, 0x18, 0x09, 0x0d, 0x11, 0x12, 0x0a, 0x0c, 0x10, 0x0e,
    0x13, 0x0f, 0x19].map (fun u => (K.HID_USAGE_PAGE_KEYBOARD_KEYPAD, u))

/-! ## Fields and their dirty flags -/

/-- The parts of the gamepad state that a decoder case assigns: the dpad
mask, the axes, the pedals, the battery level, and one bit of `buttons` or of
`misc_buttons` per button. -/
inductive Field where
  | dpad
  | axis_x
  | axis_y
  | axis_rx
  | axis_ry
  | brake
  | accelerator
  | battery
  | button_a
  | button_b
  | button_x
  | button_y
  | button_shoulder_l
  | button_shoulder_r
  | button_trigger_l
  | button_trigger_r
  | button_thumb_l
  | button_thumb_r
  | misc_button_system
  | misc_button_back
  | misc_button_home
deriving DecidableEq, Repr, Fintype

/-- The dirty flag of a field: the `GAMEPAD_STATE_*` constant that the cases
assigning the field OR into `updated_states`. The case assigning `battery` ORs
none. -/
def dirty_flag (K : Consts) : Field → Option Nat
  | .dpad => some K.GAMEPAD_STATE_DPAD
  | .axis_x => some K.GAMEPAD_STATE_AXIS_X
  | .axis_y => some K.GAMEPAD_STATE_AXIS_Y
  | .axis_rx => some K.GAMEPAD_STATE_AXIS_RX
  | .axis_ry => some K.GAMEPAD_STATE_AXIS_RY
  | .brake => some K.GAMEPAD_STATE_BRAKE
  | .accelerator => some K.GAMEPAD_STATE_ACCELERATOR
  | .battery => none
  | .button_a => some K.GAMEPAD_STATE_BUTTON_A
  | .button_b => some K.GAMEPAD_STATE_BUTTON_B
  | .button_x => some K.GAMEPAD_STATE_BUTTON_X
  | .button_y => some K.GAMEPAD_STATE_BUTTON_Y
  | .button_shoulder_l => some K.GAMEPAD_STATE_BUTTON_SHOULDER_L
  | .button_shoulder_r => some K.GAMEPAD_STATE_BUTTON_SHOULDER_R
  | .button_trigger_l => some K.GAMEPAD_STATE_BUTTON_TRIGGER_L
  | .button_trigger_r => some K.GAMEPAD_STATE_BUTTON_TRIGGER_R
  | .button_thumb_l => some K.GAMEPAD_STATE_BUTTON_THUMB_L
  | .button_thumb_r => some K.GAMEPAD_STATE_BUTTON_THUMB_R
  | .misc_button_system => some K.GAMEPAD_STATE_MISC_BUTTON_SYSTEM
  | .misc_button_back => some K.GAMEPAD_STATE_MISC_BUTTON_BACK
  | .misc_button_home => some K.GAMEPAD_STATE_MISC_BUTTON_HOME

/-- The mask that writing a field ORs into `updated_states`: its dirty flag, or
nothing when no field is written or the field has no flag. -/
def written_flag (K : Consts) : Option Field → Nat
  | none => 0
  | some f => (dirty_flag K f).getD 0

/-- The dirty flags are non-zero and no two of them share a bit. -/
def Consts.dirty_flags_disjoint (K : Consts) : Prop :=
  ∀ f g : Field, ∀ m ∈ dirty_flag K f, ∀ n ∈ dirty_flag K g,
    m ≠ 0 ∧ (f ≠ g → m &&& n = 0)

/-- The field that the case of `uni_hid_parser_android_parse_usage` selected by
`(usage_page, usage)` assigns, if it assigns one. -/
def android_written (K : Consts) (usage_page usage : Nat) : Option Field :=
  if usage_page = K.HID_USAGE_PAGE_GENERIC_DESKTOP then
    if usage = K.HID_USAGE_AXIS_X then some .axis_x
    else if usage = K.HID_USAGE_AXIS_Y then some .axis_y
    else if usage = K.HID_USAGE_AXIS_Z then some .axis_rx
    else if usage = K.HID_USAGE_AXIS_RZ then some .axis_ry
    else if usage = K.HID_USAGE_HAT then some .dpad
    else if usage = K.HID_USAGE_DPAD_UP ∨ usage = K.HID_USAGE_DPAD_DOWN
        ∨ usage = K.HID_USAGE_DPAD_RIGHT ∨ usage = K.HID_USAGE_DPAD_LEFT then some .dpad
    else none
  else if usage_page = K.HID_USAGE_PAGE_SIMULATION_CONTROLS then
    if usage = K.HID_USAGE_ACCELERATOR then some .accelerator
    else if usage = K.HID_USAGE_BRAKE then some .brake
    else none
  else if usage_page = K.HID_USAGE_PAGE_GENERIC_DEVICE_CONTROLS then
    if usage = K.HID_USAGE_BATTERY_STRENGHT then some .battery
    else none
  else if usage_page = K.HID_USAGE_PAGE_BUTTON then
    if usage = 0x01 then some .button_a
    else if usage = 0x02 then some .button_b
    else if usage = 0x03 then none
    else if usage = 0x04 then some .button_x
    else if usage = 0x05 then some .button_y
    else if usage = 0x06 then none
    else if usage = 0x07 then some .button_shoulder_l
    else if usage = 0x08 then some .button_shoulder_r
    else if usage = 0x09 ∨ usage = 0x0a ∨ usage = 0x0b ∨ usage = 0x0c then none
    else if usage = 0x0d then some .misc_button_system
    else if usage = 0x0e then some .button_thumb_l
    else if usage = 0x0f then some .button_thumb_r
    else none
  else if usage_page = K.HID_USAGE_PAGE_CONSUMER then
    if usage = K.HID_USAGE_FAST_FORWARD then none
    else if usage = K.HID_USAGE_REWIND then none
    else if usage = K.HID_USAGE_PLAY_PAUSE then none
    else if usage = K.HID_USAGE_AC_SEARCH then none
    else if usage = K.HID_USAGE_AC_HOME then some .misc_button_home
    else if usage = K.HID_USAGE_AC_BACK then some .misc_button_back
    else none
  else none

/-- The field that the case of `uni_hid_parser_ps4_parse_usage` selected by
`(usage_page, usage)` assigns, if it assigns one. -/
def ps4_written (K : Consts) (usage_page usage : Nat) : Option Field :=
  if usage_page = K.HID_USAGE_PAGE_GENERIC_DESKTOP then
    if usage = K.HID_USAGE_AXIS_X then some .axis_x
    else if usage = K.HID_USAGE_AXIS_Y then some .axis_y
    else if usage = K.HID_USAGE_AXIS_Z then some .axis_rx
    else if usage = K.HID_USAGE_AXIS_RX then some .brake
    else if usage = K.HID_USAGE_AXIS_RY then some .accelerator
    else if usage = K.HID_USAGE_AXIS_RZ then some .axis_ry
    else if usage = K.HID_USAGE_HAT then some .dpad
    else if usage = K.HID_USAGE_SYSTEM_MAIN_MENU then some .misc_button_system
    else if usage = K.HID_USAGE_DPAD_UP ∨ usage = K.HID_USAGE_DPAD_DOWN
        ∨ usage = K.HID_USAGE_DPAD_RIGHT ∨ usage = K.HID_USAGE_DPAD_LEFT then some .dpad
    else none
  else if usage_page = K.HID_USAGE_PAGE_GENERIC_DEVICE_CONTROLS then
    if usage = K.HID_USAGE_BATTERY_STRENGHT then some .battery
    else none
  else if usage_page = K.HID_USAGE_PAGE_BUTTON then
    if usage = 0x01 then some .button_x
    else if usage = 0x02 then some .button_a
    else if usage = 0x03 then some .button_b
    else if usage = 0x04 then some .button_y
    else if usage = 0x05 then some .button_shoulder_l
    else if usage = 0x06 then some .button_shoulder_r
    else if usage = 0x07 then some .button_trigger_l
    else if usage = 0x08 then some .button_trigger_r
    else if usage = 0x09 then some .misc_button_back
    else if usage = 0x0a then some .misc_button_home
    else if usage = 0x0b then some .button_thumb_l
    else if usage = 0x0c then some .button_thumb_r
    else if usage = 0x0d then some .misc_button_system
    else if usage = 0x0e then none
    else none
  else none

/-- The gamepad `new` with the storage of field `f` and the dirty mask put back
to what they are in `old`. A button bit is stored in `buttons`, a misc-button
bit in `misc_buttons`. -/
def Field.restore (f : Field) (old new : uni_gamepad_t) : uni_gamepad_t :=
  match f with
  | .dpad => { new with dpad := old.dpad, updated_states := old.updated_states }
  | .axis_x => { new with axis_x := old.axis_x, updated_states := old.updated_states }
  | .axis_y => { new with axis_y := old.axis_y, updated_states := old.updated_states }
  | .axis_rx => { new with axis_rx := old.axis_rx, updated_states := old.updated_states }
  | .axis_ry => { new with axis_ry := old.axis_ry, updated_states := old.updated_states }
  | .brake => { new with brake := old.brake, updated_states := old.updated_states }
  | .accelerator => { new with accelerator := old.accelerator, updated_states := old.updated_states }
  | .battery => { new with battery := old.battery, updated_states := old.updated_states }
  | .button_a => { new with buttons := old.buttons, updated_states := old.updated_states }
  | .button_b => { new with buttons := old.buttons, updated_states := old.updated_states }
  | .button_x => { new with buttons := old.buttons, updated_states := old.updated_states }
  | .button_y => { new with buttons := old.buttons, updated_states := old.updated_states }
  | .button_shoulder_l => { new with buttons := old.buttons, updated_states := old.updated_states }
  | .button_shoulder_r => { new with buttons := old.buttons, updated_states := old.updated_states }
  | .button_trigger_l => { new with buttons := old.buttons, updated_states := old.updated_states }
  | .button_trigger_r => { new with buttons := old.buttons, updated_states := old.updated_states }
  | .button_thumb_l => { new with buttons := old.buttons, updated_states := old.updated_states }
  | .button_thumb_r => { new with buttons := old.buttons, updated_states := old.updated_states }
  | .misc_button_system => { new with misc_buttons := old.misc_buttons, updated_states := old.updated_states }
  | .misc_button_back => { new with misc_buttons := old.misc_buttons, updated_states := old.updated_states }
  | .misc_button_home => { new with misc_buttons := old.misc_buttons, updated_states := old.updated_states }

/-- A call that goes from `old` to `new` stays inside what `w` says it writes:
with no field written nothing changes; with field `f` written, only the
storage of `f` and the dirty mask may differ. -/
def written_confines (w : Option Field) (old new : uni_gamepad_t) : Prop :=
  match w with
  | none => new = old
  | some f => f.restore old new = old

instance (K : Consts) : Decidable K.dirty_flags_disjoint := by
  unfold Consts.dirty_flags_disjoint
  infer_instance

/-! ## SDP queries (`uni_bluetooth.c`) -/

/-- Constant `MAX_ATTRIBUTE_VALUE_SIZE`, the size of the `attribute_value` buffer. -/
def MAX_ATTRIBUTE_VALUE_SIZE : Nat := 512

/-- Constant `attribute_value_buffer_size`, the size that the handlers check
the reported attribute length against. -/
def attribute_value_buffer_size : Nat := MAX_ATTRIBUTE_VALUE_SIZE

/-- The two packet handlers that `uni_bluetooth.c` registers with
`sdp_client_query_uuid16`. -/
inductive sdp_handler where
  | handle_sdp_hid_query_result
  | handle_sdp_pid_query_result
deriving DecidableEq, Repr

/-- The service classes queried. -/
inductive service_class where
  | BLUETOOTH_SERVICE_CLASS_HUMAN_INTERFACE_DEVICE_SERVICE
  | BLUETOOTH_SERVICE_CLASS_PNP_INFORMATION
deriving DecidableEq, Repr

/-- What the accessors of the Bluetooth stack say of the PSM of an L2CAP
event: one of the two HID PSMs, or any other PSM. -/
inductive psm_t where
  | PSM_HID_CONTROL
  | PSM_HID_INTERRUPT
  | other
deriving DecidableEq, Repr

/-- A call that leaves `uni_bluetooth.c`, recorded in the order of the calls.
A device is named by its slot in the device table. The packet handler passed
to `l2cap_create_channel` is always `packet_handler`; the command sent by
`hci_send_cmd` is always `hci_pin_code_request_reply`; the level given to
`gap_request_security_level` is always `LEVEL_1`. -/
inductive Call where
  | sdp_client_query_uuid16 (callback : sdp_handler) (address : Nat) (uuid : service_class)
  | uni_hid_device_guess_controller_type (device : Nat)
  | uni_hid_device_try_assign_joystick_port (device : Nat)
  | l2cap_create_channel (address : Nat) (psm : psm_t) (mtu : Nat)
  | l2cap_accept_connection (channel : Nat)
  | l2cap_decline_connection (channel : Nat)
  | gap_drop_link_key_for_bd_addr (address : Nat)
  | gap_request_security_level (handle : Nat)
  | gap_remote_name_request (address : Nat) (page_scan_repetition_mode : Nat)
      (clock_offset : Nat)
  | gap_inquiry_start (duration : Nat)
  | hci_send_cmd_pin_code_request_reply (address : Nat)
  | uni_platform_on_init_complete
  | uni_platform_is_button_pressed
  | uni_hid_parser_fn (device : Nat) (report : List Nat) (report_len : Nat)
  | uni_hid_device_process_gamepad (device : Nat)
  | uni_hid_device_request_inquire
deriving DecidableEq, Repr

/-- What `hci_event_packet_get_type` says of a packet given to an SDP handler:
one of the two event types the handlers tell apart, or any other type. -/
inductive sdp_event_type where
  | SDP_EVENT_QUERY_ATTRIBUTE_VALUE
  | SDP_EVENT_QUERY_COMPLETE
  | other
deriving DecidableEq, Repr

/-- What `sdp_event_query_attribute_byte_get_attribute_id` says of a packet:
one of the attributes the handlers tell apart, or any other attribute. -/
inductive sdp_attribute_id where
  | BLUETOOTH_ATTRIBUTE_HID_DESCRIPTOR_LIST
  | BLUETOOTH_ATTRIBUTE_VENDOR_ID
  | BLUETOOTH_ATTRIBUTE_PRODUCT_ID
  | other
deriving DecidableEq, Repr

/-- An SDP event packet, as read through the accessors of the Bluetooth stack:
event type, attribute id, reported attribute length (`uint16_t`), data offset
(`uint16_t`) and data byte. -/
structure sdp_packet where
  type : sdp_event_type
  attribute_id : sdp_attribute_id := .other
  attribute_length : Nat := 0
  data_offset : Nat := 0
  data : Nat := 0
deriving DecidableEq, Repr

/-- The functions called by the SDP handlers that are not in
`uni_bluetooth.c`, taken as parameters.
* `hid_descriptors buffer`: the `DE_STRING` elements found by the two nested
  `des_iterator` loops in the attribute list held in the buffer, in the order
  of the iteration (Bluetooth stack);
* `de_element_get_uint16 buffer`: the 16-bit value of the data element in the
  buffer, when it has one (Bluetooth stack);
* `uni_hid_device_guess_controller_type`, on the device it is given;
* `uni_hid_device_try_assign_joystick_port devices device`, on the device
  table (`uni_hid_device.c`, not among the sources);
* `uni_hid_device_is_cod_supported cod`: whether the class of device is that
  of a supported input device (`uni_hid_device.c`);
* `uni_hid_device_request_inquire devices`, on the device table
  (`uni_hid_device.c`);
* `uni_hid_parser_fn device report`, the C function `uni_hid_parser`: the
  gamepad state that the report dispatcher leaves in `device->gamepad` when
  it is given the report, the parser and the HID descriptor of the device
  (`uni_hid_parser.c`, not among the sources). -/
structure Collab where
  hid_descriptors : List Nat → List (List Nat)
  de_element_get_uint16 : List Nat → Option Nat
  uni_hid_device_guess_controller_type : uni_hid_device_t → uni_hid_device_t
  uni_hid_device_try_assign_joystick_port : List uni_hid_device_t → Nat → List uni_hid_device_t
  uni_hid_device_is_cod_supported : Nat → Bool
  uni_hid_device_request_inquire : List uni_hid_device_t → List uni_hid_device_t
  uni_hid_parser_fn : uni_hid_device_t → List Nat → uni_gamepad_t

/-- The state that the functions of `uni_bluetooth.c` work on: the device
table, the current SDP-query device (a slot of the table, or none), the
`attribute_value` buffer, the `bt_ready` flag of `packet_handler`, and the
calls made so far. -/
structure bt_state where
  devices : List uni_hid_device_t := []
  current_device : Option Nat := none
  attribute_value : List Nat := List.replicate 512 0
  bt_ready : Bool := false
  calls : List Call := []
deriving DecidableEq, Repr

/-- What goes wrong in C without the function returning: a store outside the
`attribute_value` array. -/
inductive Fault where
  | out_of_bounds (index : Nat)
deriving DecidableEq, Repr

/-- Modelled from the spec: `uni_hid_device_get_current_device` of
`uni_hid_device.c` (not among the sources) reads the single, process-wide
"current SDP-query target". -/
def uni_hid_device_get_current_device (s : bt_state) : Option Nat := s.current_device

/-- Modelled from the spec: `uni_hid_device_set_current_device` of
`uni_hid_device.c` (not among the sources) sets the "current SDP-query
target"; `NULL` is `none`, "no device". -/
def uni_hid_device_set_current_device (s : bt_state) (device : Option Nat) : bt_state :=
  { s with current_device := device }

/-- Modelled from the spec: `uni_hid_device_set_hid_descriptor` of
`uni_hid_device.c` (not among the sources) stores the descriptor, a byte
sequence of at most 512 bytes, in the device. -/
def uni_hid_device_set_hid_descriptor (d : uni_hid_device_t) (descriptor : List Nat) :
    uni_hid_device_t :=
  { d with hid_descriptor := descriptor.take 512,
           hid_descriptor_len := (descriptor.take 512).length }

/-- Modelled from the spec: `uni_hid_device_set_vendor_id` of `uni_hid_device.c`
(not among the sources) stores the 16-bit vendor id in the device. -/
def uni_hid_device_set_vendor_id (d : uni_hid_device_t) (id16 : Nat) : uni_hid_device_t :=
  { d with vendor_id := id16 }

/-- Modelled from the spec: `uni_hid_device_set_product_id` of `uni_hid_device.c`
(not among the sources) stores the 16-bit product id in the device. -/
def uni_hid_device_set_product_id (d : uni_hid_device_t) (id16 : Nat) : uni_hid_device_t :=
  { d with product_id := id16 }

/-- The device in slot `device` of the table (`*device`). -/
def bt_state.device (s : bt_state) (device : Nat) : uni_hid_device_t :=
  s.devices.getD device default

/-- A change made through the pointer `device`. -/
def bt_state.update_device (s : bt_state) (device : Nat)
    (f : uni_hid_device_t → uni_hid_device_t) : bt_state :=
  { s with devices := s.devices.modify f device }

/-- A call recorded. -/
def bt_state.call (s : bt_state) (c : Call) : bt_state :=
  { s with calls := s.calls ++ [c] }

/-- Function `sdp_query_hid_descriptor`. `status` is what `sdp_client_query_uuid16`
returns when it is called. -/
def sdp_query_hid_descriptor (status : Nat) (device : Nat) (s : bt_state) : bt_state :=
  match uni_hid_device_get_current_device s with
  | some _ => s
  | none =>
    let s := uni_hid_device_set_current_device s (some device)
    let s := s.call (.sdp_client_query_uuid16 .handle_sdp_hid_query_result
      (s.device device).address .BLUETOOTH_SERVICE_CLASS_HUMAN_INTERFACE_DEVICE_SERVICE)
    if status ≠ 0 then uni_hid_device_set_current_device s none else s

/-- Function `sdp_query_product_id`. `status` is what `sdp_client_query_uuid16` returns
when it is called. -/
def sdp_query_product_id (status : Nat) (device : Nat) (s : bt_state) : bt_state :=
  match uni_hid_device_get_current_device s with
  | none => s
  | some _ =>
    let s := s.call (.sdp_client_query_uuid16 .handle_sdp_pid_query_result
      (s.device device).address .BLUETOOTH_SERVICE_CLASS_PNP_INFORMATION)
    if status ≠ 0 then uni_hid_device_set_current_device s none else s

/-- The statement `attribute_value[offset] = data;` on the 512-byte array: a
fault when the index is outside the array. -/
def store_attribute_value (s : bt_state) (offset data : Nat) : Except Fault bt_state :=
  if offset < MAX_ATTRIBUTE_VALUE_SIZE then
    .ok { s with attribute_value := s.attribute_value.set offset data }
  else .error (.out_of_bounds offset)

/-- Function `handle_sdp_hid_query_result`. `status` is what `sdp_client_query_uuid16`
returns if the handler comes to call it (through `sdp_query_product_id`). -/
def handle_sdp_hid_query_result (C : Collab) (status : Nat) (packet : sdp_packet)
    (s : bt_state) : Except Fault bt_state :=
  match uni_hid_device_get_current_device s with
  | none => .ok s
  | some device =>
    match packet.type with
    | .SDP_EVENT_QUERY_ATTRIBUTE_VALUE =>
      if packet.attribute_length ≤ attribute_value_buffer_size then
        match store_attribute_value s packet.data_offset packet.data with
        | .error e => .error e
        | .ok s =>
          if (packet.data_offset + 1) % 2 ^ 16 = packet.attribute_length then
            match packet.attribute_id with
            | .BLUETOOTH_ATTRIBUTE_HID_DESCRIPTOR_LIST =>
              .ok ((C.hid_descriptors s.attribute_value).foldl
                (fun s descriptor =>
                  s.update_device device (uni_hid_device_set_hid_descriptor · descriptor)) s)
            | _ => .ok s
          else .ok s
      else .ok s
    | .SDP_EVENT_QUERY_COMPLETE => .ok (sdp_query_product_id status device s)
    | .other => .ok s

/-- Function `handle_sdp_pid_query_result`. A `switch` without `default:` does
nothing for the other event types. -/
def handle_sdp_pid_query_result (C : Collab) (packet : sdp_packet) (s : bt_state) :
    Except Fault bt_state :=
  match uni_hid_device_get_current_device s with
  | none => .ok s
  | some device =>
    match packet.type with
    | .SDP_EVENT_QUERY_ATTRIBUTE_VALUE =>
      if packet.attribute_length ≤ attribute_value_buffer_size then
        match store_attribute_value s packet.data_offset packet.data with
        | .error e => .error e
        | .ok s =>
          if (packet.data_offset + 1) % 2 ^ 16 = packet.attribute_length then
            match packet.attribute_id with
            | .BLUETOOTH_ATTRIBUTE_VENDOR_ID =>
              match C.de_element_get_uint16 s.attribute_value with
              | some id16 => .ok (s.update_device device (uni_hid_device_set_vendor_id · id16))
              | none => .ok s
            | .BLUETOOTH_ATTRIBUTE_PRODUCT_ID =>
              match C.de_element_get_uint16 s.attribute_value with
              | some id16 => .ok (s.update_device device (uni_hid_device_set_product_id · id16))
              | none => .ok s
            | _ => .ok s
          else .ok s
      else .ok s
    | .SDP_EVENT_QUERY_COMPLETE =>
      let s := (s.update_device device C.uni_hid_device_guess_controller_type).call
        (.uni_hid_device_guess_controller_type device)
      let s := ({ s with devices := C.uni_hid_device_try_assign_joystick_port s.devices device }
        : bt_state).call (.uni_hid_device_try_assign_joystick_port device)
      .ok (uni_hid_device_set_current_device s none)
    | .other => .ok s

/-- Collaborator functions used where the SDP handlers are evaluated on a
concrete input: the buffer holds no descriptor and no 16-bit element, the
device functions and the report dispatcher change nothing, and the one
supported class of device is 0x2508. The properties below hold for every
choice of these functions; none depends on this one. -/
def sample_collab : Collab where
  hid_descriptors := fun _ => []
  de_element_get_uint16 := fun _ => none
  uni_hid_device_guess_controller_type := fun d => d
  uni_hid_device_try_assign_joystick_port := fun ds _ => ds
  uni_hid_device_is_cod_supported := fun cod => cod == 0x2508
  uni_hid_device_request_inquire := fun ds => ds
  uni_hid_parser_fn := fun d _ => d.gamepad

/-- The buffer after an attribute-value event: unchanged, or one byte stored
at the data offset, which is below 512. -/
def buffer_stored_in_bounds (packet : sdp_packet) (s s' : bt_state) : Prop :=
  s'.attribute_value = s.attribute_value
  ∨ (packet.data_offset < MAX_ATTRIBUTE_VALUE_SIZE
      ∧ s'.attribute_value = s.attribute_value.set packet.data_offset packet.data)

/-! ## Device registry (`uni_hid_device.c`, modelled from the spec) -/

/-- Modelled from the spec: `uni_hid_device_get_instance_for_address` of
`uni_hid_device.c` (not among the sources), the lookup of the registry by
address: the first slot in use that holds the address, or `NULL`. -/
def uni_hid_device_get_instance_for_address (s : bt_state) (addr : Nat) : Option Nat :=
  s.devices.findIdx? (fun d => d.in_use && d.address == addr)

/-- Modelled from the spec: `uni_hid_device_get_instance_for_cid` of
`uni_hid_device.c` (not among the sources), the lookup of the registry by
channel id: the first slot in use whose control or interrupt channel id is
`cid`, or `NULL`. A channel id is 0 when unset, so 0 finds no device. -/
def uni_hid_device_get_instance_for_cid (s : bt_state) (cid : Nat) : Option Nat :=
  if cid = 0 then none
  else s.devices.findIdx?
    (fun d => d.in_use && (d.hid_interrupt_cid == cid || d.hid_control_cid == cid))

/-- Modelled from the spec: `uni_hid_device_get_first_device_with_state` of
`uni_hid_device.c` (not among the sources): the first slot in use, in the
order of the table, whose device is in the given state, or `NULL`. -/
def uni_hid_device_get_first_device_with_state (s : bt_state) (st : device_state) :
    Option Nat :=
  s.devices.findIdx? (fun d => d.in_use && d.state == st)

/-- Modelled from the spec: `uni_hid_device_create` of `uni_hid_device.c` (not
among the sources) takes the first free slot of the fixed-capacity table for
a new device with the given address, every other field unset; with the table
full the allocation fails (`NULL`). -/
def uni_hid_device_create (s : bt_state) (addr : Nat) : Option (Nat × bt_state) :=
  match s.devices.findIdx? (fun d => !d.in_use) with
  | none => none
  | some device =>
    some (device, { s with devices := s.devices.set device { in_use := true, address := addr } })

/-- Modelled from the spec: `uni_hid_device_remove_entry_with_channel` of
`uni_hid_device.c` (not among the sources) removes the registry entry that
owns the channel; its slot becomes free. -/
def uni_hid_device_remove_entry_with_channel (s : bt_state) (channel : Nat) : bt_state :=
  match uni_hid_device_get_instance_for_cid s channel with
  | none => s
  | some device => { s with devices := s.devices.set device {} }

/-- Modelled from the spec: `uni_hid_device_set_cod` of `uni_hid_device.c` (not
among the sources) stores the class of device. -/
def uni_hid_device_set_cod (d : uni_hid_device_t) (cod : Nat) : uni_hid_device_t :=
  { d with cod := cod }

/-- Modelled from the spec: `uni_hid_device_set_incoming` of `uni_hid_device.c`
(not among the sources) records whether the remote side initiated the
connection. -/
def uni_hid_device_set_incoming (d : uni_hid_device_t) (incoming : Bool) : uni_hid_device_t :=
  { d with incoming := incoming }

/-- Modelled from the spec: `uni_hid_device_is_incoming` of `uni_hid_device.c`
(not among the sources). -/
def uni_hid_device_is_incoming (d : uni_hid_device_t) : Bool := d.incoming

/-- Modelled from the spec: `uni_hid_device_set_connection_handle` of
`uni_hid_device.c` (not among the sources) stores the link-layer handle. -/
def uni_hid_device_set_connection_handle (d : uni_hid_device_t) (handle : Nat) :
    uni_hid_device_t :=
  { d with connection_handle := handle }

/-- Modelled from the spec: `uni_hid_device_set_connected` of `uni_hid_device.c`
(not among the sources) marks the device connected or disconnected. -/
def uni_hid_device_set_connected (d : uni_hid_device_t) (connected : Bool) : uni_hid_device_t :=
  { d with connected := connected }

/-- Modelled from the spec: `uni_hid_device_has_name` of `uni_hid_device.c` (not
among the sources). -/
def uni_hid_device_has_name (d : uni_hid_device_t) : Bool := d.name.isSome

/-- Modelled from the spec: `uni_hid_device_set_name` of `uni_hid_device.c` (not
among the sources) stores the human-readable name. -/
def uni_hid_device_set_name (d : uni_hid_device_t) (name : List Nat) : uni_hid_device_t :=
  { d with name := some name }

/-- Modelled from the spec: `uni_hid_device_set_state` of `uni_hid_device.c` (not
among the sources) sets the lifecycle state. -/
def uni_hid_device_set_state (d : uni_hid_device_t) (st : device_state) : uni_hid_device_t :=
  { d with state := st }

/-- Modelled from the spec: `uni_hid_device_is_orphan` of `uni_hid_device.c` (not
among the sources): the entry is kept in the table in state `ORPHAN`. -/
def uni_hid_device_is_orphan (d : uni_hid_device_t) : Bool := d.state == .ORPHAN

/-- Modelled from the spec: `uni_hid_device_has_hid_descriptor` of
`uni_hid_device.c` (not among the sources): the descriptor is empty until
fetched. -/
def uni_hid_device_has_hid_descriptor (d : uni_hid_device_t) : Bool := !d.hid_descriptor.isEmpty

/-- Modelled from the spec: `uni_hid_device_has_controller_type` of
`uni_hid_device.c` (not among the sources): the controller family is
unresolved until classification succeeds. -/
def uni_hid_device_has_controller_type (d : uni_hid_device_t) : Bool :=
  d.controller_type.isSome

/-- The call `uni_hid_device_try_assign_joystick_port(device)`. -/
def uni_hid_device_try_assign_joystick_port (C : Collab) (s : bt_state) (device : Nat) :
    bt_state :=
  ({ s with devices := C.uni_hid_device_try_assign_joystick_port s.devices device }
    : bt_state).call (.uni_hid_device_try_assign_joystick_port device)

/-- The addresses of the slots, with whether each slot is in use: what the
lookups by address see of the table. -/
def registry_keys (s : bt_state) : List (Bool × Nat) :=
  s.devices.map (fun d => (d.in_use, d.address))

/-- No two slots in use hold the same address. -/
def registry_distinct (s : bt_state) : Prop :=
  (registry_keys s).Pairwise (fun a b => a.1 = true → b.1 = true → a.2 ≠ b.2)

instance (s : bt_state) : Decidable (registry_distinct s) := by
  unfold registry_distinct
  infer_instance

/-- The collaborator functions that work on the device table leave the slots
in use and their addresses as they are (an address is immutable once
assigned, and slots are taken and freed by the registry only). -/
def Collab.keeps_registry_keys (C : Collab) : Prop :=
  (∀ ds device, (C.uni_hid_device_try_assign_joystick_port ds device).map
      (fun d => (d.in_use, d.address)) = ds.map (fun d => (d.in_use, d.address)))
  ∧ (∀ ds, (C.uni_hid_device_request_inquire ds).map (fun d => (d.in_use, d.address))
      = ds.map (fun d => (d.in_use, d.address)))

/-! ## Events and their handlers (`uni_bluetooth.c`) -/

/-- Constant `INQUIRY_INTERVAL`. -/
def INQUIRY_INTERVAL : Nat := 5

/-- What the Bluetooth stack answers to the calls a handler makes while it
handles one event:
* `sdp_client_query_uuid16`, `l2cap_create_channel`: the status returned;
* `l2cap_out_local_cid`: the channel id that `l2cap_create_channel` stores
  through its `out_local_cid` argument, when it stores one;
* `gap_link_key_iterator_init`: whether the iterator could be initialised;
* `link_keys`: the addresses that `gap_link_key_iterator_get_next` enumerates;
* `uni_platform_is_button_pressed`: what the platform returns. -/
structure stack_replies where
  sdp_client_query_uuid16 : Nat := 0
  l2cap_create_channel : Nat := 0
  l2cap_out_local_cid : Option Nat := none
  gap_link_key_iterator_init : Bool := true
  link_keys : List Nat := []
  uni_platform_is_button_pressed : Bool := false
deriving DecidableEq, Repr

/-- What the status of a channel-opened event is: 0, one of the two codes that
`on_l2cap_channel_opened` tells apart, or any other non-zero status. -/
inductive l2cap_open_status where
  | success
  | L2CAP_CONNECTION_RESPONSE_RESULT_RTX_TIMEOUT
  | L2CAP_CONNECTION_BASEBAND_DISCONNECT
  | other_failure
deriving DecidableEq, Repr

/-- The fields of `HCI_EVENT_CONNECTION_REQUEST` that are read. -/
structure connection_request_event where
  bd_addr : Nat
  class_of_device : Nat := 0
deriving DecidableEq, Repr

/-- The fields of `HCI_EVENT_CONNECTION_COMPLETE` that are read. -/
structure connection_complete_event where
  bd_addr : Nat
  status : Nat := 0
  connection_handle : Nat := 0
deriving DecidableEq, Repr

/-- The fields of `HCI_EVENT_REMOTE_NAME_REQUEST_COMPLETE` that are read:
`packet[2]` (status), the address at `packet[3]`, the C string at `packet[9]`. -/
structure remote_name_request_complete_event where
  status : Nat := 0
  bd_addr : Nat
  name : List Nat := []
deriving DecidableEq, Repr

/-- The fields of `L2CAP_EVENT_INCOMING_CONNECTION` that are read. -/
structure incoming_connection_event where
  psm : psm_t
  handle : Nat := 0
  local_cid : Nat := 0
  remote_cid : Nat := 0
  address : Nat
deriving DecidableEq, Repr

/-- The fields of `L2CAP_EVENT_CHANNEL_OPENED` that are read. -/
structure channel_opened_event where
  address : Nat
  status : l2cap_open_status := .success
  psm : psm_t
  local_cid : Nat := 0
  remote_cid : Nat := 0
  handle : Nat := 0
  incoming : Nat := 0
deriving DecidableEq, Repr

/-- The field of `L2CAP_EVENT_CHANNEL_CLOSED` that is read. -/
structure channel_closed_event where
  local_cid : Nat
deriving DecidableEq, Repr

/-- The fields of `GAP_EVENT_INQUIRY_RESULT` that are read. `name` is the name
of `name_len` bytes when `name_available` is set, and `none` otherwise. -/
structure inquiry_result_event where
  bd_addr : Nat
  page_scan_repetition_mode : Nat := 0
  clock_offset : Nat := 0
  class_of_device : Nat := 0
  name : Option (List Nat) := none
deriving DecidableEq, Repr

/-- What `hci_event_packet_get_type` says of an HCI event packet, with the
fields read. `log_only` stands for the event types whose case only logs, and
for the `default:` case. -/
inductive hci_event where
  | BTSTACK_EVENT_STATE (hci_state_working : Bool)
  | HCI_EVENT_PIN_CODE_REQUEST (bd_addr : Nat)
  | HCI_EVENT_CONNECTION_REQUEST (e : connection_request_event)
  | HCI_EVENT_CONNECTION_COMPLETE (e : connection_complete_event)
  | HCI_EVENT_REMOTE_NAME_REQUEST_COMPLETE (e : remote_name_request_complete_event)
  | L2CAP_EVENT_INCOMING_CONNECTION (e : incoming_connection_event)
  | L2CAP_EVENT_CHANNEL_OPENED (e : channel_opened_event)
  | L2CAP_EVENT_CHANNEL_CLOSED (e : channel_closed_event)
  | GAP_EVENT_INQUIRY_RESULT (e : inquiry_result_event)
  | GAP_EVENT_INQUIRY_COMPLETE
  | log_only
deriving DecidableEq, Repr

/-- The arguments of `packet_handler`: the packet type, the channel, and the
packet. A data packet is the list of its `size` bytes. -/
inductive bt_packet where
  | HCI_EVENT_PACKET (channel : Nat) (event : hci_event)
  | L2CAP_DATA_PACKET (channel : Nat) (packet : List Nat)
  | other
deriving DecidableEq, Repr

/-- The call `l2cap_create_channel(packet_handler, address, psm, 48, out)`,
where `store` writes through `out`, a channel id field of the device. -/
def l2cap_create_channel (R : stack_replies) (s : bt_state) (address : Nat) (psm : psm_t)
    (device : Nat) (store : uni_hid_device_t → Nat → uni_hid_device_t) : bt_state :=
  let s := s.call (.l2cap_create_channel address psm 48)
  match R.l2cap_out_local_cid with
  | some cid => s.update_device device (store · cid)
  | none => s

/-- Function `start_scan`. -/
def start_scan (s : bt_state) : bt_state :=
  s.call (.gap_inquiry_start INQUIRY_INTERVAL)

/-- Function `has_more_remote_name_requests`. -/
def has_more_remote_name_requests (s : bt_state) : Bool :=
  (uni_hid_device_get_first_device_with_state s .REMOTE_NAME_REQUEST).isSome

/-- Function `do_next_remote_name_request`. -/
def do_next_remote_name_request (s : bt_state) : bt_state :=
  match uni_hid_device_get_first_device_with_state s .REMOTE_NAME_REQUEST with
  | none => s
  | some device =>
    let s := s.update_device device (uni_hid_device_set_state · .REMOTE_NAME_INQUIRED)
    s.call (.gap_remote_name_request (s.device device).address
      (s.device device).page_scan_repetition_mode ((s.device device).clock_offset ||| 0x8000))

/-- Function `continue_remote_names`. -/
def continue_remote_names (s : bt_state) : bt_state :=
  if has_more_remote_name_requests s then do_next_remote_name_request s
  else start_scan s

/-- Function `list_link_keys`. The assignment `delete_keys = true` overwrites
what `uni_platform_is_button_pressed` returned. -/
def list_link_keys (R : stack_replies) (s : bt_state) : bt_state :=
  if ¬ R.gap_link_key_iterator_init then s
  else
    let s := s.call .uni_platform_is_button_pressed
    let _delete_keys := R.uni_platform_is_button_pressed
    let delete_keys := true
    R.link_keys.foldl
      (fun s addr => if delete_keys then s.call (.gap_drop_link_key_for_bd_addr addr) else s) s

/-- Function `on_hci_connection_request`. -/
def on_hci_connection_request (e : connection_request_event) (s : bt_state) : bt_state :=
  let finish := fun (device : Nat) (s : bt_state) =>
    let s := s.update_device device (uni_hid_device_set_cod · e.class_of_device)
    s.update_device device (uni_hid_device_set_incoming · true)
  match uni_hid_device_get_instance_for_address s e.bd_addr with
  | some device => finish device s
  | none =>
    match uni_hid_device_create s e.bd_addr with
    | none => s
    | some (device, s) => finish device s

/-- Function `on_hci_connection_complete`. -/
def on_hci_connection_complete (e : connection_complete_event) (s : bt_state) : bt_state :=
  if e.status ≠ 0 then s
  else
    match uni_hid_device_get_instance_for_address s e.bd_addr with
    | none => s
    | some device =>
      let s := s.update_device device (uni_hid_device_set_connection_handle · e.connection_handle)
      s.call (.gap_request_security_level e.connection_handle)

/-- The part of `on_gap_inquiry_result` that runs once `device` is known: from
`uni_hid_device_set_cod` on. `name_len` is `min(NAME_LEN_MAX - 1, name_len)`,
or -1 when the report carries no name. -/
def on_gap_inquiry_result_device (R : stack_replies) (e : inquiry_result_event)
    (device : Nat) (s : bt_state) : bt_state :=
  let s := s.update_device device (uni_hid_device_set_cod · e.class_of_device)
  let s := s.update_device device
    (fun d => { d with page_scan_repetition_mode := e.page_scan_repetition_mode })
  let s := s.update_device device (fun d => { d with clock_offset := e.clock_offset })
  let s :=
    match e.name with
    | some name =>
      if ¬ uni_hid_device_has_name (s.device device) then
        s.update_device device (uni_hid_device_set_name · (name.take (240 - 1)))
      else s.update_device device (uni_hid_device_set_state · .REMOTE_NAME_REQUEST)
    | none => s.update_device device (uni_hid_device_set_state · .REMOTE_NAME_REQUEST)
  l2cap_create_channel R s (s.device device).address .PSM_HID_CONTROL device
    (fun d cid => { d with hid_control_cid := cid })

/-- Function `on_gap_inquiry_result`. -/
def on_gap_inquiry_result (C : Collab) (R : stack_replies) (e : inquiry_result_event)
    (s : bt_state) : bt_state :=
  if C.uni_hid_device_is_cod_supported e.class_of_device then
    match uni_hid_device_get_instance_for_address s e.bd_addr with
    | some device =>
      if ¬ uni_hid_device_is_orphan (s.device device) then s
      else on_gap_inquiry_result_device R e device s
    | none =>
      match uni_hid_device_create s e.bd_addr with
      | none => s
      | some (device, s) => on_gap_inquiry_result_device R e device s
  else s

/-- Function `on_l2cap_channel_opened`. -/
def on_l2cap_channel_opened (C : Collab) (R : stack_replies) (channel : Nat)
    (e : channel_opened_event) (s : bt_state) : bt_state :=
  if e.status ≠ .success then
    if e.status = .L2CAP_CONNECTION_RESPONSE_RESULT_RTX_TIMEOUT
        ∨ e.status = .L2CAP_CONNECTION_BASEBAND_DISCONNECT then
      let s := uni_hid_device_remove_entry_with_channel s channel
      s.call (.gap_drop_link_key_for_bd_addr e.address)
    else s
  else
    match uni_hid_device_get_instance_for_address s e.address with
    | none => uni_hid_device_remove_entry_with_channel s channel
    | some device =>
      let s := s.update_device device (uni_hid_device_set_connected · true)
      let s :=
        match e.psm with
        | .PSM_HID_CONTROL =>
          s.update_device device (fun d => { d with hid_control_cid := e.local_cid })
        | .PSM_HID_INTERRUPT =>
          let s := s.update_device device (fun d => { d with hid_interrupt_cid := e.local_cid })
          if ¬ uni_hid_device_has_hid_descriptor (s.device device) then
            sdp_query_hid_descriptor R.sdp_client_query_uuid16 device s
          else s
        | .other => s
      if ¬ uni_hid_device_is_incoming (s.device device) then
        if e.local_cid = 0 then uni_hid_device_remove_entry_with_channel s channel
        else
          if e.local_cid = (s.device device).hid_control_cid then
            let s := l2cap_create_channel R s (s.device device).address .PSM_HID_INTERRUPT device
              (fun d cid => { d with hid_interrupt_cid := cid })
            if R.l2cap_create_channel ≠ 0 then uni_hid_device_remove_entry_with_channel s channel
            else uni_hid_device_try_assign_joystick_port C s device
          else uni_hid_device_try_assign_joystick_port C s device
      else uni_hid_device_try_assign_joystick_port C s device

/-- Function `on_l2cap_channel_closed`. -/
def on_l2cap_channel_closed (e : channel_closed_event) (s : bt_state) : bt_state :=
  match uni_hid_device_get_instance_for_cid s e.local_cid with
  | none => s
  | some device => s.update_device device (uni_hid_device_set_connected · false)

/-- Function `on_l2cap_incoming_connection`. -/
def on_l2cap_incoming_connection (channel : Nat) (e : incoming_connection_event)
    (s : bt_state) : bt_state :=
  match e.psm with
  | .PSM_HID_CONTROL =>
    let finish := fun (device : Nat) (s : bt_state) =>
      let s := s.call (.l2cap_accept_connection channel)
      let s := s.update_device device (uni_hid_device_set_connection_handle · e.handle)
      let s := s.update_device device (fun d => { d with hid_control_cid := channel })
      s.update_device device (uni_hid_device_set_incoming · true)
    match uni_hid_device_get_instance_for_address s e.address with
    | some device => finish device s
    | none =>
      match uni_hid_device_create s e.address with
      | none => s.call (.l2cap_decline_connection channel)
      | some (device, s) => finish device s
  | .PSM_HID_INTERRUPT =>
    match uni_hid_device_get_instance_for_address s e.address with
    | none => s.call (.l2cap_decline_connection channel)
    | some device =>
      let s := s.update_device device (fun d => { d with hid_interrupt_cid := channel })
      s.call (.l2cap_accept_connection channel)
  | .other => s

/-- Function `on_l2cap_data_packet`. The packet is the list of its `size`
bytes: `report_len` is its length, `*report` its first byte, and `report + 1`
with `report_len - 1` the list without its first byte. -/
def on_l2cap_data_packet (C : Collab) (channel : Nat) (packet : List Nat) (s : bt_state) :
    bt_state :=
  match uni_hid_device_get_instance_for_cid s channel with
  | none => s
  | some device =>
    if channel ≠ (s.device device).hid_interrupt_cid then s
    else if ¬ uni_hid_device_has_hid_descriptor (s.device device) then s
    else if ¬ uni_hid_device_has_controller_type (s.device device) then s
    else if packet.length < 1 then s
    else if packet.getD 0 0 ≠ 0xa1 then s
    else
      let s := (s.update_device device
        (fun d => { d with gamepad := C.uni_hid_parser_fn d packet.tail })).call
        (.uni_hid_parser_fn device packet.tail (packet.length - 1))
      s.call (.uni_hid_device_process_gamepad device)

/-- Function `packet_handler`. -/
def packet_handler (C : Collab) (R : stack_replies) (p : bt_packet) (s : bt_state) : bt_state :=
  let is_state_event : Bool :=
    match p with
    | .HCI_EVENT_PACKET _ (.BTSTACK_EVENT_STATE _) => true
    | _ => false
  if !s.bt_ready && !is_state_event then s
  else
    match p with
    | .HCI_EVENT_PACKET channel event =>
      match event with
      | .BTSTACK_EVENT_STATE hci_state_working =>
        if hci_state_working then
          let s := s.call .uni_platform_on_init_complete
          let s := { s with bt_ready := true }
          let s := list_link_keys R s
          start_scan s
        else s
      | .HCI_EVENT_PIN_CODE_REQUEST bd_addr =>
        s.call (.hci_send_cmd_pin_code_request_reply bd_addr)
      | .HCI_EVENT_CONNECTION_REQUEST e => on_hci_connection_request e s
      | .HCI_EVENT_CONNECTION_COMPLETE e => on_hci_connection_complete e s
      | .HCI_EVENT_REMOTE_NAME_REQUEST_COMPLETE e =>
        let s :=
          match uni_hid_device_get_instance_for_address s e.bd_addr with
          | some device =>
            if e.status = 0 then s.update_device device (uni_hid_device_set_name · e.name)
            else s
          | none => s
        continue_remote_names s
      | .L2CAP_EVENT_INCOMING_CONNECTION e => on_l2cap_incoming_connection channel e s
      | .L2CAP_EVENT_CHANNEL_OPENED e => on_l2cap_channel_opened C R channel e s
      | .L2CAP_EVENT_CHANNEL_CLOSED e => on_l2cap_channel_closed e s
      | .GAP_EVENT_INQUIRY_RESULT e => on_gap_inquiry_result C R e s
      | .GAP_EVENT_INQUIRY_COMPLETE =>
        let s := ({ s with devices := C.uni_hid_device_request_inquire s.devices }
          : bt_state).call .uni_hid_device_request_inquire
        continue_remote_names s
      | .log_only => s
    | .L2CAP_DATA_PACKET channel packet => on_l2cap_data_packet C channel packet s
    | .other => s

/-- The events of a run, each with what the stack answers while it is handled. -/
def packet_handler_run (C : Collab) (s : bt_state) (events : List (stack_replies × bt_packet)) :
    bt_state :=
  events.foldl (fun s e => packet_handler C e.1 e.2 s) s

/-- The calls made between a state `s` and a later state `s'`. -/
def new_calls (s s' : bt_state) : List Call := s'.calls.drop s.calls.length

/-! ## Parts of `on_l2cap_channel_opened`, and relations between tables -/

/-- The `switch (psm)` statement of `on_l2cap_channel_opened`, on the device of
the event. -/
def on_l2cap_channel_opened_switch (R : stack_replies) (e : channel_opened_event)
    (device : Nat) (s : bt_state) : bt_state :=
  match e.psm with
  | .PSM_HID_CONTROL =>
    s.update_device device (fun d => { d with hid_control_cid := e.local_cid })
  | .PSM_HID_INTERRUPT =>
    let s := s.update_device device (fun d => { d with hid_interrupt_cid := e.local_cid })
    if ¬ uni_hid_device_has_hid_descriptor (s.device device) then
      sdp_query_hid_descriptor R.sdp_client_query_uuid16 device s
    else s
  | .other => s

/-- The statements of `on_l2cap_channel_opened` that follow the `switch (psm)`:
from `if (!uni_hid_device_is_incoming(device))` to the end. -/
def on_l2cap_channel_opened_rest (C : Collab) (R : stack_replies) (channel : Nat)
    (e : channel_opened_event) (device : Nat) (s : bt_state) : bt_state :=
  if ¬ uni_hid_device_is_incoming (s.device device) then
    if e.local_cid = 0 then uni_hid_device_remove_entry_with_channel s channel
    else
      if e.local_cid = (s.device device).hid_control_cid then
        let s := l2cap_create_channel R s (s.device device).address .PSM_HID_INTERRUPT device
          (fun d cid => { d with hid_interrupt_cid := cid })
        if R.l2cap_create_channel ≠ 0 then uni_hid_device_remove_entry_with_channel s channel
        else uni_hid_device_try_assign_joystick_port C s device
      else uni_hid_device_try_assign_joystick_port C s device
  else uni_hid_device_try_assign_joystick_port C s device

/-- Every slot of the table of `s'` is related by `P` to the same slot of the
table of `s`; `P` may depend on the slot. -/
def slots_related (P : Nat → uni_hid_device_t → uni_hid_device_t → Prop) (s s' : bt_state) :
    Prop :=
  ∀ i, P i (s.device i) (s'.device i)

/-- A relation between the old and the new content of a slot that composes,
and that holds when the slot is freed, when it is taken for a new device, and
when it is written without a change of the lifecycle state and of the
connected flag. -/
structure lifecycle_frame (P : Nat → uni_hid_device_t → uni_hid_device_t → Prop) : Prop where
  trans : ∀ i a b c, P i a b → P i b c → P i a c
  free : ∀ i d, P i d {}
  fresh : ∀ i d addr, P i d { in_use := true, address := addr }
  keeps : ∀ i d d', d'.state = d.state → d'.connected = d.connected → P i d d'

/-! ## The key table of the iCade (header comment of `uni_hid_parser_icade.c`) -/

/-- The usage of a lower-case letter on the Keyboard/Keypad page:
`0x04 + (letter - 'a')`. -/
def keyboard_usage (letter : Char) : Nat := 0x04 + (letter.toNat - 'a'.toNat)

/-- The mask of the gamepad that a key of the iCade works on. -/
inductive icade_field where
  | dpad
  | buttons
  | misc_buttons
deriving DecidableEq, Repr

/-- A mapped row of the key table: the letter sent when the key goes on, the
letter sent when it goes off, the mask the key is mapped to, in which field,
and the dirty flag of that mapping. -/
structure icade_key where
  key_on : Char
  key_off : Char
  field : icade_field
  mask : Nat
  dirty : Nat
deriving DecidableEq, Repr

/-- What the table says of a key that goes on: its mask is set in its field
and its dirty flag is marked. -/
def icade_key.press (k : icade_key) (gp : uni_gamepad_t) : uni_gamepad_t :=
  match k.field with
  | .dpad => { gp with dpad := gp.dpad ||| k.mask,
                       updated_states := gp.updated_states ||| k.dirty }
  | .buttons => { gp with buttons := gp.buttons ||| k.mask,
                          updated_states := gp.updated_states ||| k.dirty }
  | .misc_buttons => { gp with misc_buttons := gp.misc_buttons ||| k.mask,
                               updated_states := gp.updated_states ||| k.dirty }

/-- What the table says of a key that goes off: its mask is cleared in its
field and its dirty flag is marked. -/
def icade_key.release (k : icade_key) (gp : uni_gamepad_t) : uni_gamepad_t :=
  match k.field with
  | .dpad => { gp with dpad := and_not gp.dpad k.mask,
                       updated_states := gp.updated_states ||| k.dirty }
  | .buttons => { gp with buttons := and_not gp.buttons k.mask,
                          updated_states := gp.updated_states ||| k.dirty }
  | .misc_buttons => { gp with misc_buttons := and_not gp.misc_buttons k.mask,
                               updated_states := gp.updated_states ||| k.dirty }

/-- The mapped rows of the key table, in the order of the header comment:
`UP = w,e`, `RT = d,c`, `DN = x,z`, `LT = a,q`, `A = y,t` (Button A),
`B = h,r` (Button B), `C = u,f` (Button X), `X = j,n` (Button Y),
`L = o,g` ("Menu" button). -/
def icade_key_table (K : Consts) : List icade_key :=
  [ ⟨'w', 'e', .dpad, K.DPAD_UP, K.GAMEPAD_STATE_DPAD⟩,
    ⟨'d', 'c', .dpad, K.DPAD_RIGHT, K.GAMEPAD_STATE_DPAD⟩,
    ⟨'x', 'z', .dpad, K.DPAD_DOWN, K.GAMEPAD_STATE_DPAD⟩,
    ⟨'a', 'q', .dpad, K.DPAD_LEFT, K.GAMEPAD_STATE_DPAD⟩,
    ⟨'y', 't', .buttons, K.BUTTON_A, K.GAMEPAD_STATE_BUTTON_A⟩,
    ⟨'h', 'r', .buttons, K.BUTTON_B, K.GAMEPAD_STATE_BUTTON_B⟩,
    ⟨'u', 'f', .buttons, K.BUTTON_X, K.GAMEPAD_STATE_BUTTON_X⟩,
    ⟨'j', 'n', .buttons, K.BUTTON_Y, K.GAMEPAD_STATE_BUTTON_Y⟩,
    ⟨'o', 'g', .misc_buttons, K.MISC_BUTTON_SYSTEM, K.GAMEPAD_STATE_MISC_BUTTON_SYSTEM⟩ ]

/-- The letters of the rows of the key table that are marked unmapped:
`Y = i,m`, `Z = k,p`, `R = l,v`. -/
def icade_unmapped_letters : List Char := ['i', 'm', 'k', 'p', 'l', 'v']

/-- The button masks of `uni_gamepad.h` share no bit, and neither do the misc
button masks: every button is one bit of its mask. -/
def Consts.button_masks_disjoint (K : Consts) : Prop :=
  [K.BUTTON_A, K.BUTTON_B, K.BUTTON_X, K.BUTTON_Y, K.BUTTON_SHOULDER_L, K.BUTTON_SHOULDER_R,
    K.BUTTON_TRIGGER_L, K.BUTTON_TRIGGER_R, K.BUTTON_THUMB_L, K.BUTTON_THUMB_R].Pairwise
      (fun a b => a &&& b = 0)
  ∧ [K.MISC_BUTTON_SYSTEM, K.MISC_BUTTON_BACK, K.MISC_BUTTON_HOME].Pairwise
      (fun a b => a &&& b = 0)

instance (K : Consts) : Decidable K.button_masks_disjoint := by
  unfold Consts.button_masks_disjoint
  infer_instance

/-- The masks of the digital buttons of the Button page of a decoder table
share no bit when they live in the same field. -/
def buttons_compatible (K : Consts) (b1 b2 : ButtonMap) : Prop :=
  b1.usage_page = K.HID_USAGE_PAGE_BUTTON → b2.usage_page = K.HID_USAGE_PAGE_BUTTON →
    b1.usage ≠ b2.usage → b1.misc = b2.misc → b1.mask &&& b2.mask = 0

/-! ## Hat switch to dpad (`uni_hid_parser.c`) -/

/-- Modelled from the spec: the hat-switch to dpad converter
`uni_hid_parser_hat_to_dpad` of `uni_hid_parser.c`, which is not among the
sources. The 8 discrete hat positions, in the hat's own encoding `0..7`
clockwise from north, give N, NE, E, SE, S, SW, W, NW as masks of the 4-bit
dpad, without interpolation; any other code gives neutral (no direction). -/
def uni_hid_parser_hat_to_dpad (K : Consts) (hat : Nat) : Nat :=
  if hat = 0 then K.DPAD_UP
  else if hat = 1 then K.DPAD_UP ||| K.DPAD_RIGHT
  else if hat = 2 then K.DPAD_RIGHT
  else if hat = 3 then K.DPAD_RIGHT ||| K.DPAD_DOWN
  else if hat = 4 then K.DPAD_DOWN
  else if hat = 5 then K.DPAD_DOWN ||| K.DPAD_LEFT
  else if hat = 6 then K.DPAD_LEFT
  else if hat = 7 then K.DPAD_LEFT ||| K.DPAD_UP
  else 0

/-! ## Kinds of packets -/

/-- The packet is an HCI event of type `BTSTACK_EVENT_STATE`: the test
`packet_type == HCI_EVENT_PACKET && hci_event_packet_get_type(packet) ==
BTSTACK_EVENT_STATE` of `packet_handler`. -/
def bt_packet.is_state_event : bt_packet → Bool
  | .HCI_EVENT_PACKET _ (.BTSTACK_EVENT_STATE _) => true
  | _ => false

/-- The packet is a `BTSTACK_EVENT_STATE` event whose state is
`HCI_STATE_WORKING`. -/
def bt_packet.is_working_state_event : bt_packet → Bool
  | .HCI_EVENT_PACKET _ (.BTSTACK_EVENT_STATE hci_state_working) => hci_state_working
  | _ => false

/-- A choice of the collaborator functions in which
`uni_hid_device_request_inquire` (in `uni_hid_device.c`, not among the sources)
queues the name requests again: every device in state `REMOTE_NAME_INQUIRED`
goes back to `REMOTE_NAME_REQUEST`. The other functions are those of
`sample_collab`. -/
def requeue_collab : Collab :=
  { sample_collab with
    uni_hid_device_request_inquire := fun ds =>
      ds.map (fun d =>
        if d.state = .REMOTE_NAME_INQUIRED then uni_hid_device_set_state d .REMOTE_NAME_REQUEST
        else d) }

/-! # Properties -/

/-! ## Bit masks -/

theorem testBit_and_not (x m i : Nat) :
    (and_not x m).testBit i = (x.testBit i && !m.testBit i) := by
  unfold and_not
  rw [Nat.testBit_xor, Nat.testBit_and]
  cases x.testBit i <;> cases m.testBit i <;> rfl

/-! ## Dirty mask: reset by the full-state decoders, kept by the delta decoder -/

/-- C1: `uni_hid_parser_android_init_report` and `uni_hid_parser_ps4_init_report`
set `updated_states` to 0 and change nothing else (putting the old dirty mask
back gives the device as it was); so whatever `parse_usage` calls made up the
previous report, the dirty mask is empty before the first call of the next
report. -/
theorem init_report_resets_updated_states {G : Type} (K : Consts) (H : Helpers G)
    (d : uni_hid_device_t) (prev : List (UsageCall G)) :
    ((uni_hid_parser_android_init_report d).gamepad.updated_states = 0
      ∧ { uni_hid_parser_android_init_report d with
            gamepad := { (uni_hid_parser_android_init_report d).gamepad with
                          updated_states := d.gamepad.updated_states } } = d)
    ∧ ((uni_hid_parser_ps4_init_report d).gamepad.updated_states = 0
      ∧ { uni_hid_parser_ps4_init_report d with
            gamepad := { (uni_hid_parser_ps4_init_report d).gamepad with
                          updated_states := d.gamepad.updated_states } } = d)
    ∧ (uni_hid_parser_android_init_report
          (android_parse_all K H d prev)).gamepad.updated_states = 0
    ∧ (uni_hid_parser_ps4_init_report (ps4_parse_all K H d prev)).gamepad.updated_states = 0 :=
  ⟨⟨rfl, rfl⟩, ⟨rfl, rfl⟩, rfl, rfl⟩

/-- The dirty mask after an iCade `parse_usage` call is the mask before, OR-ed
with what the same call leaves in an empty mask. -/
theorem icade_parse_updated_states {G : Type} (K : Consts) (gp gp0 : uni_gamepad_t) (g : G)
    (p u : Nat) (v : Int) :
    (uni_hid_parser_icade_parse_usage K gp g p u v).updated_states
      = gp.updated_states |||
        (uni_hid_parser_icade_parse_usage K { gp0 with updated_states := 0 } g p u v).updated_states := by
  unfold uni_hid_parser_icade_parse_usage
  simp only [apply_ite uni_gamepad_t.updated_states, apply_ite (HOr.hOr gp.updated_states),
    Nat.zero_or, Nat.or_zero]

/-- One iCade step ORs its dirty bits into the mask. -/
theorem icade_step_updated_states {G : Type} (K : Consts) (gp : uni_gamepad_t)
    (st : IcadeStep G) :
    (icade_step K gp st).updated_states = gp.updated_states ||| icade_step_dirty K st := by
  cases st with
  | init => simp only [icade_step, icade_step_dirty, uni_hid_parser_icade_init, Nat.or_zero]
  | parse c => exact icade_parse_updated_states K gp {} c.globals c.usage_page c.usage c.value

/-- C2: for the iCade decoder, after any sequence of `parse_usage` calls, with
`uni_hid_parser_icade_init` called any number of times before or between them,
`updated_states` is the mask before the sequence OR-ed with the dirty bits of
each call; `uni_hid_parser_icade_init` returns the gamepad unchanged. -/
theorem icade_updated_states_is_union {G : Type} (K : Consts) (gp : uni_gamepad_t)
    (steps : List (IcadeStep G)) :
    (icade_run K gp steps).updated_states
        = steps.foldl (fun acc st => acc ||| icade_step_dirty K st) gp.updated_states
    ∧ ∀ g : uni_gamepad_t, uni_hid_parser_icade_init g = g := by
  refine ⟨?_, fun _ => rfl⟩
  unfold icade_run
  induction steps generalizing gp with
  | nil => rfl
  | cons st rest ih =>
    rw [List.foldl_cons, List.foldl_cons, ih, icade_step_updated_states]

/-- Clearing a mask that was just set is the same as clearing it. -/
theorem and_not_or_self (x m : Nat) : and_not (x ||| m) m = and_not x m := by
  apply Nat.eq_of_testBit_eq
  intro i
  simp only [testBit_and_not, Nat.testBit_or]
  cases x.testBit i <;> cases m.testBit i <;> rfl

/-- Clearing a mask no bit of which is set changes nothing. -/
theorem and_not_of_and_eq_zero (x m : Nat) (h : x &&& m = 0) : and_not x m = x := by
  unfold and_not
  rw [h, Nat.xor_zero]

/-- The bits of `x ||| 2 ^ k` and of `and_not x (2 ^ k)`: bit `k` is set,
respectively cleared, and every other bit is the bit of `x`. -/
theorem testBit_set_or_clear (x k i : Nat) (v : Int) :
    (if v ≠ 0 then x ||| 2 ^ k else and_not x (2 ^ k)).testBit i
      = if i = k then decide (v ≠ 0) else x.testBit i := by
  by_cases hv : v = 0 <;> by_cases hi : i = k
  · subst hi; simp [hv, testBit_and_not, Nat.testBit_two_pow_self]
  · have : ¬ k = i := fun h => hi h.symm
    simp [hv, hi, this, testBit_and_not, Nat.testBit_two_pow]
  · subst hi; simp [hv, Nat.testBit_or, Nat.testBit_two_pow_self]
  · have : ¬ k = i := fun h => hi h.symm
    simp [hv, hi, this, Nat.testBit_or, Nat.testBit_two_pow]

/-! ## Which case a usage selects -/

/-- Distinct case labels, with each label compared to the labels that come
before it in its `switch`: the form in which the `if` chains use them. -/
theorem Consts.labels_distinct.facts {K : Consts} (hK : K.labels_distinct) :
    (K.HID_USAGE_PAGE_BUTTON ≠ K.HID_USAGE_PAGE_GENERIC_DESKTOP
      ∧ K.HID_USAGE_PAGE_BUTTON ≠ K.HID_USAGE_PAGE_SIMULATION_CONTROLS
      ∧ K.HID_USAGE_PAGE_BUTTON ≠ K.HID_USAGE_PAGE_GENERIC_DEVICE_CONTROLS
      ∧ K.HID_USAGE_PAGE_CONSUMER ≠ K.HID_USAGE_PAGE_GENERIC_DESKTOP
      ∧ K.HID_USAGE_PAGE_CONSUMER ≠ K.HID_USAGE_PAGE_SIMULATION_CONTROLS
      ∧ K.HID_USAGE_PAGE_CONSUMER ≠ K.HID_USAGE_PAGE_GENERIC_DEVICE_CONTROLS
      ∧ K.HID_USAGE_PAGE_CONSUMER ≠ K.HID_USAGE_PAGE_BUTTON
      ∧ K.HID_USAGE_PAGE_GENERIC_DEVICE_CONTROLS ≠ K.HID_USAGE_PAGE_GENERIC_DESKTOP
      ∧ K.HID_USAGE_PAGE_GENERIC_DEVICE_CONTROLS ≠ K.HID_USAGE_PAGE_SIMULATION_CONTROLS)
    ∧ (K.HID_USAGE_AC_HOME ≠ K.HID_USAGE_FAST_FORWARD
      ∧ K.HID_USAGE_AC_HOME ≠ K.HID_USAGE_REWIND
      ∧ K.HID_USAGE_AC_HOME ≠ K.HID_USAGE_PLAY_PAUSE
      ∧ K.HID_USAGE_AC_HOME ≠ K.HID_USAGE_AC_SEARCH
      ∧ K.HID_USAGE_AC_BACK ≠ K.HID_USAGE_FAST_FORWARD
      ∧ K.HID_USAGE_AC_BACK ≠ K.HID_USAGE_REWIND
      ∧ K.HID_USAGE_AC_BACK ≠ K.HID_USAGE_PLAY_PAUSE
      ∧ K.HID_USAGE_AC_BACK ≠ K.HID_USAGE_AC_SEARCH
      ∧ K.HID_USAGE_AC_BACK ≠ K.HID_USAGE_AC_HOME)
    ∧ (K.HID_USAGE_SYSTEM_MAIN_MENU ≠ K.HID_USAGE_AXIS_X
      ∧ K.HID_USAGE_SYSTEM_MAIN_MENU ≠ K.HID_USAGE_AXIS_Y
      ∧ K.HID_USAGE_SYSTEM_MAIN_MENU ≠ K.HID_USAGE_AXIS_Z
      ∧ K.HID_USAGE_SYSTEM_MAIN_MENU ≠ K.HID_USAGE_AXIS_RX
      ∧ K.HID_USAGE_SYSTEM_MAIN_MENU ≠ K.HID_USAGE_AXIS_RY
      ∧ K.HID_USAGE_SYSTEM_MAIN_MENU ≠ K.HID_USAGE_AXIS_RZ
      ∧ K.HID_USAGE_SYSTEM_MAIN_MENU ≠ K.HID_USAGE_HAT) := by
  obtain ⟨hP, hU, -, hC⟩ := hK
  replace hP := List.nodup_reverse.mpr hP
  replace hU := List.nodup_reverse.mpr hU
  replace hC := List.nodup_reverse.mpr hC
  simp only [List.reverse_cons, List.reverse_nil, List.nil_append, List.cons_append,
    List.nodup_cons, List.mem_cons, List.mem_singleton,
    List.not_mem_nil, not_or, List.nodup_nil, or_false, and_true, not_false_eq_true] at hP hU hC
  simp only [ne_eq, hP, hU, hC, not_false_eq_true, and_self]

/-- A digital button usage of the Android decoder selects its own case. -/
theorem android_button_case {G : Type} (K : Consts) (H : Helpers G) (hK : K.labels_distinct)
    (b : ButtonMap) (hb : b ∈ android_buttons K) (gp : uni_gamepad_t) (g : G) (v : Int) :
    android_parse_usage_gp K H gp g b.usage_page b.usage v = b.apply v gp := by
  obtain ⟨hP, hC, -⟩ := hK.facts
  simp only [android_buttons, List.mem_cons, List.mem_singleton, List.not_mem_nil, or_false] at hb
  rcases hb with rfl | rfl | rfl | rfl | rfl | rfl | rfl | rfl | rfl | rfl | rfl <;>
    simp +decide only [android_parse_usage_gp, ButtonMap.apply, hP, hC,
      Bool.false_eq_true, if_false, if_true]

/-- A digital button usage of the PS4 decoder selects its own case. -/
theorem ps4_button_case {G : Type} (K : Consts) (H : Helpers G) (hK : K.labels_distinct)
    (b : ButtonMap) (hb : b ∈ ps4_buttons K) (gp : uni_gamepad_t) (g : G) (v : Int) :
    ps4_parse_usage_gp K H gp g b.usage_page b.usage v = b.apply v gp := by
  obtain ⟨hP, -, hU⟩ := hK.facts
  simp only [ps4_buttons, List.mem_cons, List.mem_singleton, List.not_mem_nil, or_false] at hb
  rcases hb with rfl | rfl | rfl | rfl | rfl | rfl | rfl | rfl | rfl | rfl | rfl | rfl | rfl | rfl <;>
    simp +decide only [ps4_parse_usage_gp, ButtonMap.apply, hP, hU,
      Bool.false_eq_true, if_false, if_true]

/-- A pair that is no case label of the Android decoder reaches a `default:`. -/
theorem android_unknown_usage {G : Type} (K : Consts) (H : Helpers G) (gp : uni_gamepad_t)
    (g : G) (page usage : Nat) (v : Int) (h : (page, usage) ∉ android_usage_table K) :
    android_parse_usage_gp K H gp g page usage v = gp := by
  simp only [android_usage_table, List.map_cons, List.map_nil, List.mem_append, List.mem_cons,
    List.mem_singleton, List.not_mem_nil, or_false, Prod.mk.injEq, not_or, not_and] at h
  unfold android_parse_usage_gp
  by_cases h1 : page = K.HID_USAGE_PAGE_GENERIC_DESKTOP
  · subst h1
    simp only [forall_const, true_implies] at h
    simp only [h, if_true, if_false, or_self]
  by_cases h2 : page = K.HID_USAGE_PAGE_SIMULATION_CONTROLS
  · subst h2
    simp only [forall_const, true_implies] at h
    simp only [h1, h, if_true, if_false, or_self]
  by_cases h3 : page = K.HID_USAGE_PAGE_GENERIC_DEVICE_CONTROLS
  · subst h3
    simp only [forall_const, true_implies] at h
    simp only [h1, h2, h, if_true, if_false, or_self]
  by_cases h4 : page = K.HID_USAGE_PAGE_BUTTON
  · subst h4
    simp only [forall_const, true_implies] at h
    simp only [h1, h2, h3, h, if_true, if_false, or_self]
  by_cases h5 : page = K.HID_USAGE_PAGE_CONSUMER
  · subst h5
    simp only [forall_const, true_implies] at h
    simp only [h1, h2, h3, h4, h, if_true, if_false, or_self]
  simp only [h1, h2, h3, h4, h5, if_false]

/-- A pair that is no case label of the PS4 decoder reaches a `default:`. -/
theorem ps4_unknown_usage {G : Type} (K : Consts) (H : Helpers G) (gp : uni_gamepad_t)
    (g : G) (page usage : Nat) (v : Int) (h : (page, usage) ∉ ps4_usage_table K) :
    ps4_parse_usage_gp K H gp g page usage v = gp := by
  simp only [ps4_usage_table, List.map_cons, List.map_nil, List.mem_append, List.mem_cons,
    List.mem_singleton, List.not_mem_nil, or_false, Prod.mk.injEq, not_or, not_and] at h
  unfold ps4_parse_usage_gp
  by_cases h1 : page = K.HID_USAGE_PAGE_GENERIC_DESKTOP
  · subst h1
    simp only [forall_const, true_implies] at h
    simp only [h, if_true, if_false, or_self]
  by_cases h2 : page = K.HID_USAGE_PAGE_GENERIC_DEVICE_CONTROLS
  · subst h2
    simp only [forall_const, true_implies] at h
    simp only [h1, h, if_true, if_false, or_self]
  by_cases h3 : page = K.HID_USAGE_PAGE_BUTTON
  · subst h3
    simp only [forall_const, true_implies] at h
    simp only [h1, h2, h, if_true, if_false, or_self]
  simp only [h1, h2, h3, if_false]

/-- A pair that is no case label of the iCade decoder reaches the inner
`default:` or falls out of the outer `switch`, which has no `default:`. -/
theorem icade_unknown_usage {G : Type} (K : Consts) (gp : uni_gamepad_t)
    (g : G) (page usage : Nat) (v : Int) (h : (page, usage) ∉ icade_usage_table K) :
    uni_hid_parser_icade_parse_usage K gp g page usage v = gp := by
  simp only [icade_usage_table, List.map_cons, List.map_nil, List.mem_append, List.mem_cons,
    List.mem_singleton, List.not_mem_nil, or_false, Prod.mk.injEq, not_or, not_and] at h
  unfold uni_hid_parser_icade_parse_usage
  by_cases h1 : page = K.HID_USAGE_PAGE_KEYBOARD_KEYPAD
  · subst h1
    simp only [forall_const, true_implies] at h
    simp only [h, if_true, if_false, or_self]
  simp only [h1, if_false]

/-! ## Digital buttons -/

/-- C4: every digital button usage of the Android and PS4 decoders (Button
page usages, AC Home / AC Back for Android, System Main Menu for PS4), called
with value `v`, runs `if (v) field |= mask; else field &= ~mask;` on `buttons`
or `misc_buttons` and ORs the dirty flag of that button into `updated_states`,
leaving every other field as it was; with `mask` the single bit `2 ^ k`, bit
`k` becomes `v ≠ 0` and every other bit of the field is unchanged. -/
theorem digital_button_changes_one_bit {G : Type} (K : Consts) (H : Helpers G)
    (hK : K.labels_distinct) (b : ButtonMap) (k : Nat) (hk : b.mask = 2 ^ k)
    (d : uni_hid_device_t) (g : G) (v : Int) :
    (b ∈ android_buttons K →
      uni_hid_parser_android_parse_usage K H d g b.usage_page b.usage v
        = { d with gamepad := b.apply v d.gamepad })
    ∧ (b ∈ ps4_buttons K →
      uni_hid_parser_ps4_parse_usage K H d g b.usage_page b.usage v
        = { d with gamepad := b.apply v d.gamepad })
    ∧ (∀ i, (b.field (b.apply v d.gamepad)).testBit i
        = if i = k then decide (v ≠ 0) else (b.field d.gamepad).testBit i)
    ∧ (b.apply v d.gamepad).updated_states = d.gamepad.updated_states ||| b.dirty
    ∧ (if b.misc then
        { b.apply v d.gamepad with misc_buttons := d.gamepad.misc_buttons,
                                   updated_states := d.gamepad.updated_states }
       else
        { b.apply v d.gamepad with buttons := d.gamepad.buttons,
                                   updated_states := d.gamepad.updated_states }) = d.gamepad := by
  refine ⟨fun hb => ?_, fun hb => ?_, fun i => ?_, ?_, ?_⟩
  · simp only [uni_hid_parser_android_parse_usage, android_button_case K H hK b hb]
  · simp only [uni_hid_parser_ps4_parse_usage, ps4_button_case K H hK b hb]
  · unfold ButtonMap.field ButtonMap.apply
    cases b.misc <;> simp only [Bool.false_eq_true, if_false, if_true, hk] <;>
      exact testBit_set_or_clear _ k i v
  · unfold ButtonMap.apply
    cases b.misc <;> simp only [Bool.false_eq_true, if_false, if_true]
  · unfold ButtonMap.apply
    cases b.misc <;> simp only [Bool.false_eq_true, if_false, if_true]

/-- Button A of the Android decoder pressed on a concrete state. -/
theorem digital_button_changes_one_bit_witness :
    sample_consts.labels_distinct
    ∧ uni_hid_parser_android_parse_usage sample_consts sample_helpers
        { gamepad := { buttons := 6 } } () 0x09 0x01 1
      = { gamepad := { buttons := 7, updated_states := 2 ^ 10 } } :=
  ⟨by decide,
   ((digital_button_changes_one_bit sample_consts sample_helpers (by decide)
      ⟨0x09, 0x01, false, 1, 2 ^ 10⟩ 0 rfl { gamepad := { buttons := 6 } } () 1).1
      (by decide)).trans (by decide)⟩

/-! ## Unknown usages -/

/-- C5: for each of the three decoders, a `(usage_page, usage)` pair that is not
among the case labels of the decoder (an unknown page, or an unknown usage of a
known page) leaves the state exactly as it was, `updated_states` included,
for every value and every globals; the call is total and reports no error. -/
theorem unknown_usage_is_ignored {G : Type} (K : Consts) (H : Helpers G)
    (d : uni_hid_device_t) (gp : uni_gamepad_t) (g : G) (page usage : Nat) (v : Int) :
    ((page, usage) ∉ android_usage_table K →
      uni_hid_parser_android_parse_usage K H d g page usage v = d)
    ∧ ((page, usage) ∉ ps4_usage_table K →
      uni_hid_parser_ps4_parse_usage K H d g page usage v = d)
    ∧ ((page, usage) ∉ icade_usage_table K →
      uni_hid_parser_icade_parse_usage K gp g page usage v = gp) := by
  refine ⟨fun h => ?_, fun h => ?_, fun h => ?_⟩
  · simp only [uni_hid_parser_android_parse_usage, android_unknown_usage K H _ g page usage v h]
  · simp only [uni_hid_parser_ps4_parse_usage, ps4_unknown_usage K H _ g page usage v h]
  · exact icade_unknown_usage K gp g page usage v h

/-- An unknown usage (0x20) of the Button page on the Android decoder. -/
theorem unknown_usage_is_ignored_witness :
    (0x09, 0x20) ∉ android_usage_table sample_consts
    ∧ uni_hid_parser_android_parse_usage sample_consts sample_helpers
        { gamepad := { buttons := 6, updated_states := 5 } } () 0x09 0x20 1
      = { gamepad := { buttons := 6, updated_states := 5 } } :=
  ⟨by decide,
   (unknown_usage_is_ignored sample_consts sample_helpers
      { gamepad := { buttons := 6, updated_states := 5 } } {} () 0x09 0x20 1).1 (by decide)⟩

/-! ## Button round trip -/

/-- C3 as stated fails: on the Android decoder, with Button A (usage 0x01 of
the Button page) already pressed in the state, value 1 then value 0 leaves
`buttons` with the bit cleared, not equal to the `buttons` before. -/
theorem button_round_trip_fails_when_pressed :
    (uni_hid_parser_android_parse_usage sample_consts sample_helpers
      (uni_hid_parser_android_parse_usage sample_consts sample_helpers
        { gamepad := { buttons := sample_consts.BUTTON_A } } () 0x09 0x01 1)
      () 0x09 0x01 0).gamepad.buttons = 0
    ∧ ({ gamepad := { buttons := sample_consts.BUTTON_A } } : uni_hid_device_t).gamepad.buttons
        = 1
    ∧ (uni_hid_parser_android_parse_usage sample_consts sample_helpers
        (uni_hid_parser_android_parse_usage sample_consts sample_helpers
          { gamepad := { buttons := sample_consts.BUTTON_A } } () 0x09 0x01 1)
        () 0x09 0x01 0).gamepad.buttons
      ≠ ({ gamepad := { buttons := sample_consts.BUTTON_A } } : uni_hid_device_t).gamepad.buttons := by
  decide

/-- C3 (amended): for every digital button of the Android or the PS4 decoder
whose bit is clear in `buttons` beforehand (the button is not already
pressed), `parse_usage` with value 1 and then with value 0 leaves `buttons`
equal to its value before the two calls. -/
theorem button_press_release_round_trip {G : Type} (K : Consts) (H : Helpers G)
    (hK : K.labels_distinct) (b : ButtonMap) (d : uni_hid_device_t) (g1 g2 : G)
    (hclear : b.misc = false → d.gamepad.buttons &&& b.mask = 0) :
    (b ∈ android_buttons K →
      (uni_hid_parser_android_parse_usage K H
        (uni_hid_parser_android_parse_usage K H d g1 b.usage_page b.usage 1)
        g2 b.usage_page b.usage 0).gamepad.buttons = d.gamepad.buttons)
    ∧ (b ∈ ps4_buttons K →
      (uni_hid_parser_ps4_parse_usage K H
        (uni_hid_parser_ps4_parse_usage K H d g1 b.usage_page b.usage 1)
        g2 b.usage_page b.usage 0).gamepad.buttons = d.gamepad.buttons) := by
  have key : ((b.apply 0 (b.apply 1 d.gamepad)).buttons = d.gamepad.buttons) := by
    unfold ButtonMap.apply
    cases hm : b.misc
    · simp only [Bool.false_eq_true, if_false, ne_eq, one_ne_zero, not_false_eq_true, if_true,
        not_true_eq_false, and_not_or_self]
      exact and_not_of_and_eq_zero _ _ (hclear hm)
    · simp only [if_true]
  constructor
  · intro hb
    simp only [uni_hid_parser_android_parse_usage, android_button_case K H hK b hb]
    exact key
  · intro hb
    simp only [uni_hid_parser_ps4_parse_usage, ps4_button_case K H hK b hb]
    exact key

/-- The round trip on a concrete state: Button A released, other buttons held. -/
theorem button_press_release_round_trip_witness :
    sample_consts.labels_distinct
    ∧ (uni_hid_parser_android_parse_usage sample_consts sample_helpers
        (uni_hid_parser_android_parse_usage sample_consts sample_helpers
          { gamepad := { buttons := 6 } } () 0x09 0x01 1)
        () 0x09 0x01 0).gamepad.buttons = 6 :=
  ⟨by decide,
   (button_press_release_round_trip sample_consts sample_helpers (by decide)
      ⟨0x09, 0x01, false, 1, 2 ^ 10⟩ { gamepad := { buttons := 6 } } () ()
      (fun _ => by decide)).1 (by decide)⟩

/-! ## Dirty flags mark the fields written -/

/-- Two `if` chains over the same condition are related as soon as their
branches are. -/
theorem ite_rel {α β : Type} (P : α → β → Prop) (c : Prop) [Decidable c] {a a' : α} {b b' : β}
    (h1 : P a b) (h2 : P a' b') : P (if c then a else a') (if c then b else b') := by
  by_cases h : c
  · rw [if_pos h, if_pos h]; exact h1
  · rw [if_neg h, if_neg h]; exact h2

/-- The table `android_written` covers what an Android `parse_usage` call changes. -/
theorem android_written_confines {G : Type} (K : Consts) (H : Helpers G) (gp : uni_gamepad_t)
    (g : G) (p u : Nat) (v : Int) :
    written_confines (android_written K p u) gp (android_parse_usage_gp K H gp g p u v) := by
  unfold android_written android_parse_usage_gp
  repeat' refine ite_rel (fun w r => written_confines w gp r) _ ?_ ?_
  all_goals rfl

/-- The table `ps4_written` covers what a PS4 `parse_usage` call changes. -/
theorem ps4_written_confines {G : Type} (K : Consts) (H : Helpers G) (gp : uni_gamepad_t)
    (g : G) (p u : Nat) (v : Int) :
    written_confines (ps4_written K p u) gp (ps4_parse_usage_gp K H gp g p u v) := by
  unfold ps4_written ps4_parse_usage_gp
  repeat' refine ite_rel (fun w r => written_confines w gp r) _ ?_ ?_
  all_goals rfl

/-- One Android `parse_usage` call ORs the flag of the field it writes. -/
theorem android_updated_states {G : Type} (K : Consts) (H : Helpers G) (gp : uni_gamepad_t)
    (g : G) (p u : Nat) (v : Int) :
    (android_parse_usage_gp K H gp g p u v).updated_states
      = gp.updated_states ||| written_flag K (android_written K p u) := by
  unfold android_parse_usage_gp android_written
  simp only [apply_ite uni_gamepad_t.updated_states, apply_ite (written_flag K),
    apply_ite (HOr.hOr gp.updated_states)]
  simp only [written_flag, dirty_flag, Option.getD_some, Option.getD_none, Nat.or_zero]

/-- One PS4 `parse_usage` call ORs the flag of the field it writes. -/
theorem ps4_updated_states {G : Type} (K : Consts) (H : Helpers G) (gp : uni_gamepad_t)
    (g : G) (p u : Nat) (v : Int) :
    (ps4_parse_usage_gp K H gp g p u v).updated_states
      = gp.updated_states ||| written_flag K (ps4_written K p u) := by
  unfold ps4_parse_usage_gp ps4_written
  simp only [apply_ite uni_gamepad_t.updated_states, apply_ite (written_flag K),
    apply_ite (HOr.hOr gp.updated_states)]
  simp only [written_flag, dirty_flag, Option.getD_some, Option.getD_none, Nat.or_zero]

/-- A bit of a mask built by OR-ing flags into `u0` comes from `u0` or from
one of the flags. -/
theorem testBit_foldl_or {α : Type} (fl : α → Nat) (ws : List α) (u0 i : Nat) :
    (ws.foldl (fun acc w => acc ||| fl w) u0).testBit i = true
      ↔ u0.testBit i = true ∨ ∃ w ∈ ws, (fl w).testBit i = true := by
  induction ws generalizing u0 with
  | nil => simp
  | cons w rest ih =>
    rw [List.foldl_cons, ih, Nat.testBit_or, Bool.or_eq_true]
    constructor
    · rintro ((h | h) | ⟨x, hx, h⟩)
      · exact Or.inl h
      · exact Or.inr ⟨w, List.mem_cons_self _ _, h⟩
      · exact Or.inr ⟨x, List.mem_cons_of_mem _ hx, h⟩
    · rintro (h | ⟨x, hx, h⟩)
      · exact Or.inl (Or.inl h)
      · rcases List.mem_cons.mp hx with rfl | hx
        · exact Or.inl (Or.inr h)
        · exact Or.inr ⟨x, hx, h⟩

/-- With non-zero, pairwise disjoint dirty flags, the flag of a field is set in
a mask built from an empty one by OR-ing the flags of written fields exactly
when the field is among those written. -/
theorem flag_set_iff_written {α : Type} (K : Consts) (hD : K.dirty_flags_disjoint)
    (wr : α → Option Field) (ws : List α) (f : Field) (m : Nat) (hf : dirty_flag K f = some m) :
    (∃ w ∈ ws, wr w = some f)
      ↔ (ws.foldl (fun acc w => acc ||| written_flag K (wr w)) 0) &&& m = m := by
  constructor
  · rintro ⟨w, hw, hwf⟩
    apply Nat.eq_of_testBit_eq
    intro i
    rw [Nat.testBit_and]
    cases hm : m.testBit i
    · simp
    · have : (ws.foldl (fun acc w => acc ||| written_flag K (wr w)) 0).testBit i = true :=
        (testBit_foldl_or _ ws 0 i).mpr
          (Or.inr ⟨w, hw, by simp only [hwf, written_flag, hf, Option.getD_some, hm]⟩)
      simp [this]
  · intro h
    have hm0 : m ≠ 0 := (hD f f m hf m hf).1
    obtain ⟨i, hi⟩ := Nat.ne_zero_implies_bit_true hm0
    have hU : (ws.foldl (fun acc w => acc ||| written_flag K (wr w)) 0).testBit i = true := by
      have := congrArg (fun x => x.testBit i) h
      simp only [Nat.testBit_and, hi, Bool.and_true] at this
      exact this
    rcases (testBit_foldl_or _ ws 0 i).mp hU with h0 | ⟨w, hw, hbit⟩
    · simp at h0
    · refine ⟨w, hw, ?_⟩
      cases hww : wr w with
      | none => simp [hww, written_flag] at hbit
      | some f' =>
        cases hf' : dirty_flag K f' with
        | none => simp [hww, written_flag, hf'] at hbit
        | some n =>
          simp only [hww, written_flag, hf', Option.getD_some] at hbit
          by_contra hne
          have hne' : f ≠ f' := fun e => hne (by rw [e])
          have hz := (hD f f' m hf n hf').2 hne'
          have := congrArg (fun x => x.testBit i) hz
          simp [Nat.testBit_and, hi, hbit] at this

/-- The dirty mask after a run of the Android decoder. -/
theorem android_parse_all_updated_states {G : Type} (K : Consts) (H : Helpers G)
    (d : uni_hid_device_t) (calls : List (UsageCall G)) :
    (android_parse_all K H d calls).gamepad.updated_states
      = calls.foldl (fun acc c => acc ||| written_flag K (android_written K c.usage_page c.usage))
          d.gamepad.updated_states := by
  unfold android_parse_all
  induction calls generalizing d with
  | nil => rfl
  | cons c rest ih =>
    rw [List.foldl_cons, List.foldl_cons, ih]
    simp only [uni_hid_parser_android_parse_usage, android_updated_states]

/-- The dirty mask after a run of the PS4 decoder. -/
theorem ps4_parse_all_updated_states {G : Type} (K : Consts) (H : Helpers G)
    (d : uni_hid_device_t) (calls : List (UsageCall G)) :
    (ps4_parse_all K H d calls).gamepad.updated_states
      = calls.foldl (fun acc c => acc ||| written_flag K (ps4_written K c.usage_page c.usage))
          d.gamepad.updated_states := by
  unfold ps4_parse_all
  induction calls generalizing d with
  | nil => rfl
  | cons c rest ih =>
    rw [List.foldl_cons, List.foldl_cons, ih]
    simp only [uni_hid_parser_ps4_parse_usage, ps4_updated_states]

/-- C7: while device `A` is the current SDP-query device,
`sdp_query_hid_descriptor` for any device `B` returns without doing anything:
no service query is issued, the current SDP-query device is still `A`, and no
field of `A` or `B` (nor anything else in the state) has changed. -/
theorem sdp_query_hid_descriptor_busy (status A B : Nat) (s : bt_state)
    (h : s.current_device = some A) :
    sdp_query_hid_descriptor status B s = s
    ∧ (sdp_query_hid_descriptor status B s).calls = s.calls
    ∧ (sdp_query_hid_descriptor status B s).current_device = some A
    ∧ (sdp_query_hid_descriptor status B s).device A = s.device A
    ∧ (sdp_query_hid_descriptor status B s).device B = s.device B := by
  have e : sdp_query_hid_descriptor status B s = s := by
    simp only [sdp_query_hid_descriptor, uni_hid_device_get_current_device, h]
  rw [e]
  exact ⟨rfl, rfl, h, rfl, rfl⟩

/-- Device 1 asks for its descriptor while the query of device 0 is in flight. -/
theorem sdp_query_hid_descriptor_busy_witness :
    sdp_query_hid_descriptor 0 1
        { devices := [{ address := 0xAABBCCDDEEFF }, { address := 0x112233445566 }],
          current_device := some 0 }
      = { devices := [{ address := 0xAABBCCDDEEFF }, { address := 0x112233445566 }],
          current_device := some 0 } :=
  (sdp_query_hid_descriptor_busy 0 0 1
    { devices := [{ address := 0xAABBCCDDEEFF }, { address := 0x112233445566 }],
      current_device := some 0 } rfl).1

/-- Setting descriptors through a device pointer leaves the buffer, the token
and the calls as they are. -/
theorem foldl_update_device_frame (device : Nat)
    (f : uni_hid_device_t → List Nat → uni_hid_device_t) (ds : List (List Nat)) (s : bt_state) :
    (ds.foldl (fun s x => s.update_device device (f · x)) s).attribute_value = s.attribute_value
    ∧ (ds.foldl (fun s x => s.update_device device (f · x)) s).current_device = s.current_device
    ∧ (ds.foldl (fun s x => s.update_device device (f · x)) s).calls = s.calls := by
  induction ds generalizing s with
  | nil => exact ⟨rfl, rfl, rfl⟩
  | cons x rest ih =>
    rw [List.foldl_cons]
    obtain ⟨h1, h2, h3⟩ := ih (s.update_device device (f · x))
    exact ⟨h1, h2, h3⟩

/-- C8 as stated fails: with device 0 holding the token, an attribute-value
event reporting 513 bytes leaves the state as it was in both handlers; the
token is still held by device 0, not released. -/
theorem oversized_attribute_keeps_token :
    handle_sdp_hid_query_result sample_collab 0
        { type := .SDP_EVENT_QUERY_ATTRIBUTE_VALUE, attribute_length := 513, data := 7 }
        { devices := [{ address := 0xAABBCCDDEEFF }], current_device := some 0 }
      = .ok { devices := [{ address := 0xAABBCCDDEEFF }], current_device := some 0 }
    ∧ handle_sdp_pid_query_result sample_collab
        { type := .SDP_EVENT_QUERY_ATTRIBUTE_VALUE, attribute_length := 513, data := 7 }
        { devices := [{ address := 0xAABBCCDDEEFF }], current_device := some 0 }
      = .ok { devices := [{ address := 0xAABBCCDDEEFF }], current_device := some 0 }
    ∧ ({ devices := [{ address := 0xAABBCCDDEEFF }], current_device := some 0 }
        : bt_state).current_device ≠ none := by
  refine ⟨rfl, rfl, ?_⟩
  decide

/-- C8 (amended): when either SDP result handler receives an attribute-value
event whose reported attribute length exceeds 512, nothing is written to the
attribute buffer and nothing else changes either: the event is only logged,
and the current SDP-query device stays what it was. -/
theorem oversized_attribute_changes_nothing (C : Collab) (status : Nat) (packet : sdp_packet)
    (s : bt_state) (ht : packet.type = .SDP_EVENT_QUERY_ATTRIBUTE_VALUE)
    (hlen : MAX_ATTRIBUTE_VALUE_SIZE < packet.attribute_length) :
    handle_sdp_hid_query_result C status packet s = .ok s
    ∧ handle_sdp_pid_query_result C packet s = .ok s := by
  have hn : ¬ packet.attribute_length ≤ attribute_value_buffer_size := by
    unfold attribute_value_buffer_size; omega
  constructor
  · unfold handle_sdp_hid_query_result
    cases hc : uni_hid_device_get_current_device s with
    | none => rfl
    | some device => simp only [ht, hn, if_false]
  · unfold handle_sdp_pid_query_result
    cases hc : uni_hid_device_get_current_device s with
    | none => rfl
    | some device => simp only [ht, hn, if_false]

/-- An attribute-value event reporting 600 bytes, with device 0 holding the token. -/
theorem oversized_attribute_changes_nothing_witness :
    MAX_ATTRIBUTE_VALUE_SIZE < 600
    ∧ handle_sdp_hid_query_result sample_collab 0
        { type := .SDP_EVENT_QUERY_ATTRIBUTE_VALUE, attribute_length := 600, data_offset := 3,
          data := 7 }
        { devices := [{ address := 0xAABBCCDDEEFF }], current_device := some 0 }
      = .ok { devices := [{ address := 0xAABBCCDDEEFF }], current_device := some 0 } :=
  ⟨by decide,
   (oversized_attribute_changes_nothing sample_collab 0
      { type := .SDP_EVENT_QUERY_ATTRIBUTE_VALUE, attribute_length := 600, data_offset := 3,
        data := 7 }
      { devices := [{ address := 0xAABBCCDDEEFF }], current_device := some 0 } rfl
      (by decide)).1⟩

/-- C9 as stated fails: an attribute-value event with data offset 600 and
reported attribute length 10 passes the length check, and the store
`attribute_value[600] = data` falls outside the 512-byte buffer, in both
handlers. -/
theorem attribute_store_out_of_bounds :
    handle_sdp_hid_query_result sample_collab 0
        { type := .SDP_EVENT_QUERY_ATTRIBUTE_VALUE, attribute_length := 10, data_offset := 600,
          data := 7 }
        { devices := [{ address := 0xAABBCCDDEEFF }], current_device := some 0 }
      = .error (.out_of_bounds 600)
    ∧ handle_sdp_pid_query_result sample_collab
        { type := .SDP_EVENT_QUERY_ATTRIBUTE_VALUE, attribute_length := 10, data_offset := 600,
          data := 7 }
        { devices := [{ address := 0xAABBCCDDEEFF }], current_device := some 0 }
      = .error (.out_of_bounds 600) := by
  constructor <;> rfl

/-- C9 (amended): for every attribute-value event whose data offset is below
its reported attribute length, as the SDP client delivers them,
`handle_sdp_hid_query_result` and `handle_sdp_pid_query_result` return
without a store outside the buffer: the buffer is unchanged, or one byte is
stored at the data offset, which is below 512; the buffer keeps its size. -/
theorem attribute_store_in_bounds (C : Collab) (status : Nat) (packet : sdp_packet)
    (s : bt_state) (ht : packet.type = .SDP_EVENT_QUERY_ATTRIBUTE_VALUE)
    (hoff : packet.data_offset < packet.attribute_length) :
    (∃ s', handle_sdp_hid_query_result C status packet s = .ok s'
          ∧ buffer_stored_in_bounds packet s s'
          ∧ s'.attribute_value.length = s.attribute_value.length)
    ∧ (∃ s', handle_sdp_pid_query_result C packet s = .ok s'
          ∧ buffer_stored_in_bounds packet s s'
          ∧ s'.attribute_value.length = s.attribute_value.length) := by
  constructor
  · unfold handle_sdp_hid_query_result
    cases hc : uni_hid_device_get_current_device s with
    | none => exact ⟨s, rfl, Or.inl rfl, rfl⟩
    | some device =>
      simp only [ht]
      by_cases hlen : packet.attribute_length ≤ attribute_value_buffer_size
      · have hlt : packet.data_offset < MAX_ATTRIBUTE_VALUE_SIZE := by
          unfold attribute_value_buffer_size at hlen; omega
        simp only [hlen, if_true, store_attribute_value, hlt]
        by_cases hend : (packet.data_offset + 1) % 2 ^ 16 = packet.attribute_length
        · simp only [hend, if_true]
          cases packet.attribute_id with
          | BLUETOOTH_ATTRIBUTE_HID_DESCRIPTOR_LIST =>
            refine ⟨_, rfl, Or.inr ⟨hlt, ?_⟩, ?_⟩
            · rw [(foldl_update_device_frame device uni_hid_device_set_hid_descriptor _ _).1]
            · rw [(foldl_update_device_frame device uni_hid_device_set_hid_descriptor _ _).1]
              exact List.length_set _ _ _
          | BLUETOOTH_ATTRIBUTE_VENDOR_ID =>
            exact ⟨_, rfl, Or.inr ⟨hlt, rfl⟩, List.length_set _ _ _⟩
          | BLUETOOTH_ATTRIBUTE_PRODUCT_ID =>
            exact ⟨_, rfl, Or.inr ⟨hlt, rfl⟩, List.length_set _ _ _⟩
          | other => exact ⟨_, rfl, Or.inr ⟨hlt, rfl⟩, List.length_set _ _ _⟩
        · simp only [hend, if_false]
          exact ⟨_, rfl, Or.inr ⟨hlt, rfl⟩, List.length_set _ _ _⟩
      · simp only [hlen, if_false]
        exact ⟨s, rfl, Or.inl rfl, rfl⟩
  · unfold handle_sdp_pid_query_result
    cases hc : uni_hid_device_get_current_device s with
    | none => exact ⟨s, rfl, Or.inl rfl, rfl⟩
    | some device =>
      simp only [ht]
      by_cases hlen : packet.attribute_length ≤ attribute_value_buffer_size
      · have hlt : packet.data_offset < MAX_ATTRIBUTE_VALUE_SIZE := by
          unfold attribute_value_buffer_size at hlen; omega
        simp only [hlen, if_true, store_attribute_value, hlt]
        by_cases hend : (packet.data_offset + 1) % 2 ^ 16 = packet.attribute_length
        · simp only [hend, if_true]
          cases packet.attribute_id with
          | BLUETOOTH_ATTRIBUTE_HID_DESCRIPTOR_LIST =>
            exact ⟨_, rfl, Or.inr ⟨hlt, rfl⟩, List.length_set _ _ _⟩
          | BLUETOOTH_ATTRIBUTE_VENDOR_ID =>
            simp only
            cases C.de_element_get_uint16 (s.attribute_value.set packet.data_offset packet.data) <;>
              exact ⟨_, rfl, Or.inr ⟨hlt, rfl⟩, List.length_set _ _ _⟩
          | BLUETOOTH_ATTRIBUTE_PRODUCT_ID =>
            simp only
            cases C.de_element_get_uint16 (s.attribute_value.set packet.data_offset packet.data) <;>
              exact ⟨_, rfl, Or.inr ⟨hlt, rfl⟩, List.length_set _ _ _⟩
          | other => exact ⟨_, rfl, Or.inr ⟨hlt, rfl⟩, List.length_set _ _ _⟩
        · simp only [hend, if_false]
          exact ⟨_, rfl, Or.inr ⟨hlt, rfl⟩, List.length_set _ _ _⟩
      · simp only [hlen, if_false]
        exact ⟨s, rfl, Or.inl rfl, rfl⟩

/-- A byte of a 10-byte attribute stored at offset 3. -/
theorem attribute_store_in_bounds_witness :
    (3 : Nat) < 10
    ∧ ∃ s', handle_sdp_hid_query_result sample_collab 0
          { type := .SDP_EVENT_QUERY_ATTRIBUTE_VALUE, attribute_length := 10, data_offset := 3,
            data := 7 }
          { devices := [{ address := 0xAABBCCDDEEFF }], current_device := some 0 } = .ok s'
        ∧ buffer_stored_in_bounds
            { type := .SDP_EVENT_QUERY_ATTRIBUTE_VALUE, attribute_length := 10, data_offset := 3,
              data := 7 }
            { devices := [{ address := 0xAABBCCDDEEFF }], current_device := some 0 } s'
        ∧ s'.attribute_value.length
            = ({ devices := [{ address := 0xAABBCCDDEEFF }], current_device := some 0 }
                : bt_state).attribute_value.length :=
  ⟨by decide,
   (attribute_store_in_bounds sample_collab 0
      { type := .SDP_EVENT_QUERY_ATTRIBUTE_VALUE, attribute_length := 10, data_offset := 3,
        data := 7 }
      { devices := [{ address := 0xAABBCCDDEEFF }], current_device := some 0 } rfl
      (by decide)).1⟩

/-- C10: when `handle_sdp_hid_query_result` receives `SDP_EVENT_QUERY_COMPLETE`
while device `A` holds the token, the handler itself issues the PnP
information query for the address of `A`, to be answered by
`handle_sdp_pid_query_result`, and nothing else; if issuing the query succeeds
(status 0), `A` still holds the token afterwards. -/
theorem hid_query_complete_chains_pid_query (C : Collab) (status A : Nat)
    (packet : sdp_packet) (s : bt_state) (h : s.current_device = some A)
    (ht : packet.type = .SDP_EVENT_QUERY_COMPLETE) :
    ∃ s', handle_sdp_hid_query_result C status packet s = .ok s'
      ∧ s'.calls = s.calls ++ [Call.sdp_client_query_uuid16 .handle_sdp_pid_query_result
          (s.device A).address .BLUETOOTH_SERVICE_CLASS_PNP_INFORMATION]
      ∧ (status = 0 → s'.current_device = some A)
      ∧ s'.devices = s.devices
      ∧ s'.attribute_value = s.attribute_value := by
  refine ⟨sdp_query_product_id status A s, ?_, ?_, ?_, ?_, ?_⟩
  · simp only [handle_sdp_hid_query_result, uni_hid_device_get_current_device, h, ht]
  all_goals
    simp only [sdp_query_product_id, uni_hid_device_get_current_device, h]
    by_cases hs : status = 0
    · simp only [hs, ne_eq, not_true_eq_false, if_false, bt_state.call, bt_state.device,
        implies_true, h]
    · simp only [hs, ne_eq, not_false_eq_true, if_true, bt_state.call, bt_state.device,
        uni_hid_device_set_current_device, false_implies, h]

/-- The descriptor query of device 0 completes and the PnP query is accepted. -/
theorem hid_query_complete_chains_pid_query_witness :
    ∃ s', handle_sdp_hid_query_result sample_collab 0 { type := .SDP_EVENT_QUERY_COMPLETE }
          { devices := [{ address := 0xAABBCCDDEEFF }], current_device := some 0 } = .ok s'
      ∧ s'.calls = [Call.sdp_client_query_uuid16 .handle_sdp_pid_query_result 0xAABBCCDDEEFF
          .BLUETOOTH_SERVICE_CLASS_PNP_INFORMATION]
      ∧ s'.current_device = some 0 := by
  obtain ⟨s', h1, h2, h3, -, -⟩ := hid_query_complete_chains_pid_query sample_collab 0 0
    { type := .SDP_EVENT_QUERY_COMPLETE }
    { devices := [{ address := 0xAABBCCDDEEFF }], current_device := some 0 } rfl rfl
  exact ⟨s', h1, h2, h3 rfl⟩

/-! ## End of the SDP sequence -/

/-- C11: when `handle_sdp_pid_query_result` receives `SDP_EVENT_QUERY_COMPLETE`
while device `A` holds the token, it calls
`uni_hid_device_guess_controller_type` on `A`, then
`uni_hid_device_try_assign_joystick_port` on `A` (the port assignment sees the
device as classification left it), then releases the token: no other call is
made and the current SDP-query device is none afterwards. -/
theorem pid_query_complete_classifies_assigns_releases (C : Collab) (A : Nat)
    (packet : sdp_packet) (s : bt_state) (h : s.current_device = some A)
    (ht : packet.type = .SDP_EVENT_QUERY_COMPLETE) :
    ∃ s', handle_sdp_pid_query_result C packet s = .ok s'
      ∧ s'.calls = s.calls ++ [Call.uni_hid_device_guess_controller_type A,
          Call.uni_hid_device_try_assign_joystick_port A]
      ∧ s'.devices = C.uni_hid_device_try_assign_joystick_port
          (s.devices.modify C.uni_hid_device_guess_controller_type A) A
      ∧ s'.current_device = none
      ∧ s'.attribute_value = s.attribute_value := by
  refine ⟨{ s with
      devices := C.uni_hid_device_try_assign_joystick_port
        (s.devices.modify C.uni_hid_device_guess_controller_type A) A,
      calls := s.calls ++ [Call.uni_hid_device_guess_controller_type A,
        Call.uni_hid_device_try_assign_joystick_port A],
      current_device := none }, ?_, rfl, rfl, rfl, rfl⟩
  simp only [handle_sdp_pid_query_result, uni_hid_device_get_current_device, h, ht,
    uni_hid_device_set_current_device, bt_state.call, bt_state.update_device,
    List.append_assoc, List.singleton_append]

/-- The vendor/product query of device 0 completes. -/
theorem pid_query_complete_classifies_assigns_releases_witness :
    ∃ s', handle_sdp_pid_query_result sample_collab { type := .SDP_EVENT_QUERY_COMPLETE }
          { devices := [{ address := 0xAABBCCDDEEFF }], current_device := some 0 } = .ok s'
      ∧ s'.calls = [Call.uni_hid_device_guess_controller_type 0,
          Call.uni_hid_device_try_assign_joystick_port 0]
      ∧ s'.current_device = none := by
  obtain ⟨s', h1, h2, -, h4, -⟩ := pid_query_complete_classifies_assigns_releases sample_collab 0
    { type := .SDP_EVENT_QUERY_COMPLETE }
    { devices := [{ address := 0xAABBCCDDEEFF }], current_device := some 0 } rfl rfl
  exact ⟨s', h1, h2, h4⟩

/-- C12: if `sdp_client_query_uuid16` returns a non-zero status, in
`sdp_query_hid_descriptor` entered with the token free or in
`sdp_query_product_id` entered with the token held, the query was issued, the
current SDP-query device is none afterwards, and the device table is
unchanged: vendor id, product id and HID descriptor of the device are what
they were. -/
theorem failed_query_releases_token (status device : Nat) (s : bt_state) (hs : status ≠ 0) :
    (s.current_device = none →
      (sdp_query_hid_descriptor status device s).current_device = none
      ∧ (sdp_query_hid_descriptor status device s).devices = s.devices
      ∧ ((sdp_query_hid_descriptor status device s).device device).vendor_id
          = (s.device device).vendor_id
      ∧ ((sdp_query_hid_descriptor status device s).device device).product_id
          = (s.device device).product_id
      ∧ ((sdp_query_hid_descriptor status device s).device device).hid_descriptor
          = (s.device device).hid_descriptor
      ∧ (sdp_query_hid_descriptor status device s).calls
          = s.calls ++ [Call.sdp_client_query_uuid16 .handle_sdp_hid_query_result
              (s.device device).address
              .BLUETOOTH_SERVICE_CLASS_HUMAN_INTERFACE_DEVICE_SERVICE])
    ∧ (∀ A, s.current_device = some A →
      (sdp_query_product_id status device s).current_device = none
      ∧ (sdp_query_product_id status device s).devices = s.devices
      ∧ ((sdp_query_product_id status device s).device device).vendor_id
          = (s.device device).vendor_id
      ∧ ((sdp_query_product_id status device s).device device).product_id
          = (s.device device).product_id
      ∧ ((sdp_query_product_id status device s).device device).hid_descriptor
          = (s.device device).hid_descriptor
      ∧ (sdp_query_product_id status device s).calls
          = s.calls ++ [Call.sdp_client_query_uuid16 .handle_sdp_pid_query_result
              (s.device device).address .BLUETOOTH_SERVICE_CLASS_PNP_INFORMATION]) := by
  constructor
  · intro h
    have e : sdp_query_hid_descriptor status device s
        = { s with current_device := none,
                   calls := s.calls ++ [Call.sdp_client_query_uuid16 .handle_sdp_hid_query_result
                     (s.device device).address
                     .BLUETOOTH_SERVICE_CLASS_HUMAN_INTERFACE_DEVICE_SERVICE] } := by
      simp only [sdp_query_hid_descriptor, uni_hid_device_get_current_device, h, ne_eq, hs,
        not_false_eq_true, if_true, uni_hid_device_set_current_device, bt_state.call,
        bt_state.device]
    rw [e]
    exact ⟨rfl, rfl, rfl, rfl, rfl, rfl⟩
  · intro A h
    have e : sdp_query_product_id status device s
        = { s with current_device := none,
                   calls := s.calls ++ [Call.sdp_client_query_uuid16 .handle_sdp_pid_query_result
                     (s.device device).address .BLUETOOTH_SERVICE_CLASS_PNP_INFORMATION] } := by
      simp only [sdp_query_product_id, uni_hid_device_get_current_device, h, ne_eq, hs,
        not_false_eq_true, if_true, uni_hid_device_set_current_device, bt_state.call,
        bt_state.device]
    rw [e]
    exact ⟨rfl, rfl, rfl, rfl, rfl, rfl⟩

/-- The descriptor query of device 0 is refused by the stack with status 1. -/
theorem failed_query_releases_token_witness :
    (1 : Nat) ≠ 0
    ∧ (sdp_query_hid_descriptor 1 0
        { devices := [{ address := 0xAABBCCDDEEFF, vendor_id := 0x054c }] }).current_device = none
    ∧ (sdp_query_hid_descriptor 1 0
        { devices := [{ address := 0xAABBCCDDEEFF, vendor_id := 0x054c }] }).devices
        = [{ address := 0xAABBCCDDEEFF, vendor_id := 0x054c }] :=
  ⟨by decide,
   ((failed_query_releases_token 1 0
      { devices := [{ address := 0xAABBCCDDEEFF, vendor_id := 0x054c }] } (by decide)).1 rfl).1,
   ((failed_query_releases_token 1 0
      { devices := [{ address := 0xAABBCCDDEEFF, vendor_id := 0x054c }] } (by decide)).1 rfl).2.1⟩

/-! ## Device table access -/

/-- Reading through a pointer that was just written through. -/
theorem device_update_device_same (s : bt_state) (device : Nat)
    (f : uni_hid_device_t → uni_hid_device_t) (h : device < s.devices.length) :
    (s.update_device device f).device device = f (s.device device) := by
  simp only [bt_state.device, bt_state.update_device, List.getD_eq_getElem?_getD,
    List.getElem?_modify, List.getElem?_eq_getElem h, if_true, Option.map_eq_map,
    Option.map_some', Option.getD_some]

/-- Reading through another pointer than the one written through. -/
theorem device_update_device_ne (s : bt_state) (device other : Nat)
    (f : uni_hid_device_t → uni_hid_device_t) (h : device ≠ other) :
    (s.update_device device f).device other = s.device other := by
  simp only [bt_state.device, bt_state.update_device, List.getD_eq_getElem?_getD,
    List.getElem?_modify, h, if_false, Option.map_eq_map]
  cases s.devices[other]? <;> rfl

/-- The table keeps its size under a write through a pointer. -/
theorem length_update_device (s : bt_state) (device : Nat)
    (f : uni_hid_device_t → uni_hid_device_t) :
    (s.update_device device f).devices.length = s.devices.length := by
  simp only [bt_state.update_device, List.length_modify]

/-- What the lookup by address finds: a slot of the table, in use, holding
the address. -/
theorem get_instance_for_address_some (s : bt_state) (addr device : Nat)
    (h : uni_hid_device_get_instance_for_address s addr = some device) :
    device < s.devices.length ∧ (s.device device).in_use = true
      ∧ (s.device device).address = addr := by
  unfold uni_hid_device_get_instance_for_address at h
  obtain ⟨hlt, hp, -⟩ := List.findIdx?_eq_some_iff_getElem.mp h
  simp only [Bool.and_eq_true, beq_iff_eq] at hp
  refine ⟨hlt, ?_, ?_⟩ <;>
    simp only [bt_state.device, List.getD_eq_getElem?_getD, List.getElem?_eq_getElem hlt,
      Option.getD_some, hp]

/-- What the lookup by channel id finds: a slot of the table, in use, one of
whose channel ids is the non-zero `cid`. -/
theorem get_instance_for_cid_some (s : bt_state) (cid device : Nat)
    (h : uni_hid_device_get_instance_for_cid s cid = some device) :
    cid ≠ 0 ∧ device < s.devices.length ∧ (s.device device).in_use = true
      ∧ ((s.device device).hid_interrupt_cid = cid ∨ (s.device device).hid_control_cid = cid) := by
  unfold uni_hid_device_get_instance_for_cid at h
  by_cases h0 : cid = 0
  · simp only [h0, if_true] at h
    cases h
  · simp only [h0, if_false] at h
    obtain ⟨hlt, hp, -⟩ := List.findIdx?_eq_some_iff_getElem.mp h
    simp only [Bool.and_eq_true, Bool.or_eq_true, beq_iff_eq] at hp
    refine ⟨h0, hlt, ?_, ?_⟩ <;>
      simp only [bt_state.device, List.getD_eq_getElem?_getD, List.getElem?_eq_getElem hlt,
        Option.getD_some, hp]

/-! ## Interrupt-channel payloads -/

/-- C13: in `on_l2cap_data_packet`, for a device with a cached HID descriptor
and a resolved controller type that receives a payload on its interrupt
channel, `uni_hid_parser` is invoked if and only if the payload has at least
one byte and its first byte is 0xA1; it is then given the payload without
that byte (length `size - 1`), and one `uni_hid_device_process_gamepad`
notification follows; otherwise, and so for an empty payload, nothing is
called and the state is unchanged. -/
theorem data_packet_dispatch (C : Collab) (channel : Nat) (packet : List Nat) (s : bt_state)
    (device : Nat) (hdev : uni_hid_device_get_instance_for_cid s channel = some device)
    (hint : channel = (s.device device).hid_interrupt_cid)
    (hd : uni_hid_device_has_hid_descriptor (s.device device) = true)
    (hc : uni_hid_device_has_controller_type (s.device device) = true) :
    ((∃ report len, Call.uni_hid_parser_fn device report len
          ∈ new_calls s (on_l2cap_data_packet C channel packet s))
      ↔ (1 ≤ packet.length ∧ packet.getD 0 0 = 0xa1))
    ∧ ((1 ≤ packet.length ∧ packet.getD 0 0 = 0xa1) →
        new_calls s (on_l2cap_data_packet C channel packet s)
          = [Call.uni_hid_parser_fn device packet.tail (packet.length - 1),
             Call.uni_hid_device_process_gamepad device]
        ∧ (on_l2cap_data_packet C channel packet s).devices
          = s.devices.modify (fun d => { d with gamepad := C.uni_hid_parser_fn d packet.tail }) device)
    ∧ (¬ (1 ≤ packet.length ∧ packet.getD 0 0 = 0xa1) →
        on_l2cap_data_packet C channel packet s = s)
    ∧ on_l2cap_data_packet C channel [] s = s := by
  have hyes : (1 ≤ packet.length ∧ packet.getD 0 0 = 0xa1) →
      on_l2cap_data_packet C channel packet s
        = { s with
            devices := s.devices.modify
              (fun d => { d with gamepad := C.uni_hid_parser_fn d packet.tail }) device,
            calls := s.calls ++ [Call.uni_hid_parser_fn device packet.tail (packet.length - 1),
              Call.uni_hid_device_process_gamepad device] } := by
    rintro ⟨h1, h2⟩
    have h1' : ¬ packet.length < 1 := by omega
    simp only [on_l2cap_data_packet, hdev, ← hint, ne_eq, not_true_eq_false, if_false, hd, hc,
      h1', h2, bt_state.call, bt_state.update_device, List.append_assoc, List.singleton_append]
  have hno : ∀ pk : List Nat, ¬ (1 ≤ pk.length ∧ pk.getD 0 0 = 0xa1) →
      on_l2cap_data_packet C channel pk s = s := by
    intro pk h
    simp only [on_l2cap_data_packet, hdev, ← hint, ne_eq, not_true_eq_false, if_false, hd, hc]
    by_cases h1 : pk.length < 1
    · simp only [h1, if_true]
    · have h2 : ¬ pk.getD 0 0 = 0xa1 := fun h2 => h ⟨by omega, h2⟩
      simp only [h1, if_false, h2, not_false_eq_true, if_true]
  refine ⟨?_, ?_, hno packet, ?_⟩
  · constructor
    · rintro ⟨report, len, hmem⟩
      by_contra hcond
      rw [hno packet hcond] at hmem
      simp only [new_calls, List.drop_length, List.not_mem_nil] at hmem
    · intro hcond
      refine ⟨packet.tail, packet.length - 1, ?_⟩
      rw [hyes hcond]
      simp only [new_calls, List.drop_left, List.mem_cons, true_or]
  · intro hcond
    rw [hyes hcond]
    exact ⟨by simp only [new_calls, List.drop_left], rfl⟩
  · exact hno [] (fun h => absurd h.1 (by decide))

/-- C14: in `on_l2cap_data_packet`, a payload (any bytes, any length) that
arrives for a device without a cached HID descriptor or without a resolved
controller type is discarded: the state is unchanged, so the dispatcher is
not invoked, the gamepad state of the device is what it was and no
notification is made. -/
theorem data_packet_discarded (C : Collab) (channel : Nat) (packet : List Nat) (s : bt_state)
    (device : Nat) (hdev : uni_hid_device_get_instance_for_cid s channel = some device)
    (h : uni_hid_device_has_hid_descriptor (s.device device) = false
      ∨ uni_hid_device_has_controller_type (s.device device) = false) :
    on_l2cap_data_packet C channel packet s = s
    ∧ new_calls s (on_l2cap_data_packet C channel packet s) = []
    ∧ ((on_l2cap_data_packet C channel packet s).device device).gamepad
        = (s.device device).gamepad := by
  have e : on_l2cap_data_packet C channel packet s = s := by
    simp only [on_l2cap_data_packet, hdev]
    by_cases h1 : channel = (s.device device).hid_interrupt_cid
    · simp only [← h1, ne_eq, not_true_eq_false, if_false]
      rcases h with h | h
      · simp only [h, Bool.false_eq_true, not_false_eq_true, if_true]
      · by_cases h2 : uni_hid_device_has_hid_descriptor (s.device device) = true
        · simp only [h2, not_true_eq_false, if_false, h, Bool.false_eq_true, not_false_eq_true,
            if_true]
        · simp only [h2, Bool.false_eq_true, not_false_eq_true, if_true]
    · simp only [ne_eq, h1, not_false_eq_true, if_true]
  rw [e]
  exact ⟨rfl, by simp only [new_calls, List.drop_length], rfl⟩

/-- A report of three bytes tagged 0xA1 on the interrupt channel 0x41 of a
device that has a descriptor and a controller type. -/
theorem data_packet_dispatch_witness :
    new_calls
        { devices := [{ in_use := true, hid_interrupt_cid := 0x41, hid_descriptor := [5, 1],
                        controller_type := some 1 }] }
        (on_l2cap_data_packet sample_collab 0x41 [0xa1, 7, 9]
          { devices := [{ in_use := true, hid_interrupt_cid := 0x41, hid_descriptor := [5, 1],
                          controller_type := some 1 }] })
      = [Call.uni_hid_parser_fn 0 [7, 9] 2, Call.uni_hid_device_process_gamepad 0] :=
  ((data_packet_dispatch sample_collab 0x41 [0xa1, 7, 9]
      { devices := [{ in_use := true, hid_interrupt_cid := 0x41, hid_descriptor := [5, 1],
                      controller_type := some 1 }] } 0 (by decide) (by decide) (by decide)
      (by decide)).2.1 (by decide)).1

/-- A tagged report for a device whose controller type is not resolved yet. -/
theorem data_packet_discarded_witness :
    on_l2cap_data_packet sample_collab 0x41 [0xa1, 7, 9]
        { devices := [{ in_use := true, hid_interrupt_cid := 0x41, hid_descriptor := [5, 1] }] }
      = { devices := [{ in_use := true, hid_interrupt_cid := 0x41, hid_descriptor := [5, 1] }] } :=
  (data_packet_discarded sample_collab 0x41 [0xa1, 7, 9]
      { devices := [{ in_use := true, hid_interrupt_cid := 0x41, hid_descriptor := [5, 1] }] } 0
      (by decide) (Or.inr (by decide))).1

/-! ## Channel-opened failures -/

/-- C15: when `on_l2cap_channel_opened` receives a status equal to
`L2CAP_CONNECTION_RESPONSE_RESULT_RTX_TIMEOUT` or to
`L2CAP_CONNECTION_BASEBAND_DISCONNECT`, it removes the registry entry that
owns the channel (its slot becomes free, every other slot is untouched), drops
the link key stored for the address of the event, and does nothing else: that
one call is the only call, no device is marked connected, no channel id is
recorded, and the current SDP-query device is what it was. -/
theorem channel_open_stale_key (C : Collab) (R : stack_replies) (channel : Nat)
    (e : channel_opened_event) (s : bt_state)
    (h : e.status = .L2CAP_CONNECTION_RESPONSE_RESULT_RTX_TIMEOUT
      ∨ e.status = .L2CAP_CONNECTION_BASEBAND_DISCONNECT) :
    on_l2cap_channel_opened C R channel e s
      = (uni_hid_device_remove_entry_with_channel s channel).call
          (.gap_drop_link_key_for_bd_addr e.address)
    ∧ new_calls s (on_l2cap_channel_opened C R channel e s)
      = [Call.gap_drop_link_key_for_bd_addr e.address]
    ∧ (on_l2cap_channel_opened C R channel e s).current_device = s.current_device
    ∧ (∀ device, uni_hid_device_get_instance_for_cid s channel = some device →
        (on_l2cap_channel_opened C R channel e s).devices = s.devices.set device {}
        ∧ ((on_l2cap_channel_opened C R channel e s).device device).in_use = false)
    ∧ (uni_hid_device_get_instance_for_cid s channel = none →
        (on_l2cap_channel_opened C R channel e s).devices = s.devices) := by
  have hne : e.status ≠ .success := by
    rcases h with h | h <;> rw [h] <;> decide
  have e1 : on_l2cap_channel_opened C R channel e s
      = (uni_hid_device_remove_entry_with_channel s channel).call
          (.gap_drop_link_key_for_bd_addr e.address) := by
    simp only [on_l2cap_channel_opened, hne, ne_eq, not_false_eq_true, if_true, h]
  rw [e1]
  refine ⟨rfl, ?_, ?_, ?_, ?_⟩
  · unfold uni_hid_device_remove_entry_with_channel
    cases uni_hid_device_get_instance_for_cid s channel <;>
      simp only [new_calls, bt_state.call, List.drop_left]
  · unfold uni_hid_device_remove_entry_with_channel
    cases uni_hid_device_get_instance_for_cid s channel <;> rfl
  · intro device hdev
    obtain ⟨-, hlt, -, -⟩ := get_instance_for_cid_some s channel device hdev
    simp only [uni_hid_device_remove_entry_with_channel, hdev, bt_state.call, bt_state.device,
      List.getD_eq_getElem?_getD, List.getElem?_set, hlt, if_true, Option.getD_some, and_self]
  · intro hnone
    simp only [uni_hid_device_remove_entry_with_channel, hnone, bt_state.call]

/-- The control channel 0x40 of the device in slot 1 fails to open with the
baseband-disconnect status. -/
theorem channel_open_stale_key_witness :
    on_l2cap_channel_opened sample_collab {} 0x40
        { address := 0x112233445566, status := .L2CAP_CONNECTION_BASEBAND_DISCONNECT,
          psm := .PSM_HID_CONTROL }
        { devices := [{ in_use := true, address := 0xAABBCCDDEEFF, hid_control_cid := 0x50 },
                      { in_use := true, address := 0x112233445566, hid_control_cid := 0x40 }] }
      = { devices := [{ in_use := true, address := 0xAABBCCDDEEFF, hid_control_cid := 0x50 }, {}],
          calls := [Call.gap_drop_link_key_for_bd_addr 0x112233445566] } :=
  ((channel_open_stale_key sample_collab {} 0x40
      { address := 0x112233445566, status := .L2CAP_CONNECTION_BASEBAND_DISCONNECT,
        psm := .PSM_HID_CONTROL }
      { devices := [{ in_use := true, address := 0xAABBCCDDEEFF, hid_control_cid := 0x50 },
                    { in_use := true, address := 0x112233445566, hid_control_cid := 0x40 }] }
      (Or.inr rfl)).1).trans rfl

/-- C16: when `on_l2cap_channel_opened` receives a non-zero status that is
neither the response-timeout nor the baseband-disconnect code, the state is
unchanged: no link key is dropped, no registry entry is removed, no device is
touched and no call is made (the failure is only logged). -/
theorem channel_open_other_failure (C : Collab) (R : stack_replies) (channel : Nat)
    (e : channel_opened_event) (s : bt_state) (h : e.status = .other_failure) :
    on_l2cap_channel_opened C R channel e s = s
    ∧ new_calls s (on_l2cap_channel_opened C R channel e s) = []
    ∧ (on_l2cap_channel_opened C R channel e s).devices = s.devices := by
  have e1 : on_l2cap_channel_opened C R channel e s = s := by
    simp only [on_l2cap_channel_opened, h, ne_eq, reduceCtorEq, not_false_eq_true, if_true,
      or_self, if_false]
  rw [e1]
  exact ⟨rfl, by simp only [new_calls, List.drop_length], rfl⟩

/-- The control channel 0x40 fails to open with another status. -/
theorem channel_open_other_failure_witness :
    on_l2cap_channel_opened sample_collab {} 0x40
        { address := 0x112233445566, status := .other_failure, psm := .PSM_HID_CONTROL }
        { devices := [{ in_use := true, address := 0x112233445566, hid_control_cid := 0x40 }] }
      = { devices := [{ in_use := true, address := 0x112233445566, hid_control_cid := 0x40 }] } :=
  (channel_open_other_failure sample_collab {} 0x40
      { address := 0x112233445566, status := .other_failure, psm := .PSM_HID_CONTROL }
      { devices := [{ in_use := true, address := 0x112233445566, hid_control_cid := 0x40 }] }
      rfl).1

/-! ## Discovery results -/

/-- What `uni_hid_device_create` returns when it succeeds: a slot that was
free, now holding a fresh device with the address; the rest of the state is
unchanged. -/
theorem create_some (s s1 : bt_state) (addr device : Nat)
    (h : uni_hid_device_create s addr = some (device, s1)) :
    device < s.devices.length ∧ (s.device device).in_use = false
      ∧ s1 = { s with devices := s.devices.set device { in_use := true, address := addr } }
      ∧ s1.device device = { in_use := true, address := addr } := by
  unfold uni_hid_device_create at h
  cases hf : s.devices.findIdx? (fun d => !d.in_use) with
  | none => simp only [hf] at h; cases h
  | some i =>
    simp only [hf, Option.some.injEq, Prod.mk.injEq] at h
    obtain ⟨rfl, rfl⟩ := h
    obtain ⟨hlt, hp, -⟩ := List.findIdx?_eq_some_iff_getElem.mp hf
    simp only [Bool.not_eq_true', Bool.not_eq_eq_eq_not, Bool.not_true] at hp
    refine ⟨hlt, ?_, rfl, ?_⟩
    · simp only [bt_state.device, List.getD_eq_getElem?_getD, List.getElem?_eq_getElem hlt,
        Option.getD_some, hp]
    · simp only [bt_state.device, List.getD_eq_getElem?_getD, List.getElem?_set, hlt, if_true,
        Option.getD_some]

/-- `uni_hid_device_create` fails exactly when every slot is in use. -/
theorem create_none_iff (s : bt_state) (addr : Nat) :
    uni_hid_device_create s addr = none ↔ ∀ d ∈ s.devices, d.in_use = true := by
  unfold uni_hid_device_create
  cases hf : s.devices.findIdx? (fun d => !d.in_use) with
  | none =>
    simp only [true_iff]
    intro d hd
    have := List.findIdx?_eq_none_iff.mp hf d hd
    simpa using this
  | some i =>
    simp only [reduceCtorEq, false_iff]
    intro hall
    obtain ⟨hlt, hp, -⟩ := List.findIdx?_eq_some_iff_getElem.mp hf
    have := hall _ (List.getElem_mem hlt)
    simp only [this, Bool.not_true, Bool.false_eq_true] at hp

/-- Two writes through the same pointer are one write. -/
theorem update_device_update_device (s : bt_state) (device : Nat)
    (f g : uni_hid_device_t → uni_hid_device_t) :
    (s.update_device device f).update_device device g
      = s.update_device device (fun d => g (f d)) := by
  simp only [bt_state.update_device]
  congr 1
  apply List.ext_getElem?
  intro m
  simp only [List.getElem?_modify, Option.map_eq_map]
  cases s.devices[m]? with
  | none => rfl
  | some a => by_cases h : device = m <;> simp only [h, Option.map_some', if_true, if_false]

/-- A write through a pointer and the record of a call commute. -/
theorem update_device_call (s : bt_state) (device : Nat)
    (f : uni_hid_device_t → uni_hid_device_t) (c : Call) :
    (s.call c).update_device device f = (s.update_device device f).call c := rfl

/-- The form of the part of `on_gap_inquiry_result` that works on a known
device: one write `F` through the pointer, then the request of the control
channel to the address of the device. -/
theorem on_gap_inquiry_result_device_form (R : stack_replies) (e : inquiry_result_event)
    (device : Nat) (s : bt_state) (hlt : device < s.devices.length) :
    ∃ F : uni_hid_device_t → uni_hid_device_t,
      on_gap_inquiry_result_device R e device s
        = (s.update_device device F).call
            (.l2cap_create_channel (s.device device).address .PSM_HID_CONTROL 48)
      ∧ (∀ d, (F d).cod = e.class_of_device
          ∧ (F d).page_scan_repetition_mode = e.page_scan_repetition_mode
          ∧ (F d).clock_offset = e.clock_offset
          ∧ (F d).in_use = d.in_use ∧ (F d).address = d.address)
      ∧ (F (s.device device)).state
          = (if e.name.isSome ∧ uni_hid_device_has_name (s.device device) = false
              then (s.device device).state else .REMOTE_NAME_REQUEST)
      ∧ (∀ name, e.name = some name → uni_hid_device_has_name (s.device device) = false →
          (F (s.device device)).name = some (name.take 239)) := by
  cases hn : e.name with
  | none =>
    cases ho : R.l2cap_out_local_cid with
    | none =>
      refine ⟨fun d => uni_hid_device_set_state
        { uni_hid_device_set_cod d e.class_of_device with
            page_scan_repetition_mode := e.page_scan_repetition_mode,
            clock_offset := e.clock_offset } .REMOTE_NAME_REQUEST, ?_,
        fun d => ⟨rfl, rfl, rfl, rfl, rfl⟩, ?_, ?_⟩
      · simp only [on_gap_inquiry_result_device, l2cap_create_channel, hn, ho,
          update_device_call, update_device_update_device, device_update_device_same _ _ _ hlt]
        rfl
      · simp only [Option.isSome_none, Bool.false_eq_true, false_and, if_false]; rfl
      · intro name h; cases h
    | some cid =>
      refine ⟨fun d => { uni_hid_device_set_state
        { uni_hid_device_set_cod d e.class_of_device with
            page_scan_repetition_mode := e.page_scan_repetition_mode,
            clock_offset := e.clock_offset } .REMOTE_NAME_REQUEST with hid_control_cid := cid }, ?_,
        fun d => ⟨rfl, rfl, rfl, rfl, rfl⟩, ?_, ?_⟩
      · simp only [on_gap_inquiry_result_device, l2cap_create_channel, hn, ho,
          update_device_call, update_device_update_device, device_update_device_same _ _ _ hlt]
        rfl
      · simp only [Option.isSome_none, Bool.false_eq_true, false_and, if_false]; rfl
      · intro name h; cases h
  | some name =>
    cases hh : uni_hid_device_has_name (s.device device) with
    | false =>
      have hh' : (s.device device).name.isSome = false := hh
      cases ho : R.l2cap_out_local_cid with
      | none =>
        refine ⟨fun d => uni_hid_device_set_name
          { uni_hid_device_set_cod d e.class_of_device with
              page_scan_repetition_mode := e.page_scan_repetition_mode,
              clock_offset := e.clock_offset } (name.take (240 - 1)), ?_,
          fun d => ⟨rfl, rfl, rfl, rfl, rfl⟩, ?_, ?_⟩
        · simp only [on_gap_inquiry_result_device, l2cap_create_channel, hn, ho,
            update_device_call, update_device_update_device, device_update_device_same _ _ _ hlt,
            uni_hid_device_has_name, uni_hid_device_set_cod, hh', Bool.false_eq_true,
            not_false_eq_true, if_true]
          rfl
        · simp only [Option.isSome_some, and_self, if_true]; rfl
        · intro name' h _
          cases h; rfl
      | some cid =>
        refine ⟨fun d => { uni_hid_device_set_name
          { uni_hid_device_set_cod d e.class_of_device with
              page_scan_repetition_mode := e.page_scan_repetition_mode,
              clock_offset := e.clock_offset } (name.take (240 - 1)) with hid_control_cid := cid },
          ?_, fun d => ⟨rfl, rfl, rfl, rfl, rfl⟩, ?_, ?_⟩
        · simp only [on_gap_inquiry_result_device, l2cap_create_channel, hn, ho,
            update_device_call, update_device_update_device, device_update_device_same _ _ _ hlt,
            uni_hid_device_has_name, uni_hid_device_set_cod, hh', Bool.false_eq_true,
            not_false_eq_true, if_true]
          rfl
        · simp only [Option.isSome_some, and_self, if_true]; rfl
        · intro name' h _
          cases h; rfl
    | true =>
      have hh' : (s.device device).name.isSome = true := hh
      cases ho : R.l2cap_out_local_cid with
      | none =>
        refine ⟨fun d => uni_hid_device_set_state
          { uni_hid_device_set_cod d e.class_of_device with
              page_scan_repetition_mode := e.page_scan_repetition_mode,
              clock_offset := e.clock_offset } .REMOTE_NAME_REQUEST, ?_,
          fun d => ⟨rfl, rfl, rfl, rfl, rfl⟩, ?_, ?_⟩
        · simp only [on_gap_inquiry_result_device, l2cap_create_channel, hn, ho,
            update_device_call, update_device_update_device, device_update_device_same _ _ _ hlt,
            uni_hid_device_has_name, uni_hid_device_set_cod, hh', not_true_eq_false, if_false]
          rfl
        · simp only [Bool.true_eq_false, and_false, if_false]; rfl
        · intro name' _ h; cases h
      | some cid =>
        refine ⟨fun d => { uni_hid_device_set_state
          { uni_hid_device_set_cod d e.class_of_device with
              page_scan_repetition_mode := e.page_scan_repetition_mode,
              clock_offset := e.clock_offset } .REMOTE_NAME_REQUEST with hid_control_cid := cid },
          ?_, fun d => ⟨rfl, rfl, rfl, rfl, rfl⟩, ?_, ?_⟩
        · simp only [on_gap_inquiry_result_device, l2cap_create_channel, hn, ho,
            update_device_call, update_device_update_device, device_update_device_same _ _ _ hlt,
            uni_hid_device_has_name, uni_hid_device_set_cod, hh', not_true_eq_false, if_false]
          rfl
        · simp only [Bool.true_eq_false, and_false, if_false]; rfl
        · intro name' _ h; cases h

/-- A write through a pointer that keeps `in_use` and `address` leaves the
keys of the registry as they are. -/
theorem registry_keys_update_device (s : bt_state) (device : Nat)
    (f : uni_hid_device_t → uni_hid_device_t)
    (hf : ∀ d, (f d).in_use = d.in_use ∧ (f d).address = d.address) :
    registry_keys (s.update_device device f) = registry_keys s := by
  simp only [registry_keys, bt_state.update_device]
  apply List.ext_getElem?
  intro m
  simp only [List.getElem?_map, List.getElem?_modify, Option.map_eq_map]
  cases s.devices[m]? with
  | none => rfl
  | some a =>
    by_cases h : device = m
    · simp only [h, Option.map_some', if_true, (hf a).1, (hf a).2]
    · simp only [h, Option.map_some', if_false]

/-- C18: when a discovery result with a supported class of device arrives for
an address whose registry entry is `ORPHAN`, `on_gap_inquiry_result` goes on
with that entry: no slot is taken or freed and every other slot is untouched,
the class of device, the page-scan-repetition mode and the clock offset of
the event are stored in the entry, and the control channel is requested to
its address, which is the address of the event; that request is the only
call. -/
theorem inquiry_result_reuses_orphan (C : Collab) (R : stack_replies)
    (e : inquiry_result_event) (s : bt_state) (device : Nat)
    (hcod : C.uni_hid_device_is_cod_supported e.class_of_device = true)
    (hdev : uni_hid_device_get_instance_for_address s e.bd_addr = some device)
    (horphan : uni_hid_device_is_orphan (s.device device) = true) :
    on_gap_inquiry_result C R e s = on_gap_inquiry_result_device R e device s
    ∧ registry_keys (on_gap_inquiry_result C R e s) = registry_keys s
    ∧ (on_gap_inquiry_result C R e s).devices.length = s.devices.length
    ∧ (∀ other, other ≠ device →
        (on_gap_inquiry_result C R e s).device other = s.device other)
    ∧ ((on_gap_inquiry_result C R e s).device device).cod = e.class_of_device
    ∧ ((on_gap_inquiry_result C R e s).device device).page_scan_repetition_mode
        = e.page_scan_repetition_mode
    ∧ ((on_gap_inquiry_result C R e s).device device).clock_offset = e.clock_offset
    ∧ ((on_gap_inquiry_result C R e s).device device).address = e.bd_addr
    ∧ ((on_gap_inquiry_result C R e s).device device).in_use = true
    ∧ new_calls s (on_gap_inquiry_result C R e s)
        = [Call.l2cap_create_channel e.bd_addr .PSM_HID_CONTROL 48] := by
  obtain ⟨hlt, huse, haddr⟩ := get_instance_for_address_some s e.bd_addr device hdev
  have e1 : on_gap_inquiry_result C R e s = on_gap_inquiry_result_device R e device s := by
    simp only [on_gap_inquiry_result, hcod, if_true, hdev, horphan, not_true_eq_false, if_false]
  obtain ⟨F, hF, hFd, -, -⟩ := on_gap_inquiry_result_device_form R e device s hlt
  rw [e1, hF]
  refine ⟨rfl, ?_, ?_, ?_, ?_, ?_, ?_, ?_, ?_, ?_⟩
  · exact registry_keys_update_device s device F (fun d => ⟨(hFd d).2.2.2.1, (hFd d).2.2.2.2⟩)
  · exact length_update_device s device F
  · intro other hne
    exact device_update_device_ne s device other F (fun h => hne h.symm)
  · exact (congrArg uni_hid_device_t.cod
      (device_update_device_same s device F hlt)).trans (hFd _).1
  · exact (congrArg uni_hid_device_t.page_scan_repetition_mode
      (device_update_device_same s device F hlt)).trans (hFd _).2.1
  · exact (congrArg uni_hid_device_t.clock_offset
      (device_update_device_same s device F hlt)).trans (hFd _).2.2.1
  · exact ((congrArg uni_hid_device_t.address
      (device_update_device_same s device F hlt)).trans (hFd _).2.2.2.2).trans haddr
  · exact ((congrArg uni_hid_device_t.in_use
      (device_update_device_same s device F hlt)).trans (hFd _).2.2.2.1).trans huse
  · simp only [new_calls, bt_state.call, bt_state.update_device, List.drop_left, haddr]

/-- A gamepad that is `ORPHAN` in slot 0 is discovered again. -/
theorem inquiry_result_reuses_orphan_witness :
    on_gap_inquiry_result sample_collab {}
        { bd_addr := 0xAABBCCDDEEFF, class_of_device := 0x2508, page_scan_repetition_mode := 1,
          clock_offset := 0x1234 }
        { devices := [{ in_use := true, address := 0xAABBCCDDEEFF, state := .ORPHAN }, {}] }
      = on_gap_inquiry_result_device {}
        { bd_addr := 0xAABBCCDDEEFF, class_of_device := 0x2508, page_scan_repetition_mode := 1,
          clock_offset := 0x1234 } 0
        { devices := [{ in_use := true, address := 0xAABBCCDDEEFF, state := .ORPHAN }, {}] } :=
  (inquiry_result_reuses_orphan sample_collab {}
      { bd_addr := 0xAABBCCDDEEFF, class_of_device := 0x2508, page_scan_repetition_mode := 1,
        clock_offset := 0x1234 }
      { devices := [{ in_use := true, address := 0xAABBCCDDEEFF, state := .ORPHAN }, {}] } 0
      (by decide) (by decide) (by decide)).1

/-- C19: `on_gap_inquiry_result` leaves the whole state unchanged, so the
registry and every device, and makes no call, so requests no channel, in each
of its three abort cases: the class of device is not supported; an entry that
is not `ORPHAN` exists for the address; no entry exists for the address and
`uni_hid_device_create` fails because every slot is in use. -/
theorem inquiry_result_aborts (C : Collab) (R : stack_replies) (e : inquiry_result_event)
    (s : bt_state) :
    (C.uni_hid_device_is_cod_supported e.class_of_device = false →
      on_gap_inquiry_result C R e s = s)
    ∧ (∀ device, uni_hid_device_get_instance_for_address s e.bd_addr = some device →
        uni_hid_device_is_orphan (s.device device) = false →
        on_gap_inquiry_result C R e s = s)
    ∧ (uni_hid_device_get_instance_for_address s e.bd_addr = none →
        (∀ d ∈ s.devices, d.in_use = true) →
        on_gap_inquiry_result C R e s = s) := by
  refine ⟨fun h => ?_, fun device hdev horphan => ?_, fun hnone hfull => ?_⟩
  · simp only [on_gap_inquiry_result, h, Bool.false_eq_true, if_false]
  · unfold on_gap_inquiry_result
    by_cases hc : C.uni_hid_device_is_cod_supported e.class_of_device = true
    · simp only [hc, if_true, hdev, horphan, Bool.false_eq_true, not_false_eq_true]
    · simp only [hc, Bool.false_eq_true, if_false]
  · unfold on_gap_inquiry_result
    by_cases hc : C.uni_hid_device_is_cod_supported e.class_of_device = true
    · simp only [hc, if_true, hnone, (create_none_iff s e.bd_addr).mpr hfull]
    · simp only [hc, Bool.false_eq_true, if_false]

/-- A supported device is discovered while the two slots of the table are in
use by other devices. -/
theorem inquiry_result_aborts_witness :
    on_gap_inquiry_result sample_collab {}
        { bd_addr := 0xAABBCCDDEEFF, class_of_device := 0x2508 }
        { devices := [{ in_use := true, address := 1 }, { in_use := true, address := 2 }] }
      = { devices := [{ in_use := true, address := 1 }, { in_use := true, address := 2 }] } :=
  (inquiry_result_aborts sample_collab {}
      { bd_addr := 0xAABBCCDDEEFF, class_of_device := 0x2508 }
      { devices := [{ in_use := true, address := 1 }, { in_use := true, address := 2 }] }).2.2
    (by decide) (by decide)

/-- C20 as stated fails: a discovery result with a supported class of device
and a name present, for an address whose only entry is `ORPHAN` and already
has a name, puts the device in state `REMOTE_NAME_REQUEST`. -/
theorem named_orphan_goes_to_remote_name_request :
    uni_hid_device_get_instance_for_address
        { devices := [{ in_use := true, address := 0xAABBCCDDEEFF, state := .ORPHAN,
                        name := some [0x50, 0x53, 0x34] }] } 0xAABBCCDDEEFF = some 0
    ∧ uni_hid_device_is_orphan
        (({ devices := [{ in_use := true, address := 0xAABBCCDDEEFF, state := .ORPHAN,
                          name := some [0x50, 0x53, 0x34] }] } : bt_state).device 0) = true
    ∧ ((on_gap_inquiry_result sample_collab {}
          { bd_addr := 0xAABBCCDDEEFF, class_of_device := 0x2508,
            name := some [0x50, 0x53, 0x34] }
          { devices := [{ in_use := true, address := 0xAABBCCDDEEFF, state := .ORPHAN,
                          name := some [0x50, 0x53, 0x34] }] }).device 0).state
        = .REMOTE_NAME_REQUEST := by
  decide

/-- C20 (amended): for a discovery result with a supported class of device,
for an address with no entry that is live and not `ORPHAN`,
`on_gap_inquiry_result` puts the device in state `REMOTE_NAME_REQUEST` if and
only if the report carried no name or the reused `ORPHAN` entry already has a
name; so with a name present, a newly created device and an `ORPHAN` entry
without a name are not put in `REMOTE_NAME_REQUEST`. -/
theorem inquiry_result_remote_name_request (C : Collab) (R : stack_replies)
    (e : inquiry_result_event) (s : bt_state) (device : Nat)
    (hcod : C.uni_hid_device_is_cod_supported e.class_of_device = true) :
    (uni_hid_device_get_instance_for_address s e.bd_addr = some device →
      uni_hid_device_is_orphan (s.device device) = true →
      (((on_gap_inquiry_result C R e s).device device).state = .REMOTE_NAME_REQUEST
        ↔ (e.name = none ∨ uni_hid_device_has_name (s.device device) = true)))
    ∧ (∀ s1, uni_hid_device_get_instance_for_address s e.bd_addr = none →
      uni_hid_device_create s e.bd_addr = some (device, s1) →
      (((on_gap_inquiry_result C R e s).device device).state = .REMOTE_NAME_REQUEST
        ↔ e.name = none)) := by
  constructor
  · intro hdev horphan
    obtain ⟨hlt, -, -⟩ := get_instance_for_address_some s e.bd_addr device hdev
    have e1 : on_gap_inquiry_result C R e s = on_gap_inquiry_result_device R e device s := by
      simp only [on_gap_inquiry_result, hcod, if_true, hdev, horphan, not_true_eq_false,
        if_false]
    obtain ⟨F, hF, -, hst, -⟩ := on_gap_inquiry_result_device_form R e device s hlt
    have hs : ((on_gap_inquiry_result C R e s).device device).state
        = (F (s.device device)).state := by
      rw [e1, hF]
      exact congrArg uni_hid_device_t.state (device_update_device_same s device F hlt)
    have horph : (s.device device).state = .ORPHAN := by
      simpa [uni_hid_device_is_orphan] using horphan
    rw [hs, hst, horph]
    cases hn : e.name <;> cases hh : uni_hid_device_has_name (s.device device) <;> simp
  · intro s1 hnone hcreate
    obtain ⟨hlt, -, hs1, hfresh⟩ := create_some s s1 e.bd_addr device hcreate
    have hlt1 : device < s1.devices.length := by
      rw [hs1]; simp only [List.length_set]; exact hlt
    have e1 : on_gap_inquiry_result C R e s = on_gap_inquiry_result_device R e device s1 := by
      simp only [on_gap_inquiry_result, hcod, if_true, hnone, hcreate]
    obtain ⟨F, hF, -, hst, -⟩ := on_gap_inquiry_result_device_form R e device s1 hlt1
    have hs : ((on_gap_inquiry_result C R e s).device device).state
        = (F (s1.device device)).state := by
      rw [e1, hF]
      exact congrArg uni_hid_device_t.state (device_update_device_same s1 device F hlt1)
    rw [hs, hst, hfresh]
    cases hn : e.name <;> simp [uni_hid_device_has_name]

/-- A named gamepad is discovered at a new address with one free slot: it is
not put in `REMOTE_NAME_REQUEST`. -/
theorem inquiry_result_remote_name_request_witness :
    ¬ ((on_gap_inquiry_result sample_collab {}
          { bd_addr := 0xAABBCCDDEEFF, class_of_device := 0x2508,
            name := some [0x50, 0x53, 0x34] }
          { devices := [{}] }).device 0).state = .REMOTE_NAME_REQUEST := fun h =>
  absurd (((inquiry_result_remote_name_request sample_collab {}
      { bd_addr := 0xAABBCCDDEEFF, class_of_device := 0x2508, name := some [0x50, 0x53, 0x34] }
      { devices := [{}] } 0 (by decide)).2
      { devices := [{ in_use := true, address := 0xAABBCCDDEEFF }] } (by decide) (by rfl)).mp h)
    (by decide)

/-! ## The registry holds an address once -/

/-- Marking a slot as not in use keeps the addresses in use distinct. -/
theorem pairwise_keys_set_free (k : List (Bool × Nat)) (i a : Nat)
    (h : k.Pairwise (fun a b => a.1 = true → b.1 = true → a.2 ≠ b.2)) :
    (k.set i (false, a)).Pairwise (fun a b => a.1 = true → b.1 = true → a.2 ≠ b.2) := by
  rw [List.pairwise_iff_getElem] at h ⊢
  intro m n hm hn hmn
  simp only [List.getElem_set]
  have hm' : m < k.length := by simpa using hm
  have hn' : n < k.length := by simpa using hn
  by_cases h1 : i = m
  · rw [if_pos h1]
    intro hf; cases hf
  · by_cases h2 : i = n
    · rw [if_neg h1, if_pos h2]
      intro _ hf; cases hf
    · rw [if_neg h1, if_neg h2]
      exact h m n hm' hn' hmn

/-- Putting an address that no slot in use holds into a slot keeps the
addresses in use distinct. -/
theorem pairwise_keys_set_new (k : List (Bool × Nat)) (i addr : Nat)
    (hnew : ∀ x ∈ k, x.1 = true → x.2 ≠ addr)
    (h : k.Pairwise (fun a b => a.1 = true → b.1 = true → a.2 ≠ b.2)) :
    (k.set i (true, addr)).Pairwise (fun a b => a.1 = true → b.1 = true → a.2 ≠ b.2) := by
  rw [List.pairwise_iff_getElem] at h ⊢
  intro m n hm hn hmn
  simp only [List.getElem_set]
  have hm' : m < k.length := by simpa using hm
  have hn' : n < k.length := by simpa using hn
  by_cases h1 : i = m
  · have h2 : ¬ i = n := by omega
    rw [if_pos h1, if_neg h2]
    intro _ hu
    exact fun e => hnew _ (List.getElem_mem hn') hu e.symm
  · by_cases h2 : i = n
    · rw [if_neg h1, if_pos h2]
      intro hu _
      exact hnew _ (List.getElem_mem hm') hu
    · rw [if_neg h1, if_neg h2]
      exact h m n hm' hn' hmn

/-- Distinctness only looks at the keys. -/
theorem registry_distinct_of_keys_eq (s s' : bt_state)
    (hk : registry_keys s' = registry_keys s) (h : registry_distinct s) :
    registry_distinct s' := by
  unfold registry_distinct at h ⊢
  rw [hk]; exact h

/-- A write through a pointer that keeps `in_use` and `address` keeps the
registry distinct. -/
theorem registry_distinct_update_device (s : bt_state) (device : Nat)
    (f : uni_hid_device_t → uni_hid_device_t)
    (hf : ∀ d, (f d).in_use = d.in_use ∧ (f d).address = d.address)
    (h : registry_distinct s) : registry_distinct (s.update_device device f) :=
  registry_distinct_of_keys_eq s _ (registry_keys_update_device s device f hf) h

/-- Recording a call keeps the registry distinct. -/
theorem registry_distinct_call (s : bt_state) (c : Call) (h : registry_distinct s) :
    registry_distinct (s.call c) := h

/-- When the lookup by address finds nothing, no slot in use holds the address. -/
theorem get_instance_for_address_none (s : bt_state) (addr : Nat)
    (h : uni_hid_device_get_instance_for_address s addr = none) :
    ∀ x ∈ registry_keys s, x.1 = true → x.2 ≠ addr := by
  intro x hx hu
  simp only [registry_keys, List.mem_map] at hx
  obtain ⟨d, hd, rfl⟩ := hx
  have := List.findIdx?_eq_none_iff.mp h d hd
  simp only [Bool.and_eq_false_imp, beq_eq_false_iff_ne, ne_eq] at this
  exact this hu

/-- Creating a device for an address that the lookup did not find keeps the
registry distinct. -/
theorem registry_distinct_create (s s1 : bt_state) (addr device : Nat)
    (hnone : uni_hid_device_get_instance_for_address s addr = none)
    (hc : uni_hid_device_create s addr = some (device, s1)) (h : registry_distinct s) :
    registry_distinct s1 := by
  obtain ⟨-, -, hs1, -⟩ := create_some s s1 addr device hc
  unfold registry_distinct at h ⊢
  have hk : registry_keys s1 = (registry_keys s).set device (true, addr) := by
    rw [hs1]; simp only [registry_keys, List.map_set]
  rw [hk]
  exact pairwise_keys_set_new _ _ _ (get_instance_for_address_none s addr hnone) h

/-- Removing an entry keeps the registry distinct. -/
theorem registry_distinct_remove (s : bt_state) (channel : Nat) (h : registry_distinct s) :
    registry_distinct (uni_hid_device_remove_entry_with_channel s channel) := by
  unfold uni_hid_device_remove_entry_with_channel
  cases uni_hid_device_get_instance_for_cid s channel with
  | none => exact h
  | some device =>
    unfold registry_distinct at h ⊢
    have hk : registry_keys ({ s with devices := s.devices.set device {} } : bt_state)
        = (registry_keys s).set device (false, 0) := by
      simp only [registry_keys, List.map_set]
    rw [hk]
    exact pairwise_keys_set_free _ _ _ h

/-- Function `on_hci_connection_request` keeps the registry distinct: it creates a device
only for an address that the lookup did not find. -/
theorem registry_distinct_on_hci_connection_request (e : connection_request_event)
    (s : bt_state) (h : registry_distinct s) :
    registry_distinct (on_hci_connection_request e s) := by
  unfold on_hci_connection_request
  cases hl : uni_hid_device_get_instance_for_address s e.bd_addr with
  | some device =>
    simp only
    exact registry_distinct_update_device _ _ _ (fun _ => ⟨rfl, rfl⟩)
      (registry_distinct_update_device _ _ _ (fun _ => ⟨rfl, rfl⟩) h)
  | none =>
    simp only
    cases hc : uni_hid_device_create s e.bd_addr with
    | none => exact h
    | some p =>
      obtain ⟨device, s1⟩ := p
      simp only
      exact registry_distinct_update_device _ _ _ (fun _ => ⟨rfl, rfl⟩)
        (registry_distinct_update_device _ _ _ (fun _ => ⟨rfl, rfl⟩)
          (registry_distinct_create s s1 e.bd_addr device hl hc h))

/-- The port assignment keeps the registry distinct. -/
theorem registry_distinct_try_assign (C : Collab) (hC : C.keeps_registry_keys) (s : bt_state)
    (device : Nat) (h : registry_distinct s) :
    registry_distinct (uni_hid_device_try_assign_joystick_port C s device) :=
  registry_distinct_of_keys_eq s _ (hC.1 s.devices device) h

/-- Function `sdp_query_hid_descriptor` keeps the registry distinct: it does not touch the table. -/
theorem registry_distinct_sdp_query_hid_descriptor (status device : Nat) (s : bt_state)
    (h : registry_distinct s) : registry_distinct (sdp_query_hid_descriptor status device s) := by
  unfold sdp_query_hid_descriptor
  cases uni_hid_device_get_current_device s with
  | some _ => exact h
  | none =>
    simp only
    split <;> exact h

/-- The request of a channel keeps the registry distinct: it writes a channel id
only. -/
theorem registry_distinct_l2cap_create_channel (R : stack_replies) (s : bt_state)
    (address : Nat) (psm : psm_t) (device : Nat)
    (store : uni_hid_device_t → Nat → uni_hid_device_t)
    (hstore : ∀ d cid, (store d cid).in_use = d.in_use ∧ (store d cid).address = d.address)
    (h : registry_distinct s) :
    registry_distinct (l2cap_create_channel R s address psm device store) := by
  unfold l2cap_create_channel
  cases R.l2cap_out_local_cid with
  | none => exact h
  | some cid =>
    exact registry_distinct_update_device _ _ _ (fun d => hstore d cid) h

/-- Function `continue_remote_names` keeps the registry distinct. -/
theorem registry_distinct_continue_remote_names (s : bt_state) (h : registry_distinct s) :
    registry_distinct (continue_remote_names s) := by
  unfold continue_remote_names do_next_remote_name_request start_scan
  split
  · split
    · exact h
    · exact registry_distinct_update_device _ _ _ (fun _ => ⟨rfl, rfl⟩) h
  · exact h

/-- Function `list_link_keys` keeps the registry distinct: it does not touch the table. -/
theorem registry_distinct_list_link_keys (R : stack_replies) (s : bt_state)
    (h : registry_distinct s) : registry_distinct (list_link_keys R s) := by
  have key : ∀ (l : List Nat) (s : bt_state), registry_distinct s →
      registry_distinct (l.foldl
        (fun s addr => if true = true
          then s.call (.gap_drop_link_key_for_bd_addr addr) else s) s) := by
    intro l
    induction l with
    | nil => intro s hs; exact hs
    | cons a rest ih => intro s hs; exact ih _ hs
  unfold list_link_keys
  split
  · exact h
  · exact key _ _ h

/-- Function `on_hci_connection_complete` keeps the registry distinct. -/
theorem registry_distinct_on_hci_connection_complete (e : connection_complete_event)
    (s : bt_state) (h : registry_distinct s) :
    registry_distinct (on_hci_connection_complete e s) := by
  unfold on_hci_connection_complete
  split
  · exact h
  · split
    · exact h
    · exact registry_distinct_update_device _ _ _ (fun _ => ⟨rfl, rfl⟩) h

/-- The part of `on_gap_inquiry_result` that works on a known device keeps the
registry distinct. -/
theorem registry_distinct_on_gap_inquiry_result_device (R : stack_replies)
    (e : inquiry_result_event) (device : Nat) (s : bt_state) (h : registry_distinct s) :
    registry_distinct (on_gap_inquiry_result_device R e device s) := by
  unfold on_gap_inquiry_result_device
  refine registry_distinct_l2cap_create_channel _ _ _ _ _ _ (fun _ _ => ⟨rfl, rfl⟩) ?_
  have h3 := registry_distinct_update_device _ device
    (fun d => { d with clock_offset := e.clock_offset }) (fun _ => ⟨rfl, rfl⟩)
    (registry_distinct_update_device _ device
      (fun d => { d with page_scan_repetition_mode := e.page_scan_repetition_mode })
      (fun _ => ⟨rfl, rfl⟩)
      (registry_distinct_update_device s device (uni_hid_device_set_cod · e.class_of_device)
        (fun _ => ⟨rfl, rfl⟩) h))
  split
  · split
    · exact registry_distinct_update_device _ _ _ (fun _ => ⟨rfl, rfl⟩) h3
    · exact registry_distinct_update_device _ _ _ (fun _ => ⟨rfl, rfl⟩) h3
  · exact registry_distinct_update_device _ _ _ (fun _ => ⟨rfl, rfl⟩) h3

/-- Function `on_gap_inquiry_result` keeps the registry distinct: it creates a device only
for an address that the lookup did not find. -/
theorem registry_distinct_on_gap_inquiry_result (C : Collab) (R : stack_replies)
    (e : inquiry_result_event) (s : bt_state) (h : registry_distinct s) :
    registry_distinct (on_gap_inquiry_result C R e s) := by
  unfold on_gap_inquiry_result
  split
  · cases hl : uni_hid_device_get_instance_for_address s e.bd_addr with
    | some device =>
      simp only
      split
      · exact h
      · exact registry_distinct_on_gap_inquiry_result_device R e device s h
    | none =>
      simp only
      cases hc : uni_hid_device_create s e.bd_addr with
      | none => exact h
      | some p =>
        obtain ⟨device, s1⟩ := p
        exact registry_distinct_on_gap_inquiry_result_device R e device s1
          (registry_distinct_create s s1 e.bd_addr device hl hc h)
  · exact h

/-- Function `on_l2cap_channel_closed` keeps the registry distinct. -/
theorem registry_distinct_on_l2cap_channel_closed (e : channel_closed_event) (s : bt_state)
    (h : registry_distinct s) : registry_distinct (on_l2cap_channel_closed e s) := by
  unfold on_l2cap_channel_closed
  split
  · exact h
  · exact registry_distinct_update_device _ _ _ (fun _ => ⟨rfl, rfl⟩) h

/-- Function `on_l2cap_data_packet` keeps the registry distinct. -/
theorem registry_distinct_on_l2cap_data_packet (C : Collab) (channel : Nat) (packet : List Nat)
    (s : bt_state) (h : registry_distinct s) :
    registry_distinct (on_l2cap_data_packet C channel packet s) := by
  unfold on_l2cap_data_packet
  split
  · exact h
  · repeat' split
    all_goals first
      | exact h
      | exact registry_distinct_update_device _ _ _ (fun _ => ⟨rfl, rfl⟩) h

/-- Function `on_l2cap_incoming_connection` keeps the registry distinct: it creates a
device only for an address that the lookup did not find. -/
theorem registry_distinct_on_l2cap_incoming_connection (channel : Nat)
    (e : incoming_connection_event) (s : bt_state) (h : registry_distinct s) :
    registry_distinct (on_l2cap_incoming_connection channel e s) := by
  have fin : ∀ (device : Nat) (s : bt_state), registry_distinct s →
      registry_distinct
        ((((s.call (.l2cap_accept_connection channel)).update_device device
          (uni_hid_device_set_connection_handle · e.handle)).update_device device
          (fun d => { d with hid_control_cid := channel })).update_device device
          (uni_hid_device_set_incoming · true)) := by
    intro device s hs
    exact registry_distinct_update_device _ _ _ (fun _ => ⟨rfl, rfl⟩)
      (registry_distinct_update_device _ _ _ (fun _ => ⟨rfl, rfl⟩)
        (registry_distinct_update_device _ _ _ (fun _ => ⟨rfl, rfl⟩) hs))
  unfold on_l2cap_incoming_connection
  cases e.psm with
  | PSM_HID_CONTROL =>
    simp only
    cases hl : uni_hid_device_get_instance_for_address s e.address with
    | some device => exact fin device s h
    | none =>
      simp only
      cases hc : uni_hid_device_create s e.address with
      | none => exact h
      | some p =>
        obtain ⟨device, s1⟩ := p
        exact fin device s1 (registry_distinct_create s s1 e.address device hl hc h)
  | PSM_HID_INTERRUPT =>
    simp only
    split
    · exact h
    · exact registry_distinct_update_device _ _ _ (fun _ => ⟨rfl, rfl⟩) h
  | other => exact h

/-- Function `on_l2cap_channel_opened` keeps the registry distinct. -/
theorem registry_distinct_on_l2cap_channel_opened (C : Collab) (hC : C.keeps_registry_keys)
    (R : stack_replies) (channel : Nat) (e : channel_opened_event) (s : bt_state)
    (h : registry_distinct s) :
    registry_distinct (on_l2cap_channel_opened C R channel e s) := by
  unfold on_l2cap_channel_opened
  split
  · split
    · exact registry_distinct_remove _ _ h
    · exact h
  · cases hl : uni_hid_device_get_instance_for_address s e.address with
    | none => exact registry_distinct_remove _ _ h
    | some device =>
      simp only
      have h1 := registry_distinct_update_device s device (uni_hid_device_set_connected · true)
        (fun _ => ⟨rfl, rfl⟩) h
      generalize hs1 : s.update_device device (uni_hid_device_set_connected · true) = s1 at h1 ⊢
      have h2 : registry_distinct
          (match e.psm with
          | .PSM_HID_CONTROL =>
            s1.update_device device (fun d => { d with hid_control_cid := e.local_cid })
          | .PSM_HID_INTERRUPT =>
            if ¬ uni_hid_device_has_hid_descriptor
                ((s1.update_device device
                  (fun d => { d with hid_interrupt_cid := e.local_cid })).device device) then
              sdp_query_hid_descriptor R.sdp_client_query_uuid16 device
                (s1.update_device device (fun d => { d with hid_interrupt_cid := e.local_cid }))
            else s1.update_device device (fun d => { d with hid_interrupt_cid := e.local_cid })
          | .other => s1) := by
        cases e.psm with
        | PSM_HID_CONTROL =>
          exact registry_distinct_update_device _ _ _ (fun _ => ⟨rfl, rfl⟩) h1
        | PSM_HID_INTERRUPT =>
          simp only
          split
          · exact registry_distinct_sdp_query_hid_descriptor _ _ _
              (registry_distinct_update_device _ _ _ (fun _ => ⟨rfl, rfl⟩) h1)
          · exact registry_distinct_update_device _ _ _ (fun _ => ⟨rfl, rfl⟩) h1
        | other => exact h1
      generalize (match e.psm with
          | .PSM_HID_CONTROL =>
            s1.update_device device (fun d => { d with hid_control_cid := e.local_cid })
          | .PSM_HID_INTERRUPT =>
            if ¬ uni_hid_device_has_hid_descriptor
                ((s1.update_device device
                  (fun d => { d with hid_interrupt_cid := e.local_cid })).device device) then
              sdp_query_hid_descriptor R.sdp_client_query_uuid16 device
                (s1.update_device device (fun d => { d with hid_interrupt_cid := e.local_cid }))
            else s1.update_device device (fun d => { d with hid_interrupt_cid := e.local_cid })
          | .other => s1) = s2 at h2 ⊢
      repeat' split
      all_goals first
        | exact registry_distinct_remove _ _ h2
        | exact registry_distinct_try_assign C hC _ _ h2
        | exact registry_distinct_remove _ _
            (registry_distinct_l2cap_create_channel _ _ _ _ _ _ (fun _ _ => ⟨rfl, rfl⟩) h2)
        | exact registry_distinct_try_assign C hC _ _
            (registry_distinct_l2cap_create_channel _ _ _ _ _ _ (fun _ _ => ⟨rfl, rfl⟩) h2)

/-- Function `packet_handler` keeps the registry distinct, whatever the packet. -/
theorem registry_distinct_packet_handler (C : Collab) (hC : C.keeps_registry_keys)
    (R : stack_replies) (p : bt_packet) (s : bt_state) (h : registry_distinct s) :
    registry_distinct (packet_handler C R p s) := by
  unfold packet_handler
  simp only
  split
  · exact h
  · cases p with
    | other => exact h
    | L2CAP_DATA_PACKET channel packet =>
      exact registry_distinct_on_l2cap_data_packet C channel packet s h
    | HCI_EVENT_PACKET channel event =>
      cases event with
      | BTSTACK_EVENT_STATE w =>
        simp only
        split
        · exact registry_distinct_list_link_keys R _ h
        · exact h
      | HCI_EVENT_PIN_CODE_REQUEST a => exact h
      | HCI_EVENT_CONNECTION_REQUEST e => exact registry_distinct_on_hci_connection_request e s h
      | HCI_EVENT_CONNECTION_COMPLETE e =>
        exact registry_distinct_on_hci_connection_complete e s h
      | HCI_EVENT_REMOTE_NAME_REQUEST_COMPLETE e =>
        simp only
        apply registry_distinct_continue_remote_names
        split
        · split
          · exact registry_distinct_update_device _ _ _ (fun _ => ⟨rfl, rfl⟩) h
          · exact h
        · exact h
      | L2CAP_EVENT_INCOMING_CONNECTION e =>
        exact registry_distinct_on_l2cap_incoming_connection channel e s h
      | L2CAP_EVENT_CHANNEL_OPENED e =>
        exact registry_distinct_on_l2cap_channel_opened C hC R channel e s h
      | L2CAP_EVENT_CHANNEL_CLOSED e => exact registry_distinct_on_l2cap_channel_closed e s h
      | GAP_EVENT_INQUIRY_RESULT e => exact registry_distinct_on_gap_inquiry_result C R e s h
      | GAP_EVENT_INQUIRY_COMPLETE =>
        simp only
        apply registry_distinct_continue_remote_names
        exact registry_distinct_of_keys_eq s _ (hC.2 s.devices) h
      | log_only => exact h

/-- C17: starting from a registry in which no two slots in use hold the same
address, after every sequence of packets handled by `packet_handler` the
registry still holds no address twice (the collaborator functions that work
on the table leave slots and addresses alone). At the three creation sites
`uni_hid_device_create` is reached only when the lookup by address found no
entry: when the lookup finds an entry, the slots in use and their addresses
are unchanged. -/
theorem registry_never_holds_an_address_twice (C : Collab) (hC : C.keeps_registry_keys)
    (s : bt_state) (h : registry_distinct s) (events : List (stack_replies × bt_packet)) :
    registry_distinct (packet_handler_run C s events)
    ∧ (∀ (e : connection_request_event) (s' : bt_state) (device : Nat),
        uni_hid_device_get_instance_for_address s' e.bd_addr = some device →
        registry_keys (on_hci_connection_request e s') = registry_keys s')
    ∧ (∀ (R : stack_replies) (e : inquiry_result_event) (s' : bt_state) (device : Nat),
        uni_hid_device_get_instance_for_address s' e.bd_addr = some device →
        registry_keys (on_gap_inquiry_result C R e s') = registry_keys s')
    ∧ (∀ (channel : Nat) (e : incoming_connection_event) (s' : bt_state) (device : Nat),
        uni_hid_device_get_instance_for_address s' e.address = some device →
        registry_keys (on_l2cap_incoming_connection channel e s') = registry_keys s') := by
  refine ⟨?_, ?_, ?_, ?_⟩
  · unfold packet_handler_run
    induction events generalizing s with
    | nil => exact h
    | cons ev rest ih =>
      rw [List.foldl_cons]
      exact ih _ (registry_distinct_packet_handler C hC ev.1 ev.2 s h)
  · intro e s' device hdev
    simp only [on_hci_connection_request, hdev]
    refine (registry_keys_update_device _ _ _ ?_).trans
      (registry_keys_update_device _ _ _ ?_) <;> exact fun _ => ⟨rfl, rfl⟩
  · intro R e s' device hdev
    obtain ⟨hlt, -, -⟩ := get_instance_for_address_some s' e.bd_addr device hdev
    unfold on_gap_inquiry_result
    split
    · simp only [hdev]
      split
      · rfl
      · obtain ⟨F, hF, hFd, -, -⟩ := on_gap_inquiry_result_device_form R e device s' hlt
        rw [hF]
        exact registry_keys_update_device s' device F
          (fun d => ⟨(hFd d).2.2.2.1, (hFd d).2.2.2.2⟩)
    · rfl
  · intro channel e s' device hdev
    unfold on_l2cap_incoming_connection
    cases e.psm with
    | PSM_HID_CONTROL =>
      simp only [hdev]
      refine (registry_keys_update_device _ _ _ ?_).trans
        ((registry_keys_update_device _ _ _ ?_).trans
          ((registry_keys_update_device _ _ _ ?_).trans rfl)) <;> exact fun _ => ⟨rfl, rfl⟩
    | PSM_HID_INTERRUPT =>
      simp only [hdev]
      exact registry_keys_update_device _ _ _ (fun _ => ⟨rfl, rfl⟩)
    | other => rfl

/-- Two devices connect, one of them twice, and a channel fails with a stale
key: the registry holds each address once. -/
theorem registry_never_holds_an_address_twice_witness :
    registry_distinct
      (packet_handler_run sample_collab { devices := [{}, {}, {}], bt_ready := true }
        [({}, .HCI_EVENT_PACKET 0 (.HCI_EVENT_CONNECTION_REQUEST { bd_addr := 0xAABBCCDDEEFF })),
         ({}, .HCI_EVENT_PACKET 0 (.GAP_EVENT_INQUIRY_RESULT
            { bd_addr := 0x112233445566, class_of_device := 0x2508 })),
         ({}, .HCI_EVENT_PACKET 0x40 (.L2CAP_EVENT_INCOMING_CONNECTION
            { psm := .PSM_HID_CONTROL, address := 0xAABBCCDDEEFF })),
         ({}, .HCI_EVENT_PACKET 0x40 (.L2CAP_EVENT_CHANNEL_OPENED
            { address := 0xAABBCCDDEEFF, status := .L2CAP_CONNECTION_BASEBAND_DISCONNECT,
              psm := .PSM_HID_CONTROL }))]) :=
  (registry_never_holds_an_address_twice sample_collab ⟨fun _ _ => rfl, fun _ => rfl⟩
    { devices := [{}, {}, {}], bt_ready := true } (by decide) _).1


/-! ## Channel closed -/

/-- C29: `on_l2cap_channel_closed` marks the device that owns the closed local
channel id as disconnected, changes nothing else in it, touches no other slot
and makes no call; it removes no registry entry (the slots in use and their
addresses are what they were); when no device owns the channel id the state
is unchanged. -/
theorem channel_closed_marks_disconnected (e : channel_closed_event) (s : bt_state) :
    (∀ device, uni_hid_device_get_instance_for_cid s e.local_cid = some device →
        on_l2cap_channel_closed e s
          = s.update_device device (uni_hid_device_set_connected · false)
        ∧ (on_l2cap_channel_closed e s).device device
          = { (s.device device) with connected := false }
        ∧ ((on_l2cap_channel_closed e s).device device).connected = false
        ∧ ((on_l2cap_channel_closed e s).device device).in_use = true
        ∧ (∀ other, other ≠ device →
            (on_l2cap_channel_closed e s).device other = s.device other))
    ∧ registry_keys (on_l2cap_channel_closed e s) = registry_keys s
    ∧ (on_l2cap_channel_closed e s).devices.length = s.devices.length
    ∧ new_calls s (on_l2cap_channel_closed e s) = []
    ∧ (uni_hid_device_get_instance_for_cid s e.local_cid = none →
        on_l2cap_channel_closed e s = s) := by
  refine ⟨?_, ?_, ?_, ?_, ?_⟩
  · intro device hdev
    obtain ⟨-, hlt, huse, -⟩ := get_instance_for_cid_some s e.local_cid device hdev
    have hform : on_l2cap_channel_closed e s
        = s.update_device device (uni_hid_device_set_connected · false) := by
      simp only [on_l2cap_channel_closed, hdev]
    rw [hform]
    refine ⟨rfl, device_update_device_same s device _ hlt, ?_, ?_, ?_⟩
    · rw [device_update_device_same s device _ hlt]; rfl
    · rw [device_update_device_same s device _ hlt]; exact huse
    · intro other hne
      exact device_update_device_ne s device other _ (Ne.symm hne)
  · unfold on_l2cap_channel_closed
    split
    · rfl
    · exact registry_keys_update_device _ _ _ (fun _ => ⟨rfl, rfl⟩)
  · unfold on_l2cap_channel_closed
    split
    · rfl
    · exact length_update_device _ _ _
  · unfold on_l2cap_channel_closed
    split <;> simp only [new_calls, bt_state.update_device, List.drop_length]
  · intro hnone
    simp only [on_l2cap_channel_closed, hnone]

/-- The interrupt channel 0x41 of the one device closes: the device is marked
disconnected and stays in the table. -/
theorem channel_closed_marks_disconnected_witness :
    ((on_l2cap_channel_closed { local_cid := 0x41 }
        { devices := [{ in_use := true, address := 0xAABBCCDDEEFF, connected := true,
                        hid_control_cid := 0x40, hid_interrupt_cid := 0x41 }] }).device 0).connected
      = false :=
  ((channel_closed_marks_disconnected { local_cid := 0x41 }
      { devices := [{ in_use := true, address := 0xAABBCCDDEEFF, connected := true,
                      hid_control_cid := 0x40, hid_interrupt_cid := 0x41 }] }).1 0
    (by decide)).2.2.1

/-! ## Stored link keys at startup -/

/-- The calls that the loop of `list_link_keys` adds: one
`gap_drop_link_key_for_bd_addr` for each key enumerated, in order; nothing
else changes. -/
theorem drop_keys_foldl (keys : List Nat) (s : bt_state) :
    keys.foldl (fun s addr => s.call (.gap_drop_link_key_for_bd_addr addr)) s
      = { s with calls := s.calls ++ keys.map Call.gap_drop_link_key_for_bd_addr } := by
  induction keys generalizing s with
  | nil => simp only [List.foldl_nil, List.map_nil, List.append_nil]
  | cons a rest ih =>
    rw [List.foldl_cons, ih]
    simp only [bt_state.call, List.map_cons, List.append_assoc, List.singleton_append]

/-- C30: when the link-key iterator initialises, `list_link_keys` asks
`uni_platform_is_button_pressed` and then drops every stored link key that the
iterator enumerates, in order, and does nothing else; what
`uni_platform_is_button_pressed` returned plays no part: the result is the
same for true and for false. At startup (`BTSTACK_EVENT_STATE` with
`HCI_STATE_WORKING`) this runs between `uni_platform_on_init_complete` and the
start of the inquiry scan. -/
theorem list_link_keys_drops_every_key (C : Collab) (R : stack_replies) (s : bt_state)
    (channel : Nat) (hok : R.gap_link_key_iterator_init = true) :
    list_link_keys R s
      = { s with calls := s.calls ++ Call.uni_platform_is_button_pressed
            :: R.link_keys.map Call.gap_drop_link_key_for_bd_addr }
    ∧ new_calls s (list_link_keys R s)
      = Call.uni_platform_is_button_pressed
          :: R.link_keys.map Call.gap_drop_link_key_for_bd_addr
    ∧ (∀ addr ∈ R.link_keys,
        Call.gap_drop_link_key_for_bd_addr addr ∈ new_calls s (list_link_keys R s))
    ∧ list_link_keys { R with uni_platform_is_button_pressed := true } s
      = list_link_keys { R with uni_platform_is_button_pressed := false } s
    ∧ new_calls s (packet_handler C R (.HCI_EVENT_PACKET channel (.BTSTACK_EVENT_STATE true)) s)
      = Call.uni_platform_on_init_complete :: Call.uni_platform_is_button_pressed
          :: (R.link_keys.map Call.gap_drop_link_key_for_bd_addr
              ++ [Call.gap_inquiry_start INQUIRY_INTERVAL]) := by
  have hform : ∀ (R1 : stack_replies) (s1 : bt_state), R1.gap_link_key_iterator_init = true →
      list_link_keys R1 s1
        = { s1 with calls := s1.calls ++ Call.uni_platform_is_button_pressed
              :: R1.link_keys.map Call.gap_drop_link_key_for_bd_addr } := by
    intro R1 s1 h1
    unfold list_link_keys
    simp only [h1, not_true_eq_false, if_false, if_true]
    rw [drop_keys_foldl]
    simp only [bt_state.call, List.append_assoc, List.singleton_append]
  have hcalls : new_calls s (list_link_keys R s)
      = Call.uni_platform_is_button_pressed
          :: R.link_keys.map Call.gap_drop_link_key_for_bd_addr := by
    rw [hform R s hok]
    simp only [new_calls, List.drop_left]
  refine ⟨hform R s hok, hcalls, ?_, ?_, ?_⟩
  · intro addr haddr
    rw [hcalls]
    exact List.mem_cons_of_mem _ (List.mem_map_of_mem _ haddr)
  · exact (hform { R with uni_platform_is_button_pressed := true } s hok).trans
      (hform { R with uni_platform_is_button_pressed := false } s hok).symm
  · simp only [packet_handler, Bool.not_true, Bool.and_false, Bool.false_eq_true, if_false,
      if_true]
    rw [hform R _ hok]
    simp only [start_scan, bt_state.call, new_calls, List.append_assoc, List.singleton_append,
      List.cons_append, List.nil_append, List.drop_left]

/-- Two keys are stored and the button is not pressed: both keys are dropped. -/
theorem list_link_keys_drops_every_key_witness :
    new_calls {} (list_link_keys
        { link_keys := [0xAABBCCDDEEFF, 0x112233445566], uni_platform_is_button_pressed := false }
        {})
      = [Call.uni_platform_is_button_pressed,
         Call.gap_drop_link_key_for_bd_addr 0xAABBCCDDEEFF,
         Call.gap_drop_link_key_for_bd_addr 0x112233445566] :=
  (list_link_keys_drops_every_key sample_collab
    { link_keys := [0xAABBCCDDEEFF, 0x112233445566], uni_platform_is_button_pressed := false }
    {} 0 rfl).2.1


/-! ## Remote-name requests -/

/-- A write through a device pointer that leaves `in_use` and `state` alone
does not change which device is the first in a given state. -/
theorem get_first_device_with_state_update_device (s : bt_state) (device : Nat)
    (f : uni_hid_device_t → uni_hid_device_t) (st : device_state)
    (hf : ∀ d, (f d).in_use = d.in_use ∧ (f d).state = d.state) :
    uni_hid_device_get_first_device_with_state (s.update_device device f) st
      = uni_hid_device_get_first_device_with_state s st := by
  have key : ∀ (l : List uni_hid_device_t) (n k : Nat),
      (l.modify f n).findIdx? (fun d => d.in_use && d.state == st) k
        = l.findIdx? (fun d => d.in_use && d.state == st) k := by
    intro l
    induction l with
    | nil => intro n k; cases n <;> rfl
    | cons a rest ih =>
      intro n k
      cases n with
      | zero =>
        simp only [List.modify_zero_cons, List.findIdx?_cons, (hf a).1, (hf a).2]
      | succ m =>
        simp only [List.modify_succ_cons, List.findIdx?_cons, ih m (k + 1)]
  exact key s.devices device 0

/-- What the first device in a state is: a slot in use, in that state. -/
theorem get_first_device_with_state_some (s : bt_state) (st : device_state) (device : Nat)
    (h : uni_hid_device_get_first_device_with_state s st = some device) :
    device < s.devices.length ∧ (s.device device).in_use = true
      ∧ (s.device device).state = st := by
  unfold uni_hid_device_get_first_device_with_state at h
  rw [List.findIdx?_eq_some_iff_getElem] at h
  obtain ⟨hlt, hp, -⟩ := h
  simp only [Bool.and_eq_true, beq_iff_eq] at hp
  refine ⟨hlt, ?_, ?_⟩
  · simp only [bt_state.device, List.getD_eq_getElem?_getD, List.getElem?_eq_getElem hlt,
      Option.getD_some, hp.1]
  · simp only [bt_state.device, List.getD_eq_getElem?_getD, List.getElem?_eq_getElem hlt,
      Option.getD_some, hp.2]

/-- Function `do_next_remote_name_request` when a device is in state
`REMOTE_NAME_REQUEST`: the first such device is put in state
`REMOTE_NAME_INQUIRED` and one remote-name request is made, with its address,
its page-scan-repetition mode and its clock offset with bit 15 set. -/
theorem do_next_remote_name_request_some (s : bt_state) (device : Nat)
    (h : uni_hid_device_get_first_device_with_state s .REMOTE_NAME_REQUEST = some device) :
    do_next_remote_name_request s
      = (s.update_device device (uni_hid_device_set_state · .REMOTE_NAME_INQUIRED)).call
          (.gap_remote_name_request (s.device device).address
            (s.device device).page_scan_repetition_mode
            ((s.device device).clock_offset ||| 0x8000)) := by
  obtain ⟨hlt, -, -⟩ := get_first_device_with_state_some s _ device h
  simp only [do_next_remote_name_request, h, device_update_device_same s device _ hlt]
  rfl

/-- Setting bit 15 leaves a number as it is exactly when bit 15 is set. -/
theorem or_0x8000_eq_iff (n : Nat) : n ||| 0x8000 = n ↔ n.testBit 15 = true := by
  have h15 : (0x8000 : Nat) = 2 ^ 15 := by norm_num
  constructor
  · intro h
    have h2 := congrArg (fun m => Nat.testBit m 15) h
    simp only [Nat.testBit_or, h15, Nat.testBit_two_pow_self, Bool.or_true] at h2
    exact h2.symm
  · intro h
    apply Nat.eq_of_testBit_eq
    intro i
    rw [Nat.testBit_or, h15, Nat.testBit_two_pow]
    by_cases hi : 15 = i
    · subst hi
      simp only [h, decide_True, Bool.or_true]
    · simp only [hi, decide_False, Bool.or_false]

/-- The device that `on_gap_inquiry_result` creates for a new address with a
supported class of device: its slot holds the address, the class of device,
the page-scan-repetition mode and the clock offset of the event; it is in
state `REMOTE_NAME_REQUEST` when the event carries no name; no other slot
changes. -/
theorem on_gap_inquiry_result_new_device (C : Collab) (R : stack_replies)
    (e : inquiry_result_event) (s s1 : bt_state) (device : Nat)
    (hcod : C.uni_hid_device_is_cod_supported e.class_of_device = true)
    (hnone : uni_hid_device_get_instance_for_address s e.bd_addr = none)
    (hcreate : uni_hid_device_create s e.bd_addr = some (device, s1)) :
    ((on_gap_inquiry_result C R e s).device device).in_use = true
    ∧ ((on_gap_inquiry_result C R e s).device device).address = e.bd_addr
    ∧ ((on_gap_inquiry_result C R e s).device device).page_scan_repetition_mode
        = e.page_scan_repetition_mode
    ∧ ((on_gap_inquiry_result C R e s).device device).clock_offset = e.clock_offset
    ∧ ((on_gap_inquiry_result C R e s).device device).state
        = (if e.name.isSome then .DISCOVERED else .REMOTE_NAME_REQUEST)
    ∧ (∀ other, other ≠ device →
        (on_gap_inquiry_result C R e s).device other = s.device other) := by
  obtain ⟨hlt, -, hs1, hfresh⟩ := create_some s s1 e.bd_addr device hcreate
  have hlt1 : device < s1.devices.length := by
    rw [hs1]; simp only [List.length_set]; exact hlt
  have e1 : on_gap_inquiry_result C R e s = on_gap_inquiry_result_device R e device s1 := by
    simp only [on_gap_inquiry_result, hcod, if_true, hnone, hcreate]
  obtain ⟨F, hF, hFd, hst, -⟩ := on_gap_inquiry_result_device_form R e device s1 hlt1
  have hd : (on_gap_inquiry_result C R e s).device device = F (s1.device device) := by
    rw [e1, hF]
    exact device_update_device_same s1 device F hlt1
  refine ⟨?_, ?_, ?_, ?_, ?_, ?_⟩
  · rw [hd, (hFd _).2.2.2.1, hfresh]
  · rw [hd, (hFd _).2.2.2.2, hfresh]
  · rw [hd, (hFd _).2.1]
  · rw [hd, (hFd _).2.2.1]
  · rw [hd, hst, hfresh]
    cases hn : e.name <;> simp [uni_hid_device_has_name]
  · intro other hne
    rw [e1, hF]
    have h1 : ((s1.update_device device F).call
        (.l2cap_create_channel (s1.device device).address .PSM_HID_CONTROL 48)).device other
        = s1.device other := device_update_device_ne s1 device other F (Ne.symm hne)
    rw [h1, hs1]
    simp only [bt_state.device, List.getD_eq_getElem?_getD, List.getElem?_set,
      if_neg (Ne.symm hne)]

/-- C24 as stated fails: a device is discovered with clock offset 0x1234, which
is stored as it is, and the remote-name request that
`do_next_remote_name_request` then makes for it passes 0x9234. -/
theorem clock_offset_not_passed_verbatim :
    ((on_gap_inquiry_result sample_collab {}
        { bd_addr := 0xAABBCCDDEEFF, class_of_device := 0x2508,
          page_scan_repetition_mode := 1, clock_offset := 0x1234 }
        { devices := [{}] }).device 0).clock_offset = 0x1234
    ∧ new_calls
        (on_gap_inquiry_result sample_collab {}
          { bd_addr := 0xAABBCCDDEEFF, class_of_device := 0x2508,
            page_scan_repetition_mode := 1, clock_offset := 0x1234 }
          { devices := [{}] })
        (do_next_remote_name_request
          (on_gap_inquiry_result sample_collab {}
            { bd_addr := 0xAABBCCDDEEFF, class_of_device := 0x2508,
              page_scan_repetition_mode := 1, clock_offset := 0x1234 }
            { devices := [{}] }))
      = [Call.gap_remote_name_request 0xAABBCCDDEEFF 1 0x9234]
    ∧ (0x9234 : Nat) ≠ 0x1234 := by
  decide

/-- C24 (amended): the remote-name request that `do_next_remote_name_request`
makes for a device passes the address and the page-scan-repetition mode of
the device as they are stored, and its stored clock offset with bit 15
(0x8000) set: the value passed is the stored value exactly when bit 15 of the
stored value is set, and for a 16-bit value it is a 16-bit value with the
same low 15 bits. For a device created by a discovery result the stored
values are those of the event, so the request passes the address and the
page-scan-repetition mode of the event and its clock offset with bit 15
set. -/
theorem remote_name_request_parameters (C : Collab) (R : stack_replies)
    (e : inquiry_result_event) (s0 s1 s : bt_state) (device : Nat)
    (h : uni_hid_device_get_first_device_with_state s .REMOTE_NAME_REQUEST = some device) :
    new_calls s (do_next_remote_name_request s)
      = [Call.gap_remote_name_request (s.device device).address
          (s.device device).page_scan_repetition_mode
          ((s.device device).clock_offset ||| 0x8000)]
    ∧ ((s.device device).clock_offset ||| 0x8000 = (s.device device).clock_offset
        ↔ (s.device device).clock_offset.testBit 15 = true)
    ∧ ((s.device device).clock_offset < 2 ^ 16 →
        (s.device device).clock_offset ||| 0x8000 < 2 ^ 16
        ∧ ((s.device device).clock_offset ||| 0x8000) % 0x8000
            = (s.device device).clock_offset % 0x8000)
    ∧ (C.uni_hid_device_is_cod_supported e.class_of_device = true →
        uni_hid_device_get_instance_for_address s0 e.bd_addr = none →
        uni_hid_device_create s0 e.bd_addr = some (device, s1) →
        s = on_gap_inquiry_result C R e s0 →
        new_calls s (do_next_remote_name_request s)
          = [Call.gap_remote_name_request e.bd_addr e.page_scan_repetition_mode
              (e.clock_offset ||| 0x8000)]) := by
  have hcalls : new_calls s (do_next_remote_name_request s)
      = [Call.gap_remote_name_request (s.device device).address
          (s.device device).page_scan_repetition_mode
          ((s.device device).clock_offset ||| 0x8000)] := by
    rw [do_next_remote_name_request_some s device h]
    simp only [new_calls, bt_state.call, bt_state.update_device, List.drop_left]
  refine ⟨hcalls, or_0x8000_eq_iff _, ?_, ?_⟩
  · intro hlt
    refine ⟨Nat.or_lt_two_pow hlt (by norm_num), ?_⟩
    have h15 : (0x8000 : Nat) = 2 ^ 15 := by norm_num
    rw [h15]
    apply Nat.eq_of_testBit_eq
    intro i
    simp only [Nat.testBit_mod_two_pow, Nat.testBit_or, Nat.testBit_two_pow]
    by_cases hi : i < 15
    · have hne : ¬ 15 = i := by omega
      simp only [hi, hne, decide_True, decide_False, Bool.or_false, Bool.true_and]
    · simp only [hi, decide_False, Bool.false_and]
  · intro hcod hnone hcreate hs
    obtain ⟨-, haddr, hpsrm, hclock, -, -⟩ :=
      on_gap_inquiry_result_new_device C R e s0 s1 device hcod hnone hcreate
    rw [hcalls, hs, haddr, hpsrm, hclock]

/-- A device with clock offset 0x1234 is the first in `REMOTE_NAME_REQUEST`:
the request passes 0x9234. -/
theorem remote_name_request_parameters_witness :
    new_calls
        { devices := [{ in_use := true, address := 0xAABBCCDDEEFF,
                        state := .REMOTE_NAME_REQUEST, page_scan_repetition_mode := 1,
                        clock_offset := 0x1234 }] }
        (do_next_remote_name_request
          { devices := [{ in_use := true, address := 0xAABBCCDDEEFF,
                          state := .REMOTE_NAME_REQUEST, page_scan_repetition_mode := 1,
                          clock_offset := 0x1234 }] })
      = [Call.gap_remote_name_request 0xAABBCCDDEEFF 1 0x9234] :=
  (remote_name_request_parameters sample_collab {} { bd_addr := 0 } {} {}
    { devices := [{ in_use := true, address := 0xAABBCCDDEEFF,
                    state := .REMOTE_NAME_REQUEST, page_scan_repetition_mode := 1,
                    clock_offset := 0x1234 }] } 0 (by decide)).1


/-- A slot after a write through a device pointer: what it was, or what the
write makes of it. -/
theorem device_update_device (s : bt_state) (device i : Nat)
    (f : uni_hid_device_t → uni_hid_device_t) :
    (s.update_device device f).device i = s.device i
      ∨ (device = i ∧ i < s.devices.length
          ∧ (s.update_device device f).device i = f (s.device i)) := by
  by_cases h : device = i
  · subst h
    by_cases hlt : device < s.devices.length
    · exact Or.inr ⟨rfl, hlt, device_update_device_same s device f hlt⟩
    · left
      simp only [bt_state.device, bt_state.update_device, List.getD_eq_getElem?_getD,
        List.getElem?_modify, List.getElem?_eq_none (Nat.le_of_not_lt hlt)]
      rfl
  · exact Or.inl (device_update_device_ne s device i f h)

/-- Function `continue_remote_names`: with a device in state
`REMOTE_NAME_REQUEST`, the first such device is put in `REMOTE_NAME_INQUIRED`
and one remote-name request is made for it; with none, one inquiry scan is
started. -/
theorem continue_remote_names_cases (s : bt_state) :
    (∀ device,
      uni_hid_device_get_first_device_with_state s .REMOTE_NAME_REQUEST = some device →
      continue_remote_names s
        = (s.update_device device (uni_hid_device_set_state · .REMOTE_NAME_INQUIRED)).call
            (.gap_remote_name_request (s.device device).address
              (s.device device).page_scan_repetition_mode
              ((s.device device).clock_offset ||| 0x8000)))
    ∧ (uni_hid_device_get_first_device_with_state s .REMOTE_NAME_REQUEST = none →
      continue_remote_names s = s.call (.gap_inquiry_start INQUIRY_INTERVAL)) := by
  constructor
  · intro device h
    simp only [continue_remote_names, has_more_remote_name_requests, h, Option.isSome_some,
      if_true]
    exact do_next_remote_name_request_some s device h
  · intro h
    simp only [continue_remote_names, has_more_remote_name_requests, h, Option.isSome_none,
      Bool.false_eq_true, if_false, start_scan]

/-- The state in which `packet_handler` calls `continue_remote_names` on a
remote-name-request-complete event: the name may have been stored in the
device of the event; no lifecycle state, address, scan parameter or call
changed. -/
theorem name_complete_prefix (e : remote_name_request_complete_event) (s : bt_state) :
    ∃ s1 : bt_state,
      (match uni_hid_device_get_instance_for_address s e.bd_addr with
        | some device =>
          if e.status = 0 then s.update_device device (uni_hid_device_set_name · e.name)
          else s
        | none => s) = s1
      ∧ s1.calls = s.calls
      ∧ uni_hid_device_get_first_device_with_state s1 .REMOTE_NAME_REQUEST
          = uni_hid_device_get_first_device_with_state s .REMOTE_NAME_REQUEST
      ∧ (∀ i, (s1.device i).state = (s.device i).state
          ∧ (s1.device i).address = (s.device i).address
          ∧ (s1.device i).page_scan_repetition_mode = (s.device i).page_scan_repetition_mode
          ∧ (s1.device i).clock_offset = (s.device i).clock_offset) := by
  refine ⟨_, rfl, ?_⟩
  have hupd : ∀ device,
      (s.update_device device (uni_hid_device_set_name · e.name)).calls = s.calls
      ∧ uni_hid_device_get_first_device_with_state
          (s.update_device device (uni_hid_device_set_name · e.name)) .REMOTE_NAME_REQUEST
          = uni_hid_device_get_first_device_with_state s .REMOTE_NAME_REQUEST
      ∧ (∀ i, ((s.update_device device (uni_hid_device_set_name · e.name)).device i).state
            = (s.device i).state
          ∧ ((s.update_device device (uni_hid_device_set_name · e.name)).device i).address
            = (s.device i).address
          ∧ ((s.update_device device
                (uni_hid_device_set_name · e.name)).device i).page_scan_repetition_mode
            = (s.device i).page_scan_repetition_mode
          ∧ ((s.update_device device (uni_hid_device_set_name · e.name)).device i).clock_offset
            = (s.device i).clock_offset) := by
    intro device
    refine ⟨rfl, get_first_device_with_state_update_device s device _ _
      (fun _ => ⟨rfl, rfl⟩), ?_⟩
    intro i
    rcases device_update_device s device i (uni_hid_device_set_name · e.name) with h | ⟨-, -, h⟩
    · rw [h]; exact ⟨rfl, rfl, rfl, rfl⟩
    · rw [h]; exact ⟨rfl, rfl, rfl, rfl⟩
  cases uni_hid_device_get_instance_for_address s e.bd_addr with
  | none => exact ⟨rfl, rfl, fun _ => ⟨rfl, rfl, rfl, rfl⟩⟩
  | some device =>
    by_cases hst : e.status = 0
    · dsimp only
      rw [if_pos hst]
      exact hupd device
    · dsimp only
      rw [if_neg hst]
      exact ⟨rfl, rfl, fun _ => ⟨rfl, rfl, rfl, rfl⟩⟩

/-- C23 as stated fails: before Bluetooth is ready `packet_handler` returns at
once. A remote-name-request-complete event with a device in state
`REMOTE_NAME_REQUEST` makes no remote-name request, and an inquiry-complete
event with no such device starts no inquiry: neither action happens. -/
theorem completion_event_ignored_before_ready :
    new_calls
        { devices := [{ in_use := true, address := 0xAABBCCDDEEFF,
                        state := .REMOTE_NAME_REQUEST }] }
        (packet_handler sample_collab {}
          (.HCI_EVENT_PACKET 0 (.HCI_EVENT_REMOTE_NAME_REQUEST_COMPLETE
            { status := 0, bd_addr := 0x778899AABBCC }))
          { devices := [{ in_use := true, address := 0xAABBCCDDEEFF,
                          state := .REMOTE_NAME_REQUEST }] })
      = []
    ∧ uni_hid_device_get_first_device_with_state
        { devices := [{ in_use := true, address := 0xAABBCCDDEEFF,
                        state := .REMOTE_NAME_REQUEST }] } .REMOTE_NAME_REQUEST = some 0
    ∧ new_calls { devices := [{}] }
        (packet_handler sample_collab {} (.HCI_EVENT_PACKET 0 .GAP_EVENT_INQUIRY_COMPLETE)
          { devices := [{}] })
      = []
    ∧ uni_hid_device_get_first_device_with_state
        { devices := [{}] } .REMOTE_NAME_REQUEST = none := by
  decide

/-- C23 (amended): once Bluetooth is ready, a remote-name-request-complete event and an
inquiry-complete event each result in exactly one of two actions. With a
device in state `REMOTE_NAME_REQUEST`, one remote-name request is made, for
the first such device, and no inquiry is started; with none, one inquiry
scan is started and no remote-name request is made. On the inquiry-complete
event `uni_hid_device_request_inquire` runs first, and the devices in
`REMOTE_NAME_REQUEST` are those of the table it leaves. -/
theorem completion_event_requests_name_or_scans (C : Collab) (R : stack_replies)
    (channel : Nat) (e : remote_name_request_complete_event) (s : bt_state)
    (hready : s.bt_ready = true) :
    (∀ device,
      uni_hid_device_get_first_device_with_state s .REMOTE_NAME_REQUEST = some device →
      new_calls s (packet_handler C R
          (.HCI_EVENT_PACKET channel (.HCI_EVENT_REMOTE_NAME_REQUEST_COMPLETE e)) s)
        = [Call.gap_remote_name_request (s.device device).address
            (s.device device).page_scan_repetition_mode
            ((s.device device).clock_offset ||| 0x8000)])
    ∧ (uni_hid_device_get_first_device_with_state s .REMOTE_NAME_REQUEST = none →
      new_calls s (packet_handler C R
          (.HCI_EVENT_PACKET channel (.HCI_EVENT_REMOTE_NAME_REQUEST_COMPLETE e)) s)
        = [Call.gap_inquiry_start INQUIRY_INTERVAL])
    ∧ (∀ device,
      uni_hid_device_get_first_device_with_state
        { s with devices := C.uni_hid_device_request_inquire s.devices }
        .REMOTE_NAME_REQUEST = some device →
      new_calls s (packet_handler C R (.HCI_EVENT_PACKET channel .GAP_EVENT_INQUIRY_COMPLETE) s)
        = [Call.uni_hid_device_request_inquire,
           Call.gap_remote_name_request
            ((C.uni_hid_device_request_inquire s.devices).getD device default).address
            ((C.uni_hid_device_request_inquire s.devices).getD device
              default).page_scan_repetition_mode
            (((C.uni_hid_device_request_inquire s.devices).getD device default).clock_offset
              ||| 0x8000)])
    ∧ (uni_hid_device_get_first_device_with_state
        { s with devices := C.uni_hid_device_request_inquire s.devices }
        .REMOTE_NAME_REQUEST = none →
      new_calls s (packet_handler C R (.HCI_EVENT_PACKET channel .GAP_EVENT_INQUIRY_COMPLETE) s)
        = [Call.uni_hid_device_request_inquire, Call.gap_inquiry_start INQUIRY_INTERVAL]) := by
  obtain ⟨s1, hs1, hcalls, hfirst, hfields⟩ := name_complete_prefix e s
  have hname : packet_handler C R
      (.HCI_EVENT_PACKET channel (.HCI_EVENT_REMOTE_NAME_REQUEST_COMPLETE e)) s
      = continue_remote_names s1 := by
    simp only [packet_handler, hready, Bool.not_true, Bool.false_and, Bool.false_eq_true,
      if_false]
    rw [hs1]
  have hinq : packet_handler C R (.HCI_EVENT_PACKET channel .GAP_EVENT_INQUIRY_COMPLETE) s
      = continue_remote_names
          (({ s with devices := C.uni_hid_device_request_inquire s.devices } : bt_state).call
            .uni_hid_device_request_inquire) := by
    simp only [packet_handler, hready, Bool.not_true, Bool.false_and, Bool.false_eq_true,
      if_false]
  refine ⟨?_, ?_, ?_, ?_⟩
  · intro device h
    rw [hname, (continue_remote_names_cases s1).1 device (hfirst.trans h)]
    simp only [new_calls, bt_state.call, bt_state.update_device, hcalls, List.drop_left,
      (hfields device).2.1, (hfields device).2.2.1, (hfields device).2.2.2]
  · intro h
    rw [hname, (continue_remote_names_cases s1).2 (hfirst.trans h)]
    simp only [new_calls, bt_state.call, hcalls, List.drop_left]
  · intro device h
    have h2 : uni_hid_device_get_first_device_with_state
        (({ s with devices := C.uni_hid_device_request_inquire s.devices } : bt_state).call
          .uni_hid_device_request_inquire) .REMOTE_NAME_REQUEST = some device := h
    rw [hinq, (continue_remote_names_cases _).1 device h2]
    simp only [new_calls, bt_state.call, bt_state.update_device, bt_state.device,
      List.append_assoc, List.singleton_append, List.drop_left]
  · intro h
    have h2 : uni_hid_device_get_first_device_with_state
        (({ s with devices := C.uni_hid_device_request_inquire s.devices } : bt_state).call
          .uni_hid_device_request_inquire) .REMOTE_NAME_REQUEST = none := h
    rw [hinq, (continue_remote_names_cases _).2 h2]
    simp only [new_calls, bt_state.call, List.append_assoc, List.singleton_append,
      List.drop_left]

/-- Two devices wait for their name when a remote-name request completes: one
request is made, for the first of them, and no inquiry is started. -/
theorem completion_event_requests_name_or_scans_witness :
    new_calls
        { devices := [{ in_use := true, address := 0xAABBCCDDEEFF,
                        state := .REMOTE_NAME_REQUEST, clock_offset := 0x1234 },
                      { in_use := true, address := 0x112233445566,
                        state := .REMOTE_NAME_REQUEST }],
          bt_ready := true }
        (packet_handler sample_collab {}
          (.HCI_EVENT_PACKET 0 (.HCI_EVENT_REMOTE_NAME_REQUEST_COMPLETE
            { status := 4, bd_addr := 0x778899AABBCC }))
          { devices := [{ in_use := true, address := 0xAABBCCDDEEFF,
                          state := .REMOTE_NAME_REQUEST, clock_offset := 0x1234 },
                        { in_use := true, address := 0x112233445566,
                          state := .REMOTE_NAME_REQUEST }],
            bt_ready := true })
      = [Call.gap_remote_name_request 0xAABBCCDDEEFF 0 0x9234] :=
  (completion_event_requests_name_or_scans sample_collab {} 0
    { status := 4, bd_addr := 0x778899AABBCC }
    { devices := [{ in_use := true, address := 0xAABBCCDDEEFF,
                    state := .REMOTE_NAME_REQUEST, clock_offset := 0x1234 },
                  { in_use := true, address := 0x112233445566,
                    state := .REMOTE_NAME_REQUEST }],
      bt_ready := true } rfl).1 0 (by decide)


/-! ## What the handlers do to the slots of the table -/

/-- An unchanged table is related to itself. -/
theorem slots_related_refl (P : Nat → uni_hid_device_t → uni_hid_device_t → Prop)
    (hP : lifecycle_frame P) (s : bt_state) : slots_related P s s :=
  fun i => hP.keeps i _ _ rfl rfl

/-- A step that leaves the table as it is keeps the relation to an earlier
table. -/
theorem slots_related_devices_eq (P : Nat → uni_hid_device_t → uni_hid_device_t → Prop)
    (s0 s s' : bt_state) (he : s'.devices = s.devices) (h : slots_related P s0 s) :
    slots_related P s0 s' := by
  intro i
  have e : s'.device i = s.device i := by simp only [bt_state.device, he]
  rw [e]
  exact h i

/-- A write through a device pointer keeps the relation to an earlier table
when the relation holds across the write, at the slot written. -/
theorem slots_related_update_device (P : Nat → uni_hid_device_t → uni_hid_device_t → Prop)
    (hP : lifecycle_frame P) (s0 s : bt_state) (device : Nat)
    (f : uni_hid_device_t → uni_hid_device_t) (hf : ∀ d, P device d (f d))
    (h : slots_related P s0 s) : slots_related P s0 (s.update_device device f) := by
  intro i
  rcases device_update_device s device i f with e | ⟨hi, -, e⟩
  · rw [e]; exact h i
  · rw [e]
    subst hi
    exact hP.trans _ _ _ _ (h device) (hf _)

/-- Replacing the content of a slot keeps the relation to an earlier table
when the relation holds from any content to the new one, at that slot. -/
theorem slots_related_set (P : Nat → uni_hid_device_t → uni_hid_device_t → Prop)
    (hP : lifecycle_frame P) (s0 s : bt_state) (device : Nat) (d' : uni_hid_device_t)
    (hd : ∀ d, P device d d') (h : slots_related P s0 s) :
    slots_related P s0 { s with devices := s.devices.set device d' } := by
  intro i
  by_cases hi : device = i
  · subst hi
    by_cases hlt : device < s.devices.length
    · have e : ({ s with devices := s.devices.set device d' } : bt_state).device device = d' := by
        simp only [bt_state.device, List.getD_eq_getElem?_getD, List.getElem?_set, if_true,
          List.getElem?_eq_getElem hlt, Option.map_some', if_pos hlt, Option.getD_some]
      rw [e]
      exact hP.trans _ _ _ _ (h device) (hd _)
    · have e : ({ s with devices := s.devices.set device d' } : bt_state).device device
          = s.device device := by
        simp only [bt_state.device, List.getD_eq_getElem?_getD, List.getElem?_set, if_true,
          List.getElem?_eq_none (Nat.le_of_not_lt hlt), Option.map_none', if_neg hlt]
      rw [e]
      exact h device
  · have e : ({ s with devices := s.devices.set device d' } : bt_state).device i
        = s.device i := by
      simp only [bt_state.device, List.getD_eq_getElem?_getD, List.getElem?_set, if_neg hi]
    rw [e]
    exact h i

/-- Removing an entry keeps the relation to an earlier table. -/
theorem slots_related_remove (P : Nat → uni_hid_device_t → uni_hid_device_t → Prop)
    (hP : lifecycle_frame P) (s0 s : bt_state) (channel : Nat) (h : slots_related P s0 s) :
    slots_related P s0 (uni_hid_device_remove_entry_with_channel s channel) := by
  unfold uni_hid_device_remove_entry_with_channel
  split
  · exact h
  · exact slots_related_set P hP s0 s _ _ (fun d => hP.free _ d) h

/-- Creating a device keeps the relation to an earlier table. -/
theorem slots_related_create (P : Nat → uni_hid_device_t → uni_hid_device_t → Prop)
    (hP : lifecycle_frame P) (s0 s s1 : bt_state) (addr device : Nat)
    (hc : uni_hid_device_create s addr = some (device, s1)) (h : slots_related P s0 s) :
    slots_related P s0 s1 := by
  obtain ⟨-, -, hs1, -⟩ := create_some s s1 addr device hc
  rw [hs1]
  exact slots_related_set P hP s0 s _ _ (fun d => hP.fresh _ d addr) h

/-- The request of a channel keeps the relation to an earlier table: it writes
a channel id only. -/
theorem slots_related_l2cap_create_channel
    (P : Nat → uni_hid_device_t → uni_hid_device_t → Prop) (hP : lifecycle_frame P)
    (R : stack_replies) (s0 s : bt_state) (address : Nat) (psm : psm_t) (device : Nat)
    (store : uni_hid_device_t → Nat → uni_hid_device_t)
    (hstore : ∀ d cid, (store d cid).state = d.state ∧ (store d cid).connected = d.connected)
    (h : slots_related P s0 s) :
    slots_related P s0 (l2cap_create_channel R s address psm device store) := by
  unfold l2cap_create_channel
  cases R.l2cap_out_local_cid with
  | none => exact h
  | some cid =>
    exact slots_related_update_device P hP s0 _ device _
      (fun d => hP.keeps _ _ _ (hstore d cid).1 (hstore d cid).2) h

/-- Function `sdp_query_hid_descriptor` leaves the table as it is. -/
theorem sdp_query_hid_descriptor_devices (status device : Nat) (s : bt_state) :
    (sdp_query_hid_descriptor status device s).devices = s.devices := by
  unfold sdp_query_hid_descriptor
  cases uni_hid_device_get_current_device s with
  | some _ => rfl
  | none =>
    simp only
    split <;> rfl

/-- The port assignment keeps the relation to an earlier table when the
collaborator function does. -/
theorem slots_related_try_assign (P : Nat → uni_hid_device_t → uni_hid_device_t → Prop)
    (hP : lifecycle_frame P) (C : Collab)
    (hassign : ∀ ds device i, P i (ds.getD i default)
      ((C.uni_hid_device_try_assign_joystick_port ds device).getD i default))
    (s0 s : bt_state) (device : Nat) (h : slots_related P s0 s) :
    slots_related P s0 (uni_hid_device_try_assign_joystick_port C s device) :=
  fun i => hP.trans _ _ _ _ (h i) (hassign s.devices device i)

/-- Function `continue_remote_names` keeps the relation to an earlier table when
the relation holds across the move to `REMOTE_NAME_INQUIRED`, at the first
slot in `REMOTE_NAME_REQUEST`. -/
theorem slots_related_continue_remote_names
    (P : Nat → uni_hid_device_t → uni_hid_device_t → Prop) (hP : lifecycle_frame P)
    (s0 s : bt_state)
    (hinq : ∀ device d,
      uni_hid_device_get_first_device_with_state s .REMOTE_NAME_REQUEST = some device →
      P device d (uni_hid_device_set_state d .REMOTE_NAME_INQUIRED))
    (h : slots_related P s0 s) : slots_related P s0 (continue_remote_names s) := by
  cases hf : uni_hid_device_get_first_device_with_state s .REMOTE_NAME_REQUEST with
  | none =>
    rw [(continue_remote_names_cases s).2 hf]
    exact h
  | some device =>
    rw [(continue_remote_names_cases s).1 device hf]
    exact slots_related_update_device P hP s0 s device _ (fun d => hinq device d hf) h

/-- Function `list_link_keys` leaves the table as it is. -/
theorem list_link_keys_devices (R : stack_replies) (s : bt_state) :
    (list_link_keys R s).devices = s.devices := by
  have key : ∀ (l : List Nat) (s : bt_state),
      (l.foldl (fun s addr => if true = true
          then s.call (.gap_drop_link_key_for_bd_addr addr) else s) s).devices = s.devices := by
    intro l
    induction l with
    | nil => intro s; rfl
    | cons a rest ih => intro s; exact ih _
  unfold list_link_keys
  split
  · rfl
  · exact key _ _

/-- Function `on_hci_connection_request` keeps the relation to an earlier table. -/
theorem slots_related_on_hci_connection_request
    (P : Nat → uni_hid_device_t → uni_hid_device_t → Prop) (hP : lifecycle_frame P)
    (e : connection_request_event) (s0 s : bt_state) (h : slots_related P s0 s) :
    slots_related P s0 (on_hci_connection_request e s) := by
  unfold on_hci_connection_request
  cases hl : uni_hid_device_get_instance_for_address s e.bd_addr with
  | some device =>
    simp only
    exact slots_related_update_device P hP s0 _ _ _ (fun _ => hP.keeps _ _ _ rfl rfl)
      (slots_related_update_device P hP s0 _ _ _ (fun _ => hP.keeps _ _ _ rfl rfl) h)
  | none =>
    simp only
    cases hc : uni_hid_device_create s e.bd_addr with
    | none => exact h
    | some p =>
      obtain ⟨device, s1⟩ := p
      simp only
      exact slots_related_update_device P hP s0 _ _ _ (fun _ => hP.keeps _ _ _ rfl rfl)
        (slots_related_update_device P hP s0 _ _ _ (fun _ => hP.keeps _ _ _ rfl rfl)
          (slots_related_create P hP s0 s s1 e.bd_addr device hc h))

/-- Function `on_hci_connection_complete` keeps the relation to an earlier table. -/
theorem slots_related_on_hci_connection_complete
    (P : Nat → uni_hid_device_t → uni_hid_device_t → Prop) (hP : lifecycle_frame P)
    (e : connection_complete_event) (s0 s : bt_state) (h : slots_related P s0 s) :
    slots_related P s0 (on_hci_connection_complete e s) := by
  unfold on_hci_connection_complete
  split
  · exact h
  · split
    · exact h
    · exact slots_related_update_device P hP s0 _ _ _ (fun _ => hP.keeps _ _ _ rfl rfl) h

/-- The part of `on_gap_inquiry_result` that works on a known device keeps the
relation to an earlier table when the relation holds across the move to
`REMOTE_NAME_REQUEST`, at the slot of the device. -/
theorem slots_related_on_gap_inquiry_result_device
    (P : Nat → uni_hid_device_t → uni_hid_device_t → Prop) (hP : lifecycle_frame P)
    (R : stack_replies) (e : inquiry_result_event) (device : Nat) (s0 s : bt_state)
    (hreq : ∀ d, P device d (uni_hid_device_set_state d .REMOTE_NAME_REQUEST))
    (h : slots_related P s0 s) :
    slots_related P s0 (on_gap_inquiry_result_device R e device s) := by
  unfold on_gap_inquiry_result_device
  refine slots_related_l2cap_create_channel P hP _ s0 _ _ _ _ _ (fun _ _ => ⟨rfl, rfl⟩) ?_
  have h3 := slots_related_update_device P hP s0 _ device
    (fun d => { d with clock_offset := e.clock_offset }) (fun _ => hP.keeps _ _ _ rfl rfl)
    (slots_related_update_device P hP s0 _ device
      (fun d => { d with page_scan_repetition_mode := e.page_scan_repetition_mode })
      (fun _ => hP.keeps _ _ _ rfl rfl)
      (slots_related_update_device P hP s0 s device
        (uni_hid_device_set_cod · e.class_of_device) (fun _ => hP.keeps _ _ _ rfl rfl) h))
  split
  · split
    · exact slots_related_update_device P hP s0 _ _ _ (fun _ => hP.keeps _ _ _ rfl rfl) h3
    · exact slots_related_update_device P hP s0 _ _ _ hreq h3
  · exact slots_related_update_device P hP s0 _ _ _ hreq h3

/-- Function `on_gap_inquiry_result` keeps the relation to an earlier table when
the relation holds across the move to `REMOTE_NAME_REQUEST`. -/
theorem slots_related_on_gap_inquiry_result
    (P : Nat → uni_hid_device_t → uni_hid_device_t → Prop) (hP : lifecycle_frame P)
    (C : Collab) (R : stack_replies) (e : inquiry_result_event) (s0 s : bt_state)
    (hreq : ∀ i d, P i d (uni_hid_device_set_state d .REMOTE_NAME_REQUEST))
    (h : slots_related P s0 s) :
    slots_related P s0 (on_gap_inquiry_result C R e s) := by
  unfold on_gap_inquiry_result
  split
  · cases hl : uni_hid_device_get_instance_for_address s e.bd_addr with
    | some device =>
      simp only
      split
      · exact h
      · exact slots_related_on_gap_inquiry_result_device P hP R e device s0 s (hreq device) h
    | none =>
      simp only
      cases hc : uni_hid_device_create s e.bd_addr with
      | none => exact h
      | some p =>
        obtain ⟨device, s1⟩ := p
        exact slots_related_on_gap_inquiry_result_device P hP R e device s0 s1 (hreq device)
          (slots_related_create P hP s0 s s1 e.bd_addr device hc h)
  · exact h

/-- Function `on_l2cap_channel_closed` keeps the relation to an earlier table
when the relation holds across the clearing of the connected flag. -/
theorem slots_related_on_l2cap_channel_closed
    (P : Nat → uni_hid_device_t → uni_hid_device_t → Prop) (hP : lifecycle_frame P)
    (e : channel_closed_event) (s0 s : bt_state)
    (hdis : ∀ i d, P i d (uni_hid_device_set_connected d false))
    (h : slots_related P s0 s) : slots_related P s0 (on_l2cap_channel_closed e s) := by
  unfold on_l2cap_channel_closed
  split
  · exact h
  · exact slots_related_update_device P hP s0 _ _ _ (hdis _) h

/-- Function `on_l2cap_data_packet` keeps the relation to an earlier table. -/
theorem slots_related_on_l2cap_data_packet
    (P : Nat → uni_hid_device_t → uni_hid_device_t → Prop) (hP : lifecycle_frame P)
    (C : Collab) (channel : Nat) (packet : List Nat) (s0 s : bt_state)
    (h : slots_related P s0 s) : slots_related P s0 (on_l2cap_data_packet C channel packet s) := by
  unfold on_l2cap_data_packet
  split
  · exact h
  · repeat' split
    all_goals first
      | exact h
      | exact slots_related_update_device P hP s0 _ _ _ (fun _ => hP.keeps _ _ _ rfl rfl) h

/-- Function `on_l2cap_incoming_connection` keeps the relation to an earlier
table. -/
theorem slots_related_on_l2cap_incoming_connection
    (P : Nat → uni_hid_device_t → uni_hid_device_t → Prop) (hP : lifecycle_frame P)
    (channel : Nat) (e : incoming_connection_event) (s0 s : bt_state)
    (h : slots_related P s0 s) :
    slots_related P s0 (on_l2cap_incoming_connection channel e s) := by
  have fin : ∀ (device : Nat) (s : bt_state), slots_related P s0 s →
      slots_related P s0
        ((((s.call (.l2cap_accept_connection channel)).update_device device
          (uni_hid_device_set_connection_handle · e.handle)).update_device device
          (fun d => { d with hid_control_cid := channel })).update_device device
          (uni_hid_device_set_incoming · true)) := by
    intro device s hs
    exact slots_related_update_device P hP s0 _ _ _ (fun _ => hP.keeps _ _ _ rfl rfl)
      (slots_related_update_device P hP s0 _ _ _ (fun _ => hP.keeps _ _ _ rfl rfl)
        (slots_related_update_device P hP s0 _ _ _ (fun _ => hP.keeps _ _ _ rfl rfl) hs))
  unfold on_l2cap_incoming_connection
  cases e.psm with
  | PSM_HID_CONTROL =>
    simp only
    cases hl : uni_hid_device_get_instance_for_address s e.address with
    | some device => exact fin device s h
    | none =>
      simp only
      cases hc : uni_hid_device_create s e.address with
      | none => exact h
      | some p =>
        obtain ⟨device, s1⟩ := p
        exact fin device s1 (slots_related_create P hP s0 s s1 e.address device hc h)
  | PSM_HID_INTERRUPT =>
    simp only
    split
    · exact h
    · exact slots_related_update_device P hP s0 _ _ _ (fun _ => hP.keeps _ _ _ rfl rfl) h
  | other => exact h


/-! ## Channel opened -/

/-- Function `on_l2cap_channel_opened` on a successful event for a known device:
the device is marked connected, then the `switch (psm)` runs, then the rest. -/
theorem on_l2cap_channel_opened_success (C : Collab) (R : stack_replies) (channel : Nat)
    (e : channel_opened_event) (s : bt_state) (device : Nat)
    (hs : e.status = .success)
    (hdev : uni_hid_device_get_instance_for_address s e.address = some device) :
    on_l2cap_channel_opened C R channel e s
      = on_l2cap_channel_opened_rest C R channel e device
          (on_l2cap_channel_opened_switch R e device
            (s.update_device device (uni_hid_device_set_connected · true))) := by
  simp only [on_l2cap_channel_opened, hs, ne_eq, not_true_eq_false, if_false, hdev]
  rfl

/-- Function `uni_hid_device_remove_entry_with_channel` makes no call and leaves
the current SDP-query device as it is. -/
theorem remove_entry_calls (s : bt_state) (channel : Nat) :
    (uni_hid_device_remove_entry_with_channel s channel).calls = s.calls
    ∧ (uni_hid_device_remove_entry_with_channel s channel).current_device
        = s.current_device := by
  unfold uni_hid_device_remove_entry_with_channel
  split <;> exact ⟨rfl, rfl⟩

/-- The request of a channel records one call and leaves the current SDP-query
device as it is. -/
theorem l2cap_create_channel_calls (R : stack_replies) (s : bt_state) (address : Nat)
    (psm : psm_t) (device : Nat) (store : uni_hid_device_t → Nat → uni_hid_device_t) :
    (l2cap_create_channel R s address psm device store).calls
      = s.calls ++ [Call.l2cap_create_channel address psm 48]
    ∧ (l2cap_create_channel R s address psm device store).current_device
        = s.current_device := by
  unfold l2cap_create_channel
  cases R.l2cap_out_local_cid <;> exact ⟨rfl, rfl⟩

/-- The calls of the statements of `on_l2cap_channel_opened` that follow the
`switch (psm)`: for a device that is not marked incoming, with a non-zero
local channel id that is the control channel id of the device, one request
of the interrupt channel to the address of the device; then the port
assignment, unless the entry was removed. -/
theorem on_l2cap_channel_opened_rest_calls (C : Collab) (R : stack_replies) (channel : Nat)
    (e : channel_opened_event) (device : Nat) (s : bt_state) :
    (on_l2cap_channel_opened_rest C R channel e device s).calls
      = s.calls ++
        (if uni_hid_device_is_incoming (s.device device) = true then
          [Call.uni_hid_device_try_assign_joystick_port device]
        else if e.local_cid = 0 then []
        else if e.local_cid = (s.device device).hid_control_cid then
          (if R.l2cap_create_channel ≠ 0 then
            [Call.l2cap_create_channel (s.device device).address .PSM_HID_INTERRUPT 48]
          else
            [Call.l2cap_create_channel (s.device device).address .PSM_HID_INTERRUPT 48,
             Call.uni_hid_device_try_assign_joystick_port device])
        else [Call.uni_hid_device_try_assign_joystick_port device])
    ∧ (on_l2cap_channel_opened_rest C R channel e device s).current_device
        = s.current_device := by
  unfold on_l2cap_channel_opened_rest
  cases hinc : uni_hid_device_is_incoming (s.device device) with
  | true =>
    simp only [not_true_eq_false, if_false, if_true]
    exact ⟨rfl, rfl⟩
  | false =>
    simp only [Bool.false_eq_true, not_false_eq_true, if_true, if_false]
    by_cases h0 : e.local_cid = 0
    · rw [if_pos h0, if_pos h0, List.append_nil]
      exact remove_entry_calls s channel
    · rw [if_neg h0, if_neg h0]
      by_cases hc : e.local_cid = (s.device device).hid_control_cid
      · rw [if_pos hc, if_pos hc]
        by_cases hst : R.l2cap_create_channel ≠ 0
        · rw [if_pos hst, if_pos hst]
          rw [(remove_entry_calls _ channel).1, (remove_entry_calls _ channel).2]
          exact l2cap_create_channel_calls R s _ _ _ _
        · rw [if_neg hst, if_neg hst]
          refine ⟨?_, ?_⟩
          · simp only [uni_hid_device_try_assign_joystick_port, bt_state.call,
              (l2cap_create_channel_calls R s _ _ _ _).1, List.append_assoc,
              List.singleton_append]
          · exact (l2cap_create_channel_calls R s _ _ _ _).2
      · rw [if_neg hc, if_neg hc]
        exact ⟨rfl, rfl⟩

/-- The `switch (psm)` of `on_l2cap_channel_opened` calls
`sdp_query_hid_descriptor` exactly when the PSM is the interrupt PSM and the
device has no HID descriptor; in every case it stores the local channel id
for the PSM of the event. -/
theorem on_l2cap_channel_opened_switch_cases (R : stack_replies) (e : channel_opened_event)
    (device : Nat) (s : bt_state) (hlt : device < s.devices.length) :
    on_l2cap_channel_opened_switch R e device s
      = (if e.psm = .PSM_HID_INTERRUPT
            ∧ uni_hid_device_has_hid_descriptor (s.device device) = false then
          sdp_query_hid_descriptor R.sdp_client_query_uuid16 device
            (s.update_device device (fun d => { d with hid_interrupt_cid := e.local_cid }))
        else
          (match e.psm with
            | .PSM_HID_CONTROL =>
              s.update_device device (fun d => { d with hid_control_cid := e.local_cid })
            | .PSM_HID_INTERRUPT =>
              s.update_device device (fun d => { d with hid_interrupt_cid := e.local_cid })
            | .other => s)) := by
  unfold on_l2cap_channel_opened_switch
  cases hp : e.psm with
  | PSM_HID_CONTROL => exact (if_neg (fun h => psm_t.noConfusion h.1)).symm
  | other => exact (if_neg (fun h => psm_t.noConfusion h.1)).symm
  | PSM_HID_INTERRUPT =>
    have hd : uni_hid_device_has_hid_descriptor
        ((s.update_device device
          (fun d => { d with hid_interrupt_cid := e.local_cid })).device device)
        = uni_hid_device_has_hid_descriptor (s.device device) := by
      rw [device_update_device_same s device _ hlt]
      rfl
    simp only [hd, true_and]
    cases uni_hid_device_has_hid_descriptor (s.device device) with
    | true => exact (if_neg (by decide)).trans (if_neg (by decide)).symm
    | false => exact (if_pos (by decide)).trans (if_pos rfl).symm

/-- The `switch (psm)` of `on_l2cap_channel_opened` keeps the relation to an
earlier table: it writes a channel id only. -/
theorem slots_related_on_l2cap_channel_opened_switch
    (P : Nat → uni_hid_device_t → uni_hid_device_t → Prop) (hP : lifecycle_frame P)
    (R : stack_replies) (e : channel_opened_event) (device : Nat) (s0 s : bt_state)
    (h : slots_related P s0 s) :
    slots_related P s0 (on_l2cap_channel_opened_switch R e device s) := by
  unfold on_l2cap_channel_opened_switch
  cases e.psm with
  | PSM_HID_CONTROL =>
    exact slots_related_update_device P hP s0 _ _ _ (fun _ => hP.keeps _ _ _ rfl rfl) h
  | PSM_HID_INTERRUPT =>
    simp only
    split
    · exact slots_related_devices_eq P s0 _ _ (sdp_query_hid_descriptor_devices _ _ _)
        (slots_related_update_device P hP s0 _ _ _ (fun _ => hP.keeps _ _ _ rfl rfl) h)
    · exact slots_related_update_device P hP s0 _ _ _ (fun _ => hP.keeps _ _ _ rfl rfl) h
  | other => exact h

/-- The statements of `on_l2cap_channel_opened` after the `switch (psm)` keep
the relation to an earlier table when the port assignment does. -/
theorem slots_related_on_l2cap_channel_opened_rest
    (P : Nat → uni_hid_device_t → uni_hid_device_t → Prop) (hP : lifecycle_frame P)
    (C : Collab)
    (hassign : ∀ ds device i, P i (ds.getD i default)
      ((C.uni_hid_device_try_assign_joystick_port ds device).getD i default))
    (R : stack_replies) (channel : Nat) (e : channel_opened_event) (device : Nat)
    (s0 s : bt_state) (h : slots_related P s0 s) :
    slots_related P s0 (on_l2cap_channel_opened_rest C R channel e device s) := by
  unfold on_l2cap_channel_opened_rest
  repeat' split
  all_goals first
    | exact slots_related_remove P hP s0 _ _ h
    | exact slots_related_try_assign P hP C hassign s0 _ _ h
    | exact slots_related_remove P hP s0 _ _
        (slots_related_l2cap_create_channel P hP _ s0 _ _ _ _ _ (fun _ _ => ⟨rfl, rfl⟩) h)
    | exact slots_related_try_assign P hP C hassign s0 _ _
        (slots_related_l2cap_create_channel P hP _ s0 _ _ _ _ _ (fun _ _ => ⟨rfl, rfl⟩) h)

/-- Function `on_l2cap_channel_opened` keeps the relation to an earlier table
when the port assignment does and the relation holds across the setting of
the connected flag, at the slot of the device of a successful event. -/
theorem slots_related_on_l2cap_channel_opened
    (P : Nat → uni_hid_device_t → uni_hid_device_t → Prop) (hP : lifecycle_frame P)
    (C : Collab)
    (hassign : ∀ ds device i, P i (ds.getD i default)
      ((C.uni_hid_device_try_assign_joystick_port ds device).getD i default))
    (R : stack_replies) (channel : Nat) (e : channel_opened_event) (s0 s : bt_state)
    (hcon : ∀ device d, e.status = .success →
      uni_hid_device_get_instance_for_address s e.address = some device →
      P device d (uni_hid_device_set_connected d true))
    (h : slots_related P s0 s) :
    slots_related P s0 (on_l2cap_channel_opened C R channel e s) := by
  by_cases hs : e.status = .success
  · cases hl : uni_hid_device_get_instance_for_address s e.address with
    | none =>
      have e1 : on_l2cap_channel_opened C R channel e s
          = uni_hid_device_remove_entry_with_channel s channel := by
        simp only [on_l2cap_channel_opened, hs, ne_eq, not_true_eq_false, if_false, hl]
      rw [e1]
      exact slots_related_remove P hP s0 _ _ h
    | some device =>
      rw [on_l2cap_channel_opened_success C R channel e s device hs hl]
      exact slots_related_on_l2cap_channel_opened_rest P hP C hassign R channel e device s0 _
        (slots_related_on_l2cap_channel_opened_switch P hP R e device s0 _
          (slots_related_update_device P hP s0 s device _ (fun d => hcon device d hs hl) h))
  · unfold on_l2cap_channel_opened
    rw [if_pos hs]
    split
    · exact slots_related_remove P hP s0 _ _ h
    · exact h

/-- Function `packet_handler` keeps the relation to an earlier table when the
collaborator functions that work on the table do, and the relation holds
across the writes of the lifecycle state and of the connected flag that the
packet can cause. -/
theorem slots_related_packet_handler
    (P : Nat → uni_hid_device_t → uni_hid_device_t → Prop) (hP : lifecycle_frame P)
    (C : Collab) (R : stack_replies) (p : bt_packet) (s0 s : bt_state)
    (hassign : ∀ ds device i, P i (ds.getD i default)
      ((C.uni_hid_device_try_assign_joystick_port ds device).getD i default))
    (hinquire : ∀ ds i, P i (ds.getD i default)
      ((C.uni_hid_device_request_inquire ds).getD i default))
    (hreq : (∃ channel e, p = .HCI_EVENT_PACKET channel (.GAP_EVENT_INQUIRY_RESULT e)) →
      ∀ i d, P i d (uni_hid_device_set_state d .REMOTE_NAME_REQUEST))
    (hinq : ∀ i d, P i d (uni_hid_device_set_state d .REMOTE_NAME_INQUIRED))
    (hcon : ∀ i d, P i d (uni_hid_device_set_connected d true))
    (hdis : ∀ i d, P i d (uni_hid_device_set_connected d false))
    (h : slots_related P s0 s) :
    slots_related P s0 (packet_handler C R p s) := by
  unfold packet_handler
  simp only
  split
  · exact h
  · cases p with
    | other => exact h
    | L2CAP_DATA_PACKET channel packet =>
      exact slots_related_on_l2cap_data_packet P hP C channel packet s0 s h
    | HCI_EVENT_PACKET channel event =>
      cases event with
      | BTSTACK_EVENT_STATE w =>
        simp only
        split
        · exact slots_related_devices_eq P s0 s _ (list_link_keys_devices R _) h
        · exact h
      | HCI_EVENT_PIN_CODE_REQUEST a => exact h
      | HCI_EVENT_CONNECTION_REQUEST e =>
        exact slots_related_on_hci_connection_request P hP e s0 s h
      | HCI_EVENT_CONNECTION_COMPLETE e =>
        exact slots_related_on_hci_connection_complete P hP e s0 s h
      | HCI_EVENT_REMOTE_NAME_REQUEST_COMPLETE e =>
        simp only
        refine slots_related_continue_remote_names P hP s0 _ (fun device d _ => hinq device d) ?_
        split
        · split
          · exact slots_related_update_device P hP s0 s _ _ (fun _ => hP.keeps _ _ _ rfl rfl) h
          · exact h
        · exact h
      | L2CAP_EVENT_INCOMING_CONNECTION e =>
        exact slots_related_on_l2cap_incoming_connection P hP channel e s0 s h
      | L2CAP_EVENT_CHANNEL_OPENED e =>
        exact slots_related_on_l2cap_channel_opened P hP C hassign R channel e s0 s
          (fun device d _ _ => hcon device d) h
      | L2CAP_EVENT_CHANNEL_CLOSED e =>
        exact slots_related_on_l2cap_channel_closed P hP e s0 s hdis h
      | GAP_EVENT_INQUIRY_RESULT e =>
        exact slots_related_on_gap_inquiry_result P hP C R e s0 s (hreq ⟨channel, e, rfl⟩) h
      | GAP_EVENT_INQUIRY_COMPLETE =>
        simp only
        refine slots_related_continue_remote_names P hP s0 _ (fun device d _ => hinq device d) ?_
        exact fun i => hP.trans _ _ _ _ (h i) (hinquire s.devices i)
      | log_only => exact h


/-- C26: on a successful control-channel-opened event with a non-zero local
channel id, for a known device: when the device is not marked incoming,
exactly one channel is requested, the interrupt channel (`PSM_HID_INTERRUPT`)
to the address of the device, which is the address of the event (the port
assignment follows unless the request fails); when the device is marked
incoming, no channel is requested (only the port assignment is made). -/
theorem control_channel_opened_requests_interrupt (C : Collab) (R : stack_replies)
    (channel : Nat) (e : channel_opened_event) (s : bt_state) (device : Nat)
    (hs : e.status = .success) (hpsm : e.psm = .PSM_HID_CONTROL) (hcid : e.local_cid ≠ 0)
    (hdev : uni_hid_device_get_instance_for_address s e.address = some device) :
    (s.device device).address = e.address
    ∧ (uni_hid_device_is_incoming (s.device device) = false →
        new_calls s (on_l2cap_channel_opened C R channel e s)
          = (if R.l2cap_create_channel ≠ 0 then
              [Call.l2cap_create_channel e.address .PSM_HID_INTERRUPT 48]
            else
              [Call.l2cap_create_channel e.address .PSM_HID_INTERRUPT 48,
               Call.uni_hid_device_try_assign_joystick_port device])
        ∧ (new_calls s (on_l2cap_channel_opened C R channel e s)).filter
            (fun c => match c with
              | .l2cap_create_channel _ _ _ => true
              | _ => false)
          = [Call.l2cap_create_channel e.address .PSM_HID_INTERRUPT 48])
    ∧ (uni_hid_device_is_incoming (s.device device) = true →
        new_calls s (on_l2cap_channel_opened C R channel e s)
          = [Call.uni_hid_device_try_assign_joystick_port device]
        ∧ (new_calls s (on_l2cap_channel_opened C R channel e s)).filter
            (fun c => match c with
              | .l2cap_create_channel _ _ _ => true
              | _ => false)
          = []) := by
  obtain ⟨hlt, -, haddr⟩ := get_instance_for_address_some s e.address device hdev
  have hlt1 : device < (s.update_device device
      (uni_hid_device_set_connected · true)).devices.length := by
    rw [length_update_device]; exact hlt
  have hsw : on_l2cap_channel_opened_switch R e device
      (s.update_device device (uni_hid_device_set_connected · true))
      = (s.update_device device (uni_hid_device_set_connected · true)).update_device device
          (fun d => { d with hid_control_cid := e.local_cid }) := by
    simp only [on_l2cap_channel_opened_switch, hpsm]
  have hd : ((s.update_device device (uni_hid_device_set_connected · true)).update_device
      device (fun d => { d with hid_control_cid := e.local_cid })).device device
      = { (s.device device) with connected := true, hid_control_cid := e.local_cid } := by
    rw [device_update_device_same _ device _ hlt1, device_update_device_same s device _ hlt]
    rfl
  have hcalls := (on_l2cap_channel_opened_rest_calls C R channel e device
    ((s.update_device device (uni_hid_device_set_connected · true)).update_device device
      (fun d => { d with hid_control_cid := e.local_cid }))).1
  rw [hd] at hcalls
  have hnew : new_calls s (on_l2cap_channel_opened C R channel e s)
      = (if uni_hid_device_is_incoming (s.device device) = true then
          [Call.uni_hid_device_try_assign_joystick_port device]
        else if R.l2cap_create_channel ≠ 0 then
          [Call.l2cap_create_channel e.address .PSM_HID_INTERRUPT 48]
        else
          [Call.l2cap_create_channel e.address .PSM_HID_INTERRUPT 48,
           Call.uni_hid_device_try_assign_joystick_port device]) := by
    rw [on_l2cap_channel_opened_success C R channel e s device hs hdev, hsw]
    unfold new_calls
    rw [hcalls]
    simp only [bt_state.update_device, List.drop_left, uni_hid_device_is_incoming, if_neg hcid,
      if_true, haddr]
  refine ⟨haddr, ?_, ?_⟩
  · intro hinc
    rw [hnew, hinc]
    simp only [Bool.false_eq_true, if_false, true_and]
    split <;> rfl
  · intro hinc
    rw [hnew, hinc]
    simp only [if_true, true_and]
    rfl

/-- The control channel of an outgoing connection opens: the interrupt channel
is requested, once, and the port assignment follows. -/
theorem control_channel_opened_requests_interrupt_witness :
    new_calls { devices := [{ in_use := true, address := 0xAABBCCDDEEFF }] }
        (on_l2cap_channel_opened sample_collab {} 0x40
          { address := 0xAABBCCDDEEFF, psm := .PSM_HID_CONTROL, local_cid := 0x40 }
          { devices := [{ in_use := true, address := 0xAABBCCDDEEFF }] })
      = [Call.l2cap_create_channel 0xAABBCCDDEEFF .PSM_HID_INTERRUPT 48,
         Call.uni_hid_device_try_assign_joystick_port 0] :=
  ((control_channel_opened_requests_interrupt sample_collab {} 0x40
    { address := 0xAABBCCDDEEFF, psm := .PSM_HID_CONTROL, local_cid := 0x40 }
    { devices := [{ in_use := true, address := 0xAABBCCDDEEFF }] } 0 rfl rfl (by decide)
    (by decide)).2.1 (by decide)).1


/-- The calls of `sdp_query_hid_descriptor`: the query, when the token is free;
the token is then held by the device unless the query could not be issued. -/
theorem sdp_query_hid_descriptor_calls (status device : Nat) (s : bt_state) :
    (sdp_query_hid_descriptor status device s).calls
      = s.calls ++ (if s.current_device = none then
          [Call.sdp_client_query_uuid16 .handle_sdp_hid_query_result (s.device device).address
            .BLUETOOTH_SERVICE_CLASS_HUMAN_INTERFACE_DEVICE_SERVICE]
        else [])
    ∧ (sdp_query_hid_descriptor status device s).current_device
      = (if s.current_device = none then (if status ≠ 0 then none else some device)
        else s.current_device) := by
  unfold sdp_query_hid_descriptor uni_hid_device_get_current_device
  cases hc : s.current_device with
  | some A => simp [hc]
  | none =>
    simp only [if_true]
    split <;> exact ⟨rfl, rfl⟩

/-- None of the calls of the statements of `on_l2cap_channel_opened` that follow
the `switch (psm)` is a service query. -/
theorem on_l2cap_channel_opened_rest_no_query (C : Collab) (R : stack_replies)
    (channel : Nat) (e : channel_opened_event) (device : Nat) (s : bt_state) :
    ∃ extra : List Call,
      (on_l2cap_channel_opened_rest C R channel e device s).calls = s.calls ++ extra
      ∧ ∀ handler address service,
          Call.sdp_client_query_uuid16 handler address service ∉ extra := by
  refine ⟨_, (on_l2cap_channel_opened_rest_calls C R channel e device s).1, ?_⟩
  intro handler address service
  repeat' split
  all_goals simp only [List.mem_cons, List.mem_singleton, List.not_mem_nil, reduceCtorEq,
    or_self, not_false_eq_true]

/-- C25 as stated fails: the interrupt channel of a known device without HID
descriptor opens with success while another device holds the SDP token.
`sdp_query_hid_descriptor` returns at its busy check: no service query is
issued, the only call is the port assignment, and the token stays with the
other device. -/
theorem descriptor_query_skipped_when_token_held :
    uni_hid_device_get_instance_for_address
        { devices := [{ in_use := true, address := 0xAABBCCDDEEFF, incoming := true },
                      { in_use := true, address := 0x112233445566 }],
          current_device := some 1 } 0xAABBCCDDEEFF = some 0
    ∧ uni_hid_device_has_hid_descriptor
        { in_use := true, address := 0xAABBCCDDEEFF, incoming := true } = false
    ∧ new_calls
        { devices := [{ in_use := true, address := 0xAABBCCDDEEFF, incoming := true },
                      { in_use := true, address := 0x112233445566 }],
          current_device := some 1 }
        (on_l2cap_channel_opened sample_collab {} 0x41
          { address := 0xAABBCCDDEEFF, psm := .PSM_HID_INTERRUPT, local_cid := 0x41 }
          { devices := [{ in_use := true, address := 0xAABBCCDDEEFF, incoming := true },
                        { in_use := true, address := 0x112233445566 }],
            current_device := some 1 })
      = [Call.uni_hid_device_try_assign_joystick_port 0]
    ∧ (on_l2cap_channel_opened sample_collab {} 0x41
          { address := 0xAABBCCDDEEFF, psm := .PSM_HID_INTERRUPT, local_cid := 0x41 }
          { devices := [{ in_use := true, address := 0xAABBCCDDEEFF, incoming := true },
                        { in_use := true, address := 0x112233445566 }],
            current_device := some 1 }).current_device = some 1 := by
  decide

/-- C25 (amended): on a successful channel-opened event for a known device,
`on_l2cap_channel_opened` issues the service query for the HID descriptor of
the device if and only if the PSM of the opened channel is the interrupt PSM,
the device has no HID descriptor and no device holds the SDP token (no query
is in progress). For a device whose descriptor is present no service query is
issued, whatever the PSM, and the token is what it was. -/
theorem channel_opened_descriptor_query (C : Collab) (R : stack_replies) (channel : Nat)
    (e : channel_opened_event) (s : bt_state) (device : Nat)
    (hs : e.status = .success)
    (hdev : uni_hid_device_get_instance_for_address s e.address = some device) :
    (Call.sdp_client_query_uuid16 .handle_sdp_hid_query_result e.address
          .BLUETOOTH_SERVICE_CLASS_HUMAN_INTERFACE_DEVICE_SERVICE
        ∈ new_calls s (on_l2cap_channel_opened C R channel e s)
        ↔ (e.psm = .PSM_HID_INTERRUPT
            ∧ uni_hid_device_has_hid_descriptor (s.device device) = false
            ∧ s.current_device = none))
    ∧ (uni_hid_device_has_hid_descriptor (s.device device) = true →
        (∀ handler address service, Call.sdp_client_query_uuid16 handler address service
          ∉ new_calls s (on_l2cap_channel_opened C R channel e s))
        ∧ (on_l2cap_channel_opened C R channel e s).current_device = s.current_device) := by
  obtain ⟨hlt, -, haddr⟩ := get_instance_for_address_some s e.address device hdev
  have hlt1 : device < (s.update_device device
      (uni_hid_device_set_connected · true)).devices.length := by
    rw [length_update_device]; exact hlt
  have hd1 : uni_hid_device_has_hid_descriptor
      ((s.update_device device (uni_hid_device_set_connected · true)).device device)
      = uni_hid_device_has_hid_descriptor (s.device device) := by
    rw [device_update_device_same s device _ hlt]; rfl
  have hform := on_l2cap_channel_opened_success C R channel e s device hs hdev
  have hsw := on_l2cap_channel_opened_switch_cases R e device
    (s.update_device device (uni_hid_device_set_connected · true)) hlt1
  rw [hd1] at hsw
  obtain ⟨extra, hextra, hno⟩ := on_l2cap_channel_opened_rest_no_query C R channel e device
    (on_l2cap_channel_opened_switch R e device
      (s.update_device device (uni_hid_device_set_connected · true)))
  have htok := (on_l2cap_channel_opened_rest_calls C R channel e device
    (on_l2cap_channel_opened_switch R e device
      (s.update_device device (uni_hid_device_set_connected · true)))).2
  -- the calls and the token after the switch
  have hswc : (on_l2cap_channel_opened_switch R e device
        (s.update_device device (uni_hid_device_set_connected · true))).calls
      = s.calls ++ (if e.psm = .PSM_HID_INTERRUPT
            ∧ uni_hid_device_has_hid_descriptor (s.device device) = false
            ∧ s.current_device = none then
          [Call.sdp_client_query_uuid16 .handle_sdp_hid_query_result e.address
            .BLUETOOTH_SERVICE_CLASS_HUMAN_INTERFACE_DEVICE_SERVICE]
        else []) := by
    rw [hsw]
    by_cases hc : e.psm = .PSM_HID_INTERRUPT
        ∧ uni_hid_device_has_hid_descriptor (s.device device) = false
    · rw [if_pos hc, (sdp_query_hid_descriptor_calls _ _ _).1]
      have ha : (((s.update_device device (uni_hid_device_set_connected · true)).update_device
          device (fun d => { d with hid_interrupt_cid := e.local_cid })).device device).address
          = e.address := by
        rw [device_update_device_same _ device _ hlt1, device_update_device_same s device _ hlt]
        exact haddr
      rw [ha]
      by_cases ht : s.current_device = none
      · have hc3 : e.psm = .PSM_HID_INTERRUPT
            ∧ uni_hid_device_has_hid_descriptor (s.device device) = false
            ∧ s.current_device = none := ⟨hc.1, hc.2, ht⟩
        rw [if_pos hc3]
        simp only [bt_state.update_device, ht, if_true]
      · have hc3 : ¬ (e.psm = .PSM_HID_INTERRUPT
            ∧ uni_hid_device_has_hid_descriptor (s.device device) = false
            ∧ s.current_device = none) := fun h => ht h.2.2
        rw [if_neg hc3]
        simp only [bt_state.update_device, ht, if_false]
    · have hc3 : ¬ (e.psm = .PSM_HID_INTERRUPT
          ∧ uni_hid_device_has_hid_descriptor (s.device device) = false
          ∧ s.current_device = none) := fun h => hc ⟨h.1, h.2.1⟩
      rw [if_neg hc, if_neg hc3, List.append_nil]
      cases e.psm <;> rfl
  have hnew : new_calls s (on_l2cap_channel_opened C R channel e s)
      = (if e.psm = .PSM_HID_INTERRUPT
            ∧ uni_hid_device_has_hid_descriptor (s.device device) = false
            ∧ s.current_device = none then
          [Call.sdp_client_query_uuid16 .handle_sdp_hid_query_result e.address
            .BLUETOOTH_SERVICE_CLASS_HUMAN_INTERFACE_DEVICE_SERVICE]
        else []) ++ extra := by
    unfold new_calls
    rw [hform, hextra, hswc, List.append_assoc, List.drop_left]
  refine ⟨?_, ?_⟩
  · rw [hnew]
    constructor
    · intro hmem
      rw [List.mem_append] at hmem
      rcases hmem with hmem | hmem
      · by_contra hcond
        rw [if_neg hcond] at hmem
        exact List.not_mem_nil _ hmem
      · exact absurd hmem (hno _ _ _)
    · intro hcond
      rw [if_pos hcond]
      exact List.mem_append_left _ (List.mem_singleton_self _)
  · intro hhas
    have hcond : ¬ (e.psm = .PSM_HID_INTERRUPT
        ∧ uni_hid_device_has_hid_descriptor (s.device device) = false
        ∧ s.current_device = none) := by
      intro h
      rw [hhas] at h
      exact Bool.noConfusion h.2.1
    have hcond2 : ¬ (e.psm = .PSM_HID_INTERRUPT
        ∧ uni_hid_device_has_hid_descriptor (s.device device) = false) := by
      intro h
      rw [hhas] at h
      exact Bool.noConfusion h.2
    refine ⟨?_, ?_⟩
    · intro handler address service
      rw [hnew, if_neg hcond, List.nil_append]
      exact hno _ _ _
    · rw [hform, htok, hsw, if_neg hcond2]
      cases e.psm <;> rfl

/-- The interrupt channel of a device without descriptor opens while no query
is in flight: the query for the HID descriptor is issued. -/
theorem channel_opened_descriptor_query_witness :
    Call.sdp_client_query_uuid16 .handle_sdp_hid_query_result 0xAABBCCDDEEFF
        .BLUETOOTH_SERVICE_CLASS_HUMAN_INTERFACE_DEVICE_SERVICE
      ∈ new_calls { devices := [{ in_use := true, address := 0xAABBCCDDEEFF, incoming := true }] }
          (on_l2cap_channel_opened sample_collab {} 0x41
            { address := 0xAABBCCDDEEFF, psm := .PSM_HID_INTERRUPT, local_cid := 0x41 }
            { devices := [{ in_use := true, address := 0xAABBCCDDEEFF, incoming := true }] }) :=
  (channel_opened_descriptor_query sample_collab {} 0x41
    { address := 0xAABBCCDDEEFF, psm := .PSM_HID_INTERRUPT, local_cid := 0x41 }
    { devices := [{ in_use := true, address := 0xAABBCCDDEEFF, incoming := true }] } 0 rfl
    (by decide)).1.mpr ⟨rfl, by decide, rfl⟩


/-- The `switch (psm)` of `on_l2cap_channel_opened` leaves the connected flag
and the incoming flag of the device as they are. -/
theorem on_l2cap_channel_opened_switch_flags (R : stack_replies) (e : channel_opened_event)
    (device : Nat) (s : bt_state) (hlt : device < s.devices.length) :
    ((on_l2cap_channel_opened_switch R e device s).device device).connected
      = (s.device device).connected
    ∧ ((on_l2cap_channel_opened_switch R e device s).device device).incoming
      = (s.device device).incoming := by
  have hq : ∀ (status : Nat) (t : bt_state),
      (sdp_query_hid_descriptor status device t).device device = t.device device := by
    intro status t
    simp only [bt_state.device, sdp_query_hid_descriptor_devices]
  rw [on_l2cap_channel_opened_switch_cases R e device s hlt]
  split
  · rw [hq, device_update_device_same s device _ hlt]
    exact ⟨rfl, rfl⟩
  · cases e.psm with
    | PSM_HID_CONTROL =>
      simp only
      rw [device_update_device_same s device _ hlt]
      exact ⟨rfl, rfl⟩
    | PSM_HID_INTERRUPT =>
      simp only
      rw [device_update_device_same s device _ hlt]
      exact ⟨rfl, rfl⟩
    | other => exact ⟨rfl, rfl⟩

/-- C28 as stated fails: a remote device connects (connection request, then
incoming control channel accepted), and the control channel opens with
success. The device is then marked connected, although no channel-opened
event for the interrupt PSM has been handled and its interrupt channel id is
still unset. -/
theorem control_channel_alone_marks_connected :
    ((packet_handler_run sample_collab { devices := [{}], bt_ready := true }
        [({}, .HCI_EVENT_PACKET 0 (.HCI_EVENT_CONNECTION_REQUEST { bd_addr := 0xAABBCCDDEEFF })),
         ({}, .HCI_EVENT_PACKET 0x40 (.L2CAP_EVENT_INCOMING_CONNECTION
            { psm := .PSM_HID_CONTROL, address := 0xAABBCCDDEEFF }))]).device 0).connected
      = false
    ∧ ((packet_handler_run sample_collab { devices := [{}], bt_ready := true }
        [({}, .HCI_EVENT_PACKET 0 (.HCI_EVENT_CONNECTION_REQUEST { bd_addr := 0xAABBCCDDEEFF })),
         ({}, .HCI_EVENT_PACKET 0x40 (.L2CAP_EVENT_INCOMING_CONNECTION
            { psm := .PSM_HID_CONTROL, address := 0xAABBCCDDEEFF })),
         ({}, .HCI_EVENT_PACKET 0x40 (.L2CAP_EVENT_CHANNEL_OPENED
            { address := 0xAABBCCDDEEFF, psm := .PSM_HID_CONTROL, local_cid := 0x40 }))]).device
          0).connected
      = true
    ∧ ((packet_handler_run sample_collab { devices := [{}], bt_ready := true }
        [({}, .HCI_EVENT_PACKET 0 (.HCI_EVENT_CONNECTION_REQUEST { bd_addr := 0xAABBCCDDEEFF })),
         ({}, .HCI_EVENT_PACKET 0x40 (.L2CAP_EVENT_INCOMING_CONNECTION
            { psm := .PSM_HID_CONTROL, address := 0xAABBCCDDEEFF })),
         ({}, .HCI_EVENT_PACKET 0x40 (.L2CAP_EVENT_CHANNEL_OPENED
            { address := 0xAABBCCDDEEFF, psm := .PSM_HID_CONTROL, local_cid := 0x40 }))]).device
          0).hid_interrupt_cid
      = 0 := by
  decide

/-- C28 (amended): a device is marked connected as soon as one of its channels
has been opened successfully. Whenever `on_l2cap_channel_opened` marks a
device connected, the event handled is a successful channel-opened event for
the address of that device (the port assignment leaving the flag alone); and
on every such event, whichever its PSM, the device is marked connected before
the PSM is looked at, and is still marked so after the handler when it is
marked incoming. -/
theorem channel_opened_marks_connected (C : Collab) (R : stack_replies) (channel : Nat)
    (e : channel_opened_event) (s : bt_state)
    (hassign : ∀ ds device i,
      ((C.uni_hid_device_try_assign_joystick_port ds device).getD i default).connected
        = (ds.getD i default).connected) :
    (∀ i, ((on_l2cap_channel_opened C R channel e s).device i).connected = true →
        (s.device i).connected = true
        ∨ (e.status = .success
            ∧ uni_hid_device_get_instance_for_address s e.address = some i))
    ∧ (∀ device, e.status = .success →
        uni_hid_device_get_instance_for_address s e.address = some device →
        on_l2cap_channel_opened C R channel e s
          = on_l2cap_channel_opened_rest C R channel e device
              (on_l2cap_channel_opened_switch R e device
                (s.update_device device (uni_hid_device_set_connected · true)))
        ∧ ((on_l2cap_channel_opened_switch R e device
            (s.update_device device (uni_hid_device_set_connected · true))).device
              device).connected = true
        ∧ (uni_hid_device_is_incoming (s.device device) = true →
            ((on_l2cap_channel_opened C R channel e s).device device).connected = true)) := by
  constructor
  · have hP : lifecycle_frame (fun i d d' => d'.connected = true →
        d.connected = true
        ∨ (e.status = .success
            ∧ uni_hid_device_get_instance_for_address s e.address = some i)) :=
      { trans := fun i a b c hab hbc hc => (hbc hc).elim hab Or.inr
        free := fun i d hc => Bool.noConfusion hc
        fresh := fun i d addr hc => Bool.noConfusion hc
        keeps := fun i d d' _ hconn hc => Or.inl (hconn ▸ hc) }
    exact slots_related_on_l2cap_channel_opened _ hP C
      (fun ds device i hc => Or.inl ((hassign ds device i) ▸ hc)) R channel e s s
      (fun device d hs hl _ => Or.inr ⟨hs, hl⟩) (slots_related_refl _ hP s)
  · intro device hs hdev
    obtain ⟨hlt, -, -⟩ := get_instance_for_address_some s e.address device hdev
    have hlt1 : device < (s.update_device device
        (uni_hid_device_set_connected · true)).devices.length := by
      rw [length_update_device]; exact hlt
    have hform := on_l2cap_channel_opened_success C R channel e s device hs hdev
    obtain ⟨hconn, hinc⟩ := on_l2cap_channel_opened_switch_flags R e device
      (s.update_device device (uni_hid_device_set_connected · true)) hlt1
    rw [device_update_device_same s device _ hlt] at hconn hinc
    refine ⟨hform, hconn, ?_⟩
    intro hin
    have hin2 : uni_hid_device_is_incoming
        ((on_l2cap_channel_opened_switch R e device
          (s.update_device device (uni_hid_device_set_connected · true))).device device)
        = true := by
      unfold uni_hid_device_is_incoming at hin ⊢
      rw [hinc]
      exact hin
    rw [hform]
    unfold on_l2cap_channel_opened_rest
    rw [if_neg (fun h => h hin2)]
    exact (hassign _ device device).trans hconn

/-- The control channel of a device that is marked incoming opens: the device
is marked connected. -/
theorem channel_opened_marks_connected_witness :
    ((on_l2cap_channel_opened sample_collab {} 0x40
        { address := 0xAABBCCDDEEFF, psm := .PSM_HID_CONTROL, local_cid := 0x40 }
        { devices := [{ in_use := true, address := 0xAABBCCDDEEFF, incoming := true }] }).device
          0).connected = true :=
  ((channel_opened_marks_connected sample_collab {} 0x40
    { address := 0xAABBCCDDEEFF, psm := .PSM_HID_CONTROL, local_cid := 0x40 }
    { devices := [{ in_use := true, address := 0xAABBCCDDEEFF, incoming := true }] }
    (fun _ _ _ => rfl)).2 0 rfl (by decide)).2.2 (by decide)


/-! ## Incoming connections -/

/-- C27 as stated fails: an incoming request on a PSM that is neither the
control nor the interrupt PSM is neither accepted nor declined: the state is
unchanged and no call is made. -/
theorem unknown_psm_neither_accepted_nor_declined :
    on_l2cap_incoming_connection 0x42 { psm := .other, address := 0xAABBCCDDEEFF }
        { devices := [{}] }
      = { devices := [{}] }
    ∧ new_calls { devices := [{}] }
        (on_l2cap_incoming_connection 0x42 { psm := .other, address := 0xAABBCCDDEEFF }
          { devices := [{}] })
      = [] := by
  constructor <;> rfl

/-- C27 (amended): in `on_l2cap_incoming_connection`, a request on the
interrupt PSM whose address has no registry entry is declined and creates no
device (the table is unchanged); a request on the control PSM is accepted if
and only if an entry for the address exists or can be created, and is
declined when none exists and every slot is in use; every request on the
control or the interrupt PSM is either accepted or declined, never both: the
one call made is the acceptance or the refusal of the channel. A request on
any other PSM is only logged: it is neither accepted nor declined. -/
theorem incoming_connection_accept_or_decline (channel : Nat) (e : incoming_connection_event)
    (s : bt_state) :
    (e.psm = .PSM_HID_INTERRUPT →
      uni_hid_device_get_instance_for_address s e.address = none →
      on_l2cap_incoming_connection channel e s = s.call (.l2cap_decline_connection channel)
      ∧ (on_l2cap_incoming_connection channel e s).devices = s.devices
      ∧ new_calls s (on_l2cap_incoming_connection channel e s)
          = [Call.l2cap_decline_connection channel])
    ∧ (e.psm = .PSM_HID_INTERRUPT →
      (uni_hid_device_get_instance_for_address s e.address).isSome = true →
      new_calls s (on_l2cap_incoming_connection channel e s)
        = [Call.l2cap_accept_connection channel])
    ∧ (e.psm = .PSM_HID_CONTROL →
      (Call.l2cap_accept_connection channel
          ∈ new_calls s (on_l2cap_incoming_connection channel e s)
        ↔ ((uni_hid_device_get_instance_for_address s e.address).isSome = true
            ∨ (uni_hid_device_create s e.address).isSome = true))
      ∧ (uni_hid_device_get_instance_for_address s e.address = none →
          (∀ d ∈ s.devices, d.in_use = true) →
          on_l2cap_incoming_connection channel e s
            = s.call (.l2cap_decline_connection channel)))
    ∧ (e.psm ≠ .other →
      new_calls s (on_l2cap_incoming_connection channel e s)
          = [Call.l2cap_accept_connection channel]
        ∨ new_calls s (on_l2cap_incoming_connection channel e s)
          = [Call.l2cap_decline_connection channel])
    ∧ (e.psm = .other → on_l2cap_incoming_connection channel e s = s) := by
  have hdecl : new_calls s (s.call (.l2cap_decline_connection channel))
      = [Call.l2cap_decline_connection channel] := by
    simp only [new_calls, bt_state.call, List.drop_left]
  have hfin : ∀ (device : Nat) (t : bt_state), t.calls = s.calls →
      new_calls s ((((t.call (.l2cap_accept_connection channel)).update_device device
        (uni_hid_device_set_connection_handle · e.handle)).update_device device
        (fun d => { d with hid_control_cid := channel })).update_device device
        (uni_hid_device_set_incoming · true))
      = [Call.l2cap_accept_connection channel] := by
    intro device t ht
    simp only [new_calls, bt_state.call, bt_state.update_device, ht, List.drop_left]
  -- the calls on the control PSM
  have hcontrol : e.psm = .PSM_HID_CONTROL →
      new_calls s (on_l2cap_incoming_connection channel e s)
        = (if (uni_hid_device_get_instance_for_address s e.address).isSome = true
              ∨ (uni_hid_device_create s e.address).isSome = true
            then [Call.l2cap_accept_connection channel]
            else [Call.l2cap_decline_connection channel]) := by
    intro hp
    unfold on_l2cap_incoming_connection
    rw [hp]
    cases hl : uni_hid_device_get_instance_for_address s e.address with
    | some device =>
      simp only [Option.isSome_some, true_or, if_true]
      exact hfin device s rfl
    | none =>
      cases hc : uni_hid_device_create s e.address with
      | none =>
        simp only [Option.isSome_none, Bool.false_eq_true, or_self, if_false]
        exact hdecl
      | some p =>
        obtain ⟨device, s1⟩ := p
        simp only [Option.isSome_some, or_true, if_true]
        obtain ⟨-, -, hs1, -⟩ := create_some s s1 e.address device hc
        exact hfin device s1 (by rw [hs1])
  have hinterrupt : e.psm = .PSM_HID_INTERRUPT →
      new_calls s (on_l2cap_incoming_connection channel e s)
        = (if (uni_hid_device_get_instance_for_address s e.address).isSome = true
            then [Call.l2cap_accept_connection channel]
            else [Call.l2cap_decline_connection channel]) := by
    intro hp
    unfold on_l2cap_incoming_connection
    rw [hp]
    cases hl : uni_hid_device_get_instance_for_address s e.address with
    | some device =>
      simp only [Option.isSome_some, if_true]
      simp only [new_calls, bt_state.call, bt_state.update_device, List.drop_left]
    | none =>
      simp only [Option.isSome_none, Bool.false_eq_true, if_false]
      exact hdecl
  refine ⟨?_, ?_, ?_, ?_, ?_⟩
  · intro hp hnone
    have e1 : on_l2cap_incoming_connection channel e s
        = s.call (.l2cap_decline_connection channel) := by
      simp only [on_l2cap_incoming_connection, hp, hnone]
    rw [e1]
    exact ⟨rfl, rfl, hdecl⟩
  · intro hp hsome
    rw [hinterrupt hp, if_pos hsome]
  · intro hp
    constructor
    · rw [hcontrol hp]
      constructor
      · intro hmem
        by_contra hcond
        rw [if_neg hcond] at hmem
        simp only [List.mem_singleton, reduceCtorEq] at hmem
      · intro hcond
        rw [if_pos hcond]
        exact List.mem_singleton_self _
    · intro hnone hfull
      simp only [on_l2cap_incoming_connection, hp, hnone,
        (create_none_iff s e.address).mpr hfull]
  · intro hp
    cases hpsm : e.psm with
    | PSM_HID_CONTROL =>
      rw [hcontrol hpsm]
      split
      · exact Or.inl rfl
      · exact Or.inr rfl
    | PSM_HID_INTERRUPT =>
      rw [hinterrupt hpsm]
      split
      · exact Or.inl rfl
      · exact Or.inr rfl
    | other => exact absurd hpsm hp
  · intro hp
    simp only [on_l2cap_incoming_connection, hp]

/-- The interrupt PSM is requested from an address that the table does not
hold: the request is declined. -/
theorem incoming_connection_accept_or_decline_witness :
    new_calls { devices := [{}] }
        (on_l2cap_incoming_connection 0x41
          { psm := .PSM_HID_INTERRUPT, address := 0xAABBCCDDEEFF } { devices := [{}] })
      = [Call.l2cap_decline_connection 0x41] :=
  ((incoming_connection_accept_or_decline 0x41
    { psm := .PSM_HID_INTERRUPT, address := 0xAABBCCDDEEFF } { devices := [{}] }).1
    rfl (by decide)).2.2


/-! ## The queue of remote-name requests -/

/-- What `on_gap_inquiry_result` does to a slot: nothing, or the slot holds
afterwards a device in use with the address of the event. -/
theorem on_gap_inquiry_result_slots (C : Collab) (R : stack_replies)
    (e : inquiry_result_event) (s : bt_state) (i : Nat) :
    (on_gap_inquiry_result C R e s).device i = s.device i
    ∨ (((on_gap_inquiry_result C R e s).device i).in_use = true
        ∧ ((on_gap_inquiry_result C R e s).device i).address = e.bd_addr) := by
  by_cases hcod : C.uni_hid_device_is_cod_supported e.class_of_device = true
  · cases hl : uni_hid_device_get_instance_for_address s e.bd_addr with
    | some device =>
      obtain ⟨hlt, huse, haddr⟩ := get_instance_for_address_some s e.bd_addr device hl
      by_cases horphan : uni_hid_device_is_orphan (s.device device) = true
      · have e1 : on_gap_inquiry_result C R e s = on_gap_inquiry_result_device R e device s := by
          simp only [on_gap_inquiry_result, hcod, if_true, hl, horphan, not_true_eq_false,
            if_false]
        obtain ⟨F, hF, hFd, -, -⟩ := on_gap_inquiry_result_device_form R e device s hlt
        rw [e1, hF]
        rcases device_update_device s device i F with h | ⟨hi, -, h⟩
        · exact Or.inl h
        · right
          have h2 : ((s.update_device device F).call
              (.l2cap_create_channel (s.device device).address .PSM_HID_CONTROL 48)).device i
              = F (s.device i) := h
          rw [h2, (hFd _).2.2.2.1, (hFd _).2.2.2.2, ← hi]
          exact ⟨huse, haddr⟩
      · left
        simp only [on_gap_inquiry_result, hcod, if_true, hl, horphan, Bool.false_eq_true,
          not_false_eq_true]
    | none =>
      cases hc : uni_hid_device_create s e.bd_addr with
      | none =>
        left
        simp only [on_gap_inquiry_result, hcod, if_true, hl, hc]
      | some p =>
        obtain ⟨device, s1⟩ := p
        obtain ⟨huse, haddr, -, -, -, hother⟩ :=
          on_gap_inquiry_result_new_device C R e s s1 device hcod hl hc
        by_cases hi : i = device
        · subst hi
          exact Or.inr ⟨huse, haddr⟩
        · exact Or.inl (hother i hi)
  · left
    simp only [on_gap_inquiry_result, hcod, Bool.false_eq_true, if_false]

/-- Apart from the inquiry-complete event, `packet_handler` does not call
`uni_hid_device_request_inquire`. -/
theorem packet_handler_request_inquire_unused (C : Collab) (R : stack_replies) (p : bt_packet)
    (s : bt_state) (hp : ∀ channel, p ≠ .HCI_EVENT_PACKET channel .GAP_EVENT_INQUIRY_COMPLETE) :
    packet_handler C R p s
      = packet_handler { C with uni_hid_device_request_inquire := fun ds => ds } R p s := by
  cases p with
  | other => rfl
  | L2CAP_DATA_PACKET channel packet => rfl
  | HCI_EVENT_PACKET channel event =>
    cases event with
    | GAP_EVENT_INQUIRY_COMPLETE => exact absurd rfl (hp channel)
    | BTSTACK_EVENT_STATE w => rfl
    | HCI_EVENT_PIN_CODE_REQUEST a => rfl
    | HCI_EVENT_CONNECTION_REQUEST e => rfl
    | HCI_EVENT_CONNECTION_COMPLETE e => rfl
    | HCI_EVENT_REMOTE_NAME_REQUEST_COMPLETE e => rfl
    | L2CAP_EVENT_INCOMING_CONNECTION e => rfl
    | L2CAP_EVENT_CHANNEL_OPENED e => rfl
    | L2CAP_EVENT_CHANNEL_CLOSED e => rfl
    | GAP_EVENT_INQUIRY_RESULT e => rfl
    | log_only => rfl

/-- C21 as stated fails: a gamepad without name is discovered once, at a new
address. On the inquiry-complete event its name is requested and the request
fails; the scan restarts and ends without the gamepad being discovered again.
With a `uni_hid_device_request_inquire` that queues the name requests again,
the second inquiry-complete event selects the device again: two remote-name
requests are made for its address and it enters `REMOTE_NAME_INQUIRED` a second
time. -/
theorem requeued_device_inquired_twice :
    (packet_handler_run requeue_collab { devices := [{}], bt_ready := true }
        [({}, .HCI_EVENT_PACKET 0 (.GAP_EVENT_INQUIRY_RESULT
            { bd_addr := 0xAABBCCDDEEFF, class_of_device := 0x2508 })),
         ({}, .HCI_EVENT_PACKET 0 .GAP_EVENT_INQUIRY_COMPLETE),
         ({}, .HCI_EVENT_PACKET 0 (.HCI_EVENT_REMOTE_NAME_REQUEST_COMPLETE
            { status := 4, bd_addr := 0xAABBCCDDEEFF })),
         ({}, .HCI_EVENT_PACKET 0 .GAP_EVENT_INQUIRY_COMPLETE)]).calls
      = [Call.l2cap_create_channel 0xAABBCCDDEEFF .PSM_HID_CONTROL 48,
         Call.uni_hid_device_request_inquire,
         Call.gap_remote_name_request 0xAABBCCDDEEFF 0 0x8000,
         Call.gap_inquiry_start INQUIRY_INTERVAL,
         Call.uni_hid_device_request_inquire,
         Call.gap_remote_name_request 0xAABBCCDDEEFF 0 0x8000]
    ∧ ((packet_handler_run requeue_collab { devices := [{}], bt_ready := true }
        [({}, .HCI_EVENT_PACKET 0 (.GAP_EVENT_INQUIRY_RESULT
            { bd_addr := 0xAABBCCDDEEFF, class_of_device := 0x2508 })),
         ({}, .HCI_EVENT_PACKET 0 .GAP_EVENT_INQUIRY_COMPLETE),
         ({}, .HCI_EVENT_PACKET 0 (.HCI_EVENT_REMOTE_NAME_REQUEST_COMPLETE
            { status := 4, bd_addr := 0xAABBCCDDEEFF }))]).device 0).state
      = .REMOTE_NAME_INQUIRED
    ∧ (requeue_collab.uni_hid_device_request_inquire
        (packet_handler_run requeue_collab { devices := [{}], bt_ready := true }
          [({}, .HCI_EVENT_PACKET 0 (.GAP_EVENT_INQUIRY_RESULT
              { bd_addr := 0xAABBCCDDEEFF, class_of_device := 0x2508 })),
           ({}, .HCI_EVENT_PACKET 0 .GAP_EVENT_INQUIRY_COMPLETE),
           ({}, .HCI_EVENT_PACKET 0 (.HCI_EVENT_REMOTE_NAME_REQUEST_COMPLETE
              { status := 4, bd_addr := 0xAABBCCDDEEFF }))]).devices).map
        (fun d => d.state) = [.REMOTE_NAME_REQUEST] := by
  decide

/-- C21 (amended): a discovery result with a supported class of device and no
name, for a new address, leaves the device created for it in state
`REMOTE_NAME_REQUEST`. The call of `continue_remote_names` that selects a
device (the first in `REMOTE_NAME_REQUEST`) puts it in `REMOTE_NAME_INQUIRED`
and makes exactly one remote-name request, for its address. A later call of
`continue_remote_names` does not select a device that is not in
`REMOTE_NAME_REQUEST`, and leaves it as it is. A packet handled by
`packet_handler` puts a device in `REMOTE_NAME_REQUEST` that was not in it
only when it is a discovery result for the address of the device, or an
inquiry-complete event on which `uni_hid_device_request_inquire` puts the
device in that state (it runs right before `continue_remote_names`); the port
assignment `uni_hid_device_try_assign_joystick_port` is taken to put no device
in that state. -/
theorem nameless_discovery_inquired_once (C : Collab) (R : stack_replies)
    (e : inquiry_result_event) (s s1 : bt_state) (device : Nat)
    (hcod : C.uni_hid_device_is_cod_supported e.class_of_device = true)
    (hname : e.name = none)
    (hnone : uni_hid_device_get_instance_for_address s e.bd_addr = none)
    (hcreate : uni_hid_device_create s e.bd_addr = some (device, s1)) :
    (((on_gap_inquiry_result C R e s).device device).state = .REMOTE_NAME_REQUEST
      ∧ ((on_gap_inquiry_result C R e s).device device).in_use = true
      ∧ ((on_gap_inquiry_result C R e s).device device).address = e.bd_addr)
    ∧ (∀ s2 : bt_state,
        uni_hid_device_get_first_device_with_state s2 .REMOTE_NAME_REQUEST = some device →
        ((continue_remote_names s2).device device).state = .REMOTE_NAME_INQUIRED
        ∧ new_calls s2 (continue_remote_names s2)
          = [Call.gap_remote_name_request (s2.device device).address
              (s2.device device).page_scan_repetition_mode
              ((s2.device device).clock_offset ||| 0x8000)])
    ∧ (∀ s3 : bt_state, (s3.device device).state ≠ .REMOTE_NAME_REQUEST →
        uni_hid_device_get_first_device_with_state s3 .REMOTE_NAME_REQUEST ≠ some device
        ∧ (continue_remote_names s3).device device = s3.device device)
    ∧ (∀ (R1 : stack_replies) (p : bt_packet) (s3 : bt_state) (i : Nat),
        (∀ ds d j,
          ((C.uni_hid_device_try_assign_joystick_port ds d).getD j default).state
              = .REMOTE_NAME_REQUEST →
            (ds.getD j default).state = .REMOTE_NAME_REQUEST) →
        ((packet_handler C R1 p s3).device i).state = .REMOTE_NAME_REQUEST →
        (s3.device i).state = .REMOTE_NAME_REQUEST
        ∨ (∃ channel e1, p = .HCI_EVENT_PACKET channel (.GAP_EVENT_INQUIRY_RESULT e1)
            ∧ ((packet_handler C R1 p s3).device i).in_use = true
            ∧ ((packet_handler C R1 p s3).device i).address = e1.bd_addr)
        ∨ (∃ channel, p = .HCI_EVENT_PACKET channel .GAP_EVENT_INQUIRY_COMPLETE
            ∧ s3.bt_ready = true
            ∧ ((C.uni_hid_device_request_inquire s3.devices).getD i default).state
                = .REMOTE_NAME_REQUEST)) := by
  have hP : lifecycle_frame (fun (_ : Nat) (d d' : uni_hid_device_t) =>
      d'.state = .REMOTE_NAME_REQUEST → d.state = .REMOTE_NAME_REQUEST) :=
    { trans := fun _ a b c hab hbc hc => hab (hbc hc)
      free := fun _ d hc => device_state.noConfusion hc
      fresh := fun _ d addr hc => device_state.noConfusion hc
      keeps := fun _ d d' hst _ hc => hst ▸ hc }
  refine ⟨?_, ?_, ?_, ?_⟩
  · obtain ⟨huse, haddr, -, -, hst, -⟩ :=
      on_gap_inquiry_result_new_device C R e s s1 device hcod hnone hcreate
    refine ⟨?_, huse, haddr⟩
    rw [hst, hname]
    rfl
  · intro s2 hfirst
    obtain ⟨hlt, -, -⟩ := get_first_device_with_state_some s2 _ device hfirst
    rw [(continue_remote_names_cases s2).1 device hfirst]
    constructor
    · exact congrArg uni_hid_device_t.state (device_update_device_same s2 device _ hlt)
    · simp only [new_calls, bt_state.call, bt_state.update_device, List.drop_left]
  · intro s3 hst
    have hne : uni_hid_device_get_first_device_with_state s3 .REMOTE_NAME_REQUEST
        ≠ some device := by
      intro hfirst
      exact hst (get_first_device_with_state_some s3 _ device hfirst).2.2
    refine ⟨hne, ?_⟩
    cases hf : uni_hid_device_get_first_device_with_state s3 .REMOTE_NAME_REQUEST with
    | none =>
      rw [(continue_remote_names_cases s3).2 hf]
      rfl
    | some other =>
      rw [(continue_remote_names_cases s3).1 other hf]
      have hoth : other ≠ device := by
        intro h
        rw [h] at hf
        exact hne hf
      exact device_update_device_ne s3 other device _ hoth
  · intro R1 p s3 i hassign hafter
    by_cases hp : ∃ channel e1, p = .HCI_EVENT_PACKET channel (.GAP_EVENT_INQUIRY_RESULT e1)
    · obtain ⟨channel, e1, hp⟩ := hp
      subst hp
      by_cases hready : s3.bt_ready = true
      · have e2 : packet_handler C R1 (.HCI_EVENT_PACKET channel (.GAP_EVENT_INQUIRY_RESULT e1)) s3
            = on_gap_inquiry_result C R1 e1 s3 := by
          simp only [packet_handler, hready, Bool.not_true, Bool.false_and, Bool.false_eq_true,
            if_false]
        rw [e2] at hafter ⊢
        rcases on_gap_inquiry_result_slots C R1 e1 s3 i with h | h
        · left
          rw [h] at hafter
          exact hafter
        · exact Or.inr (Or.inl ⟨channel, e1, rfl, h.1, h.2⟩)
      · have e2 : packet_handler C R1 (.HCI_EVENT_PACKET channel (.GAP_EVENT_INQUIRY_RESULT e1)) s3
            = s3 := by
          simp only [packet_handler, hready, Bool.not_false, Bool.true_and, if_true]
        rw [e2] at hafter
        exact Or.inl hafter
    by_cases hq : ∃ channel, p = .HCI_EVENT_PACKET channel .GAP_EVENT_INQUIRY_COMPLETE
    · obtain ⟨channel, hq⟩ := hq
      subst hq
      by_cases hready : s3.bt_ready = true
      · have e2 : packet_handler C R1 (.HCI_EVENT_PACKET channel .GAP_EVENT_INQUIRY_COMPLETE) s3
            = continue_remote_names
                (({ s3 with devices := C.uni_hid_device_request_inquire s3.devices }
                  : bt_state).call .uni_hid_device_request_inquire) := by
          simp only [packet_handler, hready, Bool.not_true, Bool.false_and, Bool.false_eq_true,
            if_false]
        rw [e2] at hafter
        refine Or.inr (Or.inr ⟨channel, rfl, hready, ?_⟩)
        exact slots_related_continue_remote_names _ hP _ _
          (fun _ d _ hc => device_state.noConfusion hc) (slots_related_refl _ hP _) i hafter
      · have e2 : packet_handler C R1 (.HCI_EVENT_PACKET channel .GAP_EVENT_INQUIRY_COMPLETE) s3
            = s3 := by
          simp only [packet_handler, hready, Bool.not_false, Bool.true_and, if_true]
        rw [e2] at hafter
        exact Or.inl hafter
    · left
      rw [packet_handler_request_inquire_unused C R1 p s3
        (fun channel h => hq ⟨channel, h⟩)] at hafter
      exact slots_related_packet_handler _ hP
        { C with uni_hid_device_request_inquire := fun ds => ds } R1 p s3 s3 hassign
        (fun _ _ hc => hc)
        (fun h => absurd h hp) (fun _ d hc => device_state.noConfusion hc)
        (fun _ d hc => hc) (fun _ d hc => hc) (slots_related_refl _ hP s3) i hafter

/-- A gamepad without name is discovered at a new address: it waits for its
name. -/
theorem nameless_discovery_inquired_once_witness :
    ((on_gap_inquiry_result sample_collab {}
        { bd_addr := 0xAABBCCDDEEFF, class_of_device := 0x2508 }
        { devices := [{}] }).device 0).state = .REMOTE_NAME_REQUEST :=
  (nameless_discovery_inquired_once sample_collab {}
    { bd_addr := 0xAABBCCDDEEFF, class_of_device := 0x2508 } { devices := [{}] }
    { devices := [{ in_use := true, address := 0xAABBCCDDEEFF }] } 0 (by decide) rfl
    (by decide) (by rfl)).1.1


/-- C22 as stated fails: two gamepads without name are discovered; on the
inquiry-complete event the name of the first is requested, and when that
request completes with a failure status the name of the second is requested.
Both devices are then in state `REMOTE_NAME_INQUIRED`. -/
theorem two_devices_inquired :
    ((packet_handler_run sample_collab { devices := [{}, {}], bt_ready := true }
        [({}, .HCI_EVENT_PACKET 0 (.GAP_EVENT_INQUIRY_RESULT
            { bd_addr := 0xAABBCCDDEEFF, class_of_device := 0x2508 })),
         ({}, .HCI_EVENT_PACKET 0 (.GAP_EVENT_INQUIRY_RESULT
            { bd_addr := 0x112233445566, class_of_device := 0x2508 })),
         ({}, .HCI_EVENT_PACKET 0 .GAP_EVENT_INQUIRY_COMPLETE),
         ({}, .HCI_EVENT_PACKET 0 (.HCI_EVENT_REMOTE_NAME_REQUEST_COMPLETE
            { status := 4, bd_addr := 0xAABBCCDDEEFF }))]).devices.map
        (fun d => (d.in_use, d.address, d.state)))
      = [(true, 0xAABBCCDDEEFF, .REMOTE_NAME_INQUIRED),
         (true, 0x112233445566, .REMOTE_NAME_INQUIRED)] := by
  decide

/-- C22 (amended): once Bluetooth is ready, each of these events moves at most
one device into state `REMOTE_NAME_INQUIRED`: a discovery result moves none;
a remote-name-request-complete event and an inquiry-complete event move the
first device in `REMOTE_NAME_REQUEST`, when there is one, and no other (on
the inquiry-complete event, the first of the table that
`uni_hid_device_request_inquire` leaves). A device in `REMOTE_NAME_INQUIRED`
stays in that state when a remote-name request completes, with success or
with failure, so more than one device can be in it at the same time. -/
theorem one_device_inquired_per_event (C : Collab) (R : stack_replies) (channel : Nat)
    (s : bt_state) (hready : s.bt_ready = true) :
    (∀ (e : inquiry_result_event) (i : Nat),
      ((packet_handler C R (.HCI_EVENT_PACKET channel (.GAP_EVENT_INQUIRY_RESULT e)) s).device
          i).state = .REMOTE_NAME_INQUIRED →
        (s.device i).state = .REMOTE_NAME_INQUIRED)
    ∧ (∀ (e : remote_name_request_complete_event) (i : Nat),
      ((packet_handler C R
          (.HCI_EVENT_PACKET channel (.HCI_EVENT_REMOTE_NAME_REQUEST_COMPLETE e)) s).device
          i).state = .REMOTE_NAME_INQUIRED →
        (s.device i).state = .REMOTE_NAME_INQUIRED
        ∨ uni_hid_device_get_first_device_with_state s .REMOTE_NAME_REQUEST = some i)
    ∧ (∀ i : Nat,
      ((packet_handler C R (.HCI_EVENT_PACKET channel .GAP_EVENT_INQUIRY_COMPLETE) s).device
          i).state = .REMOTE_NAME_INQUIRED →
        ((C.uni_hid_device_request_inquire s.devices).getD i default).state
          = .REMOTE_NAME_INQUIRED
        ∨ uni_hid_device_get_first_device_with_state
            { s with devices := C.uni_hid_device_request_inquire s.devices }
            .REMOTE_NAME_REQUEST = some i)
    ∧ (∀ (e : remote_name_request_complete_event) (i : Nat),
      (s.device i).state = .REMOTE_NAME_INQUIRED →
        ((packet_handler C R
          (.HCI_EVENT_PACKET channel (.HCI_EVENT_REMOTE_NAME_REQUEST_COMPLETE e)) s).device
          i).state = .REMOTE_NAME_INQUIRED) := by
  -- what `continue_remote_names` does to the state of a slot
  have hcont : ∀ (t : bt_state) (i : Nat),
      ((continue_remote_names t).device i).state = (t.device i).state
      ∨ (uni_hid_device_get_first_device_with_state t .REMOTE_NAME_REQUEST = some i
          ∧ ((continue_remote_names t).device i).state = .REMOTE_NAME_INQUIRED) := by
    intro t i
    cases hf : uni_hid_device_get_first_device_with_state t .REMOTE_NAME_REQUEST with
    | none =>
      rw [(continue_remote_names_cases t).2 hf]
      exact Or.inl rfl
    | some k =>
      rw [(continue_remote_names_cases t).1 k hf]
      rcases device_update_device t k i
        (uni_hid_device_set_state · .REMOTE_NAME_INQUIRED) with h | ⟨hi, -, h⟩
      · exact Or.inl (congrArg uni_hid_device_t.state h)
      · exact Or.inr ⟨by rw [hi], congrArg uni_hid_device_t.state h⟩
  have hname : ∀ e : remote_name_request_complete_event,
      ∃ s1 : bt_state,
        packet_handler C R
          (.HCI_EVENT_PACKET channel (.HCI_EVENT_REMOTE_NAME_REQUEST_COMPLETE e)) s
          = continue_remote_names s1
        ∧ uni_hid_device_get_first_device_with_state s1 .REMOTE_NAME_REQUEST
          = uni_hid_device_get_first_device_with_state s .REMOTE_NAME_REQUEST
        ∧ ∀ i, (s1.device i).state = (s.device i).state := by
    intro e
    obtain ⟨s1, hs1, -, hfirst, hfields⟩ := name_complete_prefix e s
    refine ⟨s1, ?_, hfirst, fun i => (hfields i).1⟩
    simp only [packet_handler, hready, Bool.not_true, Bool.false_and, Bool.false_eq_true,
      if_false]
    rw [hs1]
  refine ⟨?_, ?_, ?_, ?_⟩
  · intro e i hafter
    have e2 : packet_handler C R (.HCI_EVENT_PACKET channel (.GAP_EVENT_INQUIRY_RESULT e)) s
        = on_gap_inquiry_result C R e s := by
      simp only [packet_handler, hready, Bool.not_true, Bool.false_and, Bool.false_eq_true,
        if_false]
    rw [e2] at hafter
    have hP : lifecycle_frame (fun (_ : Nat) (d d' : uni_hid_device_t) =>
        d'.state = .REMOTE_NAME_INQUIRED → d.state = .REMOTE_NAME_INQUIRED) :=
      { trans := fun _ a b c hab hbc hc => hab (hbc hc)
        free := fun _ d hc => device_state.noConfusion hc
        fresh := fun _ d addr hc => device_state.noConfusion hc
        keeps := fun _ d d' hst _ hc => hst ▸ hc }
    exact slots_related_on_gap_inquiry_result _ hP C R e s s
      (fun _ d hc => device_state.noConfusion hc) (slots_related_refl _ hP s) i hafter
  · intro e i hafter
    obtain ⟨s1, hs1, hfirst, hst⟩ := hname e
    rw [hs1] at hafter
    rcases hcont s1 i with h | ⟨h, -⟩
    · left
      rw [← hst i, ← h]
      exact hafter
    · right
      rw [← hfirst]
      exact h
  · intro i hafter
    have e2 : packet_handler C R (.HCI_EVENT_PACKET channel .GAP_EVENT_INQUIRY_COMPLETE) s
        = continue_remote_names
            (({ s with devices := C.uni_hid_device_request_inquire s.devices } : bt_state).call
              .uni_hid_device_request_inquire) := by
      simp only [packet_handler, hready, Bool.not_true, Bool.false_and, Bool.false_eq_true,
        if_false]
    rw [e2] at hafter
    rcases hcont _ i with h | ⟨h, -⟩
    · left
      rw [h] at hafter
      exact hafter
    · exact Or.inr h
  · intro e i hbefore
    obtain ⟨s1, hs1, -, hst⟩ := hname e
    rw [hs1]
    rcases hcont s1 i with h | ⟨-, h⟩
    · rw [h, hst i]
      exact hbefore
    · exact h

/-- The request for the name of the first device completes with a failure
status while a second device waits: the first device stays in
`REMOTE_NAME_INQUIRED`. -/
theorem one_device_inquired_per_event_witness :
    ((packet_handler sample_collab {}
        (.HCI_EVENT_PACKET 0 (.HCI_EVENT_REMOTE_NAME_REQUEST_COMPLETE
          { status := 4, bd_addr := 0xAABBCCDDEEFF }))
        { devices := [{ in_use := true, address := 0xAABBCCDDEEFF,
                        state := .REMOTE_NAME_INQUIRED },
                      { in_use := true, address := 0x112233445566,
                        state := .REMOTE_NAME_REQUEST }],
          bt_ready := true }).device 0).state = .REMOTE_NAME_INQUIRED :=
  (one_device_inquired_per_event sample_collab {} 0
    { devices := [{ in_use := true, address := 0xAABBCCDDEEFF,
                    state := .REMOTE_NAME_INQUIRED },
                  { in_use := true, address := 0x112233445566,
                    state := .REMOTE_NAME_REQUEST }],
      bt_ready := true } rfl).2.2.2
    { status := 4, bd_addr := 0xAABBCCDDEEFF } 0 rfl


/-! ## The iCade decoder reads the usage only -/

/-- C35: the result of `uni_hid_parser_icade_parse_usage` depends on the
gamepad state before, on the usage page and on the usage only: two calls on
the same state, page and usage that differ in the value or in the globals
give the same gamepad state. So an "on" key sets its bit with value 0 as it
does with value 1: `y` (usage 0x1c) sets `BUTTON_A`, and `t` (usage 0x17)
clears it, whatever the value. -/
theorem icade_ignores_value_and_globals {G : Type} (K : Consts) (gp : uni_gamepad_t)
    (g1 g2 : G) (usage_page usage : Nat) (v1 v2 : Int) :
    uni_hid_parser_icade_parse_usage K gp g1 usage_page usage v1
      = uni_hid_parser_icade_parse_usage K gp g2 usage_page usage v2
    ∧ uni_hid_parser_icade_parse_usage K gp g1 K.HID_USAGE_PAGE_KEYBOARD_KEYPAD 0x1c 0
      = { gp with buttons := gp.buttons ||| K.BUTTON_A,
                  updated_states := gp.updated_states ||| K.GAMEPAD_STATE_BUTTON_A }
    ∧ uni_hid_parser_icade_parse_usage K gp g1 K.HID_USAGE_PAGE_KEYBOARD_KEYPAD 0x17 1
      = { gp with buttons := and_not gp.buttons K.BUTTON_A,
                  updated_states := gp.updated_states ||| K.GAMEPAD_STATE_BUTTON_A } := by
  refine ⟨rfl, ?_, ?_⟩ <;>
    simp +decide only [uni_hid_parser_icade_parse_usage, if_true, if_false]

/-! ## Payloads on other channels -/

/-- C36: `on_l2cap_data_packet` leaves the state as it is, whatever the payload,
when the channel id is owned by no device, and when it is owned by a device
but is not the interrupt channel id of that device (its control channel, for
one): the dispatcher is not invoked, no gamepad state changes and the
consumer is not notified (no call is made). -/
theorem data_packet_on_other_channel (C : Collab) (channel : Nat) (packet : List Nat)
    (s : bt_state)
    (h : uni_hid_device_get_instance_for_cid s channel = none
      ∨ ∃ device, uni_hid_device_get_instance_for_cid s channel = some device
          ∧ channel ≠ (s.device device).hid_interrupt_cid) :
    on_l2cap_data_packet C channel packet s = s
    ∧ new_calls s (on_l2cap_data_packet C channel packet s) = []
    ∧ (∀ device report len, Call.uni_hid_parser_fn device report len
        ∉ new_calls s (on_l2cap_data_packet C channel packet s))
    ∧ (∀ device, Call.uni_hid_device_process_gamepad device
        ∉ new_calls s (on_l2cap_data_packet C channel packet s))
    ∧ (∀ i, ((on_l2cap_data_packet C channel packet s).device i).gamepad
        = (s.device i).gamepad) := by
  have e : on_l2cap_data_packet C channel packet s = s := by
    rcases h with h | ⟨device, hdev, hne⟩
    · simp only [on_l2cap_data_packet, h]
    · simp only [on_l2cap_data_packet, hdev, hne, ne_eq, not_false_eq_true, if_true]
  rw [e]
  have hc : new_calls s s = [] := by simp only [new_calls, List.drop_length]
  refine ⟨rfl, hc, ?_, ?_, fun _ => rfl⟩
  · intro device report len
    rw [hc]
    exact List.not_mem_nil _
  · intro device
    rw [hc]
    exact List.not_mem_nil _

/-- A report arrives on the control channel 0x40 of a device whose interrupt
channel is 0x41: nothing happens. -/
theorem data_packet_on_other_channel_witness :
    new_calls
        { devices := [{ in_use := true, hid_control_cid := 0x40, hid_interrupt_cid := 0x41,
                        hid_descriptor := [5, 1], controller_type := some 1 }] }
        (on_l2cap_data_packet sample_collab 0x40 [0xa1, 7, 9]
          { devices := [{ in_use := true, hid_control_cid := 0x40, hid_interrupt_cid := 0x41,
                          hid_descriptor := [5, 1], controller_type := some 1 }] })
      = [] :=
  (data_packet_on_other_channel sample_collab 0x40 [0xa1, 7, 9]
    { devices := [{ in_use := true, hid_control_cid := 0x40, hid_interrupt_cid := 0x41,
                    hid_descriptor := [5, 1], controller_type := some 1 }] }
    (Or.inr ⟨0, by decide, by decide⟩)).2.1


/-! ## The iCade key table -/

/-- C31: the iCade decoder implements the key table of its header comment, a
letter being the keyboard usage `0x04 + (letter - 'a')`: for each mapped row,
the "on" letter sets the mask of the row and the "off" letter clears it
(`w`/`e` `DPAD_UP`, `d`/`c` `DPAD_RIGHT`, `x`/`z` `DPAD_DOWN`, `a`/`q`
`DPAD_LEFT`, `y`/`t` `BUTTON_A`, `h`/`r` `BUTTON_B`, `u`/`f` `BUTTON_X`,
`j`/`n` `BUTTON_Y`, `o`/`g` `MISC_BUTTON_SYSTEM`), each marking the dirty flag
of the row and changing nothing else; the letters `i`, `m`, `k`, `p`, `l`,
`v` change nothing. The usages are those of the case labels. -/
theorem icade_implements_key_table {G : Type} (K : Consts) (gp : uni_gamepad_t) (g : G)
    (v : Int) :
    (∀ k ∈ icade_key_table K,
      uni_hid_parser_icade_parse_usage K gp g K.HID_USAGE_PAGE_KEYBOARD_KEYPAD
          (keyboard_usage k.key_on) v = k.press gp
      ∧ uni_hid_parser_icade_parse_usage K gp g K.HID_USAGE_PAGE_KEYBOARD_KEYPAD
          (keyboard_usage k.key_off) v = k.release gp)
    ∧ (∀ c ∈ icade_unmapped_letters,
      uni_hid_parser_icade_parse_usage K gp g K.HID_USAGE_PAGE_KEYBOARD_KEYPAD
          (keyboard_usage c) v = gp)
    ∧ (icade_key_table K).map (fun k => (keyboard_usage k.key_on, keyboard_usage k.key_off))
        = [(0x1a, 0x08), (0x07, 0x06), (0x1b, 0x1d), (0x04, 0x14), (0x1c, 0x17), (0x0b, 0x15),
           (0x18, 0x09), (0x0d, 0x11), (0x12, 0x0a)]
    ∧ icade_unmapped_letters.map keyboard_usage = [0x0c, 0x10, 0x0e, 0x13, 0x0f, 0x19] := by
  refine ⟨?_, ?_, by simp +decide [icade_key_table, keyboard_usage], by decide⟩
  · intro k hk
    simp only [icade_key_table, List.mem_cons, List.mem_singleton, List.not_mem_nil,
      or_false] at hk
    rcases hk with rfl | rfl | rfl | rfl | rfl | rfl | rfl | rfl | rfl <;>
      constructor <;>
      simp +decide only [keyboard_usage, uni_hid_parser_icade_parse_usage, icade_key.press,
        icade_key.release, if_true, if_false]
  · intro c hc
    simp only [icade_unmapped_letters, List.mem_cons, List.mem_singleton, List.not_mem_nil,
      or_false] at hc
    rcases hc with rfl | rfl | rfl | rfl | rfl | rfl <;>
      simp +decide only [keyboard_usage, uni_hid_parser_icade_parse_usage, if_true, if_false]


/-! ## Button usages of a report commute -/

/-- Setting or clearing one mask and then another that shares no bit with it
gives the same field in either order. -/
theorem set_or_clear_comm (x a b : Nat) (h : a &&& b = 0) (v1 v2 : Int) :
    (if v2 ≠ 0 then (if v1 ≠ 0 then x ||| a else and_not x a) ||| b
      else and_not (if v1 ≠ 0 then x ||| a else and_not x a) b)
    = (if v1 ≠ 0 then (if v2 ≠ 0 then x ||| b else and_not x b) ||| a
      else and_not (if v2 ≠ 0 then x ||| b else and_not x b) a) := by
  apply Nat.eq_of_testBit_eq
  intro i
  have hi : (a.testBit i && b.testBit i) = false := by
    rw [← Nat.testBit_and, h, Nat.zero_testBit]
  revert hi
  split_ifs <;> simp only [testBit_and_not, Nat.testBit_or] <;>
    cases x.testBit i <;> cases a.testBit i <;> cases b.testBit i <;> decide

/-- Two digital button cases whose masks share no bit when they live in the
same field commute. -/
theorem ButtonMap.apply_comm (b1 b2 : ButtonMap)
    (h : b1.misc = b2.misc → b1.mask &&& b2.mask = 0) (v1 v2 : Int) (gp : uni_gamepad_t) :
    b2.apply v2 (b1.apply v1 gp) = b1.apply v1 (b2.apply v2 gp) := by
  obtain ⟨p1, u1, m1, k1, d1⟩ := b1
  obtain ⟨p2, u2, m2, k2, d2⟩ := b2
  have hor : gp.updated_states ||| d1 ||| d2 = gp.updated_states ||| d2 ||| d1 := by
    rw [Nat.or_assoc, Nat.or_comm d1 d2, ← Nat.or_assoc]
  cases m1 <;> cases m2 <;>
    simp only [ButtonMap.apply, Bool.false_eq_true, if_false, if_true]
  · rw [set_or_clear_comm gp.buttons k1 k2 (h rfl), hor]
  · rw [hor]
  · rw [hor]
  · rw [set_or_clear_comm gp.misc_buttons k1 k2 (h rfl), hor]

/-- Every two digital buttons of the Button page of the Android decoder with
different usages are compatible. -/
theorem android_buttons_compatible (K : Consts) (hK : K.labels_distinct)
    (hD : K.button_masks_disjoint) :
    ∀ b1 ∈ android_buttons K, ∀ b2 ∈ android_buttons K, buttons_compatible K b1 b2 := by
  obtain ⟨hP, -, -⟩ := hK.facts
  have h1 := hD.1
  have h2 := hD.1.imp (fun {a b} (h : a &&& b = 0) => (Nat.and_comm b a).trans h)
  have h3 := hD.2
  have h4 := hD.2.imp (fun {a b} (h : a &&& b = 0) => (Nat.and_comm b a).trans h)
  simp only [List.pairwise_cons, List.mem_cons, List.mem_singleton, List.not_mem_nil,
    forall_eq_or_imp, forall_eq, or_false, List.Pairwise.nil, and_true, false_implies,
    implies_true] at h1 h2 h3 h4
  apply List.Pairwise.forall_of_forall
  · intro x y h p2 p1 hne hm
    rw [Nat.and_comm]
    exact h p1 p2 (Ne.symm hne) hm.symm
  · intro x _ _ _ hne
    exact absurd rfl hne
  · simp only [android_buttons, buttons_compatible, List.pairwise_cons, List.mem_cons,
      List.mem_singleton, List.not_mem_nil, forall_eq_or_imp, forall_eq, or_false,
      List.Pairwise.nil, and_true, false_implies, implies_true, Bool.false_eq_true,
      Bool.true_eq_false, true_implies, ne_eq, hP, h1, h2, h3, h4, not_false_eq_true,
      forall_const, and_self]

/-- Every two digital buttons of the Button page of the PS4 decoder with
different usages are compatible. -/
theorem ps4_buttons_compatible (K : Consts) (hK : K.labels_distinct)
    (hD : K.button_masks_disjoint) :
    ∀ b1 ∈ ps4_buttons K, ∀ b2 ∈ ps4_buttons K, buttons_compatible K b1 b2 := by
  obtain ⟨hP, -, -⟩ := hK.facts
  have hP0 : ¬ K.HID_USAGE_PAGE_GENERIC_DESKTOP = K.HID_USAGE_PAGE_BUTTON :=
    fun h => hP.1 h.symm
  have h1 := hD.1
  have h2 := hD.1.imp (fun {a b} (h : a &&& b = 0) => (Nat.and_comm b a).trans h)
  have h3 := hD.2
  have h4 := hD.2.imp (fun {a b} (h : a &&& b = 0) => (Nat.and_comm b a).trans h)
  simp only [List.pairwise_cons, List.mem_cons, List.mem_singleton, List.not_mem_nil,
    forall_eq_or_imp, forall_eq, or_false, List.Pairwise.nil, and_true, false_implies,
    implies_true] at h1 h2 h3 h4
  apply List.Pairwise.forall_of_forall
  · intro x y h p2 p1 hne hm
    rw [Nat.and_comm]
    exact h p1 p2 (Ne.symm hne) hm.symm
  · intro x _ _ _ hne
    exact absurd rfl hne
  · simp only [ps4_buttons, buttons_compatible, List.pairwise_cons, List.mem_cons,
      List.mem_singleton, List.not_mem_nil, forall_eq_or_imp, forall_eq, or_false,
      List.Pairwise.nil, and_true, false_implies, implies_true, Bool.false_eq_true,
      Bool.true_eq_false, true_implies, ne_eq, hP0, h1, h2, h3, h4, not_false_eq_true,
      forall_const, and_self]

/-- On the Button page, a usage of the Android decoder is a digital button of
the table or changes nothing. -/
theorem android_button_page_cases {G : Type} (K : Consts) (H : Helpers G)
    (hK : K.labels_distinct) (u : Nat) :
    (∃ b ∈ android_buttons K, b.usage_page = K.HID_USAGE_PAGE_BUTTON ∧ b.usage = u)
    ∨ ∀ (gp : uni_gamepad_t) (g : G) (v : Int),
        android_parse_usage_gp K H gp g K.HID_USAGE_PAGE_BUTTON u v = gp := by
  obtain ⟨hP, -, -⟩ := hK.facts
  by_cases h1 : u = 0x01
  · exact Or.inl ⟨⟨K.HID_USAGE_PAGE_BUTTON, 0x01, false, K.BUTTON_A, K.GAMEPAD_STATE_BUTTON_A⟩,
      by simp [android_buttons], rfl, h1.symm⟩
  by_cases h2 : u = 0x02
  · exact Or.inl ⟨⟨K.HID_USAGE_PAGE_BUTTON, 0x02, false, K.BUTTON_B, K.GAMEPAD_STATE_BUTTON_B⟩,
      by simp [android_buttons], rfl, h2.symm⟩
  by_cases h4 : u = 0x04
  · exact Or.inl ⟨⟨K.HID_USAGE_PAGE_BUTTON, 0x04, false, K.BUTTON_X, K.GAMEPAD_STATE_BUTTON_X⟩,
      by simp [android_buttons], rfl, h4.symm⟩
  by_cases h5 : u = 0x05
  · exact Or.inl ⟨⟨K.HID_USAGE_PAGE_BUTTON, 0x05, false, K.BUTTON_Y, K.GAMEPAD_STATE_BUTTON_Y⟩,
      by simp [android_buttons], rfl, h5.symm⟩
  by_cases h7 : u = 0x07
  · exact Or.inl ⟨⟨K.HID_USAGE_PAGE_BUTTON, 0x07, false, K.BUTTON_SHOULDER_L, K.GAMEPAD_STATE_BUTTON_SHOULDER_L⟩,
      by simp [android_buttons], rfl, h7.symm⟩
  by_cases h8 : u = 0x08
  · exact Or.inl ⟨⟨K.HID_USAGE_PAGE_BUTTON, 0x08, false, K.BUTTON_SHOULDER_R, K.GAMEPAD_STATE_BUTTON_SHOULDER_R⟩,
      by simp [android_buttons], rfl, h8.symm⟩
  by_cases hd : u = 0x0d
  · exact Or.inl ⟨⟨K.HID_USAGE_PAGE_BUTTON, 0x0d, true, K.MISC_BUTTON_SYSTEM, K.GAMEPAD_STATE_MISC_BUTTON_SYSTEM⟩,
      by simp [android_buttons], rfl, hd.symm⟩
  by_cases he : u = 0x0e
  · exact Or.inl ⟨⟨K.HID_USAGE_PAGE_BUTTON, 0x0e, false, K.BUTTON_THUMB_L, K.GAMEPAD_STATE_BUTTON_THUMB_L⟩,
      by simp [android_buttons], rfl, he.symm⟩
  by_cases hf : u = 0x0f
  · exact Or.inl ⟨⟨K.HID_USAGE_PAGE_BUTTON, 0x0f, false, K.BUTTON_THUMB_R, K.GAMEPAD_STATE_BUTTON_THUMB_R⟩,
      by simp [android_buttons], rfl, hf.symm⟩
  refine Or.inr (fun gp g v => ?_)
  simp only [android_parse_usage_gp, hP, h1, h2, h4, h5, h7, h8, hd, he, hf, if_true, if_false,
    ite_self]

/-- On the Button page, a usage of the PS4 decoder is a digital button of the
table or changes nothing. -/
theorem ps4_button_page_cases {G : Type} (K : Consts) (H : Helpers G)
    (hK : K.labels_distinct) (u : Nat) :
    (∃ b ∈ ps4_buttons K, b.usage_page = K.HID_USAGE_PAGE_BUTTON ∧ b.usage = u)
    ∨ ∀ (gp : uni_gamepad_t) (g : G) (v : Int),
        ps4_parse_usage_gp K H gp g K.HID_USAGE_PAGE_BUTTON u v = gp := by
  obtain ⟨hP, -, -⟩ := hK.facts
  by_cases h1 : u = 0x01
  · exact Or.inl ⟨⟨K.HID_USAGE_PAGE_BUTTON, 0x01, false, K.BUTTON_X, K.GAMEPAD_STATE_BUTTON_X⟩,
      by simp [ps4_buttons], rfl, h1.symm⟩
  by_cases h2 : u = 0x02
  · exact Or.inl ⟨⟨K.HID_USAGE_PAGE_BUTTON, 0x02, false, K.BUTTON_A, K.GAMEPAD_STATE_BUTTON_A⟩,
      by simp [ps4_buttons], rfl, h2.symm⟩
  by_cases h3 : u = 0x03
  · exact Or.inl ⟨⟨K.HID_USAGE_PAGE_BUTTON, 0x03, false, K.BUTTON_B, K.GAMEPAD_STATE_BUTTON_B⟩,
      by simp [ps4_buttons], rfl, h3.symm⟩
  by_cases h4 : u = 0x04
  · exact Or.inl ⟨⟨K.HID_USAGE_PAGE_BUTTON, 0x04, false, K.BUTTON_Y, K.GAMEPAD_STATE_BUTTON_Y⟩,
      by simp [ps4_buttons], rfl, h4.symm⟩
  by_cases h5 : u = 0x05
  · exact Or.inl ⟨⟨K.HID_USAGE_PAGE_BUTTON, 0x05, false, K.BUTTON_SHOULDER_L, K.GAMEPAD_STATE_BUTTON_SHOULDER_L⟩,
      by simp [ps4_buttons], rfl, h5.symm⟩
  by_cases h6 : u = 0x06
  · exact Or.inl ⟨⟨K.HID_USAGE_PAGE_BUTTON, 0x06, false, K.BUTTON_SHOULDER_R, K.GAMEPAD_STATE_BUTTON_SHOULDER_R⟩,
      by simp [ps4_buttons], rfl, h6.symm⟩
  by_cases h7 : u = 0x07
  · exact Or.inl ⟨⟨K.HID_USAGE_PAGE_BUTTON, 0x07, false, K.BUTTON_TRIGGER_L, K.GAMEPAD_STATE_BUTTON_TRIGGER_L⟩,
      by simp [ps4_buttons], rfl, h7.symm⟩
  by_cases h8 : u = 0x08
  · exact Or.inl ⟨⟨K.HID_USAGE_PAGE_BUTTON, 0x08, false, K.BUTTON_TRIGGER_R, K.GAMEPAD_STATE_BUTTON_TRIGGER_R⟩,
      by simp [ps4_buttons], rfl, h8.symm⟩
  by_cases h9 : u = 0x09
  · exact Or.inl ⟨⟨K.HID_USAGE_PAGE_BUTTON, 0x09, true, K.MISC_BUTTON_BACK, K.GAMEPAD_STATE_MISC_BUTTON_BACK⟩,
      by simp [ps4_buttons], rfl, h9.symm⟩
  by_cases ha : u = 0x0a
  · exact Or.inl ⟨⟨K.HID_USAGE_PAGE_BUTTON, 0x0a, true, K.MISC_BUTTON_HOME, K.GAMEPAD_STATE_MISC_BUTTON_HOME⟩,
      by simp [ps4_buttons], rfl, ha.symm⟩
  by_cases hb : u = 0x0b
  · exact Or.inl ⟨⟨K.HID_USAGE_PAGE_BUTTON, 0x0b, false, K.BUTTON_THUMB_L, K.GAMEPAD_STATE_BUTTON_THUMB_L⟩,
      by simp [ps4_buttons], rfl, hb.symm⟩
  by_cases hc : u = 0x0c
  · exact Or.inl ⟨⟨K.HID_USAGE_PAGE_BUTTON, 0x0c, false, K.BUTTON_THUMB_R, K.GAMEPAD_STATE_BUTTON_THUMB_R⟩,
      by simp [ps4_buttons], rfl, hc.symm⟩
  by_cases hd : u = 0x0d
  · exact Or.inl ⟨⟨K.HID_USAGE_PAGE_BUTTON, 0x0d, true, K.MISC_BUTTON_SYSTEM, K.GAMEPAD_STATE_MISC_BUTTON_SYSTEM⟩,
      by simp [ps4_buttons], rfl, hd.symm⟩
  refine Or.inr (fun gp g v => ?_)
  simp only [ps4_parse_usage_gp, hP, h1, h2, h3, h4, h5, h6, h7, h8, h9, ha, hb, hc, hd,
    if_true, if_false, ite_self]

/-- Two Button page usages of the Android decoder that differ commute, on the
gamepad. -/
theorem android_button_usages_commute_gp {G : Type} (K : Consts) (H : Helpers G)
    (hK : K.labels_distinct) (hD : K.button_masks_disjoint) (gp : uni_gamepad_t) (g1 g2 : G)
    (u1 u2 : Nat) (v1 v2 : Int) (hu : u1 ≠ u2) :
    android_parse_usage_gp K H
        (android_parse_usage_gp K H gp g1 K.HID_USAGE_PAGE_BUTTON u1 v1)
        g2 K.HID_USAGE_PAGE_BUTTON u2 v2
      = android_parse_usage_gp K H
        (android_parse_usage_gp K H gp g2 K.HID_USAGE_PAGE_BUTTON u2 v2)
        g1 K.HID_USAGE_PAGE_BUTTON u1 v1 := by
  rcases android_button_page_cases K H hK u1 with ⟨b1, hb1, hp1, rfl⟩ | h1
  · rcases android_button_page_cases K H hK u2 with ⟨b2, hb2, hp2, rfl⟩ | h2
    · have e1 : ∀ gp g v, android_parse_usage_gp K H gp g K.HID_USAGE_PAGE_BUTTON b1.usage v
          = b1.apply v gp := by
        intro gp g v
        rw [← hp1]
        exact android_button_case K H hK b1 hb1 gp g v
      have e2 : ∀ gp g v, android_parse_usage_gp K H gp g K.HID_USAGE_PAGE_BUTTON b2.usage v
          = b2.apply v gp := by
        intro gp g v
        rw [← hp2]
        exact android_button_case K H hK b2 hb2 gp g v
      rw [e1, e2, e1, e2]
      exact ButtonMap.apply_comm b1 b2
        (android_buttons_compatible K hK hD b1 hb1 b2 hb2 hp1 hp2 hu) v1 v2 gp
    · rw [h2, h2]
  · rw [h1, h1]

/-- Two Button page usages of the PS4 decoder that differ commute, on the
gamepad. -/
theorem ps4_button_usages_commute_gp {G : Type} (K : Consts) (H : Helpers G)
    (hK : K.labels_distinct) (hD : K.button_masks_disjoint) (gp : uni_gamepad_t) (g1 g2 : G)
    (u1 u2 : Nat) (v1 v2 : Int) (hu : u1 ≠ u2) :
    ps4_parse_usage_gp K H
        (ps4_parse_usage_gp K H gp g1 K.HID_USAGE_PAGE_BUTTON u1 v1)
        g2 K.HID_USAGE_PAGE_BUTTON u2 v2
      = ps4_parse_usage_gp K H
        (ps4_parse_usage_gp K H gp g2 K.HID_USAGE_PAGE_BUTTON u2 v2)
        g1 K.HID_USAGE_PAGE_BUTTON u1 v1 := by
  rcases ps4_button_page_cases K H hK u1 with ⟨b1, hb1, hp1, rfl⟩ | h1
  · rcases ps4_button_page_cases K H hK u2 with ⟨b2, hb2, hp2, rfl⟩ | h2
    · have e1 : ∀ gp g v, ps4_parse_usage_gp K H gp g K.HID_USAGE_PAGE_BUTTON b1.usage v
          = b1.apply v gp := by
        intro gp g v
        rw [← hp1]
        exact ps4_button_case K H hK b1 hb1 gp g v
      have e2 : ∀ gp g v, ps4_parse_usage_gp K H gp g K.HID_USAGE_PAGE_BUTTON b2.usage v
          = b2.apply v gp := by
        intro gp g v
        rw [← hp2]
        exact ps4_button_case K H hK b2 hb2 gp g v
      rw [e1, e2, e1, e2]
      exact ButtonMap.apply_comm b1 b2
        (ps4_buttons_compatible K hK hD b1 hb1 b2 hb2 hp1 hp2 hu) v1 v2 gp
    · rw [h2, h2]
  · rw [h1, h1]

/-- C37: for the Android decoder and for the PS4 decoder, two `parse_usage`
calls on the Button page with distinct usages commute: for every device
state, every pair of values and every pair of globals, applying them in
either order yields the same device state, hence the same gamepad state. The
constants are any whose case labels are distinct and whose button masks share
no bit, as the one-bit masks of `uni_gamepad.h`. -/
theorem button_usages_commute {G : Type} (K : Consts) (H : Helpers G)
    (hK : K.labels_distinct) (hD : K.button_masks_disjoint) (d : uni_hid_device_t)
    (g1 g2 : G) (u1 u2 : Nat) (v1 v2 : Int) (hu : u1 ≠ u2) :
    uni_hid_parser_android_parse_usage K H
        (uni_hid_parser_android_parse_usage K H d g1 K.HID_USAGE_PAGE_BUTTON u1 v1)
        g2 K.HID_USAGE_PAGE_BUTTON u2 v2
      = uni_hid_parser_android_parse_usage K H
        (uni_hid_parser_android_parse_usage K H d g2 K.HID_USAGE_PAGE_BUTTON u2 v2)
        g1 K.HID_USAGE_PAGE_BUTTON u1 v1
    ∧ uni_hid_parser_ps4_parse_usage K H
        (uni_hid_parser_ps4_parse_usage K H d g1 K.HID_USAGE_PAGE_BUTTON u1 v1)
        g2 K.HID_USAGE_PAGE_BUTTON u2 v2
      = uni_hid_parser_ps4_parse_usage K H
        (uni_hid_parser_ps4_parse_usage K H d g2 K.HID_USAGE_PAGE_BUTTON u2 v2)
        g1 K.HID_USAGE_PAGE_BUTTON u1 v1 := by
  constructor
  · simp only [uni_hid_parser_android_parse_usage]
    rw [android_button_usages_commute_gp K H hK hD d.gamepad g1 g2 u1 u2 v1 v2 hu]
  · simp only [uni_hid_parser_ps4_parse_usage]
    rw [ps4_button_usages_commute_gp K H hK hD d.gamepad g1 g2 u1 u2 v1 v2 hu]

theorem button_usages_commute_witness :
    (uni_hid_parser_android_parse_usage sample_consts sample_helpers
        (uni_hid_parser_android_parse_usage sample_consts sample_helpers
          {gamepad := {buttons := 2}} () sample_consts.HID_USAGE_PAGE_BUTTON 0x01 1)
        () sample_consts.HID_USAGE_PAGE_BUTTON 0x02 0).gamepad.buttons = 1
    ∧ (uni_hid_parser_android_parse_usage sample_consts sample_helpers
        (uni_hid_parser_android_parse_usage sample_consts sample_helpers
          {gamepad := {buttons := 2}} () sample_consts.HID_USAGE_PAGE_BUTTON 0x02 0)
        () sample_consts.HID_USAGE_PAGE_BUTTON 0x01 1).gamepad.buttons = 1 := by
  have h := (button_usages_commute sample_consts sample_helpers (by decide) (by decide)
    {gamepad := {buttons := 2}} () () 0x01 0x02 1 0 (by decide)).1
  exact ⟨by decide, h ▸ by decide⟩


/-! ## Hat switch to dpad -/

/-- The hat usage is none of the axis usages that come before it in the
Generic Desktop `switch` of the decoders. -/
theorem Consts.labels_distinct.hat_facts {K : Consts} (hK : K.labels_distinct) :
    K.HID_USAGE_HAT ≠ K.HID_USAGE_AXIS_X ∧ K.HID_USAGE_HAT ≠ K.HID_USAGE_AXIS_Y
    ∧ K.HID_USAGE_HAT ≠ K.HID_USAGE_AXIS_Z ∧ K.HID_USAGE_HAT ≠ K.HID_USAGE_AXIS_RX
    ∧ K.HID_USAGE_HAT ≠ K.HID_USAGE_AXIS_RY ∧ K.HID_USAGE_HAT ≠ K.HID_USAGE_AXIS_RZ := by
  obtain ⟨-, hU, -, -⟩ := hK
  replace hU := List.nodup_reverse.mpr hU
  simp only [List.reverse_cons, List.reverse_nil, List.nil_append, List.cons_append,
    List.nodup_cons, List.mem_cons, List.mem_singleton,
    List.not_mem_nil, not_or, List.nodup_nil, or_false, and_true, not_false_eq_true] at hU
  simp only [ne_eq, hU, not_false_eq_true, and_self]

/-- The hat case of the Android decoder. -/
theorem android_hat_case {G : Type} (K : Consts) (H : Helpers G) (hK : K.labels_distinct)
    (gp : uni_gamepad_t) (g : G) (v : Int) :
    android_parse_usage_gp K H gp g K.HID_USAGE_PAGE_GENERIC_DESKTOP K.HID_USAGE_HAT v
      = { gp with dpad := H.hat_to_dpad (H.process_hat g v),
                  updated_states := gp.updated_states ||| K.GAMEPAD_STATE_DPAD } := by
  have hU := hK.hat_facts
  simp only [android_parse_usage_gp, hU, if_true, if_false]

/-- The hat case of the PS4 decoder. -/
theorem ps4_hat_case {G : Type} (K : Consts) (H : Helpers G) (hK : K.labels_distinct)
    (gp : uni_gamepad_t) (g : G) (v : Int) :
    ps4_parse_usage_gp K H gp g K.HID_USAGE_PAGE_GENERIC_DESKTOP K.HID_USAGE_HAT v
      = { gp with dpad := H.hat_to_dpad (H.process_hat g v),
                  updated_states := gp.updated_states ||| K.GAMEPAD_STATE_DPAD } := by
  have hU := hK.hat_facts
  simp only [ps4_parse_usage_gp, hU, if_true, if_false]

/-- The bits of the converted hat code, for direction constants of one bit
each: the up bit is set for NW, N and NE (codes 7, 0, 1), the right bit for
NE, E and SE (1, 2, 3), the down bit for SE, S and SW (3, 4, 5), the left bit
for SW, W and NW (5, 6, 7), and no other bit is set. -/
theorem hat_to_dpad_testBit (K : Consts) (u r d l : Nat) (hU : K.DPAD_UP = 2 ^ u)
    (hR : K.DPAD_RIGHT = 2 ^ r) (hD : K.DPAD_DOWN = 2 ^ d) (hL : K.DPAD_LEFT = 2 ^ l)
    (hat i : Nat) :
    (uni_hid_parser_hat_to_dpad K hat).testBit i
      = ((decide (u = i) && decide (hat = 7 ∨ hat = 0 ∨ hat = 1))
        || (decide (r = i) && decide (hat = 1 ∨ hat = 2 ∨ hat = 3))
        || (decide (d = i) && decide (hat = 3 ∨ hat = 4 ∨ hat = 5))
        || (decide (l = i) && decide (hat = 5 ∨ hat = 6 ∨ hat = 7))) := by
  unfold uni_hid_parser_hat_to_dpad
  rw [hU, hR, hD, hL]
  by_cases h0 : hat = 0
  · subst h0; simp [Nat.testBit_two_pow]
  by_cases h1 : hat = 1
  · subst h1; simp [Nat.testBit_or, Nat.testBit_two_pow]
  by_cases h2 : hat = 2
  · subst h2; simp [Nat.testBit_two_pow]
  by_cases h3 : hat = 3
  · subst h3; simp [Nat.testBit_or, Nat.testBit_two_pow]
  by_cases h4 : hat = 4
  · subst h4; simp [Nat.testBit_two_pow]
  by_cases h5 : hat = 5
  · subst h5; simp [Nat.testBit_or, Nat.testBit_two_pow]
  by_cases h6 : hat = 6
  · subst h6; simp [Nat.testBit_two_pow]
  by_cases h7 : hat = 7
  · subst h7; simp [Nat.testBit_or, Nat.testBit_two_pow, Bool.or_comm]
  simp [h0, h1, h2, h3, h4, h5, h6, h7]

/-- A converter that gives a different non-neutral mask for each of the 8
valid hat codes and neutral (0) for every other code is not idempotent: were
every output a fixed point, the 8 outputs would be 8 different codes among
1..7. -/
theorem converter_not_idempotent (conv : Nat → Nat)
    (hinj : ∀ h1 < 8, ∀ h2 < 8, conv h1 = conv h2 → h1 = h2)
    (hnz : ∀ h < 8, conv h ≠ 0) (hneutral : ∀ h, 8 ≤ h → conv h = 0) :
    ∃ hat < 8, conv (conv hat) ≠ conv hat := by
  by_contra hno
  push_neg at hno
  have hlt : ∀ h < 8, conv h < 8 := by
    intro h hh
    by_contra hge
    have h0 := hneutral (conv h) (by omega)
    rw [hno h hh] at h0
    exact hnz h hh h0
  have hcard := Fintype.card_le_of_injective
    (fun x : Fin 8 => (⟨conv x.1 - 1, by
      have h1 := hlt x.1 x.2
      have h2 := hnz x.1 x.2
      omega⟩ : Fin 7))
    (by
      intro a b hab
      simp only [Fin.mk.injEq] at hab
      have ha := hnz a.1 a.2
      have hb := hnz b.1 b.2
      exact Fin.ext (hinj a.1 a.2 b.1 b.2 (by omega)))
  simp only [Fintype.card_fin] at hcard
  omega

/-- For direction constants of one bit each, the converter gives a different
non-neutral mask for each of the 8 valid hat codes. -/
theorem hat_to_dpad_valid_codes (K : Consts) (u r d l : Nat) (hU : K.DPAD_UP = 2 ^ u)
    (hR : K.DPAD_RIGHT = 2 ^ r) (hD : K.DPAD_DOWN = 2 ^ d) (hL : K.DPAD_LEFT = 2 ^ l)
    (hdist : [u, r, d, l].Nodup) :
    (∀ h1 < 8, ∀ h2 < 8,
      uni_hid_parser_hat_to_dpad K h1 = uni_hid_parser_hat_to_dpad K h2 → h1 = h2)
    ∧ (∀ hat < 8, uni_hid_parser_hat_to_dpad K hat ≠ 0) := by
  simp only [List.nodup_cons, List.mem_cons, List.mem_singleton, List.not_mem_nil, not_or,
    List.nodup_nil, or_false, and_true, not_false_eq_true] at hdist
  obtain ⟨⟨hur, hud, hul⟩, ⟨hrd, hrl⟩, hdl⟩ := hdist
  have hbit := hat_to_dpad_testBit K u r d l hU hR hD hL
  have hru : ¬ r = u := fun h => hur h.symm
  have hdu : ¬ d = u := fun h => hud h.symm
  have hlu : ¬ l = u := fun h => hul h.symm
  have hdr : ¬ d = r := fun h => hrd h.symm
  have hlr : ¬ l = r := fun h => hrl h.symm
  have hld : ¬ l = d := fun h => hdl h.symm
  have bu : ∀ hat, (uni_hid_parser_hat_to_dpad K hat).testBit u
      = decide (hat = 7 ∨ hat = 0 ∨ hat = 1) := by
    intro hat
    rw [hbit]
    simp [hru, hdu, hlu]
  have br : ∀ hat, (uni_hid_parser_hat_to_dpad K hat).testBit r
      = decide (hat = 1 ∨ hat = 2 ∨ hat = 3) := by
    intro hat
    rw [hbit]
    simp [hur, hdr, hlr]
  have bd : ∀ hat, (uni_hid_parser_hat_to_dpad K hat).testBit d
      = decide (hat = 3 ∨ hat = 4 ∨ hat = 5) := by
    intro hat
    rw [hbit]
    simp [hud, hrd, hld]
  have bl : ∀ hat, (uni_hid_parser_hat_to_dpad K hat).testBit l
      = decide (hat = 5 ∨ hat = 6 ∨ hat = 7) := by
    intro hat
    rw [hbit]
    simp [hul, hrl, hdl]
  constructor
  · intro h1 hh1 h2 hh2 heq
    have e1 := bu h1
    have e2 := br h1
    have e3 := bd h1
    have e4 := bl h1
    rw [heq, bu h2] at e1
    rw [heq, br h2] at e2
    rw [heq, bd h2] at e3
    rw [heq, bl h2] at e4
    simp only [decide_eq_decide] at e1 e2 e3 e4
    omega
  · intro hat hh hz
    have e1 := bu hat
    have e2 := br hat
    have e3 := bd hat
    have e4 := bl hat
    rw [hz, Nat.zero_testBit] at e1 e2 e3 e4
    simp only [Bool.false_eq, decide_eq_false_iff_not] at e1 e2 e3 e4
    omega

/-- C32 as stated fails: the conversion is not idempotent. Hat code 1 (NE)
converts to the mask up + right, which is 5 for the one-bit direction
constants; converting 5 again, as if it were a hat code (SW), gives the mask
down + left, which is 10. -/
theorem hat_to_dpad_not_idempotent :
    uni_hid_parser_hat_to_dpad sample_consts 1 = 5
    ∧ uni_hid_parser_hat_to_dpad sample_consts (uni_hid_parser_hat_to_dpad sample_consts 1) = 10
    ∧ uni_hid_parser_hat_to_dpad sample_consts (uni_hid_parser_hat_to_dpad sample_consts 1)
        ≠ uni_hid_parser_hat_to_dpad sample_consts 1 := by
  decide

/-- C32 (amended): the hat-switch to dpad conversion of the Android and PS4
decoders on a HAT usage is a pure function: the dpad after a HAT usage is the
converter applied to the hat code read from globals and value, whatever the
gamepad was before. With the converter as the spec describes it and direction
constants of one bit each, it yields exactly one of 9 outputs: each of the 8
valid hat codes gives its own direction (up for NW, N, NE; right for NE, E,
SE; down for SE, S, SW; left for SW, W, NW; no other bit), the 8 masks are
pairwise different and none is neutral, and every other code gives neutral.
The conversion is not idempotent: some output converts to a different mask,
and that is so for every converter with 8 different non-neutral outputs on
the valid codes and neutral elsewhere. What is stable under re-application is
the decoder: decoding the same HAT usage a second time changes nothing. -/
theorem hat_to_dpad_conversion {G : Type} (K : Consts) (H : Helpers G)
    (hK : K.labels_distinct) (u r d l : Nat) (hU : K.DPAD_UP = 2 ^ u)
    (hR : K.DPAD_RIGHT = 2 ^ r) (hD : K.DPAD_DOWN = 2 ^ d) (hL : K.DPAD_LEFT = 2 ^ l)
    (hdist : [u, r, d, l].Nodup) (gp gp2 : uni_gamepad_t) (g : G) (v : Int) :
    ((android_parse_usage_gp K H gp g K.HID_USAGE_PAGE_GENERIC_DESKTOP K.HID_USAGE_HAT v).dpad
        = H.hat_to_dpad (H.process_hat g v)
      ∧ (ps4_parse_usage_gp K H gp g K.HID_USAGE_PAGE_GENERIC_DESKTOP K.HID_USAGE_HAT v).dpad
        = H.hat_to_dpad (H.process_hat g v)
      ∧ (android_parse_usage_gp K H gp g K.HID_USAGE_PAGE_GENERIC_DESKTOP K.HID_USAGE_HAT v).dpad
        = (android_parse_usage_gp K H gp2 g K.HID_USAGE_PAGE_GENERIC_DESKTOP
            K.HID_USAGE_HAT v).dpad
      ∧ (ps4_parse_usage_gp K H gp g K.HID_USAGE_PAGE_GENERIC_DESKTOP K.HID_USAGE_HAT v).dpad
        = (ps4_parse_usage_gp K H gp2 g K.HID_USAGE_PAGE_GENERIC_DESKTOP
            K.HID_USAGE_HAT v).dpad)
    ∧ ((∀ hat i, (uni_hid_parser_hat_to_dpad K hat).testBit i
          = ((decide (u = i) && decide (hat = 7 ∨ hat = 0 ∨ hat = 1))
            || (decide (r = i) && decide (hat = 1 ∨ hat = 2 ∨ hat = 3))
            || (decide (d = i) && decide (hat = 3 ∨ hat = 4 ∨ hat = 5))
            || (decide (l = i) && decide (hat = 5 ∨ hat = 6 ∨ hat = 7))))
      ∧ (∀ h1 < 8, ∀ h2 < 8,
          uni_hid_parser_hat_to_dpad K h1 = uni_hid_parser_hat_to_dpad K h2 → h1 = h2)
      ∧ (∀ hat < 8, uni_hid_parser_hat_to_dpad K hat ≠ 0)
      ∧ (∀ hat, 8 ≤ hat → uni_hid_parser_hat_to_dpad K hat = 0))
    ∧ ((∃ hat < 8, uni_hid_parser_hat_to_dpad K (uni_hid_parser_hat_to_dpad K hat)
          ≠ uni_hid_parser_hat_to_dpad K hat)
      ∧ ((∀ h1 < 8, ∀ h2 < 8, H.hat_to_dpad h1 = H.hat_to_dpad h2 → h1 = h2) →
          (∀ hat < 8, H.hat_to_dpad hat ≠ 0) → (∀ hat, 8 ≤ hat → H.hat_to_dpad hat = 0) →
          ∃ hat < 8, H.hat_to_dpad (H.hat_to_dpad hat) ≠ H.hat_to_dpad hat))
    ∧ (android_parse_usage_gp K H
          (android_parse_usage_gp K H gp g K.HID_USAGE_PAGE_GENERIC_DESKTOP K.HID_USAGE_HAT v)
          g K.HID_USAGE_PAGE_GENERIC_DESKTOP K.HID_USAGE_HAT v
        = android_parse_usage_gp K H gp g K.HID_USAGE_PAGE_GENERIC_DESKTOP K.HID_USAGE_HAT v
      ∧ ps4_parse_usage_gp K H
          (ps4_parse_usage_gp K H gp g K.HID_USAGE_PAGE_GENERIC_DESKTOP K.HID_USAGE_HAT v)
          g K.HID_USAGE_PAGE_GENERIC_DESKTOP K.HID_USAGE_HAT v
        = ps4_parse_usage_gp K H gp g K.HID_USAGE_PAGE_GENERIC_DESKTOP K.HID_USAGE_HAT v) := by
  have hor : ∀ x m : Nat, x ||| m ||| m = x ||| m := by
    intro x m
    rw [Nat.or_assoc, Nat.or_self]
  have hneutral : ∀ hat, 8 ≤ hat → uni_hid_parser_hat_to_dpad K hat = 0 := by
    intro hat h8
    unfold uni_hid_parser_hat_to_dpad
    have h0 : ¬ hat = 0 := by omega
    have h1 : ¬ hat = 1 := by omega
    have h2 : ¬ hat = 2 := by omega
    have h3 : ¬ hat = 3 := by omega
    have h4 : ¬ hat = 4 := by omega
    have h5 : ¬ hat = 5 := by omega
    have h6 : ¬ hat = 6 := by omega
    have h7 : ¬ hat = 7 := by omega
    simp only [h0, h1, h2, h3, h4, h5, h6, h7, if_false]
  obtain ⟨hinj, hnz⟩ := hat_to_dpad_valid_codes K u r d l hU hR hD hL hdist
  refine ⟨⟨?_, ?_, ?_, ?_⟩,
    ⟨hat_to_dpad_testBit K u r d l hU hR hD hL, hinj, hnz, hneutral⟩,
    ⟨converter_not_idempotent _ hinj hnz hneutral,
      fun h1 h2 h3 => converter_not_idempotent _ h1 h2 h3⟩, ⟨?_, ?_⟩⟩
  · rw [android_hat_case K H hK]
  · rw [ps4_hat_case K H hK]
  · rw [android_hat_case K H hK, android_hat_case K H hK]
  · rw [ps4_hat_case K H hK, ps4_hat_case K H hK]
  · rw [android_hat_case K H hK, android_hat_case K H hK]
    simp only [hor]
  · rw [ps4_hat_case K H hK, ps4_hat_case K H hK]
    simp only [hor]

/-- The PS4 decoder with the converter of the spec: hat code 3 (SE) on a
gamepad whose dpad was left gives the mask right + down. -/
theorem hat_to_dpad_conversion_witness :
    (ps4_parse_usage_gp sample_consts
        { sample_helpers with hat_to_dpad := uni_hid_parser_hat_to_dpad sample_consts }
        {dpad := 8} () sample_consts.HID_USAGE_PAGE_GENERIC_DESKTOP
        sample_consts.HID_USAGE_HAT 3).dpad = 6
    ∧ (ps4_parse_usage_gp sample_consts
        { sample_helpers with hat_to_dpad := uni_hid_parser_hat_to_dpad sample_consts }
        {dpad := 8} () sample_consts.HID_USAGE_PAGE_GENERIC_DESKTOP
        sample_consts.HID_USAGE_HAT 3).dpad
      = uni_hid_parser_hat_to_dpad sample_consts (Int.toNat 3) :=
  ⟨by decide,
    (hat_to_dpad_conversion sample_consts
      { sample_helpers with hat_to_dpad := uni_hid_parser_hat_to_dpad sample_consts }
      (by decide) 0 2 1 3 rfl rfl rfl rfl (by decide) {dpad := 8} {} () 3).1.2.1⟩

/-! ## The ready flag of `packet_handler` -/

/-- Taking a slot for a new device keeps the ready flag. -/
theorem create_bt_ready (s s' : bt_state) (addr device : Nat)
    (h : uni_hid_device_create s addr = some (device, s')) : s'.bt_ready = s.bt_ready := by
  unfold uni_hid_device_create at h
  split at h
  · exact absurd h (by simp)
  · simp only [Option.some.injEq, Prod.mk.injEq] at h
    rw [← h.2]

/-- Removing the entry of a channel keeps the ready flag. -/
theorem remove_entry_bt_ready (s : bt_state) (channel : Nat) :
    (uni_hid_device_remove_entry_with_channel s channel).bt_ready = s.bt_ready := by
  unfold uni_hid_device_remove_entry_with_channel
  split <;> rfl

/-- Opening a channel keeps the ready flag. -/
theorem l2cap_create_channel_bt_ready (R : stack_replies) (s : bt_state) (address : Nat)
    (psm : psm_t) (device : Nat) (store : uni_hid_device_t → Nat → uni_hid_device_t) :
    (l2cap_create_channel R s address psm device store).bt_ready = s.bt_ready := by
  unfold l2cap_create_channel
  split <;> rfl

/-- Function `sdp_query_hid_descriptor` keeps the ready flag. -/
theorem sdp_query_hid_descriptor_bt_ready (status device : Nat) (s : bt_state) :
    (sdp_query_hid_descriptor status device s).bt_ready = s.bt_ready := by
  unfold sdp_query_hid_descriptor
  split
  · rfl
  · dsimp only
    split <;> rfl

/-- Function `continue_remote_names` keeps the ready flag. -/
theorem continue_remote_names_bt_ready (s : bt_state) :
    (continue_remote_names s).bt_ready = s.bt_ready := by
  unfold continue_remote_names do_next_remote_name_request start_scan
  split
  · split <;> rfl
  · rfl

/-- Function `list_link_keys` keeps the ready flag. -/
theorem list_link_keys_bt_ready (R : stack_replies) (s : bt_state) :
    (list_link_keys R s).bt_ready = s.bt_ready := by
  have hfold : ∀ (keys : List Nat) (s : bt_state),
      (keys.foldl (fun s addr => if true = true then
        s.call (.gap_drop_link_key_for_bd_addr addr) else s) s).bt_ready = s.bt_ready := by
    intro keys
    induction keys with
    | nil => intro s; rfl
    | cons k rest ih => intro s; rw [List.foldl_cons, ih]; rfl
  unfold list_link_keys
  split
  · rfl
  · exact (hfold _ _).trans rfl

/-- Function `on_hci_connection_request` keeps the ready flag. -/
theorem on_hci_connection_request_bt_ready (e : connection_request_event) (s : bt_state) :
    (on_hci_connection_request e s).bt_ready = s.bt_ready := by
  unfold on_hci_connection_request
  dsimp only
  split
  · rfl
  · split
    · rfl
    · next h =>
      have h2 := create_bt_ready _ _ _ _ h
      exact h2

/-- Function `on_hci_connection_complete` keeps the ready flag. -/
theorem on_hci_connection_complete_bt_ready (e : connection_complete_event) (s : bt_state) :
    (on_hci_connection_complete e s).bt_ready = s.bt_ready := by
  unfold on_hci_connection_complete
  split
  · rfl
  · split <;> rfl

/-- The part of `on_gap_inquiry_result` on a known device keeps the ready flag. -/
theorem on_gap_inquiry_result_device_bt_ready (R : stack_replies) (e : inquiry_result_event)
    (device : Nat) (s : bt_state) :
    (on_gap_inquiry_result_device R e device s).bt_ready = s.bt_ready := by
  unfold on_gap_inquiry_result_device
  dsimp only
  rw [l2cap_create_channel_bt_ready]
  split
  · split <;> rfl
  · rfl

/-- Function `on_gap_inquiry_result` keeps the ready flag. -/
theorem on_gap_inquiry_result_bt_ready (C : Collab) (R : stack_replies)
    (e : inquiry_result_event) (s : bt_state) :
    (on_gap_inquiry_result C R e s).bt_ready = s.bt_ready := by
  unfold on_gap_inquiry_result
  split
  · split
    · split
      · rfl
      · exact on_gap_inquiry_result_device_bt_ready R e _ s
    · split
      · rfl
      · next h =>
        exact (on_gap_inquiry_result_device_bt_ready R e _ _).trans (create_bt_ready _ _ _ _ h)
  · rfl

/-- Function `on_l2cap_channel_closed` keeps the ready flag. -/
theorem on_l2cap_channel_closed_bt_ready (e : channel_closed_event) (s : bt_state) :
    (on_l2cap_channel_closed e s).bt_ready = s.bt_ready := by
  unfold on_l2cap_channel_closed
  split <;> rfl

/-- Function `on_l2cap_incoming_connection` keeps the ready flag. -/
theorem on_l2cap_incoming_connection_bt_ready (channel : Nat) (e : incoming_connection_event)
    (s : bt_state) : (on_l2cap_incoming_connection channel e s).bt_ready = s.bt_ready := by
  unfold on_l2cap_incoming_connection
  dsimp only
  split
  · split
    · rfl
    · split
      · rfl
      · next h =>
      have h2 := create_bt_ready _ _ _ _ h
      exact h2
  · split <;> rfl
  · rfl

/-- Function `on_l2cap_data_packet` keeps the ready flag. -/
theorem on_l2cap_data_packet_bt_ready (C : Collab) (channel : Nat) (packet : List Nat)
    (s : bt_state) : (on_l2cap_data_packet C channel packet s).bt_ready = s.bt_ready := by
  unfold on_l2cap_data_packet
  split
  · rfl
  · split_ifs <;> rfl

/-- The statements of `on_l2cap_channel_opened` after the `switch (psm)` keep
the ready flag. -/
theorem on_l2cap_channel_opened_rest_bt_ready (C : Collab) (R : stack_replies) (channel : Nat)
    (e : channel_opened_event) (device : Nat) (s : bt_state) :
    (on_l2cap_channel_opened_rest C R channel e device s).bt_ready = s.bt_ready := by
  unfold on_l2cap_channel_opened_rest
  dsimp only
  split_ifs <;> first
    | rfl
    | exact remove_entry_bt_ready _ _
    | exact (remove_entry_bt_ready _ _).trans (l2cap_create_channel_bt_ready _ _ _ _ _ _)
    | exact (show (uni_hid_device_try_assign_joystick_port C _ device).bt_ready = _ from rfl).trans
        (l2cap_create_channel_bt_ready _ _ _ _ _ _)

/-- The `switch (psm)` of `on_l2cap_channel_opened` keeps the ready flag. -/
theorem on_l2cap_channel_opened_switch_bt_ready (R : stack_replies) (e : channel_opened_event)
    (device : Nat) (s : bt_state) :
    (on_l2cap_channel_opened_switch R e device s).bt_ready = s.bt_ready := by
  unfold on_l2cap_channel_opened_switch
  split
  · rfl
  · dsimp only
    split
    · exact sdp_query_hid_descriptor_bt_ready _ _ _
    · rfl
  · rfl

/-- Function `on_l2cap_channel_opened` keeps the ready flag. -/
theorem on_l2cap_channel_opened_bt_ready (C : Collab) (R : stack_replies) (channel : Nat)
    (e : channel_opened_event) (s : bt_state) :
    (on_l2cap_channel_opened C R channel e s).bt_ready = s.bt_ready := by
  by_cases hs : e.status = .success
  · cases hdev : uni_hid_device_get_instance_for_address s e.address with
    | none =>
      simp only [on_l2cap_channel_opened, hs, ne_eq, not_true_eq_false, if_false, hdev]
      exact remove_entry_bt_ready _ _
    | some device =>
      rw [on_l2cap_channel_opened_success C R channel e s device hs hdev,
        on_l2cap_channel_opened_rest_bt_ready, on_l2cap_channel_opened_switch_bt_ready]
      rfl
  · unfold on_l2cap_channel_opened
    rw [if_pos hs]
    split
    · exact remove_entry_bt_ready _ _
    · rfl

/-- The ready flag after `packet_handler`: it is set when it was set, or when
the packet is a `BTSTACK_EVENT_STATE` event with state `HCI_STATE_WORKING`. -/
theorem packet_handler_bt_ready (C : Collab) (R : stack_replies) (p : bt_packet)
    (s : bt_state) :
    (packet_handler C R p s).bt_ready = (s.bt_ready || p.is_working_state_event) := by
  unfold packet_handler
  simp only
  split
  · next h =>
    cases p with
    | other => simp [bt_packet.is_working_state_event]
    | L2CAP_DATA_PACKET channel packet => simp [bt_packet.is_working_state_event]
    | HCI_EVENT_PACKET channel event =>
      cases event <;> simp_all [bt_packet.is_working_state_event]
  · cases p with
    | other => simp [bt_packet.is_working_state_event]
    | L2CAP_DATA_PACKET channel packet =>
      simp only [bt_packet.is_working_state_event, Bool.or_false]
      exact on_l2cap_data_packet_bt_ready C channel packet s
    | HCI_EVENT_PACKET channel event =>
      cases event with
      | BTSTACK_EVENT_STATE w =>
        cases w with
        | false => simp [bt_packet.is_working_state_event]
        | true =>
          simp only [bt_packet.is_working_state_event, Bool.or_true, if_true]
          exact (list_link_keys_bt_ready R _).trans rfl
      | HCI_EVENT_PIN_CODE_REQUEST a => simp [bt_packet.is_working_state_event, bt_state.call]
      | HCI_EVENT_CONNECTION_REQUEST e =>
        simp only [bt_packet.is_working_state_event, Bool.or_false]
        exact on_hci_connection_request_bt_ready e s
      | HCI_EVENT_CONNECTION_COMPLETE e =>
        simp only [bt_packet.is_working_state_event, Bool.or_false]
        exact on_hci_connection_complete_bt_ready e s
      | HCI_EVENT_REMOTE_NAME_REQUEST_COMPLETE e =>
        simp only [bt_packet.is_working_state_event, Bool.or_false]
        rw [continue_remote_names_bt_ready]
        split
        · split <;> rfl
        · rfl
      | L2CAP_EVENT_INCOMING_CONNECTION e =>
        simp only [bt_packet.is_working_state_event, Bool.or_false]
        exact on_l2cap_incoming_connection_bt_ready channel e s
      | L2CAP_EVENT_CHANNEL_OPENED e =>
        simp only [bt_packet.is_working_state_event, Bool.or_false]
        exact on_l2cap_channel_opened_bt_ready C R channel e s
      | L2CAP_EVENT_CHANNEL_CLOSED e =>
        simp only [bt_packet.is_working_state_event, Bool.or_false]
        exact on_l2cap_channel_closed_bt_ready e s
      | GAP_EVENT_INQUIRY_RESULT e =>
        simp only [bt_packet.is_working_state_event, Bool.or_false]
        exact on_gap_inquiry_result_bt_ready C R e s
      | GAP_EVENT_INQUIRY_COMPLETE =>
        simp only [bt_packet.is_working_state_event, Bool.or_false]
        rw [continue_remote_names_bt_ready]
        rfl
      | log_only => simp [bt_packet.is_working_state_event]

/-- Before the ready flag is set, `packet_handler` returns at once on every
packet that is no `BTSTACK_EVENT_STATE` event with state `HCI_STATE_WORKING`. -/
theorem packet_handler_not_ready (C : Collab) (R : stack_replies) (p : bt_packet)
    (s : bt_state) (hready : s.bt_ready = false) (hp : p.is_working_state_event = false) :
    packet_handler C R p s = s := by
  unfold packet_handler
  cases p with
  | other => simp [hready]
  | L2CAP_DATA_PACKET channel packet => simp [hready]
  | HCI_EVENT_PACKET channel event =>
    cases event <;> simp_all [bt_packet.is_working_state_event]

/-- A run from a state in which the ready flag is not set, with no
`BTSTACK_EVENT_STATE` event of state `HCI_STATE_WORKING`, changes nothing. -/
theorem packet_handler_run_not_ready (C : Collab)
    (events : List (stack_replies × bt_packet)) (s : bt_state) (hready : s.bt_ready = false)
    (hp : ∀ e ∈ events, e.2.is_working_state_event = false) :
    packet_handler_run C s events = s := by
  unfold packet_handler_run
  induction events with
  | nil => rfl
  | cons e rest ih =>
    rw [List.foldl_cons, packet_handler_not_ready C e.1 e.2 s hready
      (hp e (List.mem_cons_self _ _))]
    exact ih (fun e2 he2 => hp e2 (List.mem_cons_of_mem _ he2))

/-- A run from a state in which the ready flag is set leaves it set. -/
theorem packet_handler_run_ready (C : Collab) (events : List (stack_replies × bt_packet))
    (s : bt_state) (hready : s.bt_ready = true) :
    (packet_handler_run C s events).bt_ready = true := by
  unfold packet_handler_run
  induction events generalizing s with
  | nil => exact hready
  | cons e rest ih =>
    rw [List.foldl_cons]
    apply ih
    rw [packet_handler_bt_ready, hready, Bool.true_or]

/-- C33: while the ready flag is not set, which is so until a
`BTSTACK_EVENT_STATE` event reporting `HCI_STATE_WORKING` has been handled,
`packet_handler` ignores every packet other than a `BTSTACK_EVENT_STATE` event
(and also a `BTSTACK_EVENT_STATE` event reporting another state): the state is
unchanged and no call is made, for one packet and for a run of packets. The
ready flag is set only by a `BTSTACK_EVENT_STATE` event whose state is
`HCI_STATE_WORKING`, such an event sets it, and once set it stays set after
every packet and every run. -/
theorem packet_handler_ready_gate (C : Collab) (R : stack_replies) (p : bt_packet)
    (s : bt_state) (events : List (stack_replies × bt_packet)) :
    (s.bt_ready = false → p.is_state_event = false →
      packet_handler C R p s = s ∧ new_calls s (packet_handler C R p s) = [])
    ∧ (s.bt_ready = false → p.is_working_state_event = false →
      packet_handler C R p s = s ∧ new_calls s (packet_handler C R p s) = [])
    ∧ (s.bt_ready = false → (∀ e ∈ events, e.2.is_working_state_event = false) →
      packet_handler_run C s events = s)
    ∧ ((packet_handler C R p s).bt_ready = true →
      s.bt_ready = true ∨ p.is_working_state_event = true)
    ∧ ((packet_handler_run C s events).bt_ready = true →
      s.bt_ready = true ∨ ∃ e ∈ events, e.2.is_working_state_event = true)
    ∧ (p.is_working_state_event = true → (packet_handler C R p s).bt_ready = true)
    ∧ (s.bt_ready = true → (packet_handler C R p s).bt_ready = true)
    ∧ (s.bt_ready = true → (packet_handler_run C s events).bt_ready = true) := by
  have hcalls : ∀ s : bt_state, new_calls s s = [] := by
    intro s
    simp [new_calls]
  have hweak : p.is_state_event = false → p.is_working_state_event = false := by
    intro h
    cases p with
    | other => rfl
    | L2CAP_DATA_PACKET channel packet => rfl
    | HCI_EVENT_PACKET channel event =>
      cases event <;> first | rfl | exact absurd h (by simp [bt_packet.is_state_event])
  refine ⟨?_, ?_, ?_, ?_, ?_, ?_, ?_, ?_⟩
  · intro hready hp
    rw [packet_handler_not_ready C R p s hready (hweak hp)]
    exact ⟨rfl, hcalls s⟩
  · intro hready hp
    rw [packet_handler_not_ready C R p s hready hp]
    exact ⟨rfl, hcalls s⟩
  · exact packet_handler_run_not_ready C events s
  · intro h
    rw [packet_handler_bt_ready, Bool.or_eq_true] at h
    exact h
  · intro h
    by_cases hready : s.bt_ready = true
    · exact Or.inl hready
    · right
      by_contra hno
      have hall : ∀ e ∈ events, e.2.is_working_state_event = false := by
        intro e he
        cases hw : e.2.is_working_state_event with
        | false => rfl
        | true => exact absurd ⟨e, he, hw⟩ hno
      rw [packet_handler_run_not_ready C events s (by simpa using hready) hall] at h
      exact hready h
  · intro hp
    rw [packet_handler_bt_ready, hp, Bool.or_true]
  · intro hready
    rw [packet_handler_bt_ready, hready, Bool.true_or]
  · exact packet_handler_run_ready C events s

theorem packet_handler_ready_gate_witness :
    packet_handler sample_collab {}
        (.HCI_EVENT_PACKET 0 (.GAP_EVENT_INQUIRY_RESULT {bd_addr := 7, class_of_device := 0x2508}))
        { devices := [{}, {}] }
      = { devices := [{}, {}] }
    ∧ (packet_handler sample_collab {} (.HCI_EVENT_PACKET 0 (.BTSTACK_EVENT_STATE true))
        { devices := [{}, {}] }).bt_ready = true :=
  ⟨((packet_handler_ready_gate sample_collab {}
      (.HCI_EVENT_PACKET 0 (.GAP_EVENT_INQUIRY_RESULT {bd_addr := 7, class_of_device := 0x2508}))
      { devices := [{}, {}] } []).1 rfl rfl).1,
    rfl⟩


/-! ## The current SDP-query device across the SDP functions -/

/-- A store in the `attribute_value` buffer leaves the current SDP-query device
as it is. -/
theorem store_attribute_value_token (s s1 : bt_state) (offset data : Nat)
    (h : store_attribute_value s offset data = .ok s1) :
    s1.current_device = s.current_device := by
  unfold store_attribute_value at h
  split at h
  · simp only [Except.ok.injEq] at h
    rw [← h]
  · exact absurd h (by simp)

/-- Function `sdp_query_hid_descriptor` takes the free token for its device,
or leaves the token as it is. -/
theorem sdp_query_hid_descriptor_token (status device : Nat) (s : bt_state) :
    (sdp_query_hid_descriptor status device s).current_device = s.current_device
    ∨ (s.current_device = none
      ∧ (sdp_query_hid_descriptor status device s).current_device = some device) := by
  unfold sdp_query_hid_descriptor uni_hid_device_get_current_device
  split
  · exact Or.inl rfl
  · next hnone =>
    dsimp only
    split
    · exact Or.inl hnone.symm
    · exact Or.inr ⟨hnone, rfl⟩

/-- Function `sdp_query_product_id` releases a held token, or leaves the token
as it is. -/
theorem sdp_query_product_id_token (status device : Nat) (s : bt_state) :
    (sdp_query_product_id status device s).current_device = s.current_device
    ∨ (s.current_device ≠ none
      ∧ (sdp_query_product_id status device s).current_device = none) := by
  unfold sdp_query_product_id uni_hid_device_get_current_device
  split
  · exact Or.inl rfl
  · next d hsome =>
    dsimp only
    split
    · exact Or.inr ⟨by rw [hsome]; exact Option.some_ne_none d, rfl⟩
    · exact Or.inl rfl

/-- Function `handle_sdp_hid_query_result` releases a held token, or leaves the
token as it is. -/
theorem handle_sdp_hid_query_result_token (C : Collab) (status : Nat) (packet : sdp_packet)
    (s s' : bt_state) (h : handle_sdp_hid_query_result C status packet s = .ok s') :
    s'.current_device = s.current_device
    ∨ (s.current_device ≠ none ∧ s'.current_device = none) := by
  unfold handle_sdp_hid_query_result uni_hid_device_get_current_device at h
  split at h
  · simp only [Except.ok.injEq] at h
    rw [← h]
    exact Or.inl rfl
  · next device hsome =>
    split at h
    · split at h
      · split at h
        · exact absurd h (by simp)
        · next s1 hstore =>
          have hs1 := store_attribute_value_token s s1 _ _ hstore
          split at h
          · split at h
            · simp only [Except.ok.injEq] at h
              rw [← h, (foldl_update_device_frame device uni_hid_device_set_hid_descriptor
                _ s1).2.1]
              exact Or.inl hs1
            · simp only [Except.ok.injEq] at h
              rw [← h]
              exact Or.inl hs1
          · simp only [Except.ok.injEq] at h
            rw [← h]
            exact Or.inl hs1
      · simp only [Except.ok.injEq] at h
        rw [← h]
        exact Or.inl rfl
    · simp only [Except.ok.injEq] at h
      rw [← h]
      exact sdp_query_product_id_token status device s
    · simp only [Except.ok.injEq] at h
      rw [← h]
      exact Or.inl rfl

/-- Function `handle_sdp_pid_query_result` releases a held token, or leaves the
token as it is. -/
theorem handle_sdp_pid_query_result_token (C : Collab) (packet : sdp_packet)
    (s s' : bt_state) (h : handle_sdp_pid_query_result C packet s = .ok s') :
    s'.current_device = s.current_device
    ∨ (s.current_device ≠ none ∧ s'.current_device = none) := by
  unfold handle_sdp_pid_query_result uni_hid_device_get_current_device at h
  split at h
  · simp only [Except.ok.injEq] at h
    rw [← h]
    exact Or.inl rfl
  · next device hsome =>
    split at h
    · split at h
      · split at h
        · exact absurd h (by simp)
        · next s1 hstore =>
          have hs1 := store_attribute_value_token s s1 _ _ hstore
          split at h
          · split at h
            · split at h <;>
              · simp only [Except.ok.injEq] at h
                rw [← h]
                exact Or.inl hs1
            · split at h <;>
              · simp only [Except.ok.injEq] at h
                rw [← h]
                exact Or.inl hs1
            · simp only [Except.ok.injEq] at h
              rw [← h]
              exact Or.inl hs1
          · simp only [Except.ok.injEq] at h
            rw [← h]
            exact Or.inl hs1
      · simp only [Except.ok.injEq] at h
        rw [← h]
        exact Or.inl rfl
    · simp only [Except.ok.injEq] at h
      rw [← h]
      exact Or.inr ⟨by rw [hsome]; exact Option.some_ne_none device, rfl⟩
    · simp only [Except.ok.injEq] at h
      rw [← h]
      exact Or.inl rfl

/-- C34: across `sdp_query_hid_descriptor`, `sdp_query_product_id` and both
SDP result handlers, the current SDP-query device changes only from none to a
device, which only `sdp_query_hid_descriptor` does, for its own device and
when the token was free, or from a device to none; so it never goes from one
device to a different device. With the token free, both result handlers return
the state unchanged. -/
theorem sdp_token_transitions (C : Collab) (status device : Nat) (packet : sdp_packet)
    (s : bt_state) :
    ((sdp_query_hid_descriptor status device s).current_device = s.current_device
      ∨ (s.current_device = none
        ∧ (sdp_query_hid_descriptor status device s).current_device = some device))
    ∧ ((sdp_query_product_id status device s).current_device = s.current_device
      ∨ (s.current_device ≠ none
        ∧ (sdp_query_product_id status device s).current_device = none))
    ∧ (∀ s', handle_sdp_hid_query_result C status packet s = .ok s' →
        s'.current_device = s.current_device
        ∨ (s.current_device ≠ none ∧ s'.current_device = none))
    ∧ (∀ s', handle_sdp_pid_query_result C packet s = .ok s' →
        s'.current_device = s.current_device
        ∨ (s.current_device ≠ none ∧ s'.current_device = none))
    ∧ (∀ a b, s.current_device = some a →
        ((sdp_query_hid_descriptor status device s).current_device = some b → a = b)
        ∧ ((sdp_query_product_id status device s).current_device = some b → a = b)
        ∧ (∀ s', handle_sdp_hid_query_result C status packet s = .ok s' →
            s'.current_device = some b → a = b)
        ∧ (∀ s', handle_sdp_pid_query_result C packet s = .ok s' →
            s'.current_device = some b → a = b))
    ∧ (s.current_device = none →
        handle_sdp_hid_query_result C status packet s = .ok s
        ∧ handle_sdp_pid_query_result C packet s = .ok s
        ∧ sdp_query_product_id status device s = s) := by
  have hkeep : ∀ (a b : Nat) (after : Option Nat), s.current_device = some a →
      (after = s.current_device ∨ (s.current_device ≠ none ∧ after = none)) →
      after = some b → a = b := by
    intro a b after ha hstep hb
    rcases hstep with h | ⟨-, h⟩
    · rw [h, ha] at hb
      exact Option.some.inj hb
    · rw [h] at hb
      exact absurd hb (by simp)
  refine ⟨sdp_query_hid_descriptor_token status device s,
    sdp_query_product_id_token status device s,
    fun s' h => handle_sdp_hid_query_result_token C status packet s s' h,
    fun s' h => handle_sdp_pid_query_result_token C packet s s' h, ?_, ?_⟩
  · intro a b ha
    refine ⟨?_, hkeep a b _ ha (sdp_query_product_id_token status device s),
      fun s' h => hkeep a b _ ha (handle_sdp_hid_query_result_token C status packet s s' h),
      fun s' h => hkeep a b _ ha (handle_sdp_pid_query_result_token C packet s s' h)⟩
    intro hb
    rcases sdp_query_hid_descriptor_token status device s with h | ⟨h, -⟩
    · rw [h, ha] at hb
      exact Option.some.inj hb
    · rw [ha] at h
      exact absurd h (by simp)
  · intro hnone
    simp only [handle_sdp_hid_query_result, handle_sdp_pid_query_result, sdp_query_product_id,
      uni_hid_device_get_current_device, hnone, and_self]

theorem sdp_token_transitions_witness :
    handle_sdp_pid_query_result sample_collab
        {type := .SDP_EVENT_QUERY_COMPLETE} {devices := [{in_use := true}]}
      = .ok {devices := [{in_use := true}]}
    ∧ (sdp_query_hid_descriptor 0 0 {devices := [{in_use := true}]}).current_device = some 0 :=
  ⟨((sdp_token_transitions sample_collab 0 0 {type := .SDP_EVENT_QUERY_COMPLETE}
      {devices := [{in_use := true}]}).2.2.2.2.2 rfl).2.1,
    rfl⟩

end Unijoysticle
